import Mathlib

/-!
# xr_multi_gpu: multi-device frame orchestration

A shallow embedding of the frame orchestration code of the renderer
(`Renderer.cpp`, `RenderTarget.cpp`, `VulkanQueueFamily.cpp`, `xrmg.hpp`).

Conventions of the embedding:

* `uint32_t` / `uint64_t` values are natural numbers; arithmetic that can wrap is
  written with an explicit `% 2 ^ 32` / `% 2 ^ 64`.
* `float` values are exact rationals.  The only float constants the orchestration
  code itself introduces are `0.0f`, `0.5f` and `1.0f`.
* Vulkan handles are structured names (which object the handle designates); a
  null handle is the constructor `null`.
* A call of `XRMG_FATAL` / a failed `XRMG_ASSERT` terminates the process; it is the
  `Except.error` outcome.  An out-of-range `std::vector` access is reported as
  `Fatal.outOfBounds`.
* Everything the renderer does to the outside world (collaborator calls, commands
  recorded into command buffers, queue submissions, host waits) is appended to a
  trace of `Event`s.
-/

namespace xrmg

/-! ## Constants and machine arithmetic -/

/-- The constant `MAX_QUEUED_FRAMES` of `xrmg.hpp`. -/
def MAX_QUEUED_FRAMES : Nat := 3

/-- The constant `UINT64_MAX`. -/
def UINT64_MAX : Nat := 2 ^ 64 - 1

/-- The constant `VK_QUEUE_FAMILY_IGNORED` (`~0U`). -/
def VK_QUEUE_FAMILY_IGNORED : Nat := 2 ^ 32 - 1

/-- Reduction of a natural number to `uint32_t`. -/
def wrap32 (n : Nat) : Nat := n % 2 ^ 32

/-- Reduction of a natural number to `uint64_t`. -/
def wrap64 (n : Nat) : Nat := n % 2 ^ 64

/-- Subtraction of two `uint64_t` values, with wrap-around. -/
def sub64 (a b : Nat) : Nat := (a % 2 ^ 64 + (2 ^ 64 - b % 2 ^ 64)) % 2 ^ 64

/-- Addition of two `uint64_t` values, with wrap-around. -/
def add64 (a b : Nat) : Nat := (a + b) % 2 ^ 64

/-! ## Fatal outcomes -/

/-- The ways the modelled code terminates the process. -/
inductive Fatal where
  /-- `XRMG_ASSERT(p_physicalDeviceIndex < getPhysicalDeviceCount(), ...)`. -/
  | deviceIndexAssert (index count : Nat)
  /-- `XRMG_FATAL("{} physical devices not supported.", ...)`. -/
  | devicesNotSupported (count : Nat)
  /-- `XRMG_ASSERT(waitResult == vk::Result::eSuccess, "Wait failed.")`. -/
  | waitFailed
  /-- `XRMG_ASSERT(m_nextCommandBufferIndex < buffers.size(), ...)`. -/
  | noMoreCommandBuffers
  /-- An access outside a `std::vector`, or a modulo by zero. -/
  | outOfBounds
  /-- `XRMG_ASSERT(!physicalDeviceGroupProps.empty(), "No device groups available.")`. -/
  | noDeviceGroups
  /-- `XRMG_ASSERT(selectedDeviceGroupIndex, "No compatible device group found. ...")`. -/
  | noCompatibleDeviceGroup
  /-- `XRMG_ASSERT(selectedDeviceGroupIndex.value() < physicalDeviceGroupProps.size(), ...)`. -/
  | invalidDeviceGroupIndex (index : Nat)
  /-- `XRMG_ASSERT(graphicsQueueIt != queueFamilyProps.end(), "No graphics capable queue ...")`. -/
  | noGraphicsQueue
  /-- `XRMG_ASSERT(transferQueueIt != queueFamilyProps.end(), "No dedicated transfer ...")`. -/
  | noTransferQueue
  /-- `XRMG_ASSERT(m_graphicsQueueFamily->getIndex() < queueFamilyProps.size(), ...)`. -/
  | graphicsFamilyMissing (devIdx : Nat)
  /-- `XRMG_ASSERT(queueFamilyProps[...].queueFlags & vk::QueueFlagBits::eGraphics, ...)`. -/
  | graphicsBitMissing (devIdx : Nat)
  /-- `XRMG_ASSERT(m_transferQueueFamily->getIndex() < queueFamilyProps.size(), ...)`. -/
  | transferFamilyMissing (devIdx : Nat)
  /-- `XRMG_ASSERT(queueFamilyProps[...].queueFlags & vk::QueueFlagBits::eTransfer, ...)`. -/
  | transferBitMissing (devIdx : Nat)
  /-- `XRMG_ASSERT(!p_required || p_index + 2 < p_args.size(), "Missing arguments for {}.")`. -/
  | missingArguments
  /-- `XRMG_ASSERT(!p_required || (0 <= x && 0 <= y), "Values for {} must be positive.")`. -/
  | valuesMustBePositive
  /-- `XRMG_ASSERT(!p_required, "Invalid value for {}.")`. -/
  | invalidValue
  /-- An exception that no handler catches (`std::terminate`). -/
  | uncaughtException
  deriving DecidableEq, Repr

/-! ## Geometry -/

/-- The struct `Rect2Df` of `Matrix.hpp`. -/
structure Rect2Df where
  x : ℚ
  y : ℚ
  width : ℚ
  height : ℚ
  deriving DecidableEq

/-- The point `(px, py)` lies in the closed rectangle. -/
def Rect2Df.contains (r : Rect2Df) (px py : ℚ) : Prop :=
  r.x ≤ px ∧ px ≤ r.x + r.width ∧ r.y ≤ py ∧ py ≤ r.y + r.height

/-- The point `(px, py)` lies strictly inside the rectangle. -/
def Rect2Df.interior (r : Rect2Df) (px py : ℚ) : Prop :=
  r.x < px ∧ px < r.x + r.width ∧ r.y < py ∧ py < r.y + r.height

/-- The struct `vk::Extent2D`. -/
structure Extent2D where
  width : Nat
  height : Nat
  deriving DecidableEq, Repr

/-- The type `Mat4x4f`; its entries are never inspected by the orchestration code. -/
structure Mat4x4f where
  entries : List ℚ
  deriving DecidableEq

/-- The enum `StereoProjection::Eye`. -/
inductive Eye where
  | LEFT
  | RIGHT
  deriving DecidableEq, Repr

/-- The underlying `int32_t` value of an eye. -/
def Eye.toNat : Eye → Nat
  | .LEFT => 0
  | .RIGHT => 1

/-- The conversion `static_cast<StereoProjection::Eye>(v)` for `v` in `{0, 1}`. -/
def Eye.cast (v : Nat) : Eye := if v = 0 then .LEFT else .RIGHT

/-- The struct `StereoProjection`. -/
structure StereoProjection where
  projectionMatrix : Mat4x4f
  relativeViewport : Rect2Df
  deriving DecidableEq

/-! ## Vulkan vocabulary -/

/-- The values of `vk::PipelineStageFlagBits2` that occur. -/
inductive PipelineStage where
  | eNone
  | eAllCommands
  | eColorAttachmentOutput
  | eEarlyFragmentTests
  | eLateFragmentTests
  | eTransfer
  deriving DecidableEq, Repr

/-- The values of `vk::AccessFlagBits2` that occur. -/
inductive AccessFlag where
  | eNone
  | eColorAttachmentWrite
  | eDepthStencilAttachmentWrite
  | eTransferRead
  | eTransferWrite
  | eMemoryRead
  deriving DecidableEq, Repr

/-- The values of `vk::ImageLayout` that occur; `other` is a layout chosen by the
presentation collaborator. -/
inductive ImageLayout where
  | eUndefined
  | eColorAttachmentOptimal
  | eDepthAttachmentOptimal
  | eTransferSrcOptimal
  | eTransferDstOptimal
  | other (raw : Nat)
  deriving DecidableEq, Repr

/-- The values of `vk::ImageAspectFlagBits` that occur. -/
inductive ImageAspect where
  | eColor
  | eDepth
  deriving DecidableEq, Repr

/-- A `vk::Image` handle: an image of a render target (created by the
`RenderTarget` constructor for a device, an aspect and a position in the ring),
an image of the presentation collaborator, or the null handle. -/
inductive Image where
  | null
  | renderTarget (physicalDeviceIndex : Nat) (aspect : ImageAspect) (position : Nat)
  | external (handle : Nat)
  deriving DecidableEq, Repr

/-- A `vk::ImageView` handle, named by the image it views. -/
structure ImageView where
  image : Image
  deriving DecidableEq, Repr

/-- A `vk::Semaphore` handle. -/
inductive Semaphore where
  | null
  /-- The timeline semaphore `m_frameIndexSem` (the pacer). -/
  | frameIndexSem
  /-- The binary semaphore `m_renderDoneSemaphores[i]`. -/
  | renderDone (i : Nat)
  /-- The binary semaphore `m_swapchainImageReadySemaphore` of the renderer. -/
  | swapchainImageReady
  /-- The timeline semaphore `m_transferDoneSemaphore`. -/
  | transferDone
  /-- A semaphore owned by the presentation collaborator. -/
  | external (handle : Nat)
  deriving DecidableEq, Repr

/-- The three queues the renderer submits to. -/
inductive Queue where
  | m_renderQueue
  | m_transferQueue
  | m_presentQueue
  deriving DecidableEq, Repr

/-- The outcome of `vk::Device::waitSemaphores`. -/
inductive VkResult where
  | eSuccess
  | eTimeout
  deriving DecidableEq, Repr

/-- The struct `vk::ImageSubresourceRange`. -/
structure ImageSubresourceRange where
  aspectMask : ImageAspect
  baseMipLevel : Nat
  levelCount : Nat
  baseArrayLayer : Nat
  layerCount : Nat
  deriving DecidableEq, Repr

/-- The struct `vk::ImageMemoryBarrier2`, fields in declaration order. -/
structure ImageMemoryBarrier2 where
  srcStageMask : PipelineStage
  srcAccessMask : AccessFlag
  dstStageMask : PipelineStage
  dstAccessMask : AccessFlag
  oldLayout : ImageLayout
  newLayout : ImageLayout
  srcQueueFamilyIndex : Nat
  dstQueueFamilyIndex : Nat
  image : Image
  subresourceRange : ImageSubresourceRange
  deriving DecidableEq, Repr

/-- The struct `vk::SemaphoreSubmitInfo`. -/
structure SemaphoreSubmitInfo where
  semaphore : Semaphore
  value : Nat
  stageMask : PipelineStage
  deviceIndex : Nat
  deriving DecidableEq, Repr

/-- A `vk::CommandBuffer` handle: the buffer at `bufferIndex` of pool `poolIndex`
of the queue family `queueFamilyIndex`. -/
structure CommandBuffer where
  queueFamilyIndex : Nat
  poolIndex : Nat
  bufferIndex : Nat
  deriving DecidableEq, Repr

/-- The struct `vk::CommandBufferSubmitInfo`. -/
structure CommandBufferSubmitInfo where
  /-- The handle; `none` is the null handle of a default-constructed entry. -/
  commandBuffer : Option CommandBuffer
  deviceMask : Nat
  deriving DecidableEq, Repr

/-- The struct `vk::SubmitInfo2`, with its three arrays resolved to their contents
at the time of the submit call. -/
structure SubmitInfo2 where
  waitSemaphoreInfos : List SemaphoreSubmitInfo
  commandBufferInfos : List CommandBufferSubmitInfo
  signalSemaphoreInfos : List SemaphoreSubmitInfo
  deriving DecidableEq, Repr

/-- The struct `vk::Offset3D`. -/
structure Offset3D where
  x : Nat
  y : Nat
  z : Nat
  deriving DecidableEq, Repr

/-- The struct `vk::ImageCopy2` (both subresources are mip level 0, layer 0, one layer
of the given aspect). -/
structure ImageCopy2 where
  srcAspect : ImageAspect
  srcOffset : Offset3D
  dstAspect : ImageAspect
  dstOffset : Offset3D
  extentWidth : Nat
  extentHeight : Nat
  extentDepth : Nat
  deriving DecidableEq, Repr

/-- The struct `vk::CopyImageInfo2` with its single region. -/
structure CopyImageInfo2 where
  srcImage : Image
  srcImageLayout : ImageLayout
  dstImage : Image
  dstImageLayout : ImageLayout
  region : ImageCopy2
  deriving DecidableEq, Repr

/-- The struct `vk::Viewport`. -/
structure Viewport where
  x : ℚ
  y : ℚ
  width : ℚ
  height : ℚ
  minDepth : ℚ
  maxDepth : ℚ
  deriving DecidableEq

/-- The texts passed to the profiler. -/
inductive ProfilerLabel where
  | renderDevice (devIdx : Nat)
  | transfer
  | transferCopy (c : Nat)
  | finalize
  deriving DecidableEq, Repr

/-- The arguments of the call `Scene::render` (the external draw callback). -/
structure SceneRenderCall where
  physicalDeviceIndex : Nat
  colorDest : ImageView
  depthDest : ImageView
  renderArea : Extent2D
  viewport : Viewport
  view : Mat4x4f
  projection : Mat4x4f
  deriving DecidableEq

/-- A command recorded into a command buffer. -/
inductive Cmd where
  | begin
  | resetQueryPool
  | pushDurationBegin (label : ProfilerLabel) (frameIndex : Nat) (devIdx : Nat)
  | pushDurationEnd
  | pushInstant (label : ProfilerLabel) (frameIndex : Nat) (devIdx : Nat)
  | pipelineBarrier2 (imageMemoryBarriers : List ImageMemoryBarrier2)
  | sceneRender (call : SceneRenderCall)
  | copyImage2 (info : CopyImageInfo2)
  | finish
  deriving DecidableEq

/-- An externally visible action of the renderer. -/
inductive Event where
  | beginFrame
  | endFrame (queue : Queue)
  | sceneUpdate (deltaMillis : ℚ)
  | userInterfaceUpdate (deltaMillis : ℚ)
  | getCurrentFrameProjection (eye : Eye)
  | getCurrentFrameView (eye : Eye)
  | acquireSwapchainImages
  | getSwapchainImageReadySemaphore
  | releaseSwapchainImage
  | getFrameReadySemaphore
  /-- The host-side blocking call `vk::Device::waitSemaphores`. -/
  | waitSemaphores (semaphore : Semaphore) (value : Nat) (timeout : Nat)
  | resetCommandPool (queueFamilyIndex : Nat) (poolIndex : Nat)
  | record (commandBuffer : CommandBuffer) (cmd : Cmd)
  | submit2 (queue : Queue) (submits : List SubmitInfo2)
  deriving DecidableEq

/-! ## Options and collaborators -/

/-- The fields of `Options` the orchestration code reads (`g_app->getOptions()`). -/
structure Options where
  simulatedPhysicalDeviceCount : Option Nat
  swapEyes : Bool
  devGroupIndex : Option Nat := none
  deriving DecidableEq, Repr

/-- The struct `UserInterface::FrameInfo`. -/
structure FrameInfo where
  predictedDisplayTimeNanos : Option Nat
  deriving DecidableEq, Repr

/-- The struct `UserInterface::FrameRenderTargets`. -/
structure FrameRenderTargets where
  colorImage : Image
  desiredColorImageLayoutOnRelease : ImageLayout
  depthImage : Image
  desiredDepthImageLayoutOnRelease : ImageLayout
  deriving DecidableEq, Repr

/-- What the outside world answers during one call of `nextFrame`: the results of
the calls on the presentation collaborator (`UserInterface`) and of the host wait. -/
structure FrameEnv where
  beginFrame : FrameInfo
  getCurrentFrameProjection : Eye → StereoProjection
  getCurrentFrameView : Eye → Mat4x4f
  acquireSwapchainImages : FrameRenderTargets
  getSwapchainImageReadySemaphore : Semaphore
  getFrameReadySemaphore : Semaphore
  waitResult : VkResult

/-! ## VulkanQueueFamily -/

/-- The struct `VulkanQueueFamily::CommandPoolAndBuffers`; the pool handle is the
position of the entry. -/
structure CommandPoolAndBuffers where
  buffers : List CommandBuffer
  deriving DecidableEq, Repr

/-- The class `VulkanQueueFamily`. -/
structure VulkanQueueFamily where
  m_queueFamilyIndex : Nat
  m_poolsAndBuffers : List CommandPoolAndBuffers
  m_currentCommandPoolIndex : Nat
  m_nextCommandBufferIndex : Nat
  deriving DecidableEq, Repr

/-- The constructor `VulkanQueueFamily::VulkanQueueFamily`; the current pool index is
left uninitialised by the source and is given as `0` here. -/
def VulkanQueueFamily.new (p_queueFamilyIndex : Nat) : VulkanQueueFamily :=
  { m_queueFamilyIndex := p_queueFamilyIndex, m_poolsAndBuffers := [],
    m_currentCommandPoolIndex := 0, m_nextCommandBufferIndex := 0 }

/-- The method `VulkanQueueFamily::getIndex`. -/
def VulkanQueueFamily.getIndex (q : VulkanQueueFamily) : Nat := q.m_queueFamilyIndex

/-- The method `VulkanQueueFamily::allocateCommandBuffers`. -/
def VulkanQueueFamily.allocateCommandBuffers (q : VulkanQueueFamily)
    (p_commandPoolCount p_commandBufferCountPerPool : Nat) : VulkanQueueFamily :=
  { q with
    m_poolsAndBuffers := (List.range p_commandPoolCount).map fun pool =>
      { buffers := (List.range p_commandBufferCountPerPool).map fun b =>
          { queueFamilyIndex := q.m_queueFamilyIndex, poolIndex := pool, bufferIndex := b } }
    m_currentCommandPoolIndex := wrap32 (p_commandPoolCount + (2 ^ 32 - 1))
    m_nextCommandBufferIndex := 0 }

/-- The method `VulkanQueueFamily::reset`: the new state and the
`resetCommandPool` call it makes. -/
def VulkanQueueFamily.reset (q : VulkanQueueFamily) : Except Fatal (VulkanQueueFamily × List Event) :=
  if q.m_poolsAndBuffers.length = 0 then .error .outOfBounds
  else
    let current := wrap32 (wrap32 (q.m_currentCommandPoolIndex + 1) % q.m_poolsAndBuffers.length)
    .ok ({ q with m_currentCommandPoolIndex := current, m_nextCommandBufferIndex := 0 },
         [Event.resetCommandPool q.m_queueFamilyIndex current])

/-- The method `VulkanQueueFamily::nextCommandBuffer`. -/
def VulkanQueueFamily.nextCommandBuffer (q : VulkanQueueFamily) :
    Except Fatal (VulkanQueueFamily × CommandBuffer) :=
  match q.m_poolsAndBuffers.get? q.m_currentCommandPoolIndex with
  | none => .error .outOfBounds
  | some poolAndBuffers =>
    match poolAndBuffers.buffers.get? q.m_nextCommandBufferIndex with
    | none => .error .noMoreCommandBuffers
    | some buffer =>
      .ok ({ q with m_nextCommandBufferIndex := wrap32 (q.m_nextCommandBufferIndex + 1) }, buffer)

/-! ## RenderTarget -/

/-- The class `VulkanImageResource`: an image and its view. -/
structure VulkanImageResource where
  m_image : Image
  m_imageView : ImageView
  deriving DecidableEq, Repr

/-- The method `VulkanImageResource::getImage`. -/
def VulkanImageResource.getImage (v : VulkanImageResource) : Image := v.m_image

/-- The method `VulkanImageResource::getImageView`. -/
def VulkanImageResource.getImageView (v : VulkanImageResource) : ImageView := v.m_imageView

/-- The class `RenderTarget`. -/
structure RenderTarget where
  m_colorResources : List VulkanImageResource
  m_depthResources : List VulkanImageResource
  deriving DecidableEq, Repr

/-- The image resource the `i`-th `emplace_back` of the `RenderTarget` constructor
creates for the given aspect. -/
def VulkanImageResource.create (p_physicalDeviceIndex : Nat) (aspect : ImageAspect) (i : Nat) :
    VulkanImageResource :=
  { m_image := .renderTarget p_physicalDeviceIndex aspect i,
    m_imageView := ⟨.renderTarget p_physicalDeviceIndex aspect i⟩ }

/-- The loop `for (uint32_t i = 0; i < MAX_QUEUED_FRAMES; ++i)` of the `RenderTarget`
constructor, from `i` on with `n` iterations left. -/
def RenderTarget.constructLoop (p_physicalDeviceIndex : Nat) : Nat → Nat → RenderTarget → RenderTarget
  | 0, _, rt => rt
  | n + 1, i, rt =>
    RenderTarget.constructLoop p_physicalDeviceIndex n (i + 1)
      { m_colorResources := rt.m_colorResources ++ [VulkanImageResource.create p_physicalDeviceIndex .eColor i],
        m_depthResources := rt.m_depthResources ++ [VulkanImageResource.create p_physicalDeviceIndex .eDepth i] }

/-- The constructor `RenderTarget::RenderTarget`. -/
def RenderTarget.new (p_physicalDeviceIndex : Nat) : RenderTarget :=
  RenderTarget.constructLoop p_physicalDeviceIndex MAX_QUEUED_FRAMES 0
    { m_colorResources := [], m_depthResources := [] }

/-- The method `RenderTarget::getColorResource`; `none` is an access outside the vector. -/
def RenderTarget.getColorResource (rt : RenderTarget) (p_frameIndex : Nat) : Option VulkanImageResource :=
  rt.m_colorResources.get? (p_frameIndex % MAX_QUEUED_FRAMES)

/-- The method `RenderTarget::getDepthResource`; `none` is an access outside the vector. -/
def RenderTarget.getDepthResource (rt : RenderTarget) (p_frameIndex : Nat) : Option VulkanImageResource :=
  rt.m_depthResources.get? (p_frameIndex % MAX_QUEUED_FRAMES)

/-! ## Renderer state -/

/-- A `vk::PhysicalDevice` handle. -/
structure PhysicalDevice where
  handle : Nat
  deriving DecidableEq, Repr

/-- The data members of the class `Renderer` that the frame protocol reads or
writes, together with the options of the application. -/
structure Renderer where
  options : Options
  m_resolutionPerPhysicalDevice : Extent2D
  m_vkPhysicalDevices : List PhysicalDevice
  m_deviceMaskAll : Nat
  m_deviceMaskFirst : Nat
  m_graphicsQueueFamily : VulkanQueueFamily
  m_transferQueueFamily : VulkanQueueFamily
  m_frameIndex : Nat
  m_renderDoneSemaphores : List Semaphore
  m_swapchainImageReadySemaphore : Semaphore
  m_runtimeMillis : ℚ
  m_lastPredictedDisplayTimeNanos : Option Nat
  m_renderTargets : List RenderTarget
  deriving DecidableEq

/-- The method `Renderer::getPhysicalDeviceCount`. -/
def Renderer.getPhysicalDeviceCount (r : Renderer) : Nat :=
  r.options.simulatedPhysicalDeviceCount.getD (wrap32 r.m_vkPhysicalDevices.length)

/-- The method `Renderer::deviceIndexToDeviceMask`. -/
def Renderer.deviceIndexToDeviceMask (r : Renderer) (p_index : Nat) : Nat :=
  if r.options.simulatedPhysicalDeviceCount.isSome then 1 else wrap32 (1 <<< p_index)

/-- The method `Renderer::getDeviceMaskFirst`. -/
def Renderer.getDeviceMaskFirst (r : Renderer) : Nat := r.m_deviceMaskFirst

/-- The method `Renderer::getDeviceViewport`. -/
def Renderer.getDeviceViewport (r : Renderer) (p_physicalDeviceIndex : Nat) : Except Fatal Rect2Df :=
  if ¬ (p_physicalDeviceIndex < r.getPhysicalDeviceCount) then
    .error (.deviceIndexAssert p_physicalDeviceIndex r.getPhysicalDeviceCount)
  else if r.getPhysicalDeviceCount = 2 then
    .ok { x := 0, y := 0, width := 1, height := 1 }
  else if r.getPhysicalDeviceCount = 4 then
    .ok (if p_physicalDeviceIndex < 2 then { x := 0, y := 0, width := 1, height := 1 / 2 }
         else { x := 0, y := 1 / 2, width := 1, height := 1 / 2 })
  else .error (.devicesNotSupported r.getPhysicalDeviceCount)

/-- The eye a device renders (`Renderer::renderFrame`, the lines computing `eye`). -/
def Renderer.deviceEye (r : Renderer) (devIdx : Nat) : Eye :=
  let eye := Eye.cast (devIdx % 2)
  if r.options.swapEyes then Eye.cast (1 - eye.toNat) else eye

/-! ## Loops and arrays -/

/-- The loop `for (uint32_t i = start; ...; ++i)` running `n` iterations from `i` on: the
body transforms the loop state and yields the events it caused. -/
def forLoop {σ : Type} (body : Nat → σ → Except Fatal (σ × List Event)) :
    Nat → Nat → σ → Except Fatal (σ × List Event)
  | 0, _, s => .ok (s, [])
  | n + 1, i, s =>
    match body i s with
    | .error e => .error e
    | .ok (s1, ev1) =>
      match forLoop body n (i + 1) s1 with
      | .error e => .error e
      | .ok (s2, ev2) => .ok (s2, ev1 ++ ev2)

/-- The assignment `v[i] = x` to an element of a `std::vector`. -/
def vectorSet {α : Type} (v : List α) (i : Nat) (x : α) : Except Fatal (List α) :=
  if i < v.length then .ok (v.set i x) else .error .outOfBounds

/-- The read `v[i]` of an element of a `std::vector`. -/
def vectorGet {α : Type} (v : List α) (i : Nat) : Except Fatal α :=
  match v.get? i with
  | some x => .ok x
  | none => .error .outOfBounds

/-- A default-constructed `vk::SemaphoreSubmitInfo`. -/
def SemaphoreSubmitInfo.default : SemaphoreSubmitInfo :=
  { semaphore := .null, value := 0, stageMask := .eNone, deviceIndex := 0 }

/-- A default-constructed `vk::CommandBufferSubmitInfo`. -/
def CommandBufferSubmitInfo.default : CommandBufferSubmitInfo :=
  { commandBuffer := none, deviceMask := 0 }

/-- A default-constructed `vk::ImageCopy2`. -/
def ImageCopy2.default : ImageCopy2 :=
  { srcAspect := .eColor, srcOffset := ⟨0, 0, 0⟩, dstAspect := .eColor, dstOffset := ⟨0, 0, 0⟩,
    extentWidth := 0, extentHeight := 0, extentDepth := 0 }

/-- The subresource range `{aspect, 0, 1, 0, 1}` used by every barrier. -/
def fullRange (aspect : ImageAspect) : ImageSubresourceRange :=
  { aspectMask := aspect, baseMipLevel := 0, levelCount := 1, baseArrayLayer := 0, layerCount := 1 }

/-! ## Renderer::renderFrame -/

/-- A `vk::SubmitInfo2` as built in `renderFrame`: its arrays are pointers into the local
vectors `semaphoreWaits`, `graphicsCmdBufferSubmits` and `semaphoreSignals`, given here as
positions; the command-buffer and signal counts are 1. -/
structure SubmitInfo2Ref where
  waitSemaphoreInfoCount : Nat
  pWaitSemaphoreInfos : Nat
  pCommandBufferInfos : Nat
  pSignalSemaphoreInfos : Nat
  deriving DecidableEq, Repr

/-- The local variables of `Renderer::renderFrame`. -/
structure RenderFrameLocals where
  graphicsSubmits : List SubmitInfo2Ref
  semaphoreWaits : List SemaphoreSubmitInfo
  nextSemWaitIdx : Nat
  graphicsCmdBufferSubmits : List CommandBufferSubmitInfo
  semaphoreSignals : List SemaphoreSubmitInfo
  deriving DecidableEq, Repr

/-- The contents a `SubmitInfo2Ref` points to when the submit call reads it. -/
def SubmitInfo2Ref.resolve (l : RenderFrameLocals) (s : SubmitInfo2Ref) : Except Fatal SubmitInfo2 :=
  if s.pWaitSemaphoreInfos + s.waitSemaphoreInfoCount ≤ l.semaphoreWaits.length then
    match l.graphicsCmdBufferSubmits.get? s.pCommandBufferInfos,
          l.semaphoreSignals.get? s.pSignalSemaphoreInfos with
    | some c, some sg =>
      .ok { waitSemaphoreInfos := (l.semaphoreWaits.drop s.pWaitSemaphoreInfos).take s.waitSemaphoreInfoCount,
            commandBufferInfos := [c], signalSemaphoreInfos := [sg] }
    | _, _ => .error .outOfBounds
  else .error .outOfBounds

/-- All submit infos of a submit call, resolved in order. -/
def resolveAll (l : RenderFrameLocals) : List SubmitInfo2Ref → Except Fatal (List SubmitInfo2)
  | [] => .ok []
  | s :: rest =>
    match s.resolve l with
    | .error e => .error e
    | .ok x =>
      match resolveAll l rest with
      | .error e => .error e
      | .ok xs => .ok (x :: xs)

/-- The vector `transferToGraphicsQueueFamilyBarriersEnd` of `renderFrame`: the barriers
recorded before drawing. -/
def Renderer.transferToGraphicsQueueFamilyBarriersEnd (r : Renderer) (srcQueueFamilyIndex : Nat)
    (rtColorImage rtDepthImage : Image) : List ImageMemoryBarrier2 :=
  [ { srcStageMask := .eAllCommands, srcAccessMask := .eNone,
      dstStageMask := .eColorAttachmentOutput, dstAccessMask := .eColorAttachmentWrite,
      oldLayout := .eUndefined, newLayout := .eColorAttachmentOptimal,
      srcQueueFamilyIndex := srcQueueFamilyIndex,
      dstQueueFamilyIndex := r.m_graphicsQueueFamily.getIndex,
      image := rtColorImage, subresourceRange := fullRange .eColor },
    { srcStageMask := .eAllCommands, srcAccessMask := .eNone,
      dstStageMask := .eEarlyFragmentTests, dstAccessMask := .eDepthStencilAttachmentWrite,
      oldLayout := .eUndefined, newLayout := .eDepthAttachmentOptimal,
      srcQueueFamilyIndex := srcQueueFamilyIndex,
      dstQueueFamilyIndex := r.m_graphicsQueueFamily.getIndex,
      image := rtDepthImage, subresourceRange := fullRange .eDepth } ]

/-- The vector `graphicsToTransferQueueFamilyBarriersBegin` of `renderFrame`: the barriers
recorded after drawing. -/
def Renderer.graphicsToTransferQueueFamilyBarriersBegin (r : Renderer)
    (rtColorImage rtDepthImage : Image) : List ImageMemoryBarrier2 :=
  [ { srcStageMask := .eColorAttachmentOutput, srcAccessMask := .eColorAttachmentWrite,
      dstStageMask := .eTransfer, dstAccessMask := .eTransferRead,
      oldLayout := .eColorAttachmentOptimal, newLayout := .eTransferSrcOptimal,
      srcQueueFamilyIndex := r.m_graphicsQueueFamily.getIndex,
      dstQueueFamilyIndex := r.m_transferQueueFamily.getIndex,
      image := rtColorImage, subresourceRange := fullRange .eColor },
    { srcStageMask := .eLateFragmentTests, srcAccessMask := .eDepthStencilAttachmentWrite,
      dstStageMask := .eTransfer, dstAccessMask := .eTransferRead,
      oldLayout := .eDepthAttachmentOptimal, newLayout := .eTransferSrcOptimal,
      srcQueueFamilyIndex := r.m_graphicsQueueFamily.getIndex,
      dstQueueFamilyIndex := r.m_transferQueueFamily.getIndex,
      image := rtDepthImage, subresourceRange := fullRange .eDepth } ]

/-- The viewport handed to the draw callback (`renderFrame`, from `eyeViewport` to `vp`). -/
def Renderer.drawViewport (r : Renderer) (relativeViewport deviceViewport : Rect2Df) : Viewport :=
  let x := relativeViewport.x - deviceViewport.x / deviceViewport.width
  let y := relativeViewport.y - deviceViewport.y / deviceViewport.height
  let width := relativeViewport.width / deviceViewport.width
  let height := relativeViewport.height / deviceViewport.height
  { x := x * (r.m_resolutionPerPhysicalDevice.width : ℚ),
    y := y * (r.m_resolutionPerPhysicalDevice.height : ℚ),
    width := width * (r.m_resolutionPerPhysicalDevice.width : ℚ),
    height := height * (r.m_resolutionPerPhysicalDevice.height : ℚ),
    minDepth := 0, maxDepth := 1 }

/-- The value `m_frameIndex - MAX_QUEUED_FRAMES + 1`, computed in `uint64_t`. -/
def Renderer.waitValue (r : Renderer) : Nat :=
  add64 (sub64 r.m_frameIndex MAX_QUEUED_FRAMES) 1

/-- The body of the loop over the devices in `Renderer::renderFrame`.  Forming the pointer
`&semaphoreWaits[nextSemWaitIdx]` is an element access and is checked like one. -/
def Renderer.renderDevice (env : FrameEnv) (devIdx : Nat) (s : Renderer × RenderFrameLocals) :
    Except Fatal ((Renderer × RenderFrameLocals) × List Event) := do
  let r := s.1
  let l := s.2
  let rt ← vectorGet r.m_renderTargets devIdx
  let colorResource ← (rt.getColorResource r.m_frameIndex).elim (.error .outOfBounds) .ok
  let depthResource ← (rt.getDepthResource r.m_frameIndex).elim (.error .outOfBounds) .ok
  let rtColorImage := colorResource.getImage
  let rtColorImageView := colorResource.getImageView
  let rtDepthImage := depthResource.getImage
  let rtDepthImageView := depthResource.getImageView
  let (graphics, cmdBuffer) ← r.m_graphicsQueueFamily.nextCommandBuffer
  let r1 := { r with m_graphicsQueueFamily := graphics }
  let evBegin := [Event.record cmdBuffer .begin] ++
    (if devIdx = 0 ∧ r.m_frameIndex = 0 then [Event.record cmdBuffer .resetQueryPool] else []) ++
    [Event.record cmdBuffer (.pushDurationBegin (.renderDevice devIdx) r.m_frameIndex devIdx)]
  let srcQueueFamilyIndex :=
    if r.m_frameIndex < MAX_QUEUED_FRAMES then r.m_graphicsQueueFamily.getIndex
    else r.m_transferQueueFamily.getIndex
  let evAcquire := [Event.record cmdBuffer
    (.pipelineBarrier2 (r.transferToGraphicsQueueFamilyBarriersEnd srcQueueFamilyIndex rtColorImage rtDepthImage))]
  let eye := r.deviceEye devIdx
  let proj := env.getCurrentFrameProjection eye
  let deviceViewport ← r.getDeviceViewport devIdx
  let vp := r.drawViewport proj.relativeViewport deviceViewport
  let evDraw := [Event.getCurrentFrameProjection eye, Event.getCurrentFrameView eye,
    Event.record cmdBuffer (.sceneRender
      { physicalDeviceIndex := devIdx, colorDest := rtColorImageView, depthDest := rtDepthImageView,
        renderArea := r.m_resolutionPerPhysicalDevice, viewport := vp,
        view := env.getCurrentFrameView eye, projection := proj.projectionMatrix })]
  let evRelease := [Event.record cmdBuffer
      (.pipelineBarrier2 (r.graphicsToTransferQueueFamilyBarriersBegin rtColorImage rtDepthImage)),
    Event.record cmdBuffer .pushDurationEnd, Event.record cmdBuffer .finish]
  let graphicsCmdBufferSubmits ← vectorSet l.graphicsCmdBufferSubmits devIdx
    { commandBuffer := some cmdBuffer, deviceMask := r.deviceIndexToDeviceMask devIdx }
  let renderDone ← vectorGet r.m_renderDoneSemaphores devIdx
  let semaphoreSignals ← vectorSet l.semaphoreSignals devIdx
    { semaphore := renderDone, value := 0, stageMask := .eAllCommands, deviceIndex := devIdx }
  let semWaits := l.nextSemWaitIdx
  if ¬ (semWaits < l.semaphoreWaits.length) then .error .outOfBounds
  let (semaphoreWaits, nextSemWaitIdx, semWaitCount) ←
    (if MAX_QUEUED_FRAMES ≤ r.m_frameIndex then do
      let w ← vectorSet l.semaphoreWaits l.nextSemWaitIdx
        { semaphore := .frameIndexSem, value := r.waitValue, stageMask := .eAllCommands,
          deviceIndex := devIdx }
      pure (w, wrap32 (l.nextSemWaitIdx + 1), 1)
    else pure (l.semaphoreWaits, l.nextSemWaitIdx, 0) : Except Fatal (List SemaphoreSubmitInfo × Nat × Nat))
  let l1 : RenderFrameLocals :=
    { graphicsSubmits := l.graphicsSubmits ++
        [{ waitSemaphoreInfoCount := semWaitCount, pWaitSemaphoreInfos := semWaits,
           pCommandBufferInfos := devIdx, pSignalSemaphoreInfos := devIdx }],
      semaphoreWaits := semaphoreWaits, nextSemWaitIdx := nextSemWaitIdx,
      graphicsCmdBufferSubmits := graphicsCmdBufferSubmits, semaphoreSignals := semaphoreSignals }
  pure ((r1, l1), evBegin ++ evAcquire ++ evDraw ++ evRelease)

/-- The method `Renderer::renderFrame`. -/
def Renderer.renderFrame (env : FrameEnv) (r : Renderer) : Except Fatal (Renderer × List Event) := do
  let l : RenderFrameLocals :=
    { graphicsSubmits := [],
      semaphoreWaits := List.replicate (wrap32 (2 * r.getPhysicalDeviceCount)) SemaphoreSubmitInfo.default,
      nextSemWaitIdx := 0,
      graphicsCmdBufferSubmits := List.replicate r.getPhysicalDeviceCount CommandBufferSubmitInfo.default,
      semaphoreSignals := List.replicate r.getPhysicalDeviceCount SemaphoreSubmitInfo.default }
  let ((r1, l1), ev) ← forLoop (Renderer.renderDevice env) r.getPhysicalDeviceCount 0 (r, l)
  let submits ← resolveAll l1 l1.graphicsSubmits
  pure (r1, ev ++ [Event.submit2 .m_renderQueue submits])

/-! ## Renderer::buildFinalFrame -/

/-- The local vectors of `Renderer::buildFinalFrame` that its loop over the devices fills. -/
structure BuildFinalFrameLocals where
  renderDoneWaits : List SemaphoreSubmitInfo
  graphicsToTransferQueueFamilyBarriersEnd : List ImageMemoryBarrier2
  transferToGraphicsQueueFamilyBarriersBegin : List ImageMemoryBarrier2
  colorRegions : List ImageCopy2
  depthRegions : List ImageCopy2
  copyImageInfos : List CopyImageInfo2
  deriving DecidableEq, Repr

/-- The barrier that takes a presentation image from undefined to transfer-destination
layout (`buildFinalFrame`, first entries of `graphicsToTransferQueueFamilyBarriersEnd`). -/
def destinationToTransferDst (image : Image) (aspect : ImageAspect) : ImageMemoryBarrier2 :=
  { srcStageMask := .eAllCommands, srcAccessMask := .eNone,
    dstStageMask := .eTransfer, dstAccessMask := .eTransferWrite,
    oldLayout := .eUndefined, newLayout := .eTransferDstOptimal,
    srcQueueFamilyIndex := VK_QUEUE_FAMILY_IGNORED, dstQueueFamilyIndex := VK_QUEUE_FAMILY_IGNORED,
    image := image, subresourceRange := fullRange aspect }

/-- The barrier that takes a presentation image from transfer-destination layout to the
layout the collaborator asked for, from the transfer to the graphics queue family
(`buildFinalFrame`, first entries of `transferToGraphicsQueueFamilyBarriersBegin` and the
entries of `finalBarriers`). -/
def Renderer.destinationToRelease (r : Renderer) (image : Image) (aspect : ImageAspect)
    (layoutOnRelease : ImageLayout) : ImageMemoryBarrier2 :=
  { srcStageMask := .eTransfer, srcAccessMask := .eTransferWrite,
    dstStageMask := .eAllCommands, dstAccessMask := .eMemoryRead,
    oldLayout := .eTransferDstOptimal, newLayout := layoutOnRelease,
    srcQueueFamilyIndex := r.m_transferQueueFamily.getIndex,
    dstQueueFamilyIndex := r.m_graphicsQueueFamily.getIndex,
    image := image, subresourceRange := fullRange aspect }

/-- The two barriers the loop of `buildFinalFrame` appends to
`graphicsToTransferQueueFamilyBarriersEnd` for one device. -/
def Renderer.compositeAcquireBarriers (r : Renderer) (rtColorImage rtDepthImage : Image) :
    List ImageMemoryBarrier2 :=
  [ { srcStageMask := .eColorAttachmentOutput, srcAccessMask := .eColorAttachmentWrite,
      dstStageMask := .eTransfer, dstAccessMask := .eTransferRead,
      oldLayout := .eColorAttachmentOptimal, newLayout := .eTransferSrcOptimal,
      srcQueueFamilyIndex := r.m_graphicsQueueFamily.getIndex,
      dstQueueFamilyIndex := r.m_transferQueueFamily.getIndex,
      image := rtColorImage, subresourceRange := fullRange .eColor },
    { srcStageMask := .eLateFragmentTests, srcAccessMask := .eDepthStencilAttachmentWrite,
      dstStageMask := .eTransfer, dstAccessMask := .eTransferRead,
      oldLayout := .eDepthAttachmentOptimal, newLayout := .eTransferSrcOptimal,
      srcQueueFamilyIndex := r.m_graphicsQueueFamily.getIndex,
      dstQueueFamilyIndex := r.m_transferQueueFamily.getIndex,
      image := rtDepthImage, subresourceRange := fullRange .eDepth } ]

/-- The two barriers the loop of `buildFinalFrame` appends to
`transferToGraphicsQueueFamilyBarriersBegin` for one device (depth first). -/
def Renderer.compositeReleaseBarriers (r : Renderer) (rtColorImage rtDepthImage : Image) :
    List ImageMemoryBarrier2 :=
  [ { srcStageMask := .eTransfer, srcAccessMask := .eTransferRead,
      dstStageMask := .eEarlyFragmentTests, dstAccessMask := .eDepthStencilAttachmentWrite,
      oldLayout := .eTransferSrcOptimal, newLayout := .eDepthAttachmentOptimal,
      srcQueueFamilyIndex := r.m_transferQueueFamily.getIndex,
      dstQueueFamilyIndex := r.m_graphicsQueueFamily.getIndex,
      image := rtDepthImage, subresourceRange := fullRange .eDepth },
    { srcStageMask := .eTransfer, srcAccessMask := .eTransferRead,
      dstStageMask := .eColorAttachmentOutput, dstAccessMask := .eColorAttachmentWrite,
      oldLayout := .eTransferSrcOptimal, newLayout := .eColorAttachmentOptimal,
      srcQueueFamilyIndex := r.m_transferQueueFamily.getIndex,
      dstQueueFamilyIndex := r.m_graphicsQueueFamily.getIndex,
      image := rtColorImage, subresourceRange := fullRange .eColor } ]

/-- The body of the loop over the devices in `Renderer::buildFinalFrame`. -/
def Renderer.buildFinalDevice (r : Renderer) (p_renderTargets : FrameRenderTargets) (devIdx : Nat)
    (l : BuildFinalFrameLocals) : Except Fatal (BuildFinalFrameLocals × List Event) := do
  let rt ← vectorGet r.m_renderTargets devIdx
  let colorResource ← (rt.getColorResource r.m_frameIndex).elim (.error .outOfBounds) .ok
  let depthResource ← (rt.getDepthResource r.m_frameIndex).elim (.error .outOfBounds) .ok
  let rtColorImage := colorResource.getImage
  let rtDepthImage := depthResource.getImage
  let renderDone ← vectorGet r.m_renderDoneSemaphores devIdx
  let renderDoneWaits ← vectorSet l.renderDoneWaits devIdx
    { semaphore := renderDone, value := 0, stageMask := .eAllCommands, deviceIndex := 0 }
  let barriersEnd := l.graphicsToTransferQueueFamilyBarriersEnd ++
    r.compositeAcquireBarriers rtColorImage rtDepthImage
  let dstOffset : Offset3D :=
    { x := wrap32 ((devIdx % 2) * r.m_resolutionPerPhysicalDevice.width),
      y := wrap32 ((devIdx / 2) * r.m_resolutionPerPhysicalDevice.height), z := 0 }
  let colorRegion : ImageCopy2 :=
    { srcAspect := .eColor, srcOffset := ⟨0, 0, 0⟩, dstAspect := .eColor, dstOffset := dstOffset,
      extentWidth := r.m_resolutionPerPhysicalDevice.width,
      extentHeight := r.m_resolutionPerPhysicalDevice.height, extentDepth := 1 }
  let colorRegions ← vectorSet l.colorRegions devIdx colorRegion
  let copies1 := l.copyImageInfos ++
    [{ srcImage := rtColorImage, srcImageLayout := .eTransferSrcOptimal,
       dstImage := p_renderTargets.colorImage, dstImageLayout := .eTransferDstOptimal,
       region := colorRegion }]
  let (depthRegions, copies2) ←
    (if p_renderTargets.depthImage ≠ .null then do
      let depthRegion : ImageCopy2 :=
        { srcAspect := .eDepth, srcOffset := ⟨0, 0, 0⟩, dstAspect := .eDepth, dstOffset := dstOffset,
          extentWidth := r.m_resolutionPerPhysicalDevice.width,
          extentHeight := r.m_resolutionPerPhysicalDevice.height, extentDepth := 1 }
      let d ← vectorSet l.depthRegions devIdx depthRegion
      pure (d, copies1 ++
        [{ srcImage := rtDepthImage, srcImageLayout := .eTransferSrcOptimal,
           dstImage := p_renderTargets.depthImage, dstImageLayout := .eTransferDstOptimal,
           region := depthRegion }])
    else pure (l.depthRegions, copies1) : Except Fatal (List ImageCopy2 × List CopyImageInfo2))
  let barriersBegin := l.transferToGraphicsQueueFamilyBarriersBegin ++
    r.compositeReleaseBarriers rtColorImage rtDepthImage
  pure ({ renderDoneWaits := renderDoneWaits,
          graphicsToTransferQueueFamilyBarriersEnd := barriersEnd,
          transferToGraphicsQueueFamilyBarriersBegin := barriersBegin,
          colorRegions := colorRegions, depthRegions := depthRegions,
          copyImageInfos := copies2 }, [])

/-- The loop `for (const auto &copyImageInfo : copyImageInfos)` of `buildFinalFrame`, with
the counter `c`. -/
def copyEvents (transferCmdBuffer : CommandBuffer) (frameIndex : Nat) :
    Nat → List CopyImageInfo2 → List Event
  | _, [] => []
  | c, info :: rest =>
    [Event.record transferCmdBuffer (.pushDurationBegin (.transferCopy c) frameIndex 0),
     Event.record transferCmdBuffer (.copyImage2 info),
     Event.record transferCmdBuffer .pushDurationEnd] ++
    copyEvents transferCmdBuffer frameIndex (wrap32 (c + 1)) rest

/-- The method `Renderer::buildFinalFrame`. -/
def Renderer.buildFinalFrame (env : FrameEnv) (p_renderTargets : FrameRenderTargets) (r : Renderer) :
    Except Fatal (Renderer × List Event) := do
  let d := r.getPhysicalDeviceCount
  let renderDoneWaits0 := List.replicate (wrap32 (d + 1)) SemaphoreSubmitInfo.default
  if renderDoneWaits0.length = 0 then .error .outOfBounds
  let (readySemaphore, evReady) :=
    if r.m_swapchainImageReadySemaphore ≠ .null then (r.m_swapchainImageReadySemaphore, [])
    else (env.getSwapchainImageReadySemaphore, [Event.getSwapchainImageReadySemaphore])
  let renderDoneWaits1 := renderDoneWaits0.set (renderDoneWaits0.length - 1)
    { semaphore := readySemaphore, value := 0, stageMask := .eAllCommands, deviceIndex := 0 }
  let hasDepth : Bool := decide (p_renderTargets.depthImage ≠ .null)
  let l0 : BuildFinalFrameLocals :=
    { renderDoneWaits := renderDoneWaits1,
      graphicsToTransferQueueFamilyBarriersEnd :=
        [destinationToTransferDst p_renderTargets.colorImage .eColor] ++
        (if hasDepth then [destinationToTransferDst p_renderTargets.depthImage .eDepth] else []),
      transferToGraphicsQueueFamilyBarriersBegin :=
        [r.destinationToRelease p_renderTargets.colorImage .eColor
          p_renderTargets.desiredColorImageLayoutOnRelease] ++
        (if hasDepth then [r.destinationToRelease p_renderTargets.depthImage .eDepth
          p_renderTargets.desiredDepthImageLayoutOnRelease] else []),
      colorRegions := List.replicate d ImageCopy2.default,
      depthRegions := List.replicate d ImageCopy2.default,
      copyImageInfos := [] }
  let (l, _) ← forLoop (r.buildFinalDevice p_renderTargets) d 0 l0
  let (transfer, transferCmdBuffer) ← r.m_transferQueueFamily.nextCommandBuffer
  let r1 := { r with m_transferQueueFamily := transfer }
  let evTransfer :=
    [Event.record transferCmdBuffer .begin,
     Event.record transferCmdBuffer (.pushDurationBegin .transfer r.m_frameIndex 0),
     Event.record transferCmdBuffer (.pipelineBarrier2 l.graphicsToTransferQueueFamilyBarriersEnd)] ++
    copyEvents transferCmdBuffer r.m_frameIndex 0 l.copyImageInfos ++
    [Event.record transferCmdBuffer (.pipelineBarrier2 l.transferToGraphicsQueueFamilyBarriersBegin),
     Event.record transferCmdBuffer .pushDurationEnd,
     Event.record transferCmdBuffer .finish]
  let transferCmdBufferSubmit : CommandBufferSubmitInfo :=
    { commandBuffer := some transferCmdBuffer, deviceMask := r.getDeviceMaskFirst }
  let transferDoneSignalAndWait : SemaphoreSubmitInfo :=
    { semaphore := .transferDone, value := add64 r.m_frameIndex 1, stageMask := .eAllCommands,
      deviceIndex := 0 }
  let evTransferSubmit := [Event.submit2 .m_transferQueue
    [{ waitSemaphoreInfos := l.renderDoneWaits, commandBufferInfos := [transferCmdBufferSubmit],
       signalSemaphoreInfos := [transferDoneSignalAndWait] }]]
  let (graphics, finalCmdBuffer) ← r1.m_graphicsQueueFamily.nextCommandBuffer
  let r2 := { r1 with m_graphicsQueueFamily := graphics }
  let finalBarriers :=
    [r.destinationToRelease p_renderTargets.colorImage .eColor
      p_renderTargets.desiredColorImageLayoutOnRelease] ++
    (if hasDepth then [r.destinationToRelease p_renderTargets.depthImage .eDepth
      p_renderTargets.desiredDepthImageLayoutOnRelease] else [])
  let evFinal :=
    [Event.record finalCmdBuffer .begin,
     Event.record finalCmdBuffer (.pipelineBarrier2 finalBarriers),
     Event.record finalCmdBuffer (.pushInstant .finalize r.m_frameIndex 0),
     Event.record finalCmdBuffer .finish]
  let finalCmdBufferSubmit : CommandBufferSubmitInfo :=
    { commandBuffer := some finalCmdBuffer, deviceMask := r.getDeviceMaskFirst }
  let frameReadySem := env.getFrameReadySemaphore
  let finalSignals : List SemaphoreSubmitInfo :=
    [{ semaphore := .frameIndexSem, value := add64 r.m_frameIndex 1, stageMask := .eAllCommands,
       deviceIndex := 0 }] ++
    (if frameReadySem ≠ .null then
      [{ semaphore := frameReadySem, value := 0, stageMask := .eAllCommands, deviceIndex := 0 }]
     else [])
  let evFinalSubmit := [Event.getFrameReadySemaphore, Event.submit2 .m_presentQueue
    [{ waitSemaphoreInfos := [transferDoneSignalAndWait], commandBufferInfos := [finalCmdBufferSubmit],
       signalSemaphoreInfos := finalSignals }]]
  pure (r2, evReady ++ evTransfer ++ evTransferSubmit ++ evFinal ++ evFinalSubmit)

/-! ## Renderer::nextFrame -/

/-- The host wait of `nextFrame`: performed when `MAX_QUEUED_FRAMES <= m_frameIndex`; a
result other than success is fatal. -/
def Renderer.waitForFrameIndexValue (env : FrameEnv) (r : Renderer) : Except Fatal (List Event) :=
  if MAX_QUEUED_FRAMES ≤ r.m_frameIndex then
    let waitValue := r.waitValue
    if env.waitResult = .eSuccess then
      .ok [Event.waitSemaphores .frameIndexSem waitValue UINT64_MAX]
    else .error .waitFailed
  else .ok []

/-- The method `Renderer::nextFrame`. -/
def Renderer.nextFrame (env : FrameEnv) (r : Renderer) : Except Fatal (Renderer × List Event) :=
  match env.beginFrame.predictedDisplayTimeNanos with
  | none => .ok (r, [Event.beginFrame, Event.endFrame .m_presentQueue])
  | some predicted => do
    let deltaMillis : ℚ :=
      match r.m_lastPredictedDisplayTimeNanos with
      | some last => (1 / 1000000) * (sub64 predicted last : ℚ)
      | none => 0
    let r1 := { r with m_lastPredictedDisplayTimeNanos := some predicted,
                       m_runtimeMillis := r.m_runtimeMillis + deltaMillis }
    let evUpdate := [Event.beginFrame, Event.sceneUpdate deltaMillis,
      Event.userInterfaceUpdate deltaMillis]
    let evWait ← r1.waitForFrameIndexValue env
    let (graphics, evResetGraphics) ← r1.m_graphicsQueueFamily.reset
    let r2 := { r1 with m_graphicsQueueFamily := graphics }
    let (transfer, evResetTransfer) ← r2.m_transferQueueFamily.reset
    let r3 := { r2 with m_transferQueueFamily := transfer }
    let (r4, evRender) ← r3.renderFrame env
    let frt := env.acquireSwapchainImages
    let evAcquire := [Event.acquireSwapchainImages, Event.getSwapchainImageReadySemaphore] ++
      (if env.getSwapchainImageReadySemaphore = .null then
        [Event.submit2 .m_presentQueue
          [{ waitSemaphoreInfos := [], commandBufferInfos := [],
             signalSemaphoreInfos :=
               [{ semaphore := r4.m_swapchainImageReadySemaphore, value := 0,
                  stageMask := .eAllCommands, deviceIndex := 0 }] }]]
       else [])
    let (r5, evFinal) ← r4.buildFinalFrame env frt
    let evEnd := [Event.releaseSwapchainImage, Event.endFrame .m_presentQueue]
    pure ({ r5 with m_frameIndex := add64 r5.m_frameIndex 1 },
      evUpdate ++ evWait ++ evResetGraphics ++ evResetTransfer ++ evRender ++ evAcquire ++
        evFinal ++ evEnd)

/-! ## Construction of the renderer -/

/-- The state the constructor `Renderer::Renderer` leaves behind, as far as the frame
protocol uses it: `createLogicalDevice` allocates `MAX_QUEUED_FRAMES` pools of 10 command
buffers for each of the two queue families and creates the semaphores,
`createMainRenderTargets` computes the resolution per device and creates one render target
per device, and the renderer creates its own presentation-target-ready semaphore when the
collaborator offers none. -/
def Renderer.create (options : Options) (devices : List PhysicalDevice)
    (graphicsIndex transferIndex : Nat) (resolutionPerEye : Extent2D)
    (collaboratorReadySemaphore : Semaphore) : Renderer :=
  let count := options.simulatedPhysicalDeviceCount.getD (wrap32 devices.length)
  { options := options,
    m_resolutionPerPhysicalDevice :=
      if count = 4 then { resolutionPerEye with height := resolutionPerEye.height / 2 }
      else resolutionPerEye,
    m_vkPhysicalDevices := devices,
    m_deviceMaskAll :=
      if options.simulatedPhysicalDeviceCount.isSome then 1 else wrap32 (wrap32 (1 <<< count) + (2 ^ 32 - 1)),
    m_deviceMaskFirst := 1,
    m_graphicsQueueFamily :=
      (VulkanQueueFamily.new graphicsIndex).allocateCommandBuffers MAX_QUEUED_FRAMES 10,
    m_transferQueueFamily :=
      (VulkanQueueFamily.new transferIndex).allocateCommandBuffers MAX_QUEUED_FRAMES 10,
    m_frameIndex := 0,
    m_renderDoneSemaphores := (List.range count).map Semaphore.renderDone,
    m_swapchainImageReadySemaphore :=
      if collaboratorReadySemaphore = .null then .swapchainImageReady else .null,
    m_runtimeMillis := 0,
    m_lastPredictedDisplayTimeNanos := none,
    m_renderTargets := (List.range count).map RenderTarget.new }

/-! ## Well-formed states -/

/-- The state of a queue family as `createLogicalDevice` allocates it
(`allocateCommandBuffers(device, MAX_QUEUED_FRAMES, 10)`), with the cursors anywhere in
range. -/
def VulkanQueueFamily.WF (q : VulkanQueueFamily) : Prop :=
  q.m_poolsAndBuffers =
    ((VulkanQueueFamily.new q.m_queueFamilyIndex).allocateCommandBuffers
      MAX_QUEUED_FRAMES 10).m_poolsAndBuffers ∧
  q.m_currentCommandPoolIndex < MAX_QUEUED_FRAMES ∧
  q.m_nextCommandBufferIndex ≤ 10

instance (q : VulkanQueueFamily) : Decidable q.WF := by
  unfold VulkanQueueFamily.WF; infer_instance

/-- The states of the renderer the constructor can produce and `nextFrame` maintains: 2 or 4
devices, a 64-bit frame index, one render target and one render-done semaphore per device,
both queue families allocated, with different family indices (`createQueueFamilies` looks
for the transfer family among the families other than the graphics family), and the own
presentation-target-ready semaphore either created or null. -/
def Renderer.WF (r : Renderer) : Prop :=
  (r.getPhysicalDeviceCount = 2 ∨ r.getPhysicalDeviceCount = 4) ∧
  r.m_frameIndex < 2 ^ 64 ∧
  r.m_renderTargets = (List.range r.getPhysicalDeviceCount).map RenderTarget.new ∧
  r.m_renderDoneSemaphores = (List.range r.getPhysicalDeviceCount).map Semaphore.renderDone ∧
  r.m_graphicsQueueFamily.WF ∧ r.m_transferQueueFamily.WF ∧
  r.m_graphicsQueueFamily.m_queueFamilyIndex ≠ r.m_transferQueueFamily.m_queueFamilyIndex ∧
  (r.m_swapchainImageReadySemaphore = .null ∨
    r.m_swapchainImageReadySemaphore = .swapchainImageReady)

instance (r : Renderer) : Decidable r.WF := by
  unfold Renderer.WF; infer_instance

/-- A handle of the presentation collaborator: null or external, never one of the
renderer's own semaphores. -/
def Semaphore.isCollaborator : Semaphore → Bool
  | .null => true
  | .external _ => true
  | _ => false

/-- An image handle of the presentation collaborator: null or external, never an image of
a render target. -/
def Image.isCollaborator : Image → Bool
  | .null => true
  | .external _ => true
  | _ => false

/-- The answers of the collaborator name its own objects: semaphores and images it hands
out are not the renderer's, and the colour image is not null. -/
def FrameEnv.WF (env : FrameEnv) : Prop :=
  env.getSwapchainImageReadySemaphore.isCollaborator = true ∧
  env.getFrameReadySemaphore.isCollaborator = true ∧
  env.acquireSwapchainImages.colorImage.isCollaborator = true ∧
  env.acquireSwapchainImages.depthImage.isCollaborator = true

instance (env : FrameEnv) : Decidable env.WF := by
  unfold FrameEnv.WF; infer_instance

/-- The concatenation `E i ++ E (i + 1) ++ ...` of the contributions of `n` successive
loop iterations. -/
def eventsFrom {α : Type} (E : Nat → List α) : Nat → Nat → List α
  | 0, _ => []
  | n + 1, i => E i ++ eventsFrom E n (i + 1)

/-! ## What a rendered frame records, in closed form -/

/-- The image of the given aspect that device `devIdx` renders to in the current frame. -/
def Renderer.rtImage (r : Renderer) (devIdx : Nat) (aspect : ImageAspect) : Image :=
  .renderTarget devIdx aspect (r.m_frameIndex % MAX_QUEUED_FRAMES)

/-- The command buffer the `k`-th call of `nextCommandBuffer` on the graphics family
returns, counted from the state `r`. -/
def Renderer.graphicsCmdBuffer (r : Renderer) (k : Nat) : CommandBuffer :=
  { queueFamilyIndex := r.m_graphicsQueueFamily.m_queueFamilyIndex,
    poolIndex := r.m_graphicsQueueFamily.m_currentCommandPoolIndex,
    bufferIndex := r.m_graphicsQueueFamily.m_nextCommandBufferIndex + k }

/-- The rectangle `getDeviceViewport` returns for 2 or 4 devices. -/
def Renderer.deviceViewportOf (r : Renderer) (devIdx : Nat) : Rect2Df :=
  if r.getPhysicalDeviceCount = 2 then { x := 0, y := 0, width := 1, height := 1 }
  else if devIdx < 2 then { x := 0, y := 0, width := 1, height := 1 / 2 }
  else { x := 0, y := 1 / 2, width := 1, height := 1 / 2 }

/-- The source queue family of the barriers recorded before drawing. -/
def Renderer.srcQueueFamilyIndex (r : Renderer) : Nat :=
  if r.m_frameIndex < MAX_QUEUED_FRAMES then r.m_graphicsQueueFamily.getIndex
  else r.m_transferQueueFamily.getIndex

/-- The draw call of device `devIdx`. -/
def Renderer.deviceDraw (env : FrameEnv) (r : Renderer) (devIdx : Nat) : SceneRenderCall :=
  { physicalDeviceIndex := devIdx,
    colorDest := ⟨r.rtImage devIdx .eColor⟩, depthDest := ⟨r.rtImage devIdx .eDepth⟩,
    renderArea := r.m_resolutionPerPhysicalDevice,
    viewport := r.drawViewport (env.getCurrentFrameProjection (r.deviceEye devIdx)).relativeViewport
      (r.deviceViewportOf devIdx),
    view := env.getCurrentFrameView (r.deviceEye devIdx),
    projection := (env.getCurrentFrameProjection (r.deviceEye devIdx)).projectionMatrix }

/-- The events of the iteration of the loop of `renderFrame` for device `devIdx`, when the
loop starts in state `r`. -/
def Renderer.deviceEvents (env : FrameEnv) (r : Renderer) (devIdx : Nat) : List Event :=
  [Event.record (r.graphicsCmdBuffer devIdx) .begin] ++
  (if devIdx = 0 ∧ r.m_frameIndex = 0 then [Event.record (r.graphicsCmdBuffer devIdx) .resetQueryPool]
   else []) ++
  [Event.record (r.graphicsCmdBuffer devIdx)
      (.pushDurationBegin (.renderDevice devIdx) r.m_frameIndex devIdx),
   Event.record (r.graphicsCmdBuffer devIdx)
      (.pipelineBarrier2 (r.transferToGraphicsQueueFamilyBarriersEnd r.srcQueueFamilyIndex
        (r.rtImage devIdx .eColor) (r.rtImage devIdx .eDepth))),
   Event.getCurrentFrameProjection (r.deviceEye devIdx),
   Event.getCurrentFrameView (r.deviceEye devIdx),
   Event.record (r.graphicsCmdBuffer devIdx) (.sceneRender (r.deviceDraw env devIdx)),
   Event.record (r.graphicsCmdBuffer devIdx)
      (.pipelineBarrier2 (r.graphicsToTransferQueueFamilyBarriersBegin
        (r.rtImage devIdx .eColor) (r.rtImage devIdx .eDepth))),
   Event.record (r.graphicsCmdBuffer devIdx) .pushDurationEnd,
   Event.record (r.graphicsCmdBuffer devIdx) .finish]

/-- The entry of `semaphoreWaits` written for device `devIdx` (when the frame waits). -/
def Renderer.deviceWait (r : Renderer) (devIdx : Nat) : SemaphoreSubmitInfo :=
  { semaphore := .frameIndexSem, value := r.waitValue, stageMask := .eAllCommands,
    deviceIndex := devIdx }

/-- The entry of `graphicsCmdBufferSubmits` written for device `devIdx`. -/
def Renderer.deviceCmdBufferSubmit (r : Renderer) (devIdx : Nat) : CommandBufferSubmitInfo :=
  { commandBuffer := some (r.graphicsCmdBuffer devIdx),
    deviceMask := r.deviceIndexToDeviceMask devIdx }

/-- The entry of `semaphoreSignals` written for device `devIdx`. -/
def Renderer.deviceSignal (devIdx : Nat) : SemaphoreSubmitInfo :=
  { semaphore := .renderDone devIdx, value := 0, stageMask := .eAllCommands, deviceIndex := devIdx }

/-- The entry of `graphicsSubmits` appended for device `devIdx`. -/
def Renderer.deviceSubmitRef (r : Renderer) (devIdx : Nat) : SubmitInfo2Ref :=
  { waitSemaphoreInfoCount := if MAX_QUEUED_FRAMES ≤ r.m_frameIndex then 1 else 0,
    pWaitSemaphoreInfos := if MAX_QUEUED_FRAMES ≤ r.m_frameIndex then devIdx else 0,
    pCommandBufferInfos := devIdx, pSignalSemaphoreInfos := devIdx }

/-- The submission of device `devIdx` as the render queue receives it. -/
def Renderer.deviceSubmit (r : Renderer) (devIdx : Nat) : SubmitInfo2 :=
  { waitSemaphoreInfos := if MAX_QUEUED_FRAMES ≤ r.m_frameIndex then [r.deviceWait devIdx] else [],
    commandBufferInfos := [r.deviceCmdBufferSubmit devIdx],
    signalSemaphoreInfos := [Renderer.deviceSignal devIdx] }

/-- The renderer after `i` iterations of the loop of `renderFrame` started in state `r`. -/
def Renderer.afterDevices (r : Renderer) (i : Nat) : Renderer :=
  { r with m_graphicsQueueFamily :=
      { r.m_graphicsQueueFamily with
        m_nextCommandBufferIndex := r.m_graphicsQueueFamily.m_nextCommandBufferIndex + i } }

/-- The local vectors of `renderFrame` after `i` iterations of its loop. -/
def Renderer.renderLocals (r : Renderer) (i : Nat) : RenderFrameLocals :=
  { graphicsSubmits := (List.range i).map r.deviceSubmitRef,
    semaphoreWaits :=
      (if MAX_QUEUED_FRAMES ≤ r.m_frameIndex then (List.range i).map r.deviceWait else []) ++
      List.replicate (2 * r.getPhysicalDeviceCount -
        (if MAX_QUEUED_FRAMES ≤ r.m_frameIndex then i else 0)) SemaphoreSubmitInfo.default,
    nextSemWaitIdx := if MAX_QUEUED_FRAMES ≤ r.m_frameIndex then i else 0,
    graphicsCmdBufferSubmits := (List.range i).map r.deviceCmdBufferSubmit ++
      List.replicate (r.getPhysicalDeviceCount - i) CommandBufferSubmitInfo.default,
    semaphoreSignals := (List.range i).map Renderer.deviceSignal ++
      List.replicate (r.getPhysicalDeviceCount - i) SemaphoreSubmitInfo.default }

/-- The events of `renderFrame` started in state `r`. -/
def Renderer.renderFrameEvents (env : FrameEnv) (r : Renderer) : List Event :=
  eventsFrom (r.deviceEvents env) r.getPhysicalDeviceCount 0 ++
  [Event.submit2 .m_renderQueue ((List.range r.getPhysicalDeviceCount).map r.deviceSubmit)]

/-- The copy region of device `devIdx` for the given aspect (`buildFinalFrame`). -/
def Renderer.copyRegion (r : Renderer) (aspect : ImageAspect) (devIdx : Nat) : ImageCopy2 :=
  { srcAspect := aspect, srcOffset := ⟨0, 0, 0⟩, dstAspect := aspect,
    dstOffset :=
      { x := wrap32 ((devIdx % 2) * r.m_resolutionPerPhysicalDevice.width),
        y := wrap32 ((devIdx / 2) * r.m_resolutionPerPhysicalDevice.height), z := 0 },
    extentWidth := r.m_resolutionPerPhysicalDevice.width,
    extentHeight := r.m_resolutionPerPhysicalDevice.height, extentDepth := 1 }

/-- The entries of `copyImageInfos` appended for device `devIdx`. -/
def Renderer.deviceCopies (r : Renderer) (p_renderTargets : FrameRenderTargets) (devIdx : Nat) :
    List CopyImageInfo2 :=
  [{ srcImage := r.rtImage devIdx .eColor, srcImageLayout := .eTransferSrcOptimal,
     dstImage := p_renderTargets.colorImage, dstImageLayout := .eTransferDstOptimal,
     region := r.copyRegion .eColor devIdx }] ++
  (if p_renderTargets.depthImage ≠ .null then
    [{ srcImage := r.rtImage devIdx .eDepth, srcImageLayout := .eTransferSrcOptimal,
       dstImage := p_renderTargets.depthImage, dstImageLayout := .eTransferDstOptimal,
       region := r.copyRegion .eDepth devIdx }]
   else [])

/-- The semaphore the composite submission waits on for the presentation target. -/
def Renderer.readySemaphore (env : FrameEnv) (r : Renderer) : Semaphore :=
  if r.m_swapchainImageReadySemaphore ≠ .null then r.m_swapchainImageReadySemaphore
  else env.getSwapchainImageReadySemaphore

/-- The entry of `renderDoneWaits` written for device `devIdx`. -/
def Renderer.renderDoneWait (devIdx : Nat) : SemaphoreSubmitInfo :=
  { semaphore := .renderDone devIdx, value := 0, stageMask := .eAllCommands, deviceIndex := 0 }

/-- The local vectors of `buildFinalFrame` after `i` iterations of its loop. -/
def Renderer.buildLocals (env : FrameEnv) (p_renderTargets : FrameRenderTargets) (r : Renderer)
    (i : Nat) : BuildFinalFrameLocals :=
  { renderDoneWaits := (List.range i).map Renderer.renderDoneWait ++
      List.replicate (r.getPhysicalDeviceCount - i) SemaphoreSubmitInfo.default ++
      [{ semaphore := r.readySemaphore env, value := 0, stageMask := .eAllCommands, deviceIndex := 0 }],
    graphicsToTransferQueueFamilyBarriersEnd :=
      [destinationToTransferDst p_renderTargets.colorImage .eColor] ++
      (if p_renderTargets.depthImage ≠ .null then
        [destinationToTransferDst p_renderTargets.depthImage .eDepth] else []) ++
      eventsFrom (fun k => r.compositeAcquireBarriers (r.rtImage k .eColor) (r.rtImage k .eDepth)) i 0,
    transferToGraphicsQueueFamilyBarriersBegin :=
      [r.destinationToRelease p_renderTargets.colorImage .eColor
        p_renderTargets.desiredColorImageLayoutOnRelease] ++
      (if p_renderTargets.depthImage ≠ .null then
        [r.destinationToRelease p_renderTargets.depthImage .eDepth
          p_renderTargets.desiredDepthImageLayoutOnRelease] else []) ++
      eventsFrom (fun k => r.compositeReleaseBarriers (r.rtImage k .eColor) (r.rtImage k .eDepth)) i 0,
    colorRegions := (List.range i).map (r.copyRegion .eColor) ++
      List.replicate (r.getPhysicalDeviceCount - i) ImageCopy2.default,
    depthRegions :=
      if p_renderTargets.depthImage ≠ .null then
        (List.range i).map (r.copyRegion .eDepth) ++
          List.replicate (r.getPhysicalDeviceCount - i) ImageCopy2.default
      else List.replicate r.getPhysicalDeviceCount ImageCopy2.default,
    copyImageInfos := eventsFrom (r.deviceCopies p_renderTargets) i 0 }

/-- The command buffer the next call of `nextCommandBuffer` on the transfer family returns. -/
def Renderer.transferCmdBuffer (r : Renderer) : CommandBuffer :=
  { queueFamilyIndex := r.m_transferQueueFamily.m_queueFamilyIndex,
    poolIndex := r.m_transferQueueFamily.m_currentCommandPoolIndex,
    bufferIndex := r.m_transferQueueFamily.m_nextCommandBufferIndex }

/-- The entry `transferDoneSignalAndWait` of `buildFinalFrame`. -/
def Renderer.transferDoneSignalAndWait (r : Renderer) : SemaphoreSubmitInfo :=
  { semaphore := .transferDone, value := add64 r.m_frameIndex 1, stageMask := .eAllCommands,
    deviceIndex := 0 }

/-- The composite submission on the transfer queue. -/
def Renderer.transferSubmit (env : FrameEnv) (p_renderTargets : FrameRenderTargets) (r : Renderer) :
    SubmitInfo2 :=
  { waitSemaphoreInfos :=
      (r.buildLocals env p_renderTargets r.getPhysicalDeviceCount).renderDoneWaits,
    commandBufferInfos :=
      [{ commandBuffer := some r.transferCmdBuffer, deviceMask := r.getDeviceMaskFirst }],
    signalSemaphoreInfos := [r.transferDoneSignalAndWait] }

/-- The vector `finalSignals` of `buildFinalFrame`. -/
def Renderer.finalSignals (env : FrameEnv) (r : Renderer) : List SemaphoreSubmitInfo :=
  [{ semaphore := .frameIndexSem, value := add64 r.m_frameIndex 1, stageMask := .eAllCommands,
     deviceIndex := 0 }] ++
  (if env.getFrameReadySemaphore ≠ .null then
    [{ semaphore := env.getFrameReadySemaphore, value := 0, stageMask := .eAllCommands,
       deviceIndex := 0 }]
   else [])

/-- The finalize submission on the present queue. -/
def Renderer.finalSubmit (env : FrameEnv) (r : Renderer) : SubmitInfo2 :=
  { waitSemaphoreInfos := [r.transferDoneSignalAndWait],
    commandBufferInfos :=
      [{ commandBuffer := some (r.graphicsCmdBuffer 0), deviceMask := r.getDeviceMaskFirst }],
    signalSemaphoreInfos := r.finalSignals env }

/-- The vector `finalBarriers` of `buildFinalFrame`. -/
def Renderer.finalBarriers (p_renderTargets : FrameRenderTargets) (r : Renderer) :
    List ImageMemoryBarrier2 :=
  [r.destinationToRelease p_renderTargets.colorImage .eColor
    p_renderTargets.desiredColorImageLayoutOnRelease] ++
  (if p_renderTargets.depthImage ≠ .null then
    [r.destinationToRelease p_renderTargets.depthImage .eDepth
      p_renderTargets.desiredDepthImageLayoutOnRelease] else [])

/-- The events of `buildFinalFrame` started in state `r`. -/
def Renderer.buildFinalFrameEvents (env : FrameEnv) (p_renderTargets : FrameRenderTargets)
    (r : Renderer) : List Event :=
  (if r.m_swapchainImageReadySemaphore ≠ .null then []
   else [Event.getSwapchainImageReadySemaphore]) ++
  [Event.record r.transferCmdBuffer .begin,
   Event.record r.transferCmdBuffer (.pushDurationBegin .transfer r.m_frameIndex 0),
   Event.record r.transferCmdBuffer (.pipelineBarrier2
     (r.buildLocals env p_renderTargets r.getPhysicalDeviceCount).graphicsToTransferQueueFamilyBarriersEnd)] ++
  copyEvents r.transferCmdBuffer r.m_frameIndex 0
    (r.buildLocals env p_renderTargets r.getPhysicalDeviceCount).copyImageInfos ++
  [Event.record r.transferCmdBuffer (.pipelineBarrier2
     (r.buildLocals env p_renderTargets r.getPhysicalDeviceCount).transferToGraphicsQueueFamilyBarriersBegin),
   Event.record r.transferCmdBuffer .pushDurationEnd,
   Event.record r.transferCmdBuffer .finish] ++
  [Event.submit2 .m_transferQueue [r.transferSubmit env p_renderTargets]] ++
  [Event.record (r.graphicsCmdBuffer 0) .begin,
   Event.record (r.graphicsCmdBuffer 0) (.pipelineBarrier2 (r.finalBarriers p_renderTargets)),
   Event.record (r.graphicsCmdBuffer 0) (.pushInstant .finalize r.m_frameIndex 0),
   Event.record (r.graphicsCmdBuffer 0) .finish] ++
  [Event.getFrameReadySemaphore, Event.submit2 .m_presentQueue [r.finalSubmit env]]

/-- The renderer after `buildFinalFrame` started in state `r`: one command buffer taken
from each queue family. -/
def Renderer.afterBuildFinalFrame (r : Renderer) : Renderer :=
  { r with
    m_transferQueueFamily :=
      { r.m_transferQueueFamily with
        m_nextCommandBufferIndex := r.m_transferQueueFamily.m_nextCommandBufferIndex + 1 },
    m_graphicsQueueFamily :=
      { r.m_graphicsQueueFamily with
        m_nextCommandBufferIndex := r.m_graphicsQueueFamily.m_nextCommandBufferIndex + 1 } }

/-- The value `deltaMillis` of `nextFrame` for the given predicted display time. -/
def Renderer.deltaMillis (r : Renderer) (predicted : Nat) : ℚ :=
  match r.m_lastPredictedDisplayTimeNanos with
  | some last => (1 / 1000000) * (sub64 predicted last : ℚ)
  | none => 0

/-- The renderer at the call of `renderFrame` in `nextFrame`: times updated, both command
pools rotated and reset. -/
def Renderer.frameStart (r : Renderer) (predicted : Nat) : Renderer :=
  { r with
    m_lastPredictedDisplayTimeNanos := some predicted,
    m_runtimeMillis := r.m_runtimeMillis + r.deltaMillis predicted,
    m_graphicsQueueFamily :=
      { r.m_graphicsQueueFamily with
        m_currentCommandPoolIndex :=
          (r.m_graphicsQueueFamily.m_currentCommandPoolIndex + 1) % MAX_QUEUED_FRAMES,
        m_nextCommandBufferIndex := 0 },
    m_transferQueueFamily :=
      { r.m_transferQueueFamily with
        m_currentCommandPoolIndex :=
          (r.m_transferQueueFamily.m_currentCommandPoolIndex + 1) % MAX_QUEUED_FRAMES,
        m_nextCommandBufferIndex := 0 } }

/-- The host wait of a rendered frame. -/
def Renderer.waitEvents (r : Renderer) : List Event :=
  if MAX_QUEUED_FRAMES ≤ r.m_frameIndex then
    [Event.waitSemaphores .frameIndexSem r.waitValue UINT64_MAX]
  else []

/-- The acquisition of the presentation target in `nextFrame`, with the signal-only
submission made when the collaborator has no ready semaphore. -/
def Renderer.acquireEvents (env : FrameEnv) (r : Renderer) : List Event :=
  [Event.acquireSwapchainImages, Event.getSwapchainImageReadySemaphore] ++
  (if env.getSwapchainImageReadySemaphore = .null then
    [Event.submit2 .m_presentQueue
      [{ waitSemaphoreInfos := [], commandBufferInfos := [],
         signalSemaphoreInfos :=
           [{ semaphore := r.m_swapchainImageReadySemaphore, value := 0,
              stageMask := .eAllCommands, deviceIndex := 0 }] }]]
   else [])

/-- The events of a rendered call of `nextFrame` in state `r`. -/
def Renderer.nextFrameEvents (env : FrameEnv) (r : Renderer) (predicted : Nat) : List Event :=
  [Event.beginFrame, Event.sceneUpdate (r.deltaMillis predicted),
   Event.userInterfaceUpdate (r.deltaMillis predicted)] ++
  r.waitEvents ++
  [Event.resetCommandPool r.m_graphicsQueueFamily.m_queueFamilyIndex
     ((r.m_graphicsQueueFamily.m_currentCommandPoolIndex + 1) % MAX_QUEUED_FRAMES),
   Event.resetCommandPool r.m_transferQueueFamily.m_queueFamilyIndex
     ((r.m_transferQueueFamily.m_currentCommandPoolIndex + 1) % MAX_QUEUED_FRAMES)] ++
  (r.frameStart predicted).renderFrameEvents env ++
  r.acquireEvents env ++
  ((r.frameStart predicted).afterDevices r.getPhysicalDeviceCount).buildFinalFrameEvents env
    env.acquireSwapchainImages ++
  [Event.releaseSwapchainImage, Event.endFrame .m_presentQueue]

/-- The renderer after a rendered call of `nextFrame` in state `r`. -/
def Renderer.afterFrame (r : Renderer) (predicted : Nat) : Renderer :=
  { ((r.frameStart predicted).afterDevices r.getPhysicalDeviceCount).afterBuildFinalFrame with
    m_frameIndex := add64 r.m_frameIndex 1 }

/-! ## Observations on traces -/

/-- The event is a host-side semaphore wait. -/
def Event.isWait : Event → Bool
  | .waitSemaphores _ _ _ => true
  | _ => false

/-- The event records a command into a command buffer. -/
def Event.isRecord : Event → Bool
  | .record _ _ => true
  | _ => false

/-- The command an event records into the command buffer `cb`, if any. -/
def Event.commandFor (cb : CommandBuffer) : Event → Option Cmd
  | .record cb' c => if cb' = cb then some c else none
  | _ => none

/-- The commands a trace records into the command buffer `cb`, in order. -/
def commandsOf (cb : CommandBuffer) (tr : List Event) : List Cmd :=
  tr.filterMap (Event.commandFor cb)

/-- The values a submission signals on the semaphore `sem`. -/
def SubmitInfo2.signalValues (sem : Semaphore) (s : SubmitInfo2) : List Nat :=
  (s.signalSemaphoreInfos.filter fun i => decide (i.semaphore = sem)).map fun i => i.value

/-- The values an event signals on the semaphore `sem` (queue submissions only). -/
def Event.signalValues (sem : Semaphore) : Event → List Nat
  | .submit2 _ submits => submits.flatMap (SubmitInfo2.signalValues sem)
  | _ => []

/-- The values the submissions of a trace signal on the semaphore `sem`, in order. -/
def signalValues (sem : Semaphore) (tr : List Event) : List Nat :=
  tr.flatMap (Event.signalValues sem)

/-- The commands recorded for device `devIdx` by the loop of `renderFrame` started in state
`r`. -/
def Renderer.deviceCommands (env : FrameEnv) (r : Renderer) (devIdx : Nat) : List Cmd :=
  [Cmd.begin] ++
  (if devIdx = 0 ∧ r.m_frameIndex = 0 then [Cmd.resetQueryPool] else []) ++
  [Cmd.pushDurationBegin (.renderDevice devIdx) r.m_frameIndex devIdx,
   Cmd.pipelineBarrier2 (r.transferToGraphicsQueueFamilyBarriersEnd r.srcQueueFamilyIndex
     (r.rtImage devIdx .eColor) (r.rtImage devIdx .eDepth)),
   Cmd.sceneRender (r.deviceDraw env devIdx),
   Cmd.pipelineBarrier2 (r.graphicsToTransferQueueFamilyBarriersBegin
     (r.rtImage devIdx .eColor) (r.rtImage devIdx .eDepth)),
   Cmd.pushDurationEnd, Cmd.finish]

/-- In the trace `tr`, `bc` and `bd` are the two barriers of the barrier command recorded
directly before the draw of device `devIdx`, in the command buffer of that draw, and no
barrier command precedes it in that command buffer. -/
def PreDrawBarriers (tr : List Event) (devIdx : Nat) (bc bd : ImageMemoryBarrier2) : Prop :=
  ∃ cb pre call post,
    commandsOf cb tr = pre ++ [Cmd.pipelineBarrier2 [bc, bd], Cmd.sceneRender call] ++ post ∧
    call.physicalDeviceIndex = devIdx ∧
    call.colorDest.image = bc.image ∧ call.depthDest.image = bd.image ∧
    ∀ c ∈ pre, ∀ bs, c ≠ Cmd.pipelineBarrier2 bs

/-- A collaborator that reports the given predicted display time, offers no semaphores of
its own and hands out a colour image only; used to instantiate statements at concrete
inputs. -/
def FrameEnv.sample (predicted : Option Nat) : FrameEnv :=
  { beginFrame := { predictedDisplayTimeNanos := predicted },
    getCurrentFrameProjection := fun _ =>
      { projectionMatrix := { entries := [] },
        relativeViewport := { x := 0, y := 0, width := 1, height := 1 } },
    getCurrentFrameView := fun _ => { entries := [] },
    acquireSwapchainImages :=
      { colorImage := .external 0, desiredColorImageLayoutOnRelease := .other 0,
        depthImage := .null, desiredDepthImageLayoutOnRelease := .eUndefined },
    getSwapchainImageReadySemaphore := .null,
    getFrameReadySemaphore := .null,
    waitResult := .eSuccess }

/-- The renderer as constructed for `devices` real devices (graphics family 0, transfer
family 1, resolution 100 x 80 per eye, no collaborator semaphore), advanced to the frame
index `frameIndex`; used to instantiate statements at concrete inputs. -/
def Renderer.sampleAt (devices frameIndex : Nat) : Renderer :=
  { Renderer.create { simulatedPhysicalDeviceCount := none, swapEyes := false }
      ((List.range devices).map fun i => { handle := i }) 0 1 { width := 100, height := 80 } .null
    with m_frameIndex := frameIndex }

/-! ## The pacer as a transition system -/

/-- The renderer together with the pacer semaphore `m_frameIndexSem` as the device sees it. -/
structure PacerSystem where
  renderer : Renderer
  /-- The call of `nextFrame` in progress, if any, with its result: its host wait has
  returned, its submissions have not reached the queues yet. -/
  pending : Option (Renderer × List Event)
  /-- The counter value of `m_frameIndexSem`. -/
  value : Nat
  /-- The values that the submissions made so far signal on `m_frameIndexSem`. -/
  signalled : List Nat

/-- The initial system: a well-formed renderer at frame 0, no call in progress, the
semaphore at its initial value 0 and nothing submitted. -/
def PacerSystem.isInitial (s : PacerSystem) : Prop :=
  s.renderer.WF ∧ s.renderer.m_frameIndex = 0 ∧ s.pending = none ∧ s.value = 0 ∧ s.signalled = []

/-- The steps of the system.  The CPU starts a call of `nextFrame`: the call is the one the
code makes in the current state, and each host wait on the pacer in it returns only when the
counter has reached the awaited value; the frame counter is assumed not to wrap.  The CPU
finishes the call: the submissions of the call reach the queues and the renderer state is
updated.  The device raises the counter to a value that a submitted finalize signals. -/
inductive PacerStep : PacerSystem → PacerSystem → Prop where
  | cpuBegin (s : PacerSystem) (env : FrameEnv) (r' : Renderer) (tr : List Event) :
      s.pending = none → env.WF → s.renderer.m_frameIndex + 1 < 2 ^ 64 →
      s.renderer.nextFrame env = .ok (r', tr) →
      (∀ v t, Event.waitSemaphores .frameIndexSem v t ∈ tr → v ≤ s.value) →
      PacerStep s { s with pending := some (r', tr) }
  | cpuSubmit (s : PacerSystem) (r' : Renderer) (tr : List Event) :
      s.pending = some (r', tr) →
      PacerStep s
        { renderer := r', pending := none, value := s.value,
          signalled := s.signalled ++ signalValues .frameIndexSem tr }
  | gpuSignal (s : PacerSystem) (v : Nat) :
      s.value < v → v ∈ s.signalled →
      PacerStep s { s with value := v }

/-- The number of frames in flight: the submitted pacer signals the counter has not
reached yet. -/
def PacerSystem.inFlight (s : PacerSystem) : Nat :=
  (s.signalled.filter fun v => decide (s.value < v)).length

/-- The renderer with the given options and device count and otherwise empty state, used to
instantiate statements at concrete inputs. -/
def Renderer.sample (simulated : Option Nat) (swap : Bool) (devices : Nat) : Renderer :=
  { options := { simulatedPhysicalDeviceCount := simulated, swapEyes := swap },
    m_resolutionPerPhysicalDevice := { width := 0, height := 0 },
    m_vkPhysicalDevices := (List.range devices).map fun i => { handle := i },
    m_deviceMaskAll := 0, m_deviceMaskFirst := 1,
    m_graphicsQueueFamily := VulkanQueueFamily.new 0,
    m_transferQueueFamily := VulkanQueueFamily.new 1,
    m_frameIndex := 0, m_renderDoneSemaphores := [],
    m_swapchainImageReadySemaphore := .null,
    m_runtimeMillis := 0, m_lastPredictedDisplayTimeNanos := none,
    m_renderTargets := [] }

/-- The invariant of the pacer system. -/
def PacerSystem.Inv (s : PacerSystem) : Prop :=
  s.renderer.WF ∧ s.value ≤ s.renderer.m_frameIndex ∧
  s.signalled = List.range' 1 s.renderer.m_frameIndex ∧
  s.renderer.m_frameIndex ≤ s.value + MAX_QUEUED_FRAMES ∧
  ∀ r' tr, s.pending = some (r', tr) →
    (r' = s.renderer ∧ signalValues .frameIndexSem tr = []) ∨
    (r'.WF ∧ r'.m_frameIndex = s.renderer.m_frameIndex + 1 ∧
      signalValues .frameIndexSem tr = [s.renderer.m_frameIndex + 1] ∧
      s.renderer.m_frameIndex + 1 ≤ s.value + MAX_QUEUED_FRAMES)

/-! ## Ownership of the render-target images -/

/-- The barriers on `image` in a recorded barrier command, each with the command buffer it is
recorded into. -/
def Event.barriersOn (image : Image) : Event → List (CommandBuffer × ImageMemoryBarrier2)
  | .record cb (.pipelineBarrier2 bs) =>
    (bs.filter fun b => decide (b.image = image)).map fun b => (cb, b)
  | _ => []

/-- The barriers a trace records on `image`, in order of recording. -/
def barriersOn (image : Image) (tr : List Event) : List (CommandBuffer × ImageMemoryBarrier2) :=
  tr.flatMap (Event.barriersOn image)

/-- The barrier `x` is the release and `y` the matching acquire of one queue-family
ownership transfer: source and destination family differ, both barriers name the same
source and destination, `x` is recorded on a command buffer of the source family and `y` on
one of the destination family. -/
def isMatchingPair (x y : CommandBuffer × ImageMemoryBarrier2) : Bool :=
  decide (x.2.srcQueueFamilyIndex ≠ x.2.dstQueueFamilyIndex ∧
    x.1.queueFamilyIndex = x.2.srcQueueFamilyIndex ∧
    y.1.queueFamilyIndex = y.2.dstQueueFamilyIndex ∧
    x.2.srcQueueFamilyIndex = y.2.srcQueueFamilyIndex ∧
    x.2.dstQueueFamilyIndex = y.2.dstQueueFamilyIndex)

/-- The ownership transitions of an image, from the barriers recorded on it: a release
directly followed by its matching acquire counts once. -/
def transitions : List (CommandBuffer × ImageMemoryBarrier2) → List ImageMemoryBarrier2
  | [] => []
  | [x] => [x.2]
  | x :: y :: rest =>
    if isMatchingPair x y then x.2 :: transitions rest else x.2 :: transitions (y :: rest)

/-- Every transition of the list goes from the family `cur` to the family `next`, the
following one back, and so on. -/
def ownershipChain : Nat → Nat → List ImageMemoryBarrier2 → Prop
  | _, _, [] => True
  | cur, next, b :: rest =>
    b.srcQueueFamilyIndex = cur ∧ b.dstQueueFamilyIndex = next ∧ ownershipChain next cur rest

/-- Successive calls of `nextFrame` (the loop of `App::run`), one per element of `envs`. -/
def Renderer.run : List FrameEnv → Renderer → Except Fatal (Renderer × List Event)
  | [], r => .ok (r, [])
  | env :: envs, r =>
    match r.nextFrame env with
    | .error e => .error e
    | .ok (r1, tr1) =>
      match Renderer.run envs r1 with
      | .error e => .error e
      | .ok (r2, tr2) => .ok (r2, tr1 ++ tr2)

/-- The barriers a rendered frame started in state `r` records on `image` for device `dev`:
before the draw, after the draw, and at the begin and the end of the composite step. -/
def Renderer.frameBarriersOn (r : Renderer) (p dev : Nat) (image : Image) :
    List (CommandBuffer × ImageMemoryBarrier2) :=
  (((r.frameStart p).transferToGraphicsQueueFamilyBarriersEnd (r.frameStart p).srcQueueFamilyIndex
      ((r.frameStart p).rtImage dev .eColor) ((r.frameStart p).rtImage dev .eDepth)).filter
    fun b => decide (b.image = image)).map (fun b => ((r.frameStart p).graphicsCmdBuffer dev, b)) ++
  (((r.frameStart p).graphicsToTransferQueueFamilyBarriersBegin
      ((r.frameStart p).rtImage dev .eColor) ((r.frameStart p).rtImage dev .eDepth)).filter
    fun b => decide (b.image = image)).map (fun b => ((r.frameStart p).graphicsCmdBuffer dev, b)) ++
  (((r.frameStart p).compositeAcquireBarriers
      ((r.frameStart p).rtImage dev .eColor) ((r.frameStart p).rtImage dev .eDepth)).filter
    fun b => decide (b.image = image)).map (fun b => ((r.frameStart p).transferCmdBuffer, b)) ++
  (((r.frameStart p).compositeReleaseBarriers
      ((r.frameStart p).rtImage dev .eColor) ((r.frameStart p).rtImage dev .eDepth)).filter
    fun b => decide (b.image = image)).map (fun b => ((r.frameStart p).transferCmdBuffer, b))

/-- The barriers a run records on `image` for device `dev`, frame by frame. -/
def Renderer.runBarriersOn (dev : Nat) (image : Image) :
    List FrameEnv → Renderer → List (CommandBuffer × ImageMemoryBarrier2)
  | [], _ => []
  | env :: envs, r =>
    match env.beginFrame.predictedDisplayTimeNanos with
    | none => Renderer.runBarriersOn dev image envs r
    | some p =>
      (if dev < r.getPhysicalDeviceCount then r.frameBarriersOn p dev image else []) ++
      Renderer.runBarriersOn dev image envs (r.afterFrame p)

/-- The barrier `x` goes from the queue family `src` to the queue family `dst` and is
recorded on a command buffer of the family `fam`. -/
def BarrierShape (fam src dst : Nat) (x : CommandBuffer × ImageMemoryBarrier2) : Prop :=
  x.1.queueFamilyIndex = fam ∧ x.2.srcQueueFamilyIndex = src ∧ x.2.dstQueueFamilyIndex = dst

/-- The barriers of zero or more frames that reuse a slot (graphics family `g`, transfer
family `t`): per frame an acquire transfer-to-graphics and a release graphics-to-transfer on
a graphics command buffer, then an acquire graphics-to-transfer and a release
transfer-to-graphics on a transfer command buffer. -/
inductive LaterBlocks (g t : Nat) : List (CommandBuffer × ImageMemoryBarrier2) → Prop where
  | nil : LaterBlocks g t []
  | block (P R A R2 : CommandBuffer × ImageMemoryBarrier2)
      (rest : List (CommandBuffer × ImageMemoryBarrier2)) :
      BarrierShape g t g P → BarrierShape g g t R → BarrierShape t g t A →
      BarrierShape t t g R2 → LaterBlocks g t rest →
      LaterBlocks g t (P :: R :: A :: R2 :: rest)

/-! ## Sequences of calls -/

/-- The number of calls of `nextFrame`, among those answered by `envs`, in which the
collaborator supplied a predicted display time. -/
def renderedCalls (envs : List FrameEnv) : Nat :=
  (envs.filter fun env => env.beginFrame.predictedDisplayTimeNanos.isSome).length

/-! ## Calls on a queue family -/

/-- A call on a `VulkanQueueFamily` after its allocation. -/
inductive QueueCall where
  | reset
  | nextCommandBuffer
  deriving DecidableEq, Repr

/-- The state of the queue family after one call that returns. -/
def VulkanQueueFamily.call (q : VulkanQueueFamily) : QueueCall → Except Fatal VulkanQueueFamily
  | .reset =>
    match q.reset with
    | .error e => .error e
    | .ok (q1, _) => .ok q1
  | .nextCommandBuffer =>
    match q.nextCommandBuffer with
    | .error e => .error e
    | .ok (q1, _) => .ok q1

/-- The state of the queue family after a sequence of calls. -/
def VulkanQueueFamily.calls : List QueueCall → VulkanQueueFamily → Except Fatal VulkanQueueFamily
  | [], q => .ok q
  | c :: cs, q =>
    match q.call c with
    | .error e => .error e
    | .ok q1 => VulkanQueueFamily.calls cs q1

/-- The first `n` of a series of calls of `nextCommandBuffer`, with the units they return. -/
def VulkanQueueFamily.nextCommandBuffers :
    Nat → VulkanQueueFamily → Except Fatal (VulkanQueueFamily × List CommandBuffer)
  | 0, q => .ok (q, [])
  | n + 1, q =>
    match q.nextCommandBuffer with
    | .error e => .error e
    | .ok (q1, b) =>
      match VulkanQueueFamily.nextCommandBuffers n q1 with
      | .error e => .error e
      | .ok (q2, bs) => .ok (q2, b :: bs)

/-! ## The rotation of the command pools -/

/-- The event is a reset of a command pool. -/
def Event.isReset : Event → Bool
  | .resetCommandPool _ _ => true
  | _ => false

/-- The rotation of the command pools of both queue families is in step with the frame
counter: the pool that the next `reset` makes current is the one at position
`m_frameIndex % MAX_QUEUED_FRAMES`. -/
def Renderer.PoolsInStep (r : Renderer) : Prop :=
  (r.m_graphicsQueueFamily.m_currentCommandPoolIndex + 1) % MAX_QUEUED_FRAMES =
    r.m_frameIndex % MAX_QUEUED_FRAMES ∧
  (r.m_transferQueueFamily.m_currentCommandPoolIndex + 1) % MAX_QUEUED_FRAMES =
    r.m_frameIndex % MAX_QUEUED_FRAMES

instance (r : Renderer) : Decidable r.PoolsInStep := by
  unfold Renderer.PoolsInStep; infer_instance

/-! ## Device selection and device queries -/

/-- The struct `vk::PhysicalDeviceGroupProperties`: the number of devices of the group and
the array holding their handles. -/
structure PhysicalDeviceGroupProperties where
  physicalDeviceCount : Nat
  physicalDevices : List PhysicalDevice
  deriving DecidableEq, Repr

/-- The loop over the device groups in `Renderer::fillPhysicalDevices`, from `devGroupIndex`
on with `n` iterations left: the value of `selectedDeviceGroupIndex` after it. -/
def Renderer.selectDeviceGroup (options : Options)
    (physicalDeviceGroupProps : List PhysicalDeviceGroupProperties) :
    Nat → Nat → Option Nat → Except Fatal (Option Nat)
  | 0, _, selectedDeviceGroupIndex => .ok selectedDeviceGroupIndex
  | n + 1, devGroupIndex, selectedDeviceGroupIndex =>
    match physicalDeviceGroupProps.get? devGroupIndex with
    | none => .error .outOfBounds
    | some groupProps =>
      Renderer.selectDeviceGroup options physicalDeviceGroupProps n (devGroupIndex + 1)
        (if selectedDeviceGroupIndex.isNone ∧
            (groupProps.physicalDeviceCount = 2 ∨ groupProps.physicalDeviceCount = 4 ∨
              options.simulatedPhysicalDeviceCount.isSome) then
          some devGroupIndex
         else selectedDeviceGroupIndex)

/-- The method `Renderer::fillPhysicalDevices`: the value it gives `m_vkPhysicalDevices`,
for the device groups the instance enumerates. -/
def Renderer.fillPhysicalDevices (options : Options)
    (physicalDeviceGroupProps : List PhysicalDeviceGroupProperties) :
    Except Fatal (List PhysicalDevice) :=
  if physicalDeviceGroupProps.isEmpty then .error .noDeviceGroups
  else
    match Renderer.selectDeviceGroup options physicalDeviceGroupProps
        physicalDeviceGroupProps.length 0 options.devGroupIndex with
    | .error e => .error e
    | .ok none => .error .noCompatibleDeviceGroup
    | .ok (some selectedDeviceGroupIndex) =>
      if ¬ (selectedDeviceGroupIndex < physicalDeviceGroupProps.length) then
        .error (.invalidDeviceGroupIndex selectedDeviceGroupIndex)
      else
        match physicalDeviceGroupProps.get? selectedDeviceGroupIndex with
        | none => .error .outOfBounds
        | some devGroup => .ok (devGroup.physicalDevices.take devGroup.physicalDeviceCount)

/-- The call `std::swap(v[0], v[i])` on a `std::vector`. -/
def vectorSwapFront {α : Type} (v : List α) (i : Nat) : Except Fatal (List α) :=
  match v.get? 0, v.get? i with
  | some a, some b => .ok ((v.set 0 b).set i a)
  | _, _ => .error .outOfBounds

/-- The method `Renderer::updateMainPhysicalDevice`: the new value of `m_vkPhysicalDevices`,
for the answer `mainPhysicalDeviceIndex` of the collaborator's `queryMainPhysicalDevice`.
The call passes `&m_vkPhysicalDevices.front()`, an access to the first element. -/
def Renderer.updateMainPhysicalDevice (options : Options) (mainPhysicalDeviceIndex : Option Nat)
    (m_vkPhysicalDevices : List PhysicalDevice) : Except Fatal (List PhysicalDevice) :=
  if m_vkPhysicalDevices.isEmpty then .error .outOfBounds
  else
    match mainPhysicalDeviceIndex with
    | none => .ok m_vkPhysicalDevices
    | some index =>
      match (if index ≠ 0 then vectorSwapFront m_vkPhysicalDevices index
             else .ok m_vkPhysicalDevices) with
      | .error e => .error e
      | .ok devices =>
        if options.simulatedPhysicalDeviceCount.isSome then .ok (devices.take 1)
        else .ok devices

/-- The method `Renderer::getPhysicalDevice`. -/
def Renderer.getPhysicalDevice (r : Renderer) (p_index : Nat) : Except Fatal PhysicalDevice :=
  if r.options.simulatedPhysicalDeviceCount.isSome then vectorGet r.m_vkPhysicalDevices 0
  else vectorGet r.m_vkPhysicalDevices p_index

/-- The struct `vk::MemoryType`; the property flags are a bit mask. -/
structure MemoryType where
  propertyFlags : Nat
  heapIndex : Nat
  deriving DecidableEq, Repr

/-- The struct `vk::PhysicalDeviceMemoryProperties`, as far as it is read: the number of
memory types and the array holding them. -/
structure PhysicalDeviceMemoryProperties where
  memoryTypeCount : Nat
  memoryTypes : List MemoryType
  deriving DecidableEq, Repr

/-- The loop of `Renderer::queryCompatibleMemoryTypeIndex` over the memory types, from `i` on
with `n` iterations left and the current `candidate`.  The test `(1 << i) & filter` is
evaluated in 32 bits. -/
def memoryTypeScan (memProps : PhysicalDeviceMemoryProperties) (p_propertyFlags : Nat)
    (p_filterMemTypeBits : Option Nat) : Nat → Nat → Option Nat → Except Fatal (Option Nat)
  | 0, _, candidate => .ok candidate
  | n + 1, i, candidate =>
    if p_filterMemTypeBits.isNone ∨ wrap32 (1 <<< i) &&& p_filterMemTypeBits.getD 0 ≠ 0 then
      match memProps.memoryTypes.get? i with
      | none => .error .outOfBounds
      | some memoryType =>
        if memoryType.propertyFlags = p_propertyFlags then .ok (some i)
        else if memoryType.propertyFlags &&& p_propertyFlags = p_propertyFlags then
          memoryTypeScan memProps p_propertyFlags p_filterMemTypeBits n (i + 1) (some i)
        else memoryTypeScan memProps p_propertyFlags p_filterMemTypeBits n (i + 1) candidate
    else memoryTypeScan memProps p_propertyFlags p_filterMemTypeBits n (i + 1) candidate

/-- The method `Renderer::queryCompatibleMemoryTypeIndex`; `getMemoryProperties` is the
Vulkan query of the memory properties of a physical device. -/
def Renderer.queryCompatibleMemoryTypeIndex (r : Renderer)
    (getMemoryProperties : PhysicalDevice → PhysicalDeviceMemoryProperties)
    (p_physicalDeviceIndex p_propertyFlags : Nat) (p_filterMemTypeBits : Option Nat) :
    Except Fatal (Option Nat) :=
  match vectorGet r.m_vkPhysicalDevices
      (if r.options.simulatedPhysicalDeviceCount.isSome then 0 else p_physicalDeviceIndex) with
  | .error e => .error e
  | .ok device =>
    memoryTypeScan (getMemoryProperties device) p_propertyFlags p_filterMemTypeBits
      (getMemoryProperties device).memoryTypeCount 0 none

/-- The bitwise OR of `deviceIndexToDeviceMask(i)` over all `i < n`. -/
def Renderer.deviceMaskUnion (r : Renderer) (n : Nat) : Nat :=
  (List.range n).foldl (fun acc i => acc ||| r.deviceIndexToDeviceMask i) 0

/-- The renderer as constructed in simulated mode for the simulated count `count` on one real
device (graphics family 0, transfer family 1, resolution 100 x 80 per eye, no collaborator
semaphore), advanced to the frame index `frameIndex`; used to instantiate statements at
concrete inputs. -/
def Renderer.simulatedAt (count frameIndex : Nat) : Renderer :=
  { Renderer.create { simulatedPhysicalDeviceCount := some count, swapEyes := false }
      [{ handle := 0 }] 0 1 { width := 100, height := 80 } .null
    with m_frameIndex := frameIndex }

/-! ## Queue families -/

/-- The struct `vk::QueueFamilyProperties`, as far as it is read; the queue flags are a bit
mask. -/
structure QueueFamilyProperties where
  queueFlags : Nat
  queueCount : Nat
  deriving DecidableEq, Repr

/-- The bit `vk::QueueFlagBits::eGraphics`. -/
def QueueFlagBits.eGraphics : Nat := 1

/-- The bit `vk::QueueFlagBits::eTransfer`. -/
def QueueFlagBits.eTransfer : Nat := 4

/-- The test `queueFlags & vk::QueueFlagBits::eGraphics`. -/
def QueueFamilyProperties.hasGraphics (p : QueueFamilyProperties) : Bool :=
  decide (p.queueFlags &&& QueueFlagBits.eGraphics ≠ 0)

/-- The test `queueFlags & vk::QueueFlagBits::eTransfer`. -/
def QueueFamilyProperties.hasTransfer (p : QueueFamilyProperties) : Bool :=
  decide (p.queueFlags &&& QueueFlagBits.eTransfer ≠ 0)

/-- The call `std::find_if` on a vector, for a predicate that may look at the position of
the element it is given (its address): the position of the first element from position `i`
on that satisfies the predicate, and the position past the last element if there is none. -/
def findIfFrom {α : Type} (p : Nat → α → Bool) : List α → Nat → Nat
  | [], i => i
  | x :: xs, i => if p i x then i else findIfFrom p xs (i + 1)

/-- The loop over the devices after the first in `Renderer::createQueueFamilies`, for the
family indices `g` and `t` selected on the first device, from `devIdx` on. -/
def Renderer.checkQueueFamilies
    (getQueueFamilyProperties : PhysicalDevice → List QueueFamilyProperties) (g t : Nat) :
    List PhysicalDevice → Nat → Except Fatal Unit
  | [], _ => .ok ()
  | device :: rest, devIdx =>
    if ¬ (g < (getQueueFamilyProperties device).length) then .error (.graphicsFamilyMissing devIdx)
    else
      match (getQueueFamilyProperties device).get? g with
      | none => .error .outOfBounds
      | some graphicsProps =>
        if ¬ graphicsProps.hasGraphics then .error (.graphicsBitMissing devIdx)
        else if ¬ (t < (getQueueFamilyProperties device).length) then
          .error (.transferFamilyMissing devIdx)
        else
          match (getQueueFamilyProperties device).get? t with
          | none => .error .outOfBounds
          | some transferProps =>
            if ¬ transferProps.hasTransfer then .error (.transferBitMissing devIdx)
            else Renderer.checkQueueFamilies getQueueFamilyProperties g t rest (devIdx + 1)

/-- The method `Renderer::createQueueFamilies`: the two queue families it creates, for the
device list of the selected group; `getQueueFamilyProperties` is the Vulkan query of the
queue families of a physical device. -/
def Renderer.createQueueFamilies
    (getQueueFamilyProperties : PhysicalDevice → List QueueFamilyProperties)
    (m_vkPhysicalDevices : List PhysicalDevice) :
    Except Fatal (VulkanQueueFamily × VulkanQueueFamily) :=
  match m_vkPhysicalDevices with
  | [] => .error .outOfBounds
  | first :: others =>
    let queueFamilyProps := getQueueFamilyProperties first
    let graphicsQueueIt := findIfFrom
      (fun _ p_props => p_props.hasGraphics && decide (2 ≤ p_props.queueCount)) queueFamilyProps 0
    if graphicsQueueIt = queueFamilyProps.length then .error .noGraphicsQueue
    else
      let transferQueueIt := findIfFrom
        (fun i p_props => decide (graphicsQueueIt ≠ i) && p_props.hasTransfer) queueFamilyProps 0
      if transferQueueIt = queueFamilyProps.length then .error .noTransferQueue
      else
        let m_graphicsQueueFamily := VulkanQueueFamily.new (wrap32 graphicsQueueIt)
        let m_transferQueueFamily := VulkanQueueFamily.new (wrap32 transferQueueIt)
        match Renderer.checkQueueFamilies getQueueFamilyProperties
            m_graphicsQueueFamily.getIndex m_transferQueueFamily.getIndex others 1 with
        | .error e => .error e
        | .ok _ => .ok (m_graphicsQueueFamily, m_transferQueueFamily)

/-- The condition of the specification on the queue families of a device group: on the first
device, `g` is the lowest index of a family with the graphics bit and at least 2 queues and
`t` is the lowest index other than `g` of a family with the transfer bit; every other device
has a family with the graphics bit at index `g` and one with the transfer bit at index `t`. -/
def QueueFamiliesAccepted
    (getQueueFamilyProperties : PhysicalDevice → List QueueFamilyProperties)
    (first : PhysicalDevice) (others : List PhysicalDevice) (g t : Nat) : Prop :=
  (∃ p, (getQueueFamilyProperties first).get? g = some p ∧ p.hasGraphics = true ∧
    2 ≤ p.queueCount) ∧
  (∀ j p, j < g → (getQueueFamilyProperties first).get? j = some p →
    ¬ (p.hasGraphics = true ∧ 2 ≤ p.queueCount)) ∧
  t ≠ g ∧
  (∃ p, (getQueueFamilyProperties first).get? t = some p ∧ p.hasTransfer = true) ∧
  (∀ j p, j < t → j ≠ g → (getQueueFamilyProperties first).get? j = some p →
    ¬ p.hasTransfer = true) ∧
  ∀ device ∈ others,
    (∃ p, (getQueueFamilyProperties device).get? g = some p ∧ p.hasGraphics = true) ∧
    (∃ p, (getQueueFamilyProperties device).get? t = some p ∧ p.hasTransfer = true)

/-! ## The copy regions of the composite step -/

/-- The colour copy an event records, if it records one. -/
def Event.colorCopy : Event → Option CopyImageInfo2
  | .record _ (.copyImage2 info) => if info.region.dstAspect = .eColor then some info else none
  | _ => none

/-- The colour copies a trace records, in order. -/
def colorCopies (tr : List Event) : List CopyImageInfo2 :=
  tr.filterMap Event.colorCopy

/-- The pixel `(px, py)` of the destination image lies in the region of the copy. -/
def ImageCopy2.coversDst (c : ImageCopy2) (px py : Nat) : Prop :=
  c.dstOffset.x ≤ px ∧ px < c.dstOffset.x + c.extentWidth ∧
  c.dstOffset.y ≤ py ∧ py < c.dstOffset.y + c.extentHeight

instance (c : ImageCopy2) (px py : Nat) : Decidable (c.coversDst px py) := by
  unfold ImageCopy2.coversDst; infer_instance

/-- The colour copy of device `devIdx` in `buildFinalFrame`. -/
def Renderer.colorCopyOf (r : Renderer) (p_renderTargets : FrameRenderTargets) (devIdx : Nat) :
    CopyImageInfo2 :=
  { srcImage := r.rtImage devIdx .eColor, srcImageLayout := .eTransferSrcOptimal,
    dstImage := p_renderTargets.colorImage, dstImageLayout := .eTransferDstOptimal,
    region := r.copyRegion .eColor devIdx }

/-- The renderer as constructed for `devices` real devices and the resolution
`width` x `height` per eye (graphics family 0, transfer family 1, no collaborator semaphore);
used to instantiate statements at concrete inputs. -/
def Renderer.sampleWith (devices width height : Nat) : Renderer :=
  Renderer.create { simulatedPhysicalDeviceCount := none, swapEyes := false }
    ((List.range devices).map fun i => { handle := i }) 0 1 { width := width, height := height }
    .null

/-- The resolution per device `Renderer::createMainRenderTargets` computes from the resolution
per eye the collaborator reports: the height is halved, in unsigned integers, for 4 devices. -/
def Renderer.resolutionPerPhysicalDevice (count : Nat) (resolutionPerEye : Extent2D) : Extent2D :=
  if count = 4 then { resolutionPerEye with height := resolutionPerEye.height / 2 }
  else resolutionPerEye

/-- The regions of the colour copies a trace records, in order. -/
def colorRegions (tr : List Event) : List ImageCopy2 :=
  (colorCopies tr).map fun info => info.region

/-! ## Options: the arguments of `--windowed` -/

/-- What a call of `std::stoi` yields: the value, in the range of `int`, or one of the two
exceptions the function throws. -/
inductive StoiResult where
  | value (v : Int)
  | invalid_argument
  | out_of_range
  deriving DecidableEq, Repr

/-- The conversion `static_cast<uint32_t>` of an `int32_t`. -/
def castUint32 (v : Int) : Nat := (v % 2 ^ 32).toNat

/-- The function `parseUint2Option` of `Options.cpp`, with `std::stoi` as a parameter: the
returned optional pair and the value `p_index` has afterwards.  The elements of `p_args` are
read with `operator[]`; a read outside the vector ends the run.  The handler catches
`std::invalid_argument` only. -/
def parseUint2Option (stoi : String → StoiResult) (p_args : List String) (p_index : Nat)
    (p_required : Bool) : Except Fatal (Option (Nat × Nat) × Nat) :=
  if p_required ∧ ¬ (wrap32 (p_index + 2) < p_args.length) then .error .missingArguments
  else
    match p_args[wrap32 (p_index + 1)]? with
    | none => .error .outOfBounds
    | some first =>
      match stoi first with
      | .out_of_range => .error .uncaughtException
      | .invalid_argument => if p_required then .error .invalidValue else .ok (none, p_index)
      | .value x =>
        match p_args[wrap32 (p_index + 2)]? with
        | none => .error .outOfBounds
        | some second =>
          match stoi second with
          | .out_of_range => .error .uncaughtException
          | .invalid_argument =>
            if p_required then .error .invalidValue else .ok (none, p_index)
          | .value y =>
            if p_required ∧ ¬ (0 ≤ x ∧ 0 ≤ y) then .error .valuesMustBePositive
            else if 0 ≤ x ∨ 0 ≤ y then
              .ok (some (castUint32 x, castUint32 y), wrap32 (p_index + 2))
            else .ok (none, p_index)

/-- The branch of the loop of `Options::Options` for `-w` and `--windowed`, entered with
`p_args[index]` being that argument: the value of `windowClientAreaSize` and the index the
loop continues with after its `++index`. -/
def Options.windowed (stoi : String → StoiResult) (p_args : List String) (index : Nat) :
    Except Fatal (Extent2D × Nat) :=
  match parseUint2Option stoi p_args index false with
  | .error e => .error e
  | .ok (v, index) =>
    .ok ({ width := match v with
                    | some value => value.1
                    | none => 1280,
           height := match v with
                     | some value => value.2
                     | none => 720 }, wrap32 (index + 1))

/-! ## The viewports of the draw calls -/

/-- The draw call an event records, if it records one. -/
def Event.drawCall : Event → Option SceneRenderCall
  | .record _ (.sceneRender call) => some call
  | _ => none

/-- The draw calls a trace records, in order. -/
def drawCalls (tr : List Event) : List SceneRenderCall :=
  tr.filterMap Event.drawCall

/-- The answers of `FrameEnv.sample` with the given relative viewport for both eyes. -/
def FrameEnv.sampleViewport (relativeViewport : Rect2Df) : FrameEnv :=
  { FrameEnv.sample (some 0) with
    getCurrentFrameProjection := fun _ =>
      { projectionMatrix := { entries := [] }, relativeViewport := relativeViewport } }

/-! ## The submit calls of a frame -/

/-- The submissions of the event, if it is a submit call on the given queue. -/
def Event.submitsOn (queue : Queue) : Event → Option (List SubmitInfo2)
  | .submit2 q submits => if q = queue then some submits else none
  | _ => none

/-- The submit calls on the given queue in a trace, in order. -/
def submitsOn (queue : Queue) (tr : List Event) : List (List SubmitInfo2) :=
  tr.filterMap (Event.submitsOn queue)

/-- The submissions of an event, if it is a submit call. -/
def Event.submissions : Event → List SubmitInfo2
  | .submit2 _ submits => submits
  | _ => []

/-- All submissions of the submit calls of a trace, in order. -/
def submissions (tr : List Event) : List SubmitInfo2 :=
  tr.flatMap Event.submissions

/-- The semaphores the submissions of a trace wait on, one entry per wait. -/
def waitedSemaphores (tr : List Event) : List Semaphore :=
  (submissions tr).flatMap fun s => s.waitSemaphoreInfos.map fun i => i.semaphore

/-- The semaphores the submissions of a trace signal, one entry per signal. -/
def signalledSemaphores (tr : List Event) : List Semaphore :=
  (submissions tr).flatMap fun s => s.signalSemaphoreInfos.map fun i => i.semaphore

/-! ## The order of the actions of a frame -/

/-- The actions of `nextFrame` on the outside world other than recording commands and
querying the collaborator: the frame calls on the collaborator, the updates, the host wait,
the pool resets and the submit calls. -/
def Event.isAction : Event → Bool
  | .beginFrame => true
  | .endFrame _ => true
  | .sceneUpdate _ => true
  | .userInterfaceUpdate _ => true
  | .acquireSwapchainImages => true
  | .releaseSwapchainImage => true
  | .waitSemaphores _ _ _ => true
  | .resetCommandPool _ _ => true
  | .submit2 _ _ => true
  | .getCurrentFrameProjection _ => false
  | .getCurrentFrameView _ => false
  | .getSwapchainImageReadySemaphore => false
  | .getFrameReadySemaphore => false
  | .record _ _ => false

/-! ## The choice of the memory type, as the specification words it -/

/-- The memory type `i` is admissible: the filter is absent or its bit `i` is set. -/
def MemoryTypeAdmissible (filter : Option Nat) (i : Nat) : Prop :=
  match filter with
  | none => True
  | some bits => bits.testBit i = true

instance (filter : Option Nat) (i : Nat) : Decidable (MemoryTypeAdmissible filter i) := by
  cases filter with
  | none => exact isTrue trivial
  | some bits => exact inferInstanceAs (Decidable (bits.testBit i = true))

/-- The memory type `i` exists, is admissible and has exactly the requested flags. -/
def MemoryTypeExact (memProps : PhysicalDeviceMemoryProperties) (flags : Nat)
    (filter : Option Nat) (i : Nat) : Prop :=
  i < memProps.memoryTypeCount ∧ MemoryTypeAdmissible filter i ∧
  ∃ memoryType, memProps.memoryTypes[i]? = some memoryType ∧ memoryType.propertyFlags = flags

/-- The memory type `i` exists, is admissible and has all requested flags. -/
def MemoryTypeSuperset (memProps : PhysicalDeviceMemoryProperties) (flags : Nat)
    (filter : Option Nat) (i : Nat) : Prop :=
  i < memProps.memoryTypeCount ∧ MemoryTypeAdmissible filter i ∧
  ∃ memoryType, memProps.memoryTypes[i]? = some memoryType ∧
    memoryType.propertyFlags &&& flags = flags

/-- Memory properties with five memory types, of the flags 3, 1, 7, 1 and 5; used to
instantiate statements at concrete inputs. -/
def PhysicalDeviceMemoryProperties.sample : PhysicalDeviceMemoryProperties :=
  { memoryTypeCount := 5, memoryTypes := [⟨3, 0⟩, ⟨1, 0⟩, ⟨7, 0⟩, ⟨1, 1⟩, ⟨5, 1⟩] }

/-! ## The units taken from the command pools -/

/-- The command buffer whose recording the event begins, if it belongs to the given queue
family. -/
def Event.begunOn (queueFamilyIndex : Nat) : Event → Option CommandBuffer
  | .record cb .begin => if cb.queueFamilyIndex = queueFamilyIndex then some cb else none
  | _ => none

/-- The command buffers of the given queue family whose recording a trace begins, in order:
the units the trace takes from the pools of the family. -/
def begunOn (queueFamilyIndex : Nat) (tr : List Event) : List CommandBuffer :=
  tr.filterMap (Event.begunOn queueFamilyIndex)

/-! ## The values waited for on a semaphore -/

/-- The values a submission waits for on the semaphore `sem`. -/
def SubmitInfo2.waitValues (sem : Semaphore) (s : SubmitInfo2) : List Nat :=
  (s.waitSemaphoreInfos.filter fun i => decide (i.semaphore = sem)).map fun i => i.value

/-- The values the submissions of a trace wait for on the semaphore `sem`, in order. -/
def waitValues (sem : Semaphore) (tr : List Event) : List Nat :=
  (submissions tr).flatMap (SubmitInfo2.waitValues sem)

/-- The value an event waits for on the semaphore `sem` on the host. -/
def Event.hostWaitValues (sem : Semaphore) : Event → List Nat
  | .waitSemaphores semaphore value _ => if semaphore = sem then [value] else []
  | _ => []

/-- The values the host waits of a trace wait for on the semaphore `sem`, in order. -/
def hostWaitValues (sem : Semaphore) (tr : List Event) : List Nat :=
  tr.flatMap (Event.hostWaitValues sem)

/-! # Properties -/

/-! ## The device viewport partition -/

theorem getDeviceViewport_two (r : Renderer) (h : r.getPhysicalDeviceCount = 2) (i : Nat)
    (hi : i < 2) : r.getDeviceViewport i = .ok { x := 0, y := 0, width := 1, height := 1 } := by
  simp [Renderer.getDeviceViewport, h, hi]

theorem getDeviceViewport_four (r : Renderer) (h : r.getPhysicalDeviceCount = 4) (i : Nat)
    (hi : i < 4) :
    r.getDeviceViewport i =
      .ok (if i < 2 then { x := 0, y := 0, width := 1, height := 1 / 2 }
           else { x := 0, y := 1 / 2, width := 1, height := 1 / 2 }) := by
  simp [Renderer.getDeviceViewport, h, hi]

theorem deviceEye_eq_cast (r : Renderer) (h : r.options.swapEyes = false) (i : Nat) :
    r.deviceEye i = Eye.cast (i % 2) := by
  simp [Renderer.deviceEye, h]

theorem deviceEye_add_two (r : Renderer) (i : Nat) :
    r.deviceEye (i + 2) = r.deviceEye i := by
  simp [Renderer.deviceEye]

theorem deviceEye_eq_iff (r : Renderer) (i j : Nat) :
    r.deviceEye i = r.deviceEye j ↔ i % 2 = j % 2 := by
  have hi : i % 2 = 0 ∨ i % 2 = 1 := by omega
  have hj : j % 2 = 0 ∨ j % 2 = 1 := by omega
  cases h : r.options.swapEyes <;> rcases hi with hi | hi <;> rcases hj with hj | hj <;>
    simp [Renderer.deviceEye, Eye.cast, Eye.toNat, h, hi, hj]

theorem deviceEye_surjective (r : Renderer) (e : Eye) : ∃ b, b < 2 ∧ r.deviceEye b = e := by
  cases h : r.options.swapEyes <;> cases e
  · exact ⟨0, by omega, by simp [Renderer.deviceEye, Eye.cast, h]⟩
  · exact ⟨1, by omega, by simp [Renderer.deviceEye, Eye.cast, h]⟩
  · exact ⟨1, by omega, by simp [Renderer.deviceEye, Eye.cast, Eye.toNat, h]⟩
  · exact ⟨0, by omega, by simp [Renderer.deviceEye, Eye.cast, Eye.toNat, h]⟩

/-- C1: for a device count of 2 or 4, `getDeviceViewport` succeeds for every device index
below the count and, for each eye, the rectangles of the devices assigned to that eye
(`deviceEye`, which is `i mod 2` when the eyes are not swapped) cover exactly the closed
unit square and have pairwise disjoint interiors; for every other device count and every
index below it, `getDeviceViewport` ends in the fatal branch
`"{} physical devices not supported."`. -/
theorem getDeviceViewport_tiles_each_eye (r : Renderer) :
    ((r.getPhysicalDeviceCount = 2 ∨ r.getPhysicalDeviceCount = 4) →
      (r.options.swapEyes = false → ∀ i, r.deviceEye i = Eye.cast (i % 2)) ∧
      (∀ i, i < r.getPhysicalDeviceCount → ∃ vp, r.getDeviceViewport i = .ok vp) ∧
      ∀ e : Eye,
        (∀ px py : ℚ,
          (∃ i vp, i < r.getPhysicalDeviceCount ∧ r.deviceEye i = e ∧
            r.getDeviceViewport i = .ok vp ∧ vp.contains px py) ↔
          (0 ≤ px ∧ px ≤ 1 ∧ 0 ≤ py ∧ py ≤ 1)) ∧
        (∀ i j vi vj, i < r.getPhysicalDeviceCount → j < r.getPhysicalDeviceCount → i ≠ j →
          r.deviceEye i = e → r.deviceEye j = e →
          r.getDeviceViewport i = .ok vi → r.getDeviceViewport j = .ok vj →
          ∀ px py : ℚ, ¬ (vi.interior px py ∧ vj.interior px py))) ∧
    ((r.getPhysicalDeviceCount ≠ 2 ∧ r.getPhysicalDeviceCount ≠ 4) →
      ∀ i, i < r.getPhysicalDeviceCount →
        r.getDeviceViewport i = .error (.devicesNotSupported r.getPhysicalDeviceCount)) := by
  constructor
  · intro hd
    refine ⟨fun hs i => deviceEye_eq_cast r hs i, ?_, ?_⟩
    · intro i hi
      rcases hd with h | h
      · exact ⟨_, getDeviceViewport_two r h i (h ▸ hi)⟩
      · exact ⟨_, getDeviceViewport_four r h i (h ▸ hi)⟩
    · intro e
      constructor
      · intro px py
        constructor
        · rintro ⟨i, vp, hi, -, hvp, hc⟩
          rcases hd with h | h
          · rw [h] at hi
            rw [getDeviceViewport_two r h i hi] at hvp
            simp only [Except.ok.injEq] at hvp
            subst hvp
            simp only [Rect2Df.contains] at hc
            refine ⟨hc.1, by linarith [hc.2.1], hc.2.2.1, by linarith [hc.2.2.2]⟩
          · rw [h] at hi
            rw [getDeviceViewport_four r h i hi] at hvp
            simp only [Except.ok.injEq] at hvp
            subst hvp
            by_cases h2 : i < 2
            · simp only [h2, if_true, Rect2Df.contains] at hc
              refine ⟨hc.1, by linarith [hc.2.1], hc.2.2.1, by linarith [hc.2.2.2]⟩
            · simp only [h2, if_false, Rect2Df.contains] at hc
              refine ⟨hc.1, by linarith [hc.2.1], by linarith [hc.2.2.1], by linarith [hc.2.2.2]⟩
        · rintro ⟨hx0, hx1, hy0, hy1⟩
          obtain ⟨b, hb, hbe⟩ := deviceEye_surjective r e
          rcases hd with h | h
          · refine ⟨b, _, by omega, hbe, getDeviceViewport_two r h b hb, ?_⟩
            simp only [Rect2Df.contains]
            refine ⟨hx0, by linarith, hy0, by linarith⟩
          · by_cases hy : py ≤ 1 / 2
            · refine ⟨b, _, by omega, hbe, getDeviceViewport_four r h b (by omega), ?_⟩
              simp only [hb, if_true, Rect2Df.contains]
              refine ⟨hx0, by linarith, hy0, by linarith⟩
            · refine ⟨b + 2, _, by omega, (deviceEye_add_two r b).trans hbe,
                getDeviceViewport_four r h (b + 2) (by omega), ?_⟩
              have hnb : ¬ (b + 2 < 2) := by omega
              simp only [hnb, if_false, Rect2Df.contains]
              push_neg at hy
              refine ⟨hx0, by linarith, by linarith, by linarith⟩
      · intro i j vi vj hi hj hij hie hje hvi hvj px py
        rintro ⟨hin, hjn⟩
        have hpar : i % 2 = j % 2 := (deviceEye_eq_iff r i j).1 (hie.trans hje.symm)
        rcases hd with h | h
        · rw [h] at hi hj
          omega
        · rw [h] at hi hj
          rw [getDeviceViewport_four r h i hi] at hvi
          rw [getDeviceViewport_four r h j hj] at hvj
          simp only [Except.ok.injEq] at hvi hvj
          subst hvi
          subst hvj
          have hsplit : (i < 2 ∧ ¬ j < 2) ∨ (¬ i < 2 ∧ j < 2) := by omega
          rcases hsplit with ⟨ha, hb⟩ | ⟨ha, hb⟩
          · simp only [ha, hb, if_true, if_false, Rect2Df.interior] at hin hjn
            linarith [hin.2.2.2, hjn.2.2.1]
          · simp only [ha, hb, if_true, if_false, Rect2Df.interior] at hin hjn
            linarith [hin.2.2.1, hjn.2.2.2]
  · rintro ⟨h2, h4⟩ i hi
    simp [Renderer.getDeviceViewport, hi, h2, h4]

/-- C1, at concrete inputs: four devices (index 3 has a viewport, and the point
`(1/2, 3/4)` of the right eye is covered), and three devices (fatal). -/
theorem getDeviceViewport_tiles_each_eye_witness :
    (∃ vp, (Renderer.sample none false 4).getDeviceViewport 3 = .ok vp) ∧
    (∃ i vp, i < (Renderer.sample none false 4).getPhysicalDeviceCount ∧
      (Renderer.sample none false 4).deviceEye i = Eye.RIGHT ∧
      (Renderer.sample none false 4).getDeviceViewport i = .ok vp ∧ vp.contains (1 / 2) (3 / 4)) ∧
    (Renderer.sample none false 3).getDeviceViewport 1 = .error (.devicesNotSupported 3) :=
  ⟨((getDeviceViewport_tiles_each_eye (Renderer.sample none false 4)).1
      (Or.inr (by decide))).2.1 3 (by decide),
   ((((getDeviceViewport_tiles_each_eye (Renderer.sample none false 4)).1
      (Or.inr (by decide))).2.2 Eye.RIGHT).1 (1 / 2) (3 / 4)).2 (by norm_num),
   (getDeviceViewport_tiles_each_eye (Renderer.sample none false 3)).2
      ⟨by decide, by decide⟩ 1 (by decide)⟩

/-- C2: with the eye-swap flag off, in a 2-device group device 0 renders the left eye (0)
and device 1 the right eye (1), both with the rectangle `(0, 0, 1, 1)`; in a 4-device
group devices 0 and 2 render eye 0 and devices 1 and 3 render eye 1, devices 0 and 1 with
the top half `(0, 0, 1, 1/2)` and devices 2 and 3 with the bottom half
`(0, 1/2, 1, 1/2)`. -/
theorem deviceEye_and_viewport_table (r : Renderer) (hswap : r.options.swapEyes = false) :
    (r.getPhysicalDeviceCount = 2 →
      (r.deviceEye 0).toNat = 0 ∧ (r.deviceEye 1).toNat = 1 ∧
      r.getDeviceViewport 0 = .ok { x := 0, y := 0, width := 1, height := 1 } ∧
      r.getDeviceViewport 1 = .ok { x := 0, y := 0, width := 1, height := 1 }) ∧
    (r.getPhysicalDeviceCount = 4 →
      (r.deviceEye 0).toNat = 0 ∧ (r.deviceEye 2).toNat = 0 ∧
      (r.deviceEye 1).toNat = 1 ∧ (r.deviceEye 3).toNat = 1 ∧
      r.getDeviceViewport 0 = .ok { x := 0, y := 0, width := 1, height := 1 / 2 } ∧
      r.getDeviceViewport 1 = .ok { x := 0, y := 0, width := 1, height := 1 / 2 } ∧
      r.getDeviceViewport 2 = .ok { x := 0, y := 1 / 2, width := 1, height := 1 / 2 } ∧
      r.getDeviceViewport 3 = .ok { x := 0, y := 1 / 2, width := 1, height := 1 / 2 }) := by
  constructor
  · intro h
    simp [Renderer.deviceEye, Eye.cast, Eye.toNat, hswap, Renderer.getDeviceViewport, h]
  · intro h
    simp [Renderer.deviceEye, Eye.cast, Eye.toNat, hswap, Renderer.getDeviceViewport, h]

/-- C2, at a concrete 4-device renderer without eye swap. -/
theorem deviceEye_and_viewport_table_witness :
    ((Renderer.sample none false 4).deviceEye 0).toNat = 0 ∧
    ((Renderer.sample none false 4).deviceEye 2).toNat = 0 ∧
    ((Renderer.sample none false 4).deviceEye 1).toNat = 1 ∧
    ((Renderer.sample none false 4).deviceEye 3).toNat = 1 ∧
    (Renderer.sample none false 4).getDeviceViewport 0
      = .ok { x := 0, y := 0, width := 1, height := 1 / 2 } ∧
    (Renderer.sample none false 4).getDeviceViewport 1
      = .ok { x := 0, y := 0, width := 1, height := 1 / 2 } ∧
    (Renderer.sample none false 4).getDeviceViewport 2
      = .ok { x := 0, y := 1 / 2, width := 1, height := 1 / 2 } ∧
    (Renderer.sample none false 4).getDeviceViewport 3
      = .ok { x := 0, y := 1 / 2, width := 1, height := 1 / 2 } :=
  (deviceEye_and_viewport_table (Renderer.sample none false 4) rfl).2 (by decide)

/-! ## The render-target ring -/

theorem RenderTarget.new_colorResources (dev : Nat) :
    (RenderTarget.new dev).m_colorResources =
      [VulkanImageResource.create dev .eColor 0, VulkanImageResource.create dev .eColor 1,
       VulkanImageResource.create dev .eColor 2] := by
  simp [RenderTarget.new, RenderTarget.constructLoop, MAX_QUEUED_FRAMES]

theorem RenderTarget.new_depthResources (dev : Nat) :
    (RenderTarget.new dev).m_depthResources =
      [VulkanImageResource.create dev .eDepth 0, VulkanImageResource.create dev .eDepth 1,
       VulkanImageResource.create dev .eDepth 2] := by
  simp [RenderTarget.new, RenderTarget.constructLoop, MAX_QUEUED_FRAMES]

theorem RenderTarget.new_getColorResource (dev f : Nat) :
    (RenderTarget.new dev).getColorResource f =
      some (VulkanImageResource.create dev .eColor (f % MAX_QUEUED_FRAMES)) := by
  have h : f % 3 = 0 ∨ f % 3 = 1 ∨ f % 3 = 2 := by omega
  rcases h with h | h | h <;>
    simp [RenderTarget.getColorResource, RenderTarget.new_colorResources, MAX_QUEUED_FRAMES, h]

theorem RenderTarget.new_getDepthResource (dev f : Nat) :
    (RenderTarget.new dev).getDepthResource f =
      some (VulkanImageResource.create dev .eDepth (f % MAX_QUEUED_FRAMES)) := by
  have h : f % 3 = 0 ∨ f % 3 = 1 ∨ f % 3 = 2 := by omega
  rcases h with h | h | h <;>
    simp [RenderTarget.getDepthResource, RenderTarget.new_depthResources, MAX_QUEUED_FRAMES, h]

/-- C6: for the render target constructed for a device and every 64-bit frame index `f`:
the constructor created `MAX_QUEUED_FRAMES` colour and as many depth resources;
`getColorResource f` and `getDepthResource f` are the elements at position
`f mod MAX_QUEUED_FRAMES` of these (the position is in bounds), that is, the resources the
constructor created in iteration `f mod MAX_QUEUED_FRAMES`, so colour and depth share the
position; `f` and `f + MAX_QUEUED_FRAMES` select the same resources; and two different frame
indices that differ by less than `MAX_QUEUED_FRAMES` select different positions and
different resources. -/
theorem RenderTarget.getResource_ring (dev f : Nat) (_hf : f < 2 ^ 64) :
    (RenderTarget.new dev).m_colorResources.length = MAX_QUEUED_FRAMES ∧
    (RenderTarget.new dev).m_depthResources.length = MAX_QUEUED_FRAMES ∧
    f % MAX_QUEUED_FRAMES < MAX_QUEUED_FRAMES ∧
    (RenderTarget.new dev).getColorResource f =
      (RenderTarget.new dev).m_colorResources.get? (f % MAX_QUEUED_FRAMES) ∧
    (RenderTarget.new dev).getDepthResource f =
      (RenderTarget.new dev).m_depthResources.get? (f % MAX_QUEUED_FRAMES) ∧
    (RenderTarget.new dev).getColorResource f =
      some (VulkanImageResource.create dev .eColor (f % MAX_QUEUED_FRAMES)) ∧
    (RenderTarget.new dev).getDepthResource f =
      some (VulkanImageResource.create dev .eDepth (f % MAX_QUEUED_FRAMES)) ∧
    (RenderTarget.new dev).getColorResource (f + MAX_QUEUED_FRAMES) =
      (RenderTarget.new dev).getColorResource f ∧
    (RenderTarget.new dev).getDepthResource (f + MAX_QUEUED_FRAMES) =
      (RenderTarget.new dev).getDepthResource f ∧
    ∀ g, g < 2 ^ 64 → f ≠ g → f < g + MAX_QUEUED_FRAMES → g < f + MAX_QUEUED_FRAMES →
      f % MAX_QUEUED_FRAMES ≠ g % MAX_QUEUED_FRAMES ∧
      (RenderTarget.new dev).getColorResource f ≠ (RenderTarget.new dev).getColorResource g ∧
      (RenderTarget.new dev).getDepthResource f ≠ (RenderTarget.new dev).getDepthResource g := by
  refine ⟨by simp [RenderTarget.new_colorResources, MAX_QUEUED_FRAMES],
    by simp [RenderTarget.new_depthResources, MAX_QUEUED_FRAMES],
    Nat.mod_lt _ (by decide), rfl, rfl, RenderTarget.new_getColorResource dev f,
    RenderTarget.new_getDepthResource dev f, ?_, ?_, ?_⟩
  · simp [RenderTarget.new_getColorResource]
  · simp [RenderTarget.new_getDepthResource]
  · intro g _ hne h1 h2
    have hmod : f % MAX_QUEUED_FRAMES ≠ g % MAX_QUEUED_FRAMES := by
      simp only [MAX_QUEUED_FRAMES] at h1 h2 ⊢
      omega
    refine ⟨hmod, ?_, ?_⟩
    · simp [RenderTarget.new_getColorResource, VulkanImageResource.create, hmod]
    · simp [RenderTarget.new_getDepthResource, VulkanImageResource.create, hmod]

/-- C6, at device 1 and the frame indices 7 and 8. -/
theorem RenderTarget.getResource_ring_witness :
    (RenderTarget.new 1).getColorResource 7 = some (VulkanImageResource.create 1 .eColor 1) ∧
    (RenderTarget.new 1).getColorResource 7 ≠ (RenderTarget.new 1).getColorResource 8 :=
  ⟨(RenderTarget.getResource_ring 1 7 (by norm_num)).2.2.2.2.2.1,
   ((RenderTarget.getResource_ring 1 7 (by norm_num)).2.2.2.2.2.2.2.2.2 8 (by norm_num)
      (by decide) (by decide) (by decide)).2.1⟩

/-! ## Loops -/

theorem forLoop_closed {σ : Type} (body : Nat → σ → Except Fatal (σ × List Event))
    (S : Nat → σ) (E : Nat → List Event) (stop : Nat)
    (h : ∀ i, i < stop → body i (S i) = .ok (S (i + 1), E i)) :
    ∀ n i, i + n = stop → forLoop body n i (S i) = .ok (S stop, eventsFrom E n i) := by
  intro n
  induction n with
  | zero =>
    intro i hi
    simp only [Nat.add_zero] at hi
    subst hi
    rfl
  | succ n ih =>
    intro i hi
    have hlt : i < stop := by omega
    simp only [forLoop, h i hlt, ih (i + 1) (by omega), eventsFrom]

theorem eventsFrom_nil {α : Type} (n i : Nat) :
    eventsFrom (fun _ => ([] : List α)) n i = [] := by
  induction n generalizing i with
  | zero => rfl
  | succ n ih => simp [eventsFrom, ih]

theorem eventsFrom_split {α : Type} (E : Nat → List α) (n i k : Nat) (hk : k < n) :
    eventsFrom E n i = eventsFrom E k i ++ E (i + k) ++ eventsFrom E (n - k - 1) (i + k + 1) := by
  induction k generalizing n i with
  | zero =>
    obtain ⟨m, rfl⟩ : ∃ m, n = m + 1 := ⟨n - 1, by omega⟩
    simp [eventsFrom]
  | succ k ih =>
    obtain ⟨m, rfl⟩ : ∃ m, n = m + 1 := ⟨n - 1, by omega⟩
    have := ih m (i + 1) (by omega)
    simp only [eventsFrom, this, List.append_assoc]
    have e1 : i + 1 + k = i + (k + 1) := by omega
    have e2 : m - k - 1 = m + 1 - (k + 1) - 1 := by omega
    rw [e1, e2]

/-! ## Command pools -/

theorem allocated_pool (g c : Nat) (hc : c < MAX_QUEUED_FRAMES) :
    ((VulkanQueueFamily.new g).allocateCommandBuffers MAX_QUEUED_FRAMES 10).m_poolsAndBuffers.get? c =
      some { buffers := (List.range 10).map fun b =>
        { queueFamilyIndex := g, poolIndex := c, bufferIndex := b } } := by
  simp [VulkanQueueFamily.allocateCommandBuffers, VulkanQueueFamily.new, List.getElem?_map,
    List.getElem?_range hc]

theorem VulkanQueueFamily.nextCommandBuffer_ok (q : VulkanQueueFamily) (hq : q.WF)
    (hn : q.m_nextCommandBufferIndex < 10) :
    q.nextCommandBuffer =
      .ok ({ q with m_nextCommandBufferIndex := q.m_nextCommandBufferIndex + 1 },
        { queueFamilyIndex := q.m_queueFamilyIndex, poolIndex := q.m_currentCommandPoolIndex,
          bufferIndex := q.m_nextCommandBufferIndex }) := by
  obtain ⟨hp, hc, -⟩ := hq
  have hw : wrap32 (q.m_nextCommandBufferIndex + 1) = q.m_nextCommandBufferIndex + 1 := by
    unfold wrap32
    exact Nat.mod_eq_of_lt (by omega)
  simp only [VulkanQueueFamily.nextCommandBuffer, hp, allocated_pool _ _ hc, hw]
  simp [List.getElem?_map, List.getElem?_range hn]

theorem VulkanQueueFamily.reset_ok (q : VulkanQueueFamily) (hq : q.WF) :
    q.reset =
      .ok ({ q with m_currentCommandPoolIndex :=
                      (q.m_currentCommandPoolIndex + 1) % MAX_QUEUED_FRAMES,
                    m_nextCommandBufferIndex := 0 },
        [Event.resetCommandPool q.m_queueFamilyIndex
          ((q.m_currentCommandPoolIndex + 1) % MAX_QUEUED_FRAMES)]) := by
  obtain ⟨hp, hc, -⟩ := hq
  have hlen : q.m_poolsAndBuffers.length = MAX_QUEUED_FRAMES := by
    rw [hp]; simp [VulkanQueueFamily.allocateCommandBuffers]
  have h1 : wrap32 (q.m_currentCommandPoolIndex + 1) = q.m_currentCommandPoolIndex + 1 := by
    unfold wrap32
    exact Nat.mod_eq_of_lt (by simp only [MAX_QUEUED_FRAMES] at hc; omega)
  have h2 : wrap32 ((q.m_currentCommandPoolIndex + 1) % MAX_QUEUED_FRAMES) =
      (q.m_currentCommandPoolIndex + 1) % MAX_QUEUED_FRAMES := by
    unfold wrap32
    exact Nat.mod_eq_of_lt (by simp only [MAX_QUEUED_FRAMES]; omega)
  simp only [MAX_QUEUED_FRAMES] at h2 hlen
  simp [VulkanQueueFamily.reset, hlen, h1, h2, MAX_QUEUED_FRAMES]

/-! ## The closed form of `renderFrame` -/

theorem vectorGet_map_range {α : Type} (F : Nat → α) (n i : Nat) (hi : i < n) :
    vectorGet ((List.range n).map F) i = .ok (F i) := by
  simp [vectorGet, List.getElem?_map, List.getElem?_range hi]

theorem vectorSet_fill {α : Type} (pre tl : List α) (x y : α) (n i : Nat) (hpre : pre.length = i)
    (hi : i < n) :
    vectorSet (pre ++ List.replicate (n - i) x ++ tl) i y =
      .ok (pre ++ [y] ++ List.replicate (n - (i + 1)) x ++ tl) := by
  obtain ⟨m, hm⟩ : ∃ m, n - i = m + 1 := ⟨n - i - 1, by omega⟩
  have hm2 : n - (i + 1) = m := by omega
  subst hpre
  simp [vectorSet, hm, hm2, List.replicate_succ, List.set_append]

theorem range_succ_map {α : Type} (F : Nat → α) (i : Nat) :
    (List.range (i + 1)).map F = (List.range i).map F ++ [F i] := by
  simp [List.range_succ]

theorem vectorSet_fill_end {α : Type} (pre : List α) (x y : α) (n i : Nat) (hpre : pre.length = i)
    (hi : i < n) :
    vectorSet (pre ++ List.replicate (n - i) x) i y =
      .ok (pre ++ [y] ++ List.replicate (n - (i + 1)) x) := by
  have := vectorSet_fill pre [] x y n i hpre hi
  simpa using this

theorem Renderer.afterDevices_count (r : Renderer) (i : Nat) :
    (r.afterDevices i).getPhysicalDeviceCount = r.getPhysicalDeviceCount := rfl

theorem Renderer.getDeviceViewport_ok (r : Renderer)
    (hd : r.getPhysicalDeviceCount = 2 ∨ r.getPhysicalDeviceCount = 4) (i : Nat)
    (hi : i < r.getPhysicalDeviceCount) :
    r.getDeviceViewport i = .ok (r.deviceViewportOf i) := by
  rcases hd with h | h
  · simp [Renderer.getDeviceViewport, Renderer.deviceViewportOf, h, h ▸ hi]
  · simp [Renderer.getDeviceViewport, Renderer.deviceViewportOf, h, h ▸ hi]

theorem Renderer.renderDevice_closed (env : FrameEnv) (r : Renderer) (hr : r.WF) (i : Nat)
    (hi : i < r.getPhysicalDeviceCount)
    (hc : r.m_graphicsQueueFamily.m_nextCommandBufferIndex + i < 10) :
    Renderer.renderDevice env i (r.afterDevices i, r.renderLocals i) =
      .ok ((r.afterDevices (i + 1), r.renderLocals (i + 1)), r.deviceEvents env i) := by
  obtain ⟨hd, hf, htargets, hdone, hg, ht, hgt, hsem⟩ := hr
  have hq : (r.afterDevices i).m_graphicsQueueFamily.WF := by
    refine ⟨hg.1, hg.2.1, ?_⟩
    simp only [Renderer.afterDevices]; omega
  have hnext := VulkanQueueFamily.nextCommandBuffer_ok _ hq (by simp only [Renderer.afterDevices]; omega)
  have hvp := Renderer.getDeviceViewport_ok (r.afterDevices i) hd i hi
  have hrt : vectorGet (r.afterDevices i).m_renderTargets i = .ok (RenderTarget.new i) := by
    simp only [Renderer.afterDevices, htargets]
    exact vectorGet_map_range _ _ _ hi
  have hrd : vectorGet (r.afterDevices i).m_renderDoneSemaphores i = .ok (Semaphore.renderDone i) := by
    simp only [Renderer.afterDevices, hdone]
    exact vectorGet_map_range _ _ _ hi
  simp only [Renderer.renderDevice, bind, Except.bind, hrt, RenderTarget.new_getColorResource,
    RenderTarget.new_getDepthResource, Option.elim, hnext, hvp, hrd]
  have hw : wrap32 (i + 1) = i + 1 := by
    unfold wrap32
    exact Nat.mod_eq_of_lt (by omega)
  have hcb := vectorSet_fill_end ((List.range i).map r.deviceCmdBufferSubmit)
    CommandBufferSubmitInfo.default (r.deviceCmdBufferSubmit i) r.getPhysicalDeviceCount i (by simp) hi
  have hsg := vectorSet_fill_end ((List.range i).map Renderer.deviceSignal)
    SemaphoreSubmitInfo.default (Renderer.deviceSignal i) r.getPhysicalDeviceCount i (by simp) hi
  by_cases hN : MAX_QUEUED_FRAMES ≤ r.m_frameIndex
  · have hws := vectorSet_fill_end ((List.range i).map r.deviceWait)
      SemaphoreSubmitInfo.default (r.deviceWait i) (2 * r.getPhysicalDeviceCount) i (by simp) (by omega)
    have hlen : i < i + (2 * r.getPhysicalDeviceCount - i) := by omega
    have hN2 : ¬ r.m_frameIndex < MAX_QUEUED_FRAMES := by omega
    simp only [Renderer.renderLocals, hN, if_true] at hws ⊢
    simp [Renderer.afterDevices, Renderer.deviceCmdBufferSubmit,
      Renderer.graphicsCmdBuffer, Renderer.deviceSignal, Renderer.deviceWait, Renderer.deviceEvents,
      Renderer.deviceDraw, Renderer.rtImage, Renderer.srcQueueFamilyIndex, Renderer.deviceSubmitRef,
      VulkanImageResource.create, VulkanImageResource.getImage, VulkanImageResource.getImageView,
      Renderer.deviceIndexToDeviceMask, Renderer.waitValue, Renderer.deviceEye,
      Renderer.transferToGraphicsQueueFamilyBarriersEnd, Renderer.graphicsToTransferQueueFamilyBarriersBegin,
      Renderer.drawViewport, Renderer.deviceViewportOf, Renderer.getPhysicalDeviceCount,
      VulkanQueueFamily.getIndex,
      hN, hN2, hw, range_succ_map, pure, Except.pure, Nat.add_assoc] at hcb hsg hws hlen ⊢
    have hlen2 : ¬ (2 * r.options.simulatedPhysicalDeviceCount.getD (wrap32 r.m_vkPhysicalDevices.length) ≤ i) := by
      omega
    simp [hcb, hsg, hws, hlen2, hN, hN2, hw]
  · have hN2 : r.m_frameIndex < MAX_QUEUED_FRAMES := by omega
    have hlen : 0 < 2 * r.getPhysicalDeviceCount := by omega
    simp only [Renderer.renderLocals, hN, if_false] at hlen ⊢
    simp [Renderer.afterDevices, Renderer.deviceCmdBufferSubmit,
      Renderer.graphicsCmdBuffer, Renderer.deviceSignal, Renderer.deviceWait, Renderer.deviceEvents,
      Renderer.deviceDraw, Renderer.rtImage, Renderer.srcQueueFamilyIndex, Renderer.deviceSubmitRef,
      VulkanImageResource.create, VulkanImageResource.getImage, VulkanImageResource.getImageView,
      Renderer.deviceIndexToDeviceMask, Renderer.waitValue, Renderer.deviceEye,
      Renderer.transferToGraphicsQueueFamilyBarriersEnd, Renderer.graphicsToTransferQueueFamilyBarriersBegin,
      Renderer.drawViewport, Renderer.deviceViewportOf, Renderer.getPhysicalDeviceCount,
      VulkanQueueFamily.getIndex,
      hN, hN2, hw, range_succ_map, pure, Except.pure, Nat.add_assoc] at hcb hsg hlen ⊢
    have hlen2 : ¬ (r.options.simulatedPhysicalDeviceCount.getD (wrap32 r.m_vkPhysicalDevices.length) = 0) := by
      omega
    simp [hcb, hsg, hlen2, hN, hN2, hw]

theorem take_one_drop_map_range {α : Type} (F : Nat → α) (tl : List α) (n k : Nat) (hk : k < n) :
    (((List.range n).map F ++ tl).drop k).take 1 = [F k] := by
  have hlen : k < ((List.range n).map F ++ tl).length := by simp; omega
  rw [List.drop_eq_getElem_cons hlen]
  simp [List.getElem_append_left, hk]

theorem getElem?_map_range_append {α : Type} (F : Nat → α) (tl : List α) (n k : Nat) (hk : k < n) :
    ((List.range n).map F ++ tl).get? k = some (F k) := by
  simp [List.getElem?_append_left, List.getElem?_map, List.getElem?_range hk, hk]

theorem resolveAll_map (l : RenderFrameLocals) (F : SubmitInfo2Ref → SubmitInfo2)
    (xs : List SubmitInfo2Ref) (h : ∀ x ∈ xs, x.resolve l = .ok (F x)) :
    resolveAll l xs = .ok (xs.map F) := by
  induction xs with
  | nil => rfl
  | cons x xs ih =>
    simp only [resolveAll, h x (List.mem_cons_self _ _),
      ih (fun y hy => h y (List.mem_cons_of_mem _ hy)), List.map_cons]

theorem Renderer.resolve_closed (r : Renderer) (k : Nat) (hk : k < r.getPhysicalDeviceCount) :
    (r.deviceSubmitRef k).resolve (r.renderLocals r.getPhysicalDeviceCount) = .ok (r.deviceSubmit k) := by
  have h1 := getElem?_map_range_append r.deviceCmdBufferSubmit
    (List.replicate (r.getPhysicalDeviceCount - r.getPhysicalDeviceCount) CommandBufferSubmitInfo.default)
    _ k hk
  have h2 := getElem?_map_range_append Renderer.deviceSignal
    (List.replicate (r.getPhysicalDeviceCount - r.getPhysicalDeviceCount) SemaphoreSubmitInfo.default)
    _ k hk
  by_cases hN : MAX_QUEUED_FRAMES ≤ r.m_frameIndex
  · have h3 := take_one_drop_map_range r.deviceWait
      (List.replicate (2 * r.getPhysicalDeviceCount - r.getPhysicalDeviceCount) SemaphoreSubmitInfo.default)
      _ k hk
    have h4 : k + 1 ≤ r.getPhysicalDeviceCount + (2 * r.getPhysicalDeviceCount - r.getPhysicalDeviceCount) := by
      omega
    simp only [SubmitInfo2Ref.resolve, Renderer.deviceSubmitRef, Renderer.renderLocals, hN, if_true,
      h1, h2, h3, Renderer.deviceSubmit, List.length_append, List.length_map, List.length_range,
      List.length_replicate, h4]
  · simp only [SubmitInfo2Ref.resolve, Renderer.deviceSubmitRef, Renderer.renderLocals, hN, if_false,
      h1, h2, Renderer.deviceSubmit, List.take_zero, Nat.zero_add, Nat.zero_le, if_true]

theorem Renderer.afterDevices_zero (r : Renderer) : r.afterDevices 0 = r := rfl

theorem Renderer.renderFrame_closed (env : FrameEnv) (r : Renderer) (hr : r.WF)
    (hc : r.m_graphicsQueueFamily.m_nextCommandBufferIndex + r.getPhysicalDeviceCount ≤ 10) :
    r.renderFrame env = .ok (r.afterDevices r.getPhysicalDeviceCount, r.renderFrameEvents env) := by
  have hd := hr.1
  have hw : wrap32 (2 * r.getPhysicalDeviceCount) = 2 * r.getPhysicalDeviceCount := by
    unfold wrap32
    exact Nat.mod_eq_of_lt (by omega)
  have hl0 : (⟨[],
      List.replicate (wrap32 (2 * r.getPhysicalDeviceCount)) SemaphoreSubmitInfo.default, 0,
      List.replicate r.getPhysicalDeviceCount CommandBufferSubmitInfo.default,
      List.replicate r.getPhysicalDeviceCount SemaphoreSubmitInfo.default⟩ :
      RenderFrameLocals) = r.renderLocals 0 := by
    simp [Renderer.renderLocals, hw]
  have hloop := forLoop_closed (Renderer.renderDevice env)
    (fun i => (r.afterDevices i, r.renderLocals i)) (r.deviceEvents env) r.getPhysicalDeviceCount
    (fun i hi => Renderer.renderDevice_closed env r hr i hi (by omega))
    r.getPhysicalDeviceCount 0 (by omega)
  have hres := resolveAll_map (r.renderLocals r.getPhysicalDeviceCount) (fun x => r.deviceSubmit x.pCommandBufferInfos)
    ((List.range r.getPhysicalDeviceCount).map r.deviceSubmitRef) (by
      intro x hx
      obtain ⟨k, hk, rfl⟩ := List.mem_map.1 hx
      exact Renderer.resolve_closed r k (List.mem_range.1 hk))
  simp only [Renderer.afterDevices_zero] at hloop
  simp only [Renderer.renderFrame, hl0, bind, Except.bind, hloop]
  have hg : (r.renderLocals r.getPhysicalDeviceCount).graphicsSubmits =
      (List.range r.getPhysicalDeviceCount).map r.deviceSubmitRef := rfl
  simp only [hg, hres, pure, Except.pure, Renderer.renderFrameEvents, List.map_map]
  rfl

/-! ## The closed form of `buildFinalFrame` -/

theorem eventsFrom_succ_right {α : Type} (E : Nat → List α) (n i : Nat) :
    eventsFrom E (n + 1) i = eventsFrom E n i ++ E (i + n) := by
  induction n generalizing i with
  | zero => simp [eventsFrom]
  | succ n ih =>
    have := ih (i + 1)
    simp only [eventsFrom] at this ⊢
    rw [this]
    simp [Nat.add_assoc, Nat.add_comm 1 n]

theorem replicate_succ_set_last {α : Type} (x y : α) (n : Nat) :
    (List.replicate (n + 1) x).set n y = List.replicate n x ++ [y] := by
  induction n with
  | zero => rfl
  | succ n ih =>
    rw [List.replicate_succ, List.set_cons_succ, ih, List.replicate_succ, List.cons_append]

theorem Renderer.buildFinalDevice_closed (env : FrameEnv) (frt : FrameRenderTargets) (r : Renderer)
    (hr : r.WF) (i : Nat) (hi : i < r.getPhysicalDeviceCount) :
    r.buildFinalDevice frt i (r.buildLocals env frt i) = .ok (r.buildLocals env frt (i + 1), []) := by
  obtain ⟨hd, hf, htargets, hdone, hg, ht, hgt, hsem⟩ := hr
  have hrt : vectorGet r.m_renderTargets i = .ok (RenderTarget.new i) := by
    rw [htargets]
    exact vectorGet_map_range _ _ _ hi
  have hrd : vectorGet r.m_renderDoneSemaphores i = .ok (Semaphore.renderDone i) := by
    rw [hdone]
    exact vectorGet_map_range _ _ _ hi
  have hw := vectorSet_fill ((List.range i).map Renderer.renderDoneWait)
    [{ semaphore := r.readySemaphore env, value := 0, stageMask := .eAllCommands, deviceIndex := 0 }]
    SemaphoreSubmitInfo.default (Renderer.renderDoneWait i) r.getPhysicalDeviceCount i (by simp) hi
  have hcr := vectorSet_fill_end ((List.range i).map (r.copyRegion .eColor))
    ImageCopy2.default (r.copyRegion .eColor i) r.getPhysicalDeviceCount i (by simp) hi
  have hdr := vectorSet_fill_end ((List.range i).map (r.copyRegion .eDepth))
    ImageCopy2.default (r.copyRegion .eDepth i) r.getPhysicalDeviceCount i (by simp) hi
  simp only [Renderer.buildFinalDevice, bind, Except.bind, hrt, RenderTarget.new_getColorResource,
    RenderTarget.new_getDepthResource, Option.elim, hrd]
  by_cases hdepth : frt.depthImage = .null
  · simp [Renderer.buildLocals, hdepth, eventsFrom_succ_right, range_succ_map, Renderer.renderDoneWait,
      Renderer.copyRegion, Renderer.deviceCopies, Renderer.rtImage, VulkanImageResource.create,
      VulkanImageResource.getImage, pure, Except.pure] at hw hcr ⊢
    simp [hw, hcr]
  · simp [Renderer.buildLocals, hdepth, eventsFrom_succ_right, range_succ_map, Renderer.renderDoneWait,
      Renderer.copyRegion, Renderer.deviceCopies, Renderer.rtImage, VulkanImageResource.create,
      VulkanImageResource.getImage, pure, Except.pure] at hw hcr hdr ⊢
    simp [hw, hcr, hdr]

theorem Renderer.buildFinalFrame_closed (env : FrameEnv) (frt : FrameRenderTargets) (r : Renderer)
    (hr : r.WF) (hcg : r.m_graphicsQueueFamily.m_nextCommandBufferIndex < 10)
    (hct : r.m_transferQueueFamily.m_nextCommandBufferIndex < 10) :
    r.buildFinalFrame env frt = .ok (r.afterBuildFinalFrame, r.buildFinalFrameEvents env frt) := by
  have hd := hr.1
  have hw : wrap32 (r.getPhysicalDeviceCount + 1) = r.getPhysicalDeviceCount + 1 := by
    unfold wrap32
    exact Nat.mod_eq_of_lt (by omega)
  have hloop := forLoop_closed (r.buildFinalDevice frt) (r.buildLocals env frt) (fun _ => [])
    r.getPhysicalDeviceCount (fun i hi => Renderer.buildFinalDevice_closed env frt r hr i hi)
    r.getPhysicalDeviceCount 0 (by omega)
  rw [eventsFrom_nil] at hloop
  have hnt := VulkanQueueFamily.nextCommandBuffer_ok _ hr.2.2.2.2.2.1 hct
  have hng := VulkanQueueFamily.nextCommandBuffer_ok _ hr.2.2.2.2.1 hcg
  simp only [Renderer.buildFinalFrame, hw, bind, Except.bind, List.length_replicate,
    Renderer.buildFinalFrameEvents, Renderer.transferSubmit]
  generalize r.buildLocals env frt r.getPhysicalDeviceCount = L at hloop ⊢
  by_cases hs : r.m_swapchainImageReadySemaphore = .null <;>
  by_cases hdepth : frt.depthImage = .null <;>
  · simp [Renderer.buildLocals, eventsFrom, replicate_succ_set_last, Renderer.readySemaphore, hs,
      hdepth] at hloop
    simp [hloop, hnt, hng, pure, Except.pure, Renderer.afterBuildFinalFrame,
      Renderer.transferCmdBuffer, Renderer.graphicsCmdBuffer, replicate_succ_set_last,
      Renderer.finalSubmit, Renderer.finalSignals, Renderer.finalBarriers,
      Renderer.transferDoneSignalAndWait, hs, hdepth, Renderer.getDeviceMaskFirst]

/-! ## The closed form of `nextFrame` -/

theorem Renderer.frameStart_WF (r : Renderer) (hr : r.WF) (p : Nat) : (r.frameStart p).WF := by
  obtain ⟨hd, hf, htargets, hdone, hg, ht, hgt, hsem⟩ := hr
  refine ⟨hd, hf, htargets, hdone, ⟨hg.1, ?_, by simp [Renderer.frameStart]⟩,
    ⟨ht.1, ?_, by simp [Renderer.frameStart]⟩, hgt, hsem⟩
  · exact Nat.mod_lt _ (by decide)
  · exact Nat.mod_lt _ (by decide)

theorem Renderer.afterDevices_WF (r : Renderer) (hr : r.WF) (i : Nat)
    (hi : r.m_graphicsQueueFamily.m_nextCommandBufferIndex + i ≤ 10) : (r.afterDevices i).WF := by
  obtain ⟨hd, hf, htargets, hdone, hg, ht, hgt, hsem⟩ := hr
  exact ⟨hd, hf, htargets, hdone, ⟨hg.1, hg.2.1, hi⟩, ht, hgt, hsem⟩

theorem Renderer.nextFrame_closed (env : FrameEnv) (r : Renderer) (hr : r.WF) (p : Nat)
    (hp : env.beginFrame.predictedDisplayTimeNanos = some p)
    (hwait : MAX_QUEUED_FRAMES ≤ r.m_frameIndex → env.waitResult = .eSuccess) :
    r.nextFrame env = .ok (r.afterFrame p, r.nextFrameEvents env p) := by
  have hd := hr.1
  have hs := Renderer.frameStart_WF r hr p
  have hrender := Renderer.renderFrame_closed env (r.frameStart p) hs (by
    show 0 + r.getPhysicalDeviceCount ≤ 10
    omega)
  have ha := Renderer.afterDevices_WF (r.frameStart p) hs r.getPhysicalDeviceCount (by
    show 0 + r.getPhysicalDeviceCount ≤ 10
    omega)
  have hbuild := Renderer.buildFinalFrame_closed env env.acquireSwapchainImages
    ((r.frameStart p).afterDevices r.getPhysicalDeviceCount) ha
    (by show 0 + r.getPhysicalDeviceCount < 10; omega)
    (by show 0 < 10; omega)
  have hrg := VulkanQueueFamily.reset_ok _ hr.2.2.2.2.1
  have hrt := VulkanQueueFamily.reset_ok _ hr.2.2.2.2.2.1
  have hcount : (r.frameStart p).getPhysicalDeviceCount = r.getPhysicalDeviceCount := rfl
  rw [hcount] at hrender
  simp only [Renderer.frameStart, Renderer.deltaMillis] at hrender hbuild
  by_cases hN : MAX_QUEUED_FRAMES ≤ r.m_frameIndex
  · simp only [Renderer.nextFrame, hp, bind, Except.bind, Renderer.waitForFrameIndexValue, hwait hN,
      if_true, hrg, hrt, hN, hrender, hbuild]
    simp [Renderer.afterFrame, Renderer.nextFrameEvents, Renderer.frameStart, Renderer.deltaMillis,
      Renderer.waitEvents, Renderer.acquireEvents, pure, Except.pure, Renderer.waitValue, hN,
      Renderer.afterBuildFinalFrame, Renderer.afterDevices]
  · simp only [Renderer.nextFrame, hp, bind, Except.bind, Renderer.waitForFrameIndexValue,
      if_true, if_false, hrg, hrt, hN, hrender, hbuild]
    simp [Renderer.afterFrame, Renderer.nextFrameEvents, Renderer.frameStart, Renderer.deltaMillis,
      Renderer.waitEvents, Renderer.acquireEvents, pure, Except.pure, Renderer.waitValue, hN,
      Renderer.afterBuildFinalFrame, Renderer.afterDevices]

/-! ## Observations on the closed forms -/

theorem filterMap_eventsFrom {α β : Type} (f : α → Option β) (E : Nat → List α) (n i : Nat) :
    (eventsFrom E n i).filterMap f = eventsFrom (fun j => (E j).filterMap f) n i := by
  induction n generalizing i with
  | zero => rfl
  | succ n ih => simp [eventsFrom, ih, List.filterMap_append]

theorem filter_eventsFrom {α : Type} (f : α → Bool) (E : Nat → List α) (n i : Nat) :
    (eventsFrom E n i).filter f = eventsFrom (fun j => (E j).filter f) n i := by
  induction n generalizing i with
  | zero => rfl
  | succ n ih => simp [eventsFrom, ih]

theorem flatMap_eventsFrom {α β : Type} (f : α → List β) (E : Nat → List α) (n i : Nat) :
    (eventsFrom E n i).flatMap f = eventsFrom (fun j => (E j).flatMap f) n i := by
  induction n generalizing i with
  | zero => rfl
  | succ n ih => simp [eventsFrom, ih]

theorem eventsFrom_eq_nil {α : Type} (G : Nat → List α) (n i : Nat)
    (h : ∀ j, i ≤ j → j < i + n → G j = []) : eventsFrom G n i = [] := by
  induction n generalizing i with
  | zero => rfl
  | succ n ih =>
    simp only [eventsFrom, h i (Nat.le_refl _) (by omega), List.nil_append]
    exact ih (i + 1) (fun j h1 h2 => h j (by omega) (by omega))

theorem eventsFrom_eq_single {α : Type} (G : Nat → List α) (n i k : Nat) (hik : i ≤ k)
    (hkn : k < i + n) (h : ∀ j, i ≤ j → j < i + n → j ≠ k → G j = []) :
    eventsFrom G n i = G k := by
  have hsplit := eventsFrom_split G n i (k - i) (by omega)
  have e1 : i + (k - i) = k := by omega
  rw [e1] at hsplit
  rw [hsplit, eventsFrom_eq_nil G (k - i) i (fun j h1 h2 => h j h1 (by omega) (by omega)),
    eventsFrom_eq_nil G _ (k + 1) (fun j h1 h2 => h j (by omega) (by omega) (by omega))]
  simp

theorem mem_eventsFrom {α : Type} (E : Nat → List α) (n i : Nat) (x : α)
    (h : x ∈ eventsFrom E n i) : ∃ j, i ≤ j ∧ j < i + n ∧ x ∈ E j := by
  induction n generalizing i with
  | zero => simp [eventsFrom] at h
  | succ n ih =>
    simp only [eventsFrom, List.mem_append] at h
    rcases h with h | h
    · exact ⟨i, Nat.le_refl _, by omega, h⟩
    · obtain ⟨j, h1, h2, h3⟩ := ih (i + 1) h
      exact ⟨j, by omega, by omega, h3⟩

theorem commandsOf_append (cb : CommandBuffer) (a b : List Event) :
    commandsOf cb (a ++ b) = commandsOf cb a ++ commandsOf cb b := by
  simp [commandsOf, List.filterMap_append]

theorem commandsOf_copyEvents_ne (cb cb' : CommandBuffer) (h : cb' ≠ cb) (f c : Nat)
    (l : List CopyImageInfo2) : commandsOf cb (copyEvents cb' f c l) = [] := by
  induction l generalizing c with
  | nil => rfl
  | cons x xs ih =>
    have := ih (wrap32 (c + 1))
    simp only [commandsOf] at this ⊢
    simp [copyEvents, Event.commandFor, h, this]

theorem Renderer.commandsOf_deviceEvents (env : FrameEnv) (r : Renderer) (j k : Nat) :
    commandsOf (r.graphicsCmdBuffer k) (r.deviceEvents env j) =
      if j = k then r.deviceCommands env k else [] := by
  by_cases h : j = k
  · subst h
    by_cases h0 : j = 0 ∧ r.m_frameIndex = 0 <;>
      simp [commandsOf, Renderer.deviceEvents, Renderer.deviceCommands, Event.commandFor, h0]
  · have hcb : r.graphicsCmdBuffer j ≠ r.graphicsCmdBuffer k := by
      simp [Renderer.graphicsCmdBuffer, h]
    rw [if_neg h]
    by_cases h0 : j = 0 ∧ r.m_frameIndex = 0
    · simp only [commandsOf, Renderer.deviceEvents, if_pos h0]
      simp [Event.commandFor, hcb]
    · simp only [commandsOf, Renderer.deviceEvents, if_neg h0]
      simp [Event.commandFor, hcb]

theorem Renderer.commandsOf_nextFrameEvents_device (env : FrameEnv) (r : Renderer) (hr : r.WF)
    (p k : Nat) (hk : k < r.getPhysicalDeviceCount) :
    commandsOf ((r.frameStart p).graphicsCmdBuffer k) (r.nextFrameEvents env p) =
      (r.frameStart p).deviceCommands env k := by
  have hgt := hr.2.2.2.2.2.2.1
  have hcount : (r.frameStart p).getPhysicalDeviceCount = r.getPhysicalDeviceCount := rfl
  have hdev : commandsOf ((r.frameStart p).graphicsCmdBuffer k)
      (eventsFrom ((r.frameStart p).deviceEvents env) r.getPhysicalDeviceCount 0) =
      (r.frameStart p).deviceCommands env k := by
    simp only [commandsOf, filterMap_eventsFrom]
    rw [eventsFrom_eq_single _ _ 0 k (by omega) (by omega)]
    · have := Renderer.commandsOf_deviceEvents env (r.frameStart p) k k
      simpa [commandsOf] using this
    · intro j _ _ hj
      have := Renderer.commandsOf_deviceEvents env (r.frameStart p) j k
      simpa [commandsOf, hj] using this
  have htcb : ((r.frameStart p).afterDevices r.getPhysicalDeviceCount).transferCmdBuffer ≠
      (r.frameStart p).graphicsCmdBuffer k := by
    simp [Renderer.transferCmdBuffer, Renderer.graphicsCmdBuffer, Renderer.afterDevices,
      Renderer.frameStart, Ne.symm hgt]
  have hfcb : ((r.frameStart p).afterDevices r.getPhysicalDeviceCount).graphicsCmdBuffer 0 ≠
      (r.frameStart p).graphicsCmdBuffer k := by
    simp [Renderer.graphicsCmdBuffer, Renderer.afterDevices, Renderer.frameStart]
    omega
  have hcopy := commandsOf_copyEvents_ne ((r.frameStart p).graphicsCmdBuffer k) _ htcb
  simp only [Renderer.nextFrameEvents, Renderer.renderFrameEvents, Renderer.buildFinalFrameEvents,
    commandsOf_append, hdev, hcount, hcopy]
  have hs2 : ((r.frameStart p).afterDevices r.getPhysicalDeviceCount).m_swapchainImageReadySemaphore =
      r.m_swapchainImageReadySemaphore := rfl
  by_cases hN : MAX_QUEUED_FRAMES ≤ r.m_frameIndex <;>
  by_cases hs : env.getSwapchainImageReadySemaphore = .null <;>
  by_cases hs3 : r.m_swapchainImageReadySemaphore = .null <;>
    simp [commandsOf, Event.commandFor, Renderer.waitEvents, Renderer.acquireEvents, hN, hs, hs2, hs3,
      htcb, hfcb]

theorem filter_isWait_copyEvents (cb : CommandBuffer) (f c : Nat) (l : List CopyImageInfo2) :
    (copyEvents cb f c l).filter Event.isWait = [] := by
  induction l generalizing c with
  | nil => rfl
  | cons x xs ih => simp [copyEvents, Event.isWait, ih]

theorem Renderer.filter_isWait_deviceEvents (env : FrameEnv) (r : Renderer) (j : Nat) :
    (r.deviceEvents env j).filter Event.isWait = [] := by
  by_cases h0 : j = 0 ∧ r.m_frameIndex = 0
  · simp only [Renderer.deviceEvents, if_pos h0]
    simp [Event.isWait]
  · simp only [Renderer.deviceEvents, if_neg h0]
    simp [Event.isWait]

theorem Renderer.filter_isWait_nextFrameEvents (env : FrameEnv) (r : Renderer) (p : Nat) :
    (r.nextFrameEvents env p).filter Event.isWait = r.waitEvents := by
  have hdev : (eventsFrom ((r.frameStart p).deviceEvents env)
      (r.frameStart p).getPhysicalDeviceCount 0).filter Event.isWait = [] := by
    rw [filter_eventsFrom]
    exact eventsFrom_eq_nil _ _ _ (fun j _ _ => Renderer.filter_isWait_deviceEvents env _ j)
  have hw : r.waitEvents.filter Event.isWait = r.waitEvents := by
    by_cases hN : MAX_QUEUED_FRAMES ≤ r.m_frameIndex <;> simp [Renderer.waitEvents, hN, Event.isWait]
  simp only [Renderer.nextFrameEvents, Renderer.renderFrameEvents, Renderer.buildFinalFrameEvents,
    List.filter_append, hdev, hw, filter_isWait_copyEvents]
  by_cases hs : env.getSwapchainImageReadySemaphore = .null <;>
  by_cases hs3 : ((r.frameStart p).afterDevices r.getPhysicalDeviceCount).m_swapchainImageReadySemaphore
      = .null <;>
    simp [Event.isWait, Renderer.acquireEvents, hs, hs3]

theorem signalValues_append (sem : Semaphore) (a b : List Event) :
    signalValues sem (a ++ b) = signalValues sem a ++ signalValues sem b := by
  simp [signalValues]

theorem signalValues_copyEvents (sem : Semaphore) (cb : CommandBuffer) (f c : Nat)
    (l : List CopyImageInfo2) : signalValues sem (copyEvents cb f c l) = [] := by
  induction l generalizing c with
  | nil => rfl
  | cons x xs ih =>
    have := ih (wrap32 (c + 1))
    simp only [signalValues] at this ⊢
    simp [copyEvents, Event.signalValues, this]

theorem Renderer.signalValues_deviceEvents (sem : Semaphore) (env : FrameEnv) (r : Renderer)
    (j : Nat) : (r.deviceEvents env j).flatMap (Event.signalValues sem) = [] := by
  by_cases h0 : j = 0 ∧ r.m_frameIndex = 0
  · simp only [Renderer.deviceEvents, if_pos h0]
    simp [Event.signalValues]
  · simp only [Renderer.deviceEvents, if_neg h0]
    simp [Event.signalValues]

theorem Renderer.signalValues_deviceSubmits (r : Renderer) (sem : Semaphore)
    (hsem : ∀ j, sem ≠ .renderDone j) (n : Nat) :
    ((List.range n).map r.deviceSubmit).flatMap (SubmitInfo2.signalValues sem) = [] := by
  rw [List.flatMap_eq_nil_iff]
  intro x hx
  obtain ⟨j, -, rfl⟩ := List.mem_map.1 hx
  simp [SubmitInfo2.signalValues, Renderer.deviceSubmit, Renderer.deviceSignal, Ne.symm (hsem j)]

theorem Renderer.signalValues_pacer_nextFrameEvents (env : FrameEnv) (r : Renderer) (hr : r.WF)
    (henv : env.WF) (p : Nat) :
    signalValues .frameIndexSem (r.nextFrameEvents env p) = [add64 r.m_frameIndex 1] := by
  have hdev : signalValues .frameIndexSem (eventsFrom ((r.frameStart p).deviceEvents env)
      (r.frameStart p).getPhysicalDeviceCount 0) = [] := by
    simp only [signalValues]
    rw [flatMap_eventsFrom]
    exact eventsFrom_eq_nil _ _ _ (fun j _ _ => Renderer.signalValues_deviceEvents _ env _ j)
  have hsub := Renderer.signalValues_deviceSubmits (r.frameStart p) .frameIndexSem
    (fun j => by simp) (r.frameStart p).getPhysicalDeviceCount
  have hw : signalValues .frameIndexSem r.waitEvents = [] := by
    by_cases hN : MAX_QUEUED_FRAMES ≤ r.m_frameIndex <;>
      simp [Renderer.waitEvents, hN, signalValues, Event.signalValues]
  have hown : r.m_swapchainImageReadySemaphore ≠ .frameIndexSem := by
    rcases hr.2.2.2.2.2.2.2 with h | h <;> simp [h]
  have hready : env.getFrameReadySemaphore ≠ .frameIndexSem := by
    have := henv.2.1
    intro h
    simp [h, Semaphore.isCollaborator] at this
  have hs2 : ((r.frameStart p).afterDevices r.getPhysicalDeviceCount).m_swapchainImageReadySemaphore =
      r.m_swapchainImageReadySemaphore := rfl
  have hfi : ((r.frameStart p).afterDevices r.getPhysicalDeviceCount).m_frameIndex = r.m_frameIndex := rfl
  simp only [Renderer.nextFrameEvents, Renderer.renderFrameEvents, Renderer.buildFinalFrameEvents,
    signalValues_append, hdev, hw, signalValues_copyEvents]
  by_cases hs : env.getSwapchainImageReadySemaphore = .null <;>
  by_cases hs3 : r.m_swapchainImageReadySemaphore = .null <;>
  by_cases hfr : env.getFrameReadySemaphore = .null <;>
    simp [signalValues, Event.signalValues, Renderer.acquireEvents, hs, hs2, hs3, hsub, hown, hready,
      SubmitInfo2.signalValues, Renderer.transferSubmit, Renderer.finalSubmit, Renderer.finalSignals,
      Renderer.transferDoneSignalAndWait, hfr, hfi]

theorem Renderer.waitValue_eq (r : Renderer) (hf : r.m_frameIndex < 2 ^ 64)
    (hN : MAX_QUEUED_FRAMES ≤ r.m_frameIndex) :
    r.waitValue = r.m_frameIndex - MAX_QUEUED_FRAMES + 1 := by
  simp only [Renderer.waitValue, add64, sub64, MAX_QUEUED_FRAMES] at hN ⊢
  omega

theorem add64_one (f : Nat) (hf : f + 1 < 2 ^ 64) : add64 f 1 = f + 1 := by
  simp only [add64]
  omega

theorem Renderer.afterFrame_WF (r : Renderer) (hr : r.WF) (p : Nat) : (r.afterFrame p).WF := by
  have hs := Renderer.frameStart_WF r hr p
  obtain ⟨hd, hf, htargets, hdone, hg, ht, hgt, hsem⟩ := hs
  have hd' := hr.1
  refine ⟨hd, ?_, htargets, hdone, ⟨hg.1, hg.2.1, ?_⟩, ⟨ht.1, ht.2.1, ?_⟩, hgt, hsem⟩
  · show add64 r.m_frameIndex 1 < 2 ^ 64
    exact Nat.mod_lt _ (by norm_num)
  · show 0 + r.getPhysicalDeviceCount + 1 ≤ 10
    omega
  · show 0 + 1 ≤ 10
    omega

theorem Renderer.afterFrame_frameIndex (r : Renderer) (p : Nat) :
    (r.afterFrame p).m_frameIndex = add64 r.m_frameIndex 1 := rfl

theorem Renderer.afterFrame_count (r : Renderer) (p : Nat) :
    (r.afterFrame p).getPhysicalDeviceCount = r.getPhysicalDeviceCount := rfl

/-! ## The skip path -/

/-- C10: when `beginFrame` reports no predicted display time, `nextFrame` returns with the
renderer unchanged (frame index, runtime, previous predicted display time, both command-pool
cursors and everything else) after exactly the two collaborator calls `beginFrame` and
`endFrame`: `endFrame` is called once, the scene and the collaborator are not updated, no
semaphore wait is made, nothing is recorded and nothing is submitted to any queue. -/
theorem nextFrame_skip (env : FrameEnv) (r : Renderer)
    (h : env.beginFrame.predictedDisplayTimeNanos = none) :
    ∃ r' tr, r.nextFrame env = .ok (r', tr) ∧
      tr = [Event.beginFrame, Event.endFrame .m_presentQueue] ∧
      tr.count (Event.endFrame .m_presentQueue) = 1 ∧
      r' = r ∧
      r'.m_frameIndex = r.m_frameIndex ∧
      r'.m_runtimeMillis = r.m_runtimeMillis ∧
      r'.m_lastPredictedDisplayTimeNanos = r.m_lastPredictedDisplayTimeNanos ∧
      r'.m_graphicsQueueFamily.m_currentCommandPoolIndex =
        r.m_graphicsQueueFamily.m_currentCommandPoolIndex ∧
      r'.m_graphicsQueueFamily.m_nextCommandBufferIndex =
        r.m_graphicsQueueFamily.m_nextCommandBufferIndex ∧
      r'.m_transferQueueFamily.m_currentCommandPoolIndex =
        r.m_transferQueueFamily.m_currentCommandPoolIndex ∧
      r'.m_transferQueueFamily.m_nextCommandBufferIndex =
        r.m_transferQueueFamily.m_nextCommandBufferIndex ∧
      (∀ d, Event.sceneUpdate d ∉ tr) ∧
      (∀ d, Event.userInterfaceUpdate d ∉ tr) ∧
      (∀ sem v t, Event.waitSemaphores sem v t ∉ tr) ∧
      (∀ cb c, Event.record cb c ∉ tr) ∧
      (∀ q submits, Event.submit2 q submits ∉ tr) := by
  refine ⟨r, [Event.beginFrame, Event.endFrame .m_presentQueue], ?_, rfl, ?_, rfl, rfl, rfl, rfl,
    rfl, rfl, rfl, rfl, ?_, ?_, ?_, ?_, ?_⟩
  · simp [Renderer.nextFrame, h]
  · decide
  all_goals simp

/-- C10, for the 2-device renderer at frame 5 and a collaborator without a predicted
display time. -/
theorem nextFrame_skip_witness :
    (Renderer.sampleAt 2 5).nextFrame (FrameEnv.sample none) =
      .ok (Renderer.sampleAt 2 5, [Event.beginFrame, Event.endFrame .m_presentQueue]) := by
  obtain ⟨r', tr, h1, h2, -, h3, -⟩ := nextFrame_skip (FrameEnv.sample none) (Renderer.sampleAt 2 5) rfl
  rw [h1, h2, h3]

/-! ## The host wait -/

theorem Renderer.nextFrameEvents_head (env : FrameEnv) (r : Renderer) (p : Nat)
    (hN : MAX_QUEUED_FRAMES ≤ r.m_frameIndex) :
    ∃ rest, r.nextFrameEvents env p =
      [Event.beginFrame, Event.sceneUpdate (r.deltaMillis p),
       Event.userInterfaceUpdate (r.deltaMillis p),
       Event.waitSemaphores .frameIndexSem r.waitValue UINT64_MAX] ++ rest := by
  simp only [Renderer.nextFrameEvents, Renderer.waitEvents, if_pos hN, List.append_assoc,
    List.cons_append, List.nil_append]
  exact ⟨_, rfl⟩

/-- C3: in a rendered call of `nextFrame` at frame index `f` (a well-formed renderer, the
wait reporting success), the trace contains a host wait if and only if
`MAX_QUEUED_FRAMES <= f`.  When it does, it is the only wait of the call, it is on the
pacer semaphore `m_frameIndexSem` for the value `f - MAX_QUEUED_FRAMES + 1` (the 64-bit
computation equals the integer expression, nothing wraps) with the timeout `UINT64_MAX`,
and it comes directly after `beginFrame` and the two updates, before anything is recorded.
`MAX_QUEUED_FRAMES` is 3, and frame 3 waits for the value 1. -/
theorem nextFrame_host_wait (env : FrameEnv) (r : Renderer) (hr : r.WF) (p : Nat)
    (hp : env.beginFrame.predictedDisplayTimeNanos = some p)
    (hwait : env.waitResult = .eSuccess) :
    ∃ r' tr, r.nextFrame env = .ok (r', tr) ∧
      ((∃ e ∈ tr, e.isWait = true) ↔ MAX_QUEUED_FRAMES ≤ r.m_frameIndex) ∧
      (MAX_QUEUED_FRAMES ≤ r.m_frameIndex →
        tr.filter Event.isWait =
          [Event.waitSemaphores .frameIndexSem (r.m_frameIndex - MAX_QUEUED_FRAMES + 1)
            UINT64_MAX] ∧
        (r.waitValue : Int) = (r.m_frameIndex : Int) - (MAX_QUEUED_FRAMES : Int) + 1 ∧
        ∃ d rest, tr =
          [Event.beginFrame, Event.sceneUpdate d, Event.userInterfaceUpdate d,
           Event.waitSemaphores .frameIndexSem (r.m_frameIndex - MAX_QUEUED_FRAMES + 1)
             UINT64_MAX] ++ rest) ∧
      (r.m_frameIndex < MAX_QUEUED_FRAMES → tr.filter Event.isWait = []) ∧
      MAX_QUEUED_FRAMES = 3 ∧ UINT64_MAX = 2 ^ 64 - 1 ∧
      (r.m_frameIndex = 3 →
        tr.filter Event.isWait = [Event.waitSemaphores .frameIndexSem 1 UINT64_MAX]) := by
  have hf := hr.2.1
  have hfilter := Renderer.filter_isWait_nextFrameEvents env r p
  refine ⟨_, _, Renderer.nextFrame_closed env r hr p hp (fun _ => hwait), ?_, ?_, ?_, rfl, rfl, ?_⟩
  · constructor
    · rintro ⟨e, he, hw⟩
      have hmem : e ∈ (r.nextFrameEvents env p).filter Event.isWait := List.mem_filter.2 ⟨he, hw⟩
      rw [hfilter] at hmem
      by_contra hN
      simp [Renderer.waitEvents, hN] at hmem
    · intro hN
      refine ⟨Event.waitSemaphores .frameIndexSem r.waitValue UINT64_MAX, ?_, rfl⟩
      have : Event.waitSemaphores .frameIndexSem r.waitValue UINT64_MAX ∈
          (r.nextFrameEvents env p).filter Event.isWait := by
        rw [hfilter]
        simp [Renderer.waitEvents, hN]
      exact (List.mem_filter.1 this).1
  · intro hN
    have hv := Renderer.waitValue_eq r hf hN
    refine ⟨?_, ?_, ?_⟩
    · rw [hfilter]
      simp [Renderer.waitEvents, hN, hv]
    · rw [hv]
      simp only [MAX_QUEUED_FRAMES] at hN ⊢
      omega
    · obtain ⟨rest, hrest⟩ := Renderer.nextFrameEvents_head env r p hN
      exact ⟨_, rest, by rw [hrest, hv]⟩
  · intro hN
    rw [hfilter]
    simp [Renderer.waitEvents, Nat.not_le.2 hN]
  · intro h3
    have hN : MAX_QUEUED_FRAMES ≤ r.m_frameIndex := by simp [MAX_QUEUED_FRAMES, h3]
    have hv := Renderer.waitValue_eq r hf hN
    rw [hfilter]
    simp [Renderer.waitEvents, hN, hv, h3, MAX_QUEUED_FRAMES]

/-- C3, for the 2-device renderer at frame 3: the call waits once, for the value 1. -/
theorem nextFrame_host_wait_witness :
    ∃ r' tr, (Renderer.sampleAt 2 3).nextFrame (FrameEnv.sample (some 5)) = .ok (r', tr) ∧
      tr.filter Event.isWait = [Event.waitSemaphores .frameIndexSem 1 UINT64_MAX] := by
  obtain ⟨r', tr, h1, -, -, -, -, -, h2⟩ :=
    nextFrame_host_wait (FrameEnv.sample (some 5)) (Renderer.sampleAt 2 3) (by decide) 5 rfl rfl
  exact ⟨r', tr, h1, h2 rfl⟩

/-! ## The barriers before the draw -/

theorem mem_commandsOf (cb : CommandBuffer) (c : Cmd) (tr : List Event) :
    c ∈ commandsOf cb tr ↔ Event.record cb c ∈ tr := by
  simp only [commandsOf, List.mem_filterMap]
  constructor
  · rintro ⟨e, he, hc⟩
    cases e with
    | record cb' c' =>
      simp only [Event.commandFor] at hc
      by_cases h : cb' = cb
      · simp only [h, if_true, Option.some.injEq] at hc
        subst h
        subst hc
        exact he
      · simp [h] at hc
    | _ => simp [Event.commandFor] at hc
  · intro h
    exact ⟨_, h, by simp [Event.commandFor]⟩

theorem not_mem_copyEvents_sceneRender (cb cb' : CommandBuffer) (call : SceneRenderCall)
    (f c : Nat) (l : List CopyImageInfo2) :
    Event.record cb' (Cmd.sceneRender call) ∉ copyEvents cb f c l := by
  induction l generalizing c with
  | nil => simp [copyEvents]
  | cons x xs ih => simp [copyEvents, ih]

theorem Renderer.mem_deviceEvents_sceneRender (env : FrameEnv) (r : Renderer) (j : Nat)
    (cb : CommandBuffer) (call : SceneRenderCall)
    (h : Event.record cb (Cmd.sceneRender call) ∈ r.deviceEvents env j) :
    cb = r.graphicsCmdBuffer j ∧ call = r.deviceDraw env j := by
  by_cases h0 : j = 0 ∧ r.m_frameIndex = 0
  · simp only [Renderer.deviceEvents, if_pos h0] at h
    simpa using h
  · simp only [Renderer.deviceEvents, if_neg h0] at h
    simpa using h

theorem Renderer.not_mem_buildFinalFrameEvents_sceneRender (env : FrameEnv)
    (frt : FrameRenderTargets) (r : Renderer) (cb : CommandBuffer) (call : SceneRenderCall) :
    Event.record cb (Cmd.sceneRender call) ∉ r.buildFinalFrameEvents env frt := by
  by_cases hs : r.m_swapchainImageReadySemaphore = .null <;>
    simp [Renderer.buildFinalFrameEvents, hs, not_mem_copyEvents_sceneRender]

theorem Renderer.mem_nextFrameEvents_sceneRender (env : FrameEnv) (r : Renderer) (p : Nat)
    (cb : CommandBuffer) (call : SceneRenderCall)
    (h : Event.record cb (Cmd.sceneRender call) ∈ r.nextFrameEvents env p) :
    ∃ j, j < r.getPhysicalDeviceCount ∧ cb = (r.frameStart p).graphicsCmdBuffer j ∧
      call = (r.frameStart p).deviceDraw env j := by
  have hcount : (r.frameStart p).getPhysicalDeviceCount = r.getPhysicalDeviceCount := rfl
  simp only [Renderer.nextFrameEvents, Renderer.renderFrameEvents, List.mem_append, hcount] at h
  rcases h with (((((h | h) | h) | (h | h)) | h) | h) | h
  · simp at h
  · by_cases hN : MAX_QUEUED_FRAMES ≤ r.m_frameIndex <;> simp [Renderer.waitEvents, hN] at h
  · simp at h
  · obtain ⟨j, -, hj, hmem⟩ := mem_eventsFrom _ _ _ _ h
    exact ⟨j, by omega, Renderer.mem_deviceEvents_sceneRender env _ j cb call hmem⟩
  · simp at h
  · by_cases hs : env.getSwapchainImageReadySemaphore = .null <;>
      simp [Renderer.acquireEvents, hs] at h
  · exact absurd h (Renderer.not_mem_buildFinalFrameEvents_sceneRender _ _ _ _ _)
  · simp at h

theorem first_match_unique {α : Type} (P : α → Prop) (A pre R post : List α) (x y : α)
    (hA : ∀ a ∈ A, ¬ P a) (hpre : ∀ a ∈ pre, ¬ P a) (hx : P x) (hy : P y)
    (h : A ++ x :: R = pre ++ y :: post) : A = pre ∧ x = y ∧ R = post := by
  induction A generalizing pre with
  | nil =>
    cases pre with
    | nil => simpa using h
    | cons b pre =>
      simp only [List.nil_append, List.cons_append, List.cons.injEq] at h
      exact absurd (h.1 ▸ hx) (hpre b (List.mem_cons_self _ _))
  | cons a A ih =>
    cases pre with
    | nil =>
      simp only [List.nil_append, List.cons_append, List.cons.injEq] at h
      exact absurd (h.1 ▸ hy) (hA a (List.mem_cons_self _ _))
    | cons b pre =>
      simp only [List.cons_append, List.cons.injEq] at h
      obtain ⟨h1, h2, h3⟩ := ih pre (fun a ha => hA a (List.mem_cons_of_mem _ ha))
        (fun a ha => hpre a (List.mem_cons_of_mem _ ha)) h.2
      exact ⟨by rw [h.1, h1], h2, h3⟩

theorem Renderer.preDrawBarriers_iff (env : FrameEnv) (r : Renderer) (hr : r.WF) (p k : Nat)
    (bc bd : ImageMemoryBarrier2) :
    PreDrawBarriers (r.nextFrameEvents env p) k bc bd ↔
      k < r.getPhysicalDeviceCount ∧
      [bc, bd] = (r.frameStart p).transferToGraphicsQueueFamilyBarriersEnd
        (r.frameStart p).srcQueueFamilyIndex ((r.frameStart p).rtImage k .eColor)
        ((r.frameStart p).rtImage k .eDepth) := by
  constructor
  · rintro ⟨cb, pre, call, post, hcmd, hidx, -, -, hpre⟩
    have hmem : Cmd.sceneRender call ∈ commandsOf cb (r.nextFrameEvents env p) := by
      rw [hcmd]; simp
    obtain ⟨j, hj, hcb, hcall⟩ :=
      Renderer.mem_nextFrameEvents_sceneRender env r p cb call ((mem_commandsOf _ _ _).1 hmem)
    have hjk : j = k := by rw [← hidx, hcall]; rfl
    subst hjk
    refine ⟨hj, ?_⟩
    rw [hcb, Renderer.commandsOf_nextFrameEvents_device env r hr p j hj] at hcmd
    simp only [Renderer.deviceCommands, List.append_assoc, List.cons_append, List.nil_append,
      List.singleton_append] at hcmd
    have key := first_match_unique (fun c => ∃ bs, c = Cmd.pipelineBarrier2 bs)
      ([Cmd.begin] ++ (if j = 0 ∧ (r.frameStart p).m_frameIndex = 0 then [Cmd.resetQueryPool] else []) ++
        [Cmd.pushDurationBegin (.renderDevice j) (r.frameStart p).m_frameIndex j]) pre
      _ _ _ (Cmd.pipelineBarrier2 [bc, bd])
      (by
        intro a ha
        by_cases h0 : j = 0 ∧ (r.frameStart p).m_frameIndex = 0 <;>
          simp [h0] at ha <;> rcases ha with rfl | rfl | rfl <;> simp)
      (fun a ha ⟨bs, hbs⟩ => hpre a ha bs hbs) ⟨_, rfl⟩ ⟨_, rfl⟩
      (by simpa only [List.append_assoc, List.cons_append, List.nil_append] using hcmd)
    have := key.2.1
    simp only [Cmd.pipelineBarrier2.injEq] at this
    exact this.symm
  · rintro ⟨hk, hb⟩
    refine ⟨(r.frameStart p).graphicsCmdBuffer k,
      [Cmd.begin] ++ (if k = 0 ∧ (r.frameStart p).m_frameIndex = 0 then [Cmd.resetQueryPool] else []) ++
        [Cmd.pushDurationBegin (.renderDevice k) (r.frameStart p).m_frameIndex k],
      (r.frameStart p).deviceDraw env k,
      [Cmd.pipelineBarrier2 ((r.frameStart p).graphicsToTransferQueueFamilyBarriersBegin
        ((r.frameStart p).rtImage k .eColor) ((r.frameStart p).rtImage k .eDepth)),
       Cmd.pushDurationEnd, Cmd.finish], ?_, rfl, ?_, ?_, ?_⟩
    · rw [Renderer.commandsOf_nextFrameEvents_device env r hr p k hk, hb]
      simp [Renderer.deviceCommands]
    · have := congrArg (fun l => l.map ImageMemoryBarrier2.image) hb
      simp [Renderer.transferToGraphicsQueueFamilyBarriersEnd] at this
      rw [this.1]; rfl
    · have := congrArg (fun l => l.map ImageMemoryBarrier2.image) hb
      simp [Renderer.transferToGraphicsQueueFamilyBarriersEnd] at this
      rw [this.2]; rfl
    · intro c hc bs
      by_cases h0 : k = 0 ∧ (r.frameStart p).m_frameIndex = 0 <;>
        simp [h0] at hc <;> rcases hc with rfl | rfl | rfl <;> simp

theorem Renderer.preDrawBarriers_exists (env : FrameEnv) (r : Renderer) (hr : r.WF) (p k : Nat)
    (hk : k < r.getPhysicalDeviceCount) :
    ∃ bc bd, PreDrawBarriers (r.nextFrameEvents env p) k bc bd :=
  ⟨_, _, (Renderer.preDrawBarriers_iff env r hr p k _ _).2 ⟨hk, rfl⟩⟩

theorem Renderer.preDrawBarriers_fields (env : FrameEnv) (r : Renderer) (hr : r.WF) (p k : Nat)
    (bc bd : ImageMemoryBarrier2) (h : PreDrawBarriers (r.nextFrameEvents env p) k bc bd) :
    bc.image = .renderTarget k .eColor (r.m_frameIndex % MAX_QUEUED_FRAMES) ∧
    bd.image = .renderTarget k .eDepth (r.m_frameIndex % MAX_QUEUED_FRAMES) ∧
    bc.subresourceRange.aspectMask = .eColor ∧ bd.subresourceRange.aspectMask = .eDepth ∧
    bc.dstQueueFamilyIndex = r.m_graphicsQueueFamily.getIndex ∧
    bd.dstQueueFamilyIndex = r.m_graphicsQueueFamily.getIndex ∧
    bc.newLayout = .eColorAttachmentOptimal ∧ bd.newLayout = .eDepthAttachmentOptimal ∧
    bc.oldLayout = .eUndefined ∧ bd.oldLayout = .eUndefined ∧
    bc.srcQueueFamilyIndex =
      (if r.m_frameIndex < MAX_QUEUED_FRAMES then r.m_graphicsQueueFamily.getIndex
       else r.m_transferQueueFamily.getIndex) ∧
    bd.srcQueueFamilyIndex =
      (if r.m_frameIndex < MAX_QUEUED_FRAMES then r.m_graphicsQueueFamily.getIndex
       else r.m_transferQueueFamily.getIndex) := by
  obtain ⟨-, hb⟩ := (Renderer.preDrawBarriers_iff env r hr p k bc bd).1 h
  simp only [Renderer.transferToGraphicsQueueFamilyBarriersEnd, List.cons.injEq, and_true] at hb
  obtain ⟨h1, h2⟩ := hb
  subst h1
  subst h2
  exact ⟨rfl, rfl, rfl, rfl, rfl, rfl, rfl, rfl, rfl, rfl, rfl, rfl⟩

/-- C7: in a rendered call of `nextFrame` at frame index `f` (well-formed renderer), for every
device there are barriers recorded directly before the device's draw, and for the two
barriers `bc` (colour) and `bd` (depth) recorded there: they are on the device's colour and
depth image of the slot `f mod MAX_QUEUED_FRAMES`, their destination queue family is the
graphics family and their new layout is colour-attachment resp. depth-attachment; their
source queue family is the transfer family if and only if `MAX_QUEUED_FRAMES <= f`; and for
`f < MAX_QUEUED_FRAMES` source and destination family are equal (no queue-family ownership
transfer) and the old layout is undefined. -/
theorem preDraw_barriers_of_rendered_frame (env : FrameEnv) (r : Renderer) (hr : r.WF) (p : Nat)
    (hp : env.beginFrame.predictedDisplayTimeNanos = some p)
    (hwait : MAX_QUEUED_FRAMES ≤ r.m_frameIndex → env.waitResult = .eSuccess)
    (devIdx : Nat) (hdev : devIdx < r.getPhysicalDeviceCount) :
    ∃ r' tr, r.nextFrame env = .ok (r', tr) ∧
      (∃ bc bd, PreDrawBarriers tr devIdx bc bd) ∧
      ∀ bc bd, PreDrawBarriers tr devIdx bc bd →
        ((RenderTarget.new devIdx).getColorResource r.m_frameIndex).map
          VulkanImageResource.getImage = some bc.image ∧
        ((RenderTarget.new devIdx).getDepthResource r.m_frameIndex).map
          VulkanImageResource.getImage = some bd.image ∧
        bc.subresourceRange.aspectMask = .eColor ∧ bd.subresourceRange.aspectMask = .eDepth ∧
        bc.dstQueueFamilyIndex = r.m_graphicsQueueFamily.getIndex ∧
        bd.dstQueueFamilyIndex = r.m_graphicsQueueFamily.getIndex ∧
        bc.newLayout = .eColorAttachmentOptimal ∧ bd.newLayout = .eDepthAttachmentOptimal ∧
        (bc.srcQueueFamilyIndex = r.m_transferQueueFamily.getIndex ↔
          MAX_QUEUED_FRAMES ≤ r.m_frameIndex) ∧
        (bd.srcQueueFamilyIndex = r.m_transferQueueFamily.getIndex ↔
          MAX_QUEUED_FRAMES ≤ r.m_frameIndex) ∧
        (r.m_frameIndex < MAX_QUEUED_FRAMES →
          bc.srcQueueFamilyIndex = bc.dstQueueFamilyIndex ∧
          bd.srcQueueFamilyIndex = bd.dstQueueFamilyIndex ∧
          bc.oldLayout = .eUndefined ∧ bd.oldLayout = .eUndefined) := by
  refine ⟨_, _, Renderer.nextFrame_closed env r hr p hp hwait,
    Renderer.preDrawBarriers_exists env r hr p devIdx hdev, ?_⟩
  intro bc bd h
  obtain ⟨h1, h2, h3, h4, h5, h6, h7, h8, h9, h10, h11, h12⟩ :=
    Renderer.preDrawBarriers_fields env r hr p devIdx bc bd h
  have hgt : r.m_graphicsQueueFamily.getIndex ≠ r.m_transferQueueFamily.getIndex := hr.2.2.2.2.2.2.1
  refine ⟨?_, ?_, h3, h4, h5, h6, h7, h8, ?_, ?_, ?_⟩
  · rw [RenderTarget.new_getColorResource, h1]; rfl
  · rw [RenderTarget.new_getDepthResource, h2]; rfl
  · rw [h11]
    by_cases hN : r.m_frameIndex < MAX_QUEUED_FRAMES
    · simp [hN, hgt, Nat.not_le.2 hN]
    · simp [hN, Nat.le_of_not_lt hN]
  · rw [h12]
    by_cases hN : r.m_frameIndex < MAX_QUEUED_FRAMES
    · simp [hN, hgt, Nat.not_le.2 hN]
    · simp [hN, Nat.le_of_not_lt hN]
  · intro hN
    rw [h11, h12, h5, h6, if_pos hN]
    exact ⟨rfl, rfl, h9, h10⟩

/-- C7, for the 2-device renderer at frame 3 and device 1: the colour barrier before the
draw comes from the transfer family (index 1). -/
theorem preDraw_barriers_of_rendered_frame_witness :
    ∃ r' tr bc bd, (Renderer.sampleAt 2 3).nextFrame (FrameEnv.sample (some 5)) = .ok (r', tr) ∧
      PreDrawBarriers tr 1 bc bd ∧ bc.srcQueueFamilyIndex = 1 := by
  obtain ⟨r', tr, h1, ⟨bc, bd, hb⟩, hall⟩ :=
    preDraw_barriers_of_rendered_frame (FrameEnv.sample (some 5)) (Renderer.sampleAt 2 3)
      (by decide) 5 rfl (fun _ => rfl) 1 (by decide)
  exact ⟨r', tr, bc, bd, h1, hb, (hall bc bd hb).2.2.2.2.2.2.2.2.1.2 (by decide)⟩

/-- C8 as stated fails: run two rendered frames on the 2-device renderer from frame 0.  In
the second call (frame index 1) the colour barrier recorded before the draw of device 0 has
the graphics family as its source, not the transfer family. -/
theorem frame_one_preDraw_source_not_transfer :
    ∃ r1 tr0 r2 tr1 bc bd,
      (Renderer.sampleAt 2 0).nextFrame (FrameEnv.sample (some 5)) = .ok (r1, tr0) ∧
      r1.nextFrame (FrameEnv.sample (some 9)) = .ok (r2, tr1) ∧
      r1.getPhysicalDeviceCount = 2 ∧ r1.m_frameIndex = 1 ∧
      PreDrawBarriers tr1 0 bc bd ∧
      bc.srcQueueFamilyIndex = r1.m_graphicsQueueFamily.getIndex ∧
      bc.srcQueueFamilyIndex ≠ r1.m_transferQueueFamily.getIndex := by
  have hr0 : (Renderer.sampleAt 2 0).WF := by decide
  have hr1 := Renderer.afterFrame_WF _ hr0 5
  have h0 := Renderer.nextFrame_closed (FrameEnv.sample (some 5)) _ hr0 5 rfl (fun _ => rfl)
  have h1 := Renderer.nextFrame_closed (FrameEnv.sample (some 9)) _ hr1 9 rfl (fun _ => rfl)
  obtain ⟨bc, bd, hb⟩ := Renderer.preDrawBarriers_exists (FrameEnv.sample (some 9)) _ hr1 9 0
    (by decide)
  have hf := Renderer.preDrawBarriers_fields (FrameEnv.sample (some 9)) _ hr1 9 0 bc bd hb
  have hsrc := hf.2.2.2.2.2.2.2.2.2.2.1
  refine ⟨_, _, _, _, bc, bd, h0, h1, by decide, by decide, hb, ?_, ?_⟩
  · rw [hsrc]; decide
  · rw [hsrc]; decide

/-- C8, amended: on a 2-device renderer at frame index 0, two successive rendered calls of
`nextFrame` record frames 0 and 1, and in both frames the barriers recorded before the draw
of each device are bootstrap transitions: old layout undefined, source and destination
queue family both the graphics family (so the source is not the transfer family). -/
theorem frames_zero_and_one_preDraw_bootstrap (env0 env1 : FrameEnv) (r0 : Renderer)
    (hr : r0.WF) (hd : r0.getPhysicalDeviceCount = 2) (hf : r0.m_frameIndex = 0) (p0 p1 : Nat)
    (hp0 : env0.beginFrame.predictedDisplayTimeNanos = some p0)
    (hp1 : env1.beginFrame.predictedDisplayTimeNanos = some p1) :
    ∃ r1 tr0 r2 tr1,
      r0.nextFrame env0 = .ok (r1, tr0) ∧ r1.nextFrame env1 = .ok (r2, tr1) ∧
      r1.m_frameIndex = 1 ∧ r2.m_frameIndex = 2 ∧
      ∀ devIdx, devIdx < 2 →
        (∃ bc bd, PreDrawBarriers tr0 devIdx bc bd) ∧
        (∃ bc bd, PreDrawBarriers tr1 devIdx bc bd) ∧
        ∀ bc bd, PreDrawBarriers tr0 devIdx bc bd ∨ PreDrawBarriers tr1 devIdx bc bd →
          bc.oldLayout = .eUndefined ∧ bd.oldLayout = .eUndefined ∧
          bc.srcQueueFamilyIndex = r0.m_graphicsQueueFamily.getIndex ∧
          bd.srcQueueFamilyIndex = r0.m_graphicsQueueFamily.getIndex ∧
          bc.dstQueueFamilyIndex = r0.m_graphicsQueueFamily.getIndex ∧
          bd.dstQueueFamilyIndex = r0.m_graphicsQueueFamily.getIndex ∧
          bc.srcQueueFamilyIndex ≠ r0.m_transferQueueFamily.getIndex ∧
          bd.srcQueueFamilyIndex ≠ r0.m_transferQueueFamily.getIndex := by
  have hr1 := Renderer.afterFrame_WF _ hr p0
  have hw0 : MAX_QUEUED_FRAMES ≤ r0.m_frameIndex → env0.waitResult = .eSuccess := by
    intro h; simp [hf, MAX_QUEUED_FRAMES] at h
  have hf1 : (r0.afterFrame p0).m_frameIndex = 1 := by
    rw [Renderer.afterFrame_frameIndex, hf]; rfl
  have hw1 : MAX_QUEUED_FRAMES ≤ (r0.afterFrame p0).m_frameIndex → env1.waitResult = .eSuccess := by
    intro h; simp [hf1, MAX_QUEUED_FRAMES] at h
  have hgt : r0.m_graphicsQueueFamily.getIndex ≠ r0.m_transferQueueFamily.getIndex :=
    hr.2.2.2.2.2.2.1
  have hf2 : ((r0.afterFrame p0).afterFrame p1).m_frameIndex = 2 := by
    rw [Renderer.afterFrame_frameIndex, hf1]; rfl
  refine ⟨_, _, _, _, Renderer.nextFrame_closed env0 r0 hr p0 hp0 hw0,
    Renderer.nextFrame_closed env1 _ hr1 p1 hp1 hw1, hf1, hf2, ?_⟩
  intro devIdx hdev
  refine ⟨Renderer.preDrawBarriers_exists env0 r0 hr p0 devIdx (by omega),
    Renderer.preDrawBarriers_exists env1 _ hr1 p1 devIdx (by rw [Renderer.afterFrame_count]; omega),
    ?_⟩
  rintro bc bd (h | h)
  · obtain ⟨-, -, -, -, h5, h6, -, -, h9, h10, h11, h12⟩ :=
      Renderer.preDrawBarriers_fields env0 r0 hr p0 devIdx bc bd h
    have hN : r0.m_frameIndex < MAX_QUEUED_FRAMES := by simp [hf, MAX_QUEUED_FRAMES]
    rw [if_pos hN] at h11 h12
    exact ⟨h9, h10, h11, h12, h5, h6, by rw [h11]; exact hgt, by rw [h12]; exact hgt⟩
  · obtain ⟨-, -, -, -, h5, h6, -, -, h9, h10, h11, h12⟩ :=
      Renderer.preDrawBarriers_fields env1 _ hr1 p1 devIdx bc bd h
    have hN : (r0.afterFrame p0).m_frameIndex < MAX_QUEUED_FRAMES := by
      simp [hf1, MAX_QUEUED_FRAMES]
    rw [if_pos hN] at h11 h12
    exact ⟨h9, h10, h11, h12, h5, h6, by rw [h11]; exact hgt, by rw [h12]; exact hgt⟩

/-- C8 amended, for the 2-device renderer at frame 0. -/
theorem frames_zero_and_one_preDraw_bootstrap_witness :
    ∃ r1 tr0 r2 tr1,
      (Renderer.sampleAt 2 0).nextFrame (FrameEnv.sample (some 5)) = .ok (r1, tr0) ∧
      r1.nextFrame (FrameEnv.sample (some 9)) = .ok (r2, tr1) ∧
      r1.m_frameIndex = 1 ∧
      ∃ bc bd, PreDrawBarriers tr1 1 bc bd ∧ bc.srcQueueFamilyIndex = 0 := by
  obtain ⟨r1, tr0, r2, tr1, h0, h1, hf1, -, hall⟩ :=
    frames_zero_and_one_preDraw_bootstrap (FrameEnv.sample (some 5)) (FrameEnv.sample (some 9))
      (Renderer.sampleAt 2 0) (by decide) (by decide) rfl 5 9 rfl rfl
  obtain ⟨-, ⟨bc, bd, hb⟩, hprop⟩ := hall 1 (by decide)
  exact ⟨r1, tr0, r2, tr1, h0, h1, hf1, bc, bd, hb, (hprop bc bd (Or.inr hb)).2.2.1⟩

/-! ## Reuse of a render-target slot -/

theorem Renderer.finalSubmit_mem (env : FrameEnv) (r : Renderer) (p : Nat) :
    Event.submit2 .m_presentQueue
      [((r.frameStart p).afterDevices r.getPhysicalDeviceCount).finalSubmit env] ∈
      r.nextFrameEvents env p ∧
    Event.record (((r.frameStart p).afterDevices r.getPhysicalDeviceCount).graphicsCmdBuffer 0)
      (Cmd.pushInstant .finalize r.m_frameIndex 0) ∈ r.nextFrameEvents env p := by
  have hfi : ((r.frameStart p).afterDevices r.getPhysicalDeviceCount).m_frameIndex = r.m_frameIndex := rfl
  constructor <;>
    simp [Renderer.nextFrameEvents, Renderer.buildFinalFrameEvents, hfi]

theorem record_after_head {a b c w : Event} {rest pre post : List Event} {cb : CommandBuffer}
    {cmd : Cmd} (h : [a, b, c, w] ++ rest = pre ++ Event.record cb cmd :: post)
    (ha : a.isRecord = false) (hb : b.isRecord = false) (hc : c.isRecord = false)
    (hw : w.isRecord = false) : w ∈ pre := by
  rcases pre with _ | ⟨e1, _ | ⟨e2, _ | ⟨e3, _ | ⟨e4, pre⟩⟩⟩⟩
  · simp only [List.nil_append, List.cons_append, List.cons.injEq] at h
    rw [h.1] at ha; simp [Event.isRecord] at ha
  · simp only [List.nil_append, List.cons_append, List.cons.injEq] at h
    rw [h.2.1] at hb; simp [Event.isRecord] at hb
  · simp only [List.nil_append, List.cons_append, List.cons.injEq] at h
    rw [h.2.2.1] at hc; simp [Event.isRecord] at hc
  · simp only [List.nil_append, List.cons_append, List.cons.injEq] at h
    rw [h.2.2.2.1] at hw; simp [Event.isRecord] at hw
  · simp only [List.nil_append, List.cons_append, List.cons.injEq] at h
    rw [h.2.2.2.1]; simp

/-- C4: let frame `f >= MAX_QUEUED_FRAMES` be rendered from state `r` and frame
`f - MAX_QUEUED_FRAMES` from state `r0` (well-formed renderers and collaborator).  For every
device, frame `f - MAX_QUEUED_FRAMES` used the same colour and depth resource as frame `f`,
and no frame strictly between them did.  The only value frame `f - MAX_QUEUED_FRAMES` signals
on the pacer semaphore is `f - MAX_QUEUED_FRAMES + 1`, signalled by its finalize submission
(the submission on the present queue whose command buffer holds the `finalize` marker).
Frame `f` waits on the host exactly once, for that same value, and every command it records
(barrier or draw) comes after that wait in its trace. -/
theorem slot_reuse_waits_for_previous_occupant (env0 env : FrameEnv) (r0 r : Renderer)
    (hr0 : r0.WF) (hr : r.WF) (henv0 : env0.WF) (p0 p : Nat)
    (hp0 : env0.beginFrame.predictedDisplayTimeNanos = some p0)
    (hp : env.beginFrame.predictedDisplayTimeNanos = some p)
    (hwait0 : MAX_QUEUED_FRAMES ≤ r0.m_frameIndex → env0.waitResult = .eSuccess)
    (hwait : env.waitResult = .eSuccess)
    (hN : MAX_QUEUED_FRAMES ≤ r.m_frameIndex)
    (hprev : r0.m_frameIndex = r.m_frameIndex - MAX_QUEUED_FRAMES) :
    (∀ dev,
      (RenderTarget.new dev).getColorResource r0.m_frameIndex =
        (RenderTarget.new dev).getColorResource r.m_frameIndex ∧
      (RenderTarget.new dev).getDepthResource r0.m_frameIndex =
        (RenderTarget.new dev).getDepthResource r.m_frameIndex) ∧
    (∀ dev g, r0.m_frameIndex < g → g < r.m_frameIndex →
      (RenderTarget.new dev).getColorResource g ≠
        (RenderTarget.new dev).getColorResource r.m_frameIndex ∧
      (RenderTarget.new dev).getDepthResource g ≠
        (RenderTarget.new dev).getDepthResource r.m_frameIndex) ∧
    ∃ r0' tr0 r' tr,
      r0.nextFrame env0 = .ok (r0', tr0) ∧ r.nextFrame env = .ok (r', tr) ∧
      signalValues .frameIndexSem tr0 = [r.m_frameIndex - MAX_QUEUED_FRAMES + 1] ∧
      (∃ sub cb, Event.submit2 .m_presentQueue [sub] ∈ tr0 ∧
        sub.commandBufferInfos.map (fun i => i.commandBuffer) = [some cb] ∧
        Event.record cb (Cmd.pushInstant .finalize r0.m_frameIndex 0) ∈ tr0 ∧
        sub.signalSemaphoreInfos.head? =
          some { semaphore := .frameIndexSem,
                 value := r.m_frameIndex - MAX_QUEUED_FRAMES + 1,
                 stageMask := .eAllCommands, deviceIndex := 0 }) ∧
      tr.filter Event.isWait =
        [Event.waitSemaphores .frameIndexSem (r.m_frameIndex - MAX_QUEUED_FRAMES + 1)
          UINT64_MAX] ∧
      ∀ pre cb c post, tr = pre ++ Event.record cb c :: post →
        Event.waitSemaphores .frameIndexSem (r.m_frameIndex - MAX_QUEUED_FRAMES + 1)
          UINT64_MAX ∈ pre := by
  have hf := hr.2.1
  have hv := Renderer.waitValue_eq r hf hN
  have hsig : add64 r0.m_frameIndex 1 = r.m_frameIndex - MAX_QUEUED_FRAMES + 1 := by
    rw [hprev]
    apply add64_one
    simp only [MAX_QUEUED_FRAMES] at hN ⊢
    omega
  have hmod : r0.m_frameIndex % MAX_QUEUED_FRAMES = r.m_frameIndex % MAX_QUEUED_FRAMES := by
    simp only [MAX_QUEUED_FRAMES] at hN hprev ⊢
    omega
  refine ⟨?_, ?_, _, _, _, _, Renderer.nextFrame_closed env0 r0 hr0 p0 hp0 hwait0,
    Renderer.nextFrame_closed env r hr p hp (fun _ => hwait), ?_, ?_, ?_, ?_⟩
  · intro dev
    simp [RenderTarget.new_getColorResource, RenderTarget.new_getDepthResource, hmod]
  · intro dev g h1 h2
    have hg : g % MAX_QUEUED_FRAMES ≠ r.m_frameIndex % MAX_QUEUED_FRAMES := by
      simp only [MAX_QUEUED_FRAMES] at hN hprev ⊢
      omega
    simp [RenderTarget.new_getColorResource, RenderTarget.new_getDepthResource,
      VulkanImageResource.create, hg]
  · rw [Renderer.signalValues_pacer_nextFrameEvents env0 r0 hr0 henv0 p0, hsig]
  · refine ⟨_, _, (Renderer.finalSubmit_mem env0 r0 p0).1, rfl, (Renderer.finalSubmit_mem env0 r0 p0).2, ?_⟩
    have hfi : ((r0.frameStart p0).afterDevices r0.getPhysicalDeviceCount).m_frameIndex =
        r0.m_frameIndex := rfl
    simp [Renderer.finalSubmit, Renderer.finalSignals, hfi, hsig]
  · rw [Renderer.filter_isWait_nextFrameEvents]
    simp [Renderer.waitEvents, hN, hv]
  · intro pre cb c post h
    obtain ⟨rest, hrest⟩ := Renderer.nextFrameEvents_head env r p hN
    rw [hrest, hv] at h
    exact record_after_head h rfl rfl rfl rfl

/-- C4, for the 2-device renderer: frame 4 and its predecessor in the slot, frame 1. -/
theorem slot_reuse_waits_for_previous_occupant_witness :
    ∃ r0' tr0 r' tr,
      (Renderer.sampleAt 2 1).nextFrame (FrameEnv.sample (some 5)) = .ok (r0', tr0) ∧
      (Renderer.sampleAt 2 4).nextFrame (FrameEnv.sample (some 9)) = .ok (r', tr) ∧
      signalValues .frameIndexSem tr0 = [2] ∧
      tr.filter Event.isWait = [Event.waitSemaphores .frameIndexSem 2 UINT64_MAX] := by
  obtain ⟨-, -, r0', tr0, r', tr, h0, h1, h2, -, h3, -⟩ :=
    slot_reuse_waits_for_previous_occupant (FrameEnv.sample (some 5)) (FrameEnv.sample (some 9))
      (Renderer.sampleAt 2 1) (Renderer.sampleAt 2 4) (by decide) (by decide) (by decide) 5 9
      rfl rfl (fun _ => rfl) rfl (by decide) (by decide)
  exact ⟨r0', tr0, r', tr, h0, h1, h2, h3⟩

/-! ## The bound on the frames in flight -/

theorem Renderer.mem_wait_nextFrameEvents (env : FrameEnv) (r : Renderer) (p : Nat)
    (sem : Semaphore) (v t : Nat)
    (h : Event.waitSemaphores sem v t ∈ r.nextFrameEvents env p) :
    MAX_QUEUED_FRAMES ≤ r.m_frameIndex ∧ v = r.waitValue := by
  have hmem : Event.waitSemaphores sem v t ∈ (r.nextFrameEvents env p).filter Event.isWait :=
    List.mem_filter.2 ⟨h, rfl⟩
  rw [Renderer.filter_isWait_nextFrameEvents] at hmem
  by_cases hN : MAX_QUEUED_FRAMES ≤ r.m_frameIndex
  · simp [Renderer.waitEvents, hN] at hmem
    exact ⟨hN, hmem.2.1⟩
  · simp [Renderer.waitEvents, hN] at hmem

theorem Renderer.wait_mem_nextFrameEvents (env : FrameEnv) (r : Renderer) (p : Nat)
    (hN : MAX_QUEUED_FRAMES ≤ r.m_frameIndex) :
    Event.waitSemaphores .frameIndexSem r.waitValue UINT64_MAX ∈ r.nextFrameEvents env p := by
  obtain ⟨rest, h⟩ := Renderer.nextFrameEvents_head env r p hN
  rw [h]; simp

theorem Renderer.nextFrame_ok_wait (env : FrameEnv) (r r' : Renderer) (tr : List Event) (p : Nat)
    (hp : env.beginFrame.predictedDisplayTimeNanos = some p)
    (h : r.nextFrame env = .ok (r', tr)) (hN : MAX_QUEUED_FRAMES ≤ r.m_frameIndex) :
    env.waitResult = .eSuccess := by
  by_contra hw
  simp [Renderer.nextFrame, hp, Renderer.waitForFrameIndexValue, hN, hw, bind, Except.bind] at h

theorem Renderer.nextFrame_cases (env : FrameEnv) (r r' : Renderer) (tr : List Event)
    (hr : r.WF) (h : r.nextFrame env = .ok (r', tr)) :
    (env.beginFrame.predictedDisplayTimeNanos = none ∧ r' = r ∧
      tr = [Event.beginFrame, Event.endFrame .m_presentQueue]) ∨
    (∃ p, env.beginFrame.predictedDisplayTimeNanos = some p ∧ r' = r.afterFrame p ∧
      tr = r.nextFrameEvents env p) := by
  cases hp : env.beginFrame.predictedDisplayTimeNanos with
  | none =>
    left
    simp only [Renderer.nextFrame, hp, Except.ok.injEq, Prod.mk.injEq] at h
    exact ⟨rfl, h.1.symm, h.2.symm⟩
  | some p =>
    right
    have hc := Renderer.nextFrame_closed env r hr p hp
      (fun hN => Renderer.nextFrame_ok_wait env r r' tr p hp h hN)
    rw [hc] at h
    simp only [Except.ok.injEq, Prod.mk.injEq] at h
    exact ⟨p, rfl, h.1.symm, h.2.symm⟩

theorem filter_gt_range' (f v : Nat) (hv : v ≤ f) :
    ((List.range' 1 f).filter fun x => decide (v < x)).length = f - v := by
  induction f with
  | zero => simp
  | succ f ih =>
    rw [List.range'_1_concat, List.filter_append, List.length_append]
    by_cases h : v ≤ f
    · rw [ih h]
      have : v < 1 + f := by omega
      simp [this]
      omega
    · have hvf : v = f + 1 := by omega
      subst hvf
      have h0 : ((List.range' 1 f).filter fun x => decide (f + 1 < x)) = [] := by
        rw [List.filter_eq_nil_iff]
        intro a ha
        have := (List.mem_range'_1.1 ha).2
        simp; omega
      rw [h0]
      simp
      omega

theorem PacerSystem.inv_initial (s : PacerSystem) (h : s.isInitial) : s.Inv := by
  obtain ⟨hwf, hf, hp, hv, hs⟩ := h
  refine ⟨hwf, by omega, by simp [hs, hf], by omega, ?_⟩
  intro r' tr h
  simp [hp] at h

theorem PacerSystem.inv_step (s s' : PacerSystem) (hs : s.Inv) (h : PacerStep s s') : s'.Inv := by
  obtain ⟨hwf, hv, hsig, hbound, hpend⟩ := hs
  cases h with
  | cpuBegin env r' tr hnone henv hno hnext hwait =>
    refine ⟨hwf, hv, hsig, hbound, ?_⟩
    intro r'' tr'' heq
    simp only [Option.some.injEq, Prod.mk.injEq] at heq
    obtain ⟨rfl, rfl⟩ := heq
    rcases Renderer.nextFrame_cases env s.renderer r' tr hwf hnext with ⟨-, h1, h2⟩ | ⟨p, hp, h1, h2⟩
    · left
      exact ⟨h1, by rw [h2]; rfl⟩
    · right
      subst h1
      subst h2
      refine ⟨Renderer.afterFrame_WF _ hwf p, ?_, ?_, ?_⟩
      · rw [Renderer.afterFrame_frameIndex, add64_one _ hno]
      · rw [Renderer.signalValues_pacer_nextFrameEvents env _ hwf henv p, add64_one _ hno]
      · show s.renderer.m_frameIndex + 1 ≤ s.value + MAX_QUEUED_FRAMES
        by_cases hN : MAX_QUEUED_FRAMES ≤ s.renderer.m_frameIndex
        · have := hwait _ _ (Renderer.wait_mem_nextFrameEvents env s.renderer p hN)
          rw [Renderer.waitValue_eq _ hwf.2.1 hN] at this
          omega
        · omega
  | cpuSubmit r' tr hp =>
    rcases hpend r' tr hp with ⟨h1, h2⟩ | ⟨h1, h2, h3, h4⟩
    · subst h1
      refine ⟨hwf, hv, by simp [h2, hsig], hbound, ?_⟩
      intro r'' tr'' h
      simp at h
    · refine ⟨h1, by simp only [h2]; omega, ?_, by simp only [h2]; omega, ?_⟩
      · simp only [h2, h3, hsig]
        rw [List.range'_1_concat, Nat.add_comm]
      · intro r'' tr'' h
        simp at h
  | gpuSignal v hlt hmem =>
    rw [hsig] at hmem
    have hvf := (List.mem_range'_1.1 hmem).2
    refine ⟨hwf, by simp only; omega, hsig, by simp only; omega, ?_⟩
    intro r' tr hp
    rcases hpend r' tr hp with h | ⟨h1, h2, h3, h4⟩
    · exact Or.inl h
    · exact Or.inr ⟨h1, h2, h3, by simp only; omega⟩

theorem PacerSystem.inv_reachable (s0 s : PacerSystem) (h0 : s0.isInitial)
    (h : Relation.ReflTransGen PacerStep s0 s) : s.Inv := by
  induction h with
  | refl => exact PacerSystem.inv_initial s0 h0
  | tail _ hstep ih => exact PacerSystem.inv_step _ _ ih hstep

/-- C5: in every state reachable from an initial state of the pacer system, the number of
frames in flight (submitted pacer signals not yet reached by the counter `v`) equals
`m_frameIndex - v` and is at most `MAX_QUEUED_FRAMES`; and while a rendered call of
`nextFrame` for frame `f = m_frameIndex` is between its wait and its submissions,
`f - v <= MAX_QUEUED_FRAMES - 1`. -/
theorem in_flight_bounded (s0 s : PacerSystem) (h0 : s0.isInitial)
    (h : Relation.ReflTransGen PacerStep s0 s) :
    s.inFlight = s.renderer.m_frameIndex - s.value ∧
    s.inFlight ≤ MAX_QUEUED_FRAMES ∧
    ∀ r' tr, s.pending = some (r', tr) → r'.m_frameIndex = s.renderer.m_frameIndex + 1 →
      s.renderer.m_frameIndex - s.value ≤ MAX_QUEUED_FRAMES - 1 := by
  obtain ⟨-, hv, hsig, hbound, hpend⟩ := PacerSystem.inv_reachable s0 s h0 h
  have hin : s.inFlight = s.renderer.m_frameIndex - s.value := by
    simp only [PacerSystem.inFlight, hsig]
    exact filter_gt_range' _ _ hv
  refine ⟨hin, by rw [hin]; omega, ?_⟩
  intro r' tr hp hf
  rcases hpend r' tr hp with ⟨h1, -⟩ | ⟨-, -, -, h4⟩
  · rw [h1] at hf; omega
  · simp only [MAX_QUEUED_FRAMES] at h4 ⊢
    omega

/-- C5, for the 2-device renderer: after the first rendered frame has been submitted and
before the device has signalled anything, one frame is in flight. -/
theorem in_flight_bounded_witness :
    ∃ s, Relation.ReflTransGen PacerStep
        { renderer := Renderer.sampleAt 2 0, pending := none, value := 0, signalled := [] } s ∧
      s.renderer.m_frameIndex = 1 ∧ s.inFlight = 1 ∧ s.inFlight ≤ MAX_QUEUED_FRAMES := by
  have hwf : (Renderer.sampleAt 2 0).WF := by decide
  have h1 : PacerStep
      { renderer := Renderer.sampleAt 2 0, pending := none, value := 0, signalled := [] }
      { renderer := Renderer.sampleAt 2 0,
        pending := some ((Renderer.sampleAt 2 0).afterFrame 5,
          (Renderer.sampleAt 2 0).nextFrameEvents (FrameEnv.sample (some 5)) 5),
        value := 0, signalled := [] } :=
    PacerStep.cpuBegin _ (FrameEnv.sample (some 5)) _ _ rfl (by decide) (by decide)
      (Renderer.nextFrame_closed _ _ hwf 5 rfl (fun _ => rfl))
      (fun v t hmem => absurd (Renderer.mem_wait_nextFrameEvents _ _ _ _ _ _ hmem).1 (by decide))
  have h2 := PacerStep.cpuSubmit _ _ _ (rfl :
    ({ renderer := Renderer.sampleAt 2 0,
       pending := some ((Renderer.sampleAt 2 0).afterFrame 5,
          (Renderer.sampleAt 2 0).nextFrameEvents (FrameEnv.sample (some 5)) 5),
       value := 0, signalled := [] } : PacerSystem).pending = _)
  have hreach := Relation.ReflTransGen.tail (Relation.ReflTransGen.single h1) h2
  have hb := in_flight_bounded _ _ ⟨hwf, rfl, rfl, rfl, rfl⟩ hreach
  exact ⟨_, hreach, by decide, hb.1, hb.2.1⟩

/-! ## The barriers recorded on a render-target image -/

theorem barriersOn_append (image : Image) (a b : List Event) :
    barriersOn image (a ++ b) = barriersOn image a ++ barriersOn image b := by
  simp [barriersOn]

theorem barriersOn_copyEvents (image : Image) (cb : CommandBuffer) (f c : Nat)
    (l : List CopyImageInfo2) : barriersOn image (copyEvents cb f c l) = [] := by
  induction l generalizing c with
  | nil => rfl
  | cons x xs ih =>
    have := ih (wrap32 (c + 1))
    simp only [barriersOn] at this ⊢
    simp [copyEvents, Event.barriersOn, this]

theorem Renderer.barriersOn_deviceEvents (env : FrameEnv) (r : Renderer) (j : Nat)
    (image : Image) :
    (r.deviceEvents env j).flatMap (Event.barriersOn image) =
      ((r.transferToGraphicsQueueFamilyBarriersEnd r.srcQueueFamilyIndex
          (r.rtImage j .eColor) (r.rtImage j .eDepth)).filter
        fun b => decide (b.image = image)).map (fun b => (r.graphicsCmdBuffer j, b)) ++
      ((r.graphicsToTransferQueueFamilyBarriersBegin
          (r.rtImage j .eColor) (r.rtImage j .eDepth)).filter
        fun b => decide (b.image = image)).map (fun b => (r.graphicsCmdBuffer j, b)) := by
  by_cases h0 : j = 0 ∧ r.m_frameIndex = 0
  · simp only [Renderer.deviceEvents, if_pos h0]
    simp [Event.barriersOn]
  · simp only [Renderer.deviceEvents, if_neg h0]
    simp [Event.barriersOn]

theorem Renderer.barriersOn_deviceEvents_ne (env : FrameEnv) (r : Renderer) (j dev : Nat)
    (aspect : ImageAspect) (slot : Nat) (h : j ≠ dev) :
    (r.deviceEvents env j).flatMap (Event.barriersOn (.renderTarget dev aspect slot)) = [] := by
  rw [Renderer.barriersOn_deviceEvents]
  simp [Renderer.transferToGraphicsQueueFamilyBarriersEnd,
    Renderer.graphicsToTransferQueueFamilyBarriersBegin, Renderer.rtImage, h, List.filter_cons]

theorem Renderer.filter_acquire_ne (r : Renderer) (j dev : Nat) (aspect : ImageAspect)
    (slot : Nat) (h : j ≠ dev) :
    (r.compositeAcquireBarriers (r.rtImage j .eColor) (r.rtImage j .eDepth)).filter
      (fun b => decide (b.image = .renderTarget dev aspect slot)) = [] := by
  simp [Renderer.compositeAcquireBarriers, Renderer.rtImage, h, List.filter_cons]

theorem Renderer.filter_release_ne (r : Renderer) (j dev : Nat) (aspect : ImageAspect)
    (slot : Nat) (h : j ≠ dev) :
    (r.compositeReleaseBarriers (r.rtImage j .eColor) (r.rtImage j .eDepth)).filter
      (fun b => decide (b.image = .renderTarget dev aspect slot)) = [] := by
  simp [Renderer.compositeReleaseBarriers, Renderer.rtImage, h, List.filter_cons]

theorem Image.ne_of_isCollaborator (image : Image) (h : image.isCollaborator = true) (dev : Nat)
    (aspect : ImageAspect) (slot : Nat) : image ≠ .renderTarget dev aspect slot := by
  intro he
  simp [he, Image.isCollaborator] at h

theorem Renderer.barriersOn_nextFrameEvents (env : FrameEnv) (r : Renderer) (henv : env.WF)
    (p dev : Nat) (aspect : ImageAspect) (slot : Nat) :
    barriersOn (.renderTarget dev aspect slot) (r.nextFrameEvents env p) =
      if dev < r.getPhysicalDeviceCount then
        r.frameBarriersOn p dev (.renderTarget dev aspect slot)
      else [] := by
  have hcount : (r.frameStart p).getPhysicalDeviceCount = r.getPhysicalDeviceCount := rfl
  have hcount2 : ((r.frameStart p).afterDevices r.getPhysicalDeviceCount).getPhysicalDeviceCount =
      r.getPhysicalDeviceCount := rfl
  have hc := Image.ne_of_isCollaborator _ henv.2.2.1 dev aspect slot
  have hd := Image.ne_of_isCollaborator _ henv.2.2.2 dev aspect slot
  -- the device loop of renderFrame
  have hdev : barriersOn (.renderTarget dev aspect slot)
      (eventsFrom ((r.frameStart p).deviceEvents env) r.getPhysicalDeviceCount 0) =
      if dev < r.getPhysicalDeviceCount then
        (r.frameStart p).deviceEvents env dev |>.flatMap (Event.barriersOn (.renderTarget dev aspect slot))
      else [] := by
    simp only [barriersOn, flatMap_eventsFrom]
    by_cases hlt : dev < r.getPhysicalDeviceCount
    · rw [if_pos hlt, eventsFrom_eq_single _ _ 0 dev (by omega) (by omega)]
      intro j _ _ hj
      exact Renderer.barriersOn_deviceEvents_ne env _ j dev aspect slot hj
    · rw [if_neg hlt]
      apply eventsFrom_eq_nil
      intro j _ hj
      exact Renderer.barriersOn_deviceEvents_ne env _ j dev aspect slot (by omega)
  -- the two barrier vectors of buildFinalFrame
  have hacq : (eventsFrom (fun k => ((r.frameStart p).afterDevices r.getPhysicalDeviceCount).compositeAcquireBarriers
        (((r.frameStart p).afterDevices r.getPhysicalDeviceCount).rtImage k .eColor)
        (((r.frameStart p).afterDevices r.getPhysicalDeviceCount).rtImage k .eDepth))
        r.getPhysicalDeviceCount 0).filter (fun b => decide (b.image = .renderTarget dev aspect slot)) =
      if dev < r.getPhysicalDeviceCount then
        ((r.frameStart p).compositeAcquireBarriers ((r.frameStart p).rtImage dev .eColor)
          ((r.frameStart p).rtImage dev .eDepth)).filter
          (fun b => decide (b.image = .renderTarget dev aspect slot))
      else [] := by
    rw [filter_eventsFrom]
    by_cases hlt : dev < r.getPhysicalDeviceCount
    · rw [if_pos hlt, eventsFrom_eq_single _ _ 0 dev (by omega) (by omega)]
      · rfl
      · intro j _ _ hj
        exact Renderer.filter_acquire_ne _ j dev aspect slot hj
    · rw [if_neg hlt]
      apply eventsFrom_eq_nil
      intro j _ hj
      exact Renderer.filter_acquire_ne _ j dev aspect slot (by omega)
  have hrel : (eventsFrom (fun k => ((r.frameStart p).afterDevices r.getPhysicalDeviceCount).compositeReleaseBarriers
        (((r.frameStart p).afterDevices r.getPhysicalDeviceCount).rtImage k .eColor)
        (((r.frameStart p).afterDevices r.getPhysicalDeviceCount).rtImage k .eDepth))
        r.getPhysicalDeviceCount 0).filter (fun b => decide (b.image = .renderTarget dev aspect slot)) =
      if dev < r.getPhysicalDeviceCount then
        ((r.frameStart p).compositeReleaseBarriers ((r.frameStart p).rtImage dev .eColor)
          ((r.frameStart p).rtImage dev .eDepth)).filter
          (fun b => decide (b.image = .renderTarget dev aspect slot))
      else [] := by
    rw [filter_eventsFrom]
    by_cases hlt : dev < r.getPhysicalDeviceCount
    · rw [if_pos hlt, eventsFrom_eq_single _ _ 0 dev (by omega) (by omega)]
      · rfl
      · intro j _ _ hj
        exact Renderer.filter_release_ne _ j dev aspect slot hj
    · rw [if_neg hlt]
      apply eventsFrom_eq_nil
      intro j _ hj
      exact Renderer.filter_release_ne _ j dev aspect slot (by omega)
  have htcb : ((r.frameStart p).afterDevices r.getPhysicalDeviceCount).transferCmdBuffer =
      (r.frameStart p).transferCmdBuffer := rfl
  simp only [Renderer.nextFrameEvents, Renderer.renderFrameEvents, Renderer.buildFinalFrameEvents,
    barriersOn_append, hdev, hcount, hcount2, barriersOn_copyEvents, Renderer.buildLocals, htcb]
  simp only [barriersOn, List.flatMap_cons, List.flatMap_nil, Event.barriersOn, List.filter_append,
    hacq, hrel, List.append_nil, List.nil_append, List.map_append]
  by_cases hlt : dev < r.getPhysicalDeviceCount <;>
  by_cases hN : MAX_QUEUED_FRAMES ≤ r.m_frameIndex <;>
  by_cases hs : env.getSwapchainImageReadySemaphore = .null <;>
  by_cases hs2 : ((r.frameStart p).afterDevices r.getPhysicalDeviceCount).m_swapchainImageReadySemaphore
      = .null <;>
  by_cases hdp : env.acquireSwapchainImages.depthImage = .null <;>
    simp [hlt, hN, hs, hs2, hdp, Renderer.waitEvents, Renderer.acquireEvents, Event.barriersOn,
      Renderer.barriersOn_deviceEvents, Renderer.frameBarriersOn, destinationToTransferDst,
      Renderer.destinationToRelease, Renderer.finalBarriers, hc, hd, List.filter_cons]

theorem Renderer.frameBarriersOn_other_slot (r : Renderer) (p dev : Nat) (aspect : ImageAspect)
    (slot : Nat) (h : r.m_frameIndex % MAX_QUEUED_FRAMES ≠ slot) :
    r.frameBarriersOn p dev (.renderTarget dev aspect slot) = [] := by
  have hfi : (r.frameStart p).m_frameIndex = r.m_frameIndex := rfl
  simp [Renderer.frameBarriersOn, Renderer.transferToGraphicsQueueFamilyBarriersEnd,
    Renderer.graphicsToTransferQueueFamilyBarriersBegin, Renderer.compositeAcquireBarriers,
    Renderer.compositeReleaseBarriers, Renderer.rtImage, hfi, h, List.filter_cons]

theorem Renderer.frameBarriersOn_slot (r : Renderer) (p dev : Nat) (aspect : ImageAspect) :
    ∃ P R A R2,
      r.frameBarriersOn p dev
          (.renderTarget dev aspect (r.m_frameIndex % MAX_QUEUED_FRAMES)) =
        [((r.frameStart p).graphicsCmdBuffer dev, P), ((r.frameStart p).graphicsCmdBuffer dev, R),
         ((r.frameStart p).transferCmdBuffer, A), ((r.frameStart p).transferCmdBuffer, R2)] ∧
      P ∈ (r.frameStart p).transferToGraphicsQueueFamilyBarriersEnd
        (r.frameStart p).srcQueueFamilyIndex ((r.frameStart p).rtImage dev .eColor)
        ((r.frameStart p).rtImage dev .eDepth) ∧
      R ∈ (r.frameStart p).graphicsToTransferQueueFamilyBarriersBegin
        ((r.frameStart p).rtImage dev .eColor) ((r.frameStart p).rtImage dev .eDepth) ∧
      A ∈ (r.frameStart p).compositeAcquireBarriers
        ((r.frameStart p).rtImage dev .eColor) ((r.frameStart p).rtImage dev .eDepth) ∧
      R2 ∈ (r.frameStart p).compositeReleaseBarriers
        ((r.frameStart p).rtImage dev .eColor) ((r.frameStart p).rtImage dev .eDepth) ∧
      P.srcQueueFamilyIndex =
        (if r.m_frameIndex < MAX_QUEUED_FRAMES then r.m_graphicsQueueFamily.getIndex
         else r.m_transferQueueFamily.getIndex) ∧
      P.dstQueueFamilyIndex = r.m_graphicsQueueFamily.getIndex ∧
      R.srcQueueFamilyIndex = r.m_graphicsQueueFamily.getIndex ∧
      R.dstQueueFamilyIndex = r.m_transferQueueFamily.getIndex ∧
      A.srcQueueFamilyIndex = R.srcQueueFamilyIndex ∧
      A.dstQueueFamilyIndex = R.dstQueueFamilyIndex ∧
      A.oldLayout = R.oldLayout ∧ A.newLayout = R.newLayout ∧
      R.oldLayout = P.newLayout ∧ R2.oldLayout = A.newLayout ∧
      R2.srcQueueFamilyIndex = r.m_transferQueueFamily.getIndex ∧
      R2.dstQueueFamilyIndex = r.m_graphicsQueueFamily.getIndex := by
  have hfi : (r.frameStart p).m_frameIndex = r.m_frameIndex := rfl
  cases aspect
  · refine ⟨((r.frameStart p).transferToGraphicsQueueFamilyBarriersEnd
        (r.frameStart p).srcQueueFamilyIndex ((r.frameStart p).rtImage dev .eColor)
        ((r.frameStart p).rtImage dev .eDepth)).get ⟨0, Nat.zero_lt_succ 1⟩,
      ((r.frameStart p).graphicsToTransferQueueFamilyBarriersBegin
        ((r.frameStart p).rtImage dev .eColor) ((r.frameStart p).rtImage dev .eDepth)).get
        ⟨0, Nat.zero_lt_succ 1⟩,
      ((r.frameStart p).compositeAcquireBarriers
        ((r.frameStart p).rtImage dev .eColor) ((r.frameStart p).rtImage dev .eDepth)).get
        ⟨0, Nat.zero_lt_succ 1⟩,
      ((r.frameStart p).compositeReleaseBarriers
        ((r.frameStart p).rtImage dev .eColor) ((r.frameStart p).rtImage dev .eDepth)).get
        ⟨1, Nat.lt_succ_self 1⟩,
      ?_, List.get_mem _ _ _, List.get_mem _ _ _, List.get_mem _ _ _, List.get_mem _ _ _,
      rfl, rfl, rfl, rfl, rfl, rfl, rfl, rfl, rfl, rfl, rfl, rfl⟩
    simp [Renderer.frameBarriersOn, Renderer.transferToGraphicsQueueFamilyBarriersEnd,
      Renderer.graphicsToTransferQueueFamilyBarriersBegin, Renderer.compositeAcquireBarriers,
      Renderer.compositeReleaseBarriers, Renderer.rtImage, hfi, List.filter_cons]
  · refine ⟨((r.frameStart p).transferToGraphicsQueueFamilyBarriersEnd
        (r.frameStart p).srcQueueFamilyIndex ((r.frameStart p).rtImage dev .eColor)
        ((r.frameStart p).rtImage dev .eDepth)).get ⟨1, Nat.lt_succ_self 1⟩,
      ((r.frameStart p).graphicsToTransferQueueFamilyBarriersBegin
        ((r.frameStart p).rtImage dev .eColor) ((r.frameStart p).rtImage dev .eDepth)).get
        ⟨1, Nat.lt_succ_self 1⟩,
      ((r.frameStart p).compositeAcquireBarriers
        ((r.frameStart p).rtImage dev .eColor) ((r.frameStart p).rtImage dev .eDepth)).get
        ⟨1, Nat.lt_succ_self 1⟩,
      ((r.frameStart p).compositeReleaseBarriers
        ((r.frameStart p).rtImage dev .eColor) ((r.frameStart p).rtImage dev .eDepth)).get
        ⟨0, Nat.zero_lt_succ 1⟩,
      ?_, List.get_mem _ _ _, List.get_mem _ _ _, List.get_mem _ _ _, List.get_mem _ _ _,
      rfl, rfl, rfl, rfl, rfl, rfl, rfl, rfl, rfl, rfl, rfl, rfl⟩
    simp [Renderer.frameBarriersOn, Renderer.transferToGraphicsQueueFamilyBarriersEnd,
      Renderer.graphicsToTransferQueueFamilyBarriersBegin, Renderer.compositeAcquireBarriers,
      Renderer.compositeReleaseBarriers, Renderer.rtImage, hfi, List.filter_cons]

/-! ## Ownership transitions -/

theorem isMatchingPair_of_shapes {a b : Nat} (hab : a ≠ b)
    {x y : CommandBuffer × ImageMemoryBarrier2} (hx : BarrierShape a a b x)
    (hy : BarrierShape b a b y) : isMatchingPair x y = true := by
  obtain ⟨h1, h2, h3⟩ := hx
  obtain ⟨h4, h5, h6⟩ := hy
  simp [isMatchingPair, h1, h2, h3, h4, h5, h6, hab]

theorem transitions_laterBlocks (g t : Nat) (hgt : g ≠ t)
    (L : List (CommandBuffer × ImageMemoryBarrier2)) (hL : LaterBlocks g t L)
    (x : CommandBuffer × ImageMemoryBarrier2) (hx : BarrierShape t t g x) :
    ownershipChain t g (transitions (x :: L)) := by
  induction hL generalizing x with
  | nil => exact ⟨hx.2.1, hx.2.2, trivial⟩
  | block P R A R2 rest hP hR hA hR2 _ ih =>
    have h1 : isMatchingPair x P = true :=
      isMatchingPair_of_shapes (Ne.symm hgt) hx hP
    have h2 : isMatchingPair R A = true := isMatchingPair_of_shapes hgt hR hA
    simp only [transitions, h1, h2, if_true]
    exact ⟨hx.2.1, hx.2.2, hR.2.1, hR.2.2, ih R2 hR2⟩

theorem transitions_firstBlock (g t : Nat) (hgt : g ≠ t)
    (P R A R2 : CommandBuffer × ImageMemoryBarrier2)
    (L : List (CommandBuffer × ImageMemoryBarrier2)) (hP : P.2.dstQueueFamilyIndex = g)
    (hR : BarrierShape g g t R) (hA : BarrierShape t g t A) (hR2 : BarrierShape t t g R2)
    (hL : LaterBlocks g t L) :
    ∃ rest, transitions (P :: R :: A :: R2 :: L) = P.2 :: rest ∧ ownershipChain g t rest := by
  have h1 : isMatchingPair P R = false := by
    simp only [isMatchingPair, hP, hR.2.2, decide_eq_false_iff_not]
    intro h
    exact hgt h.2.2.2.2
  have h2 : isMatchingPair R A = true := isMatchingPair_of_shapes hgt hR hA
  refine ⟨R.2 :: transitions (R2 :: L), ?_, hR.2.1, hR.2.2, transitions_laterBlocks g t hgt L hL R2 hR2⟩
  simp [transitions, h1, h2]

theorem chain_of_ownershipChain (cur next : Nat) (hne : cur ≠ next) (a : ImageMemoryBarrier2)
    (ha : a.dstQueueFamilyIndex = cur) (l : List ImageMemoryBarrier2)
    (h : ownershipChain cur next l) :
    List.Chain (fun x y => x.dstQueueFamilyIndex ≠ y.dstQueueFamilyIndex) a l := by
  induction l generalizing cur next a with
  | nil => exact List.Chain.nil
  | cons b l ih =>
    obtain ⟨-, h2, h3⟩ := h
    exact List.Chain.cons (by rw [ha, h2]; exact hne) (ih next cur (Ne.symm hne) b h2 h3)

theorem Renderer.run_closed (dev : Nat) (aspect : ImageAspect) (slot : Nat)
    (envs : List FrameEnv) (r : Renderer) (hr : r.WF)
    (henv : ∀ env ∈ envs, env.WF ∧ env.waitResult = .eSuccess) :
    ∃ r' tr, r.run envs = .ok (r', tr) ∧
      barriersOn (.renderTarget dev aspect slot) tr =
        Renderer.runBarriersOn dev (.renderTarget dev aspect slot) envs r := by
  induction envs generalizing r with
  | nil => exact ⟨r, [], rfl, rfl⟩
  | cons env envs ih =>
    have he := henv env (List.mem_cons_self _ _)
    have hrest : ∀ e ∈ envs, e.WF ∧ e.waitResult = .eSuccess :=
      fun e h => henv e (List.mem_cons_of_mem _ h)
    cases hp : env.beginFrame.predictedDisplayTimeNanos with
    | none =>
      obtain ⟨r', tr, h1, h2⟩ := ih r hr hrest
      refine ⟨r', [Event.beginFrame, Event.endFrame .m_presentQueue] ++ tr, ?_, ?_⟩
      · simp [Renderer.run, Renderer.nextFrame, hp, h1]
      · rw [barriersOn_append, h2]
        simp [barriersOn, Event.barriersOn, Renderer.runBarriersOn, hp]
    | some p =>
      obtain ⟨r', tr, h1, h2⟩ := ih (r.afterFrame p) (Renderer.afterFrame_WF r hr p) hrest
      refine ⟨r', r.nextFrameEvents env p ++ tr, ?_, ?_⟩
      · simp [Renderer.run, Renderer.nextFrame_closed env r hr p hp (fun _ => he.2), h1]
      · rw [barriersOn_append, h2, Renderer.barriersOn_nextFrameEvents env r he.1]
        simp [Renderer.runBarriersOn, hp]

theorem Renderer.frameBlock_shapes (r : Renderer) (p dev : Nat) (aspect : ImageAspect) :
    ∃ P R A R2,
      r.frameBarriersOn p dev
          (.renderTarget dev aspect (r.m_frameIndex % MAX_QUEUED_FRAMES)) = [P, R, A, R2] ∧
      P.1.queueFamilyIndex = r.m_graphicsQueueFamily.getIndex ∧
      P.2.srcQueueFamilyIndex =
        (if r.m_frameIndex < MAX_QUEUED_FRAMES then r.m_graphicsQueueFamily.getIndex
         else r.m_transferQueueFamily.getIndex) ∧
      P.2.dstQueueFamilyIndex = r.m_graphicsQueueFamily.getIndex ∧
      BarrierShape r.m_graphicsQueueFamily.getIndex r.m_graphicsQueueFamily.getIndex
        r.m_transferQueueFamily.getIndex R ∧
      BarrierShape r.m_transferQueueFamily.getIndex r.m_graphicsQueueFamily.getIndex
        r.m_transferQueueFamily.getIndex A ∧
      BarrierShape r.m_transferQueueFamily.getIndex r.m_transferQueueFamily.getIndex
        r.m_graphicsQueueFamily.getIndex R2 := by
  obtain ⟨P, R, A, R2, heq, -, -, -, -, h1, h2, h3, h4, h5, h6, -, -, -, -, h7, h8⟩ :=
    Renderer.frameBarriersOn_slot r p dev aspect
  exact ⟨_, _, _, _, heq, rfl, h1, h2, ⟨rfl, h3, h4⟩, ⟨rfl, h5.trans h3, h6.trans h4⟩,
    ⟨rfl, h7, h8⟩⟩

theorem Renderer.runBarriersOn_later (dev : Nat) (aspect : ImageAspect) (slot g t : Nat)
    (envs : List FrameEnv) (r : Renderer) (hf : r.m_frameIndex + envs.length < 2 ^ 64)
    (hg : r.m_graphicsQueueFamily.getIndex = g) (ht : r.m_transferQueueFamily.getIndex = t)
    (hA : ∀ f, r.m_frameIndex ≤ f → f % MAX_QUEUED_FRAMES = slot → MAX_QUEUED_FRAMES ≤ f) :
    LaterBlocks g t (Renderer.runBarriersOn dev (.renderTarget dev aspect slot) envs r) := by
  induction envs generalizing r with
  | nil => exact LaterBlocks.nil
  | cons env envs ih =>
    simp only [List.length_cons] at hf
    cases hp : env.beginFrame.predictedDisplayTimeNanos with
    | none =>
      simp only [Renderer.runBarriersOn, hp]
      exact ih r (by omega) hg ht hA
    | some p =>
      simp only [Renderer.runBarriersOn, hp]
      have hnext : (r.afterFrame p).m_frameIndex = r.m_frameIndex + 1 := by
        rw [Renderer.afterFrame_frameIndex, add64_one _ (by omega)]
      have hrest := ih (r.afterFrame p) (by rw [hnext]; omega) hg ht
        (fun f h1 h2 => hA f (by rw [hnext] at h1; omega) h2)
      by_cases hdev : dev < r.getPhysicalDeviceCount
      · rw [if_pos hdev]
        by_cases hslot : r.m_frameIndex % MAX_QUEUED_FRAMES = slot
        · obtain ⟨P, R, A, R2, heq, hP1, hP2, hP3, hR, hA', hR2⟩ :=
            Renderer.frameBlock_shapes r p dev aspect
          have hN := hA r.m_frameIndex (Nat.le_refl _) hslot
          rw [if_neg (by omega)] at hP2
          rw [hslot] at heq
          rw [heq, hg, ht] at *
          exact LaterBlocks.block P R A R2 _ ⟨hP1, hP2, hP3⟩ hR hA' hR2 hrest
        · rw [Renderer.frameBarriersOn_other_slot r p dev aspect slot hslot]
          exact hrest
      · rw [if_neg hdev]
        exact hrest

theorem Renderer.runBarriersOn_first (dev : Nat) (aspect : ImageAspect) (slot g t : Nat)
    (envs : List FrameEnv) (r : Renderer) (hf : r.m_frameIndex + envs.length < 2 ^ 64)
    (hg : r.m_graphicsQueueFamily.getIndex = g) (ht : r.m_transferQueueFamily.getIndex = t) :
    Renderer.runBarriersOn dev (.renderTarget dev aspect slot) envs r = [] ∨
    ∃ P R A R2 L,
      Renderer.runBarriersOn dev (.renderTarget dev aspect slot) envs r = P :: R :: A :: R2 :: L ∧
      P.2.dstQueueFamilyIndex = g ∧ BarrierShape g g t R ∧ BarrierShape t g t A ∧
      BarrierShape t t g R2 ∧ LaterBlocks g t L := by
  induction envs generalizing r with
  | nil => exact Or.inl rfl
  | cons env envs ih =>
    simp only [List.length_cons] at hf
    cases hp : env.beginFrame.predictedDisplayTimeNanos with
    | none =>
      simp only [Renderer.runBarriersOn, hp]
      exact ih r (by omega) hg ht
    | some p =>
      simp only [Renderer.runBarriersOn, hp]
      have hnext : (r.afterFrame p).m_frameIndex = r.m_frameIndex + 1 := by
        rw [Renderer.afterFrame_frameIndex, add64_one _ (by omega)]
      by_cases hdev : dev < r.getPhysicalDeviceCount
      · rw [if_pos hdev]
        by_cases hslot : r.m_frameIndex % MAX_QUEUED_FRAMES = slot
        · right
          obtain ⟨P, R, A, R2, heq, -, -, hP3, hR, hA', hR2⟩ :=
            Renderer.frameBlock_shapes r p dev aspect
          have hlater := Renderer.runBarriersOn_later dev aspect slot g t envs (r.afterFrame p)
            (by rw [hnext]; omega) hg ht (by
              intro f h1 h2
              rw [hnext] at h1
              simp only [MAX_QUEUED_FRAMES] at hslot h2 ⊢
              omega)
          rw [hslot] at heq
          rw [hg, ht] at *
          exact ⟨P, R, A, R2, _, by rw [heq]; rfl, hP3, hR, hA', hR2, hlater⟩
        · rw [Renderer.frameBarriersOn_other_slot r p dev aspect slot hslot]
          exact ih (r.afterFrame p) (by rw [hnext]; omega) hg ht
      · rw [if_neg hdev]
        exact ih (r.afterFrame p) (by rw [hnext]; omega) hg ht

theorem Renderer.transferSubmit_mem (env : FrameEnv) (r : Renderer) (p : Nat) :
    Event.submit2 .m_transferQueue
      [((r.frameStart p).afterDevices r.getPhysicalDeviceCount).transferSubmit env
        env.acquireSwapchainImages] ∈ r.nextFrameEvents env p := by
  simp [Renderer.nextFrameEvents, Renderer.buildFinalFrameEvents]

theorem Renderer.release_after_draw (env : FrameEnv) (r : Renderer) (hr : r.WF) (p dev : Nat)
    (hdev : dev < r.getPhysicalDeviceCount) :
    ∃ pre call post,
      commandsOf ((r.frameStart p).graphicsCmdBuffer dev) (r.nextFrameEvents env p) =
        pre ++ [Cmd.sceneRender call,
          Cmd.pipelineBarrier2 ((r.frameStart p).graphicsToTransferQueueFamilyBarriersBegin
            ((r.frameStart p).rtImage dev .eColor) ((r.frameStart p).rtImage dev .eDepth))] ++ post ∧
      call.physicalDeviceIndex = dev := by
  refine ⟨[Cmd.begin] ++
      (if dev = 0 ∧ (r.frameStart p).m_frameIndex = 0 then [Cmd.resetQueryPool] else []) ++
      [Cmd.pushDurationBegin (.renderDevice dev) (r.frameStart p).m_frameIndex dev,
       Cmd.pipelineBarrier2 ((r.frameStart p).transferToGraphicsQueueFamilyBarriersEnd
         (r.frameStart p).srcQueueFamilyIndex ((r.frameStart p).rtImage dev .eColor)
         ((r.frameStart p).rtImage dev .eDepth))],
    (r.frameStart p).deviceDraw env dev, [Cmd.pushDurationEnd, Cmd.finish], ?_, rfl⟩
  rw [Renderer.commandsOf_nextFrameEvents_device env r hr p dev hdev]
  simp [Renderer.deviceCommands]

/-- C9: run any number of calls of `nextFrame` from a well-formed renderer (collaborator
well-formed, waits succeeding, frame counter not wrapping) and take the colour or depth image
of any device and slot.  The ownership transitions recorded for the image over the run, a
release directly followed by its matching acquire counted once, are: none, or a first
transition to the graphics family followed by transitions that go graphics to transfer,
transfer to graphics, and so on, each starting from the family the previous one ended in; no
two consecutive transitions have the same destination family.  And in every rendered frame,
for the image of a device in the slot of that frame, exactly four barriers are recorded: one
before the draw and the release `R` after the draw (the barrier command following the draw,
on the device's graphics command buffer), then on the command buffer of the composite
submission the acquire `A` and a release back; `R` goes from the graphics to the transfer
family and `A` has the same source and destination family and the same old and new layout
as `R`. -/
theorem slot_ownership_alternates (envs : List FrameEnv) (r : Renderer) (hr : r.WF)
    (henv : ∀ env ∈ envs, env.WF ∧ env.waitResult = .eSuccess)
    (hf : r.m_frameIndex + envs.length < 2 ^ 64)
    (dev : Nat) (aspect : ImageAspect) (slot : Nat) :
    (∃ r' tr, r.run envs = .ok (r', tr) ∧
      (transitions (barriersOn (.renderTarget dev aspect slot) tr) = [] ∨
       ∃ first rest,
         transitions (barriersOn (.renderTarget dev aspect slot) tr) = first :: rest ∧
         first.dstQueueFamilyIndex = r.m_graphicsQueueFamily.getIndex ∧
         ownershipChain r.m_graphicsQueueFamily.getIndex r.m_transferQueueFamily.getIndex
           rest) ∧
      List.Chain' (fun a b => a.dstQueueFamilyIndex ≠ b.dstQueueFamilyIndex)
        (transitions (barriersOn (.renderTarget dev aspect slot) tr))) ∧
    ∀ env p, env.WF → env.beginFrame.predictedDisplayTimeNanos = some p →
      (MAX_QUEUED_FRAMES ≤ r.m_frameIndex → env.waitResult = .eSuccess) →
      dev < r.getPhysicalDeviceCount →
      ∃ r1 tr cbG cbT P R A R2,
        r.nextFrame env = .ok (r1, tr) ∧
        barriersOn (.renderTarget dev aspect (r.m_frameIndex % MAX_QUEUED_FRAMES)) tr =
          [(cbG, P), (cbG, R), (cbT, A), (cbT, R2)] ∧
        (∃ pre call bs post,
          commandsOf cbG tr = pre ++ [Cmd.sceneRender call, Cmd.pipelineBarrier2 bs] ++ post ∧
          call.physicalDeviceIndex = dev ∧ R ∈ bs) ∧
        (∃ sub, Event.submit2 .m_transferQueue [sub] ∈ tr ∧
          sub.commandBufferInfos.map (fun i => i.commandBuffer) = [some cbT]) ∧
        cbG.queueFamilyIndex = r.m_graphicsQueueFamily.getIndex ∧
        cbT.queueFamilyIndex = r.m_transferQueueFamily.getIndex ∧
        R.srcQueueFamilyIndex = r.m_graphicsQueueFamily.getIndex ∧
        R.dstQueueFamilyIndex = r.m_transferQueueFamily.getIndex ∧
        A.srcQueueFamilyIndex = R.srcQueueFamilyIndex ∧
        A.dstQueueFamilyIndex = R.dstQueueFamilyIndex ∧
        A.oldLayout = R.oldLayout ∧ A.newLayout = R.newLayout := by
  have hgt : r.m_graphicsQueueFamily.getIndex ≠ r.m_transferQueueFamily.getIndex :=
    hr.2.2.2.2.2.2.1
  constructor
  · obtain ⟨r', tr, hrun, hb⟩ := Renderer.run_closed dev aspect slot envs r hr henv
    refine ⟨r', tr, hrun, ?_⟩
    rw [hb]
    rcases Renderer.runBarriersOn_first dev aspect slot _ _ envs r hf rfl rfl with
      h | ⟨P, R, A, R2, L, heq, hP, hR, hA, hR2, hL⟩
    · rw [h]
      exact ⟨Or.inl rfl, List.chain'_nil⟩
    · rw [heq]
      obtain ⟨rest, h1, h2⟩ := transitions_firstBlock _ _ hgt P R A R2 L hP hR hA hR2 hL
      rw [h1]
      exact ⟨Or.inr ⟨_, _, rfl, hP, h2⟩, chain_of_ownershipChain _ _ hgt _ hP _ h2⟩
  · intro env p henv' hp hwait hdev
    obtain ⟨P, R, A, R2, heq, -, hRmem, -, -, -, -, h3, h4, h5, h6, h7, h8, -, -, -, -⟩ :=
      Renderer.frameBarriersOn_slot r p dev aspect
    obtain ⟨pre, call, post, hcmd, hcall⟩ := Renderer.release_after_draw env r hr p dev hdev
    refine ⟨_, _, _, _, P, R, A, R2, Renderer.nextFrame_closed env r hr p hp hwait, ?_,
      ⟨pre, call, _, post, hcmd, hcall, hRmem⟩,
      ⟨_, Renderer.transferSubmit_mem env r p, rfl⟩, rfl, rfl, h3, h4, h5, h6, h7, h8⟩
    rw [Renderer.barriersOn_nextFrameEvents env r henv', if_pos hdev, heq]
    rfl

/-- C9, for the 2-device renderer: run for four rendered frames from frame 0, the
transitions of the colour image of device 1 in slot 0 (used by frames 0 and 3) never have
the same destination twice in a row; and frame 0 records four barriers on that image, the
acquire of the composite step having the source family of the release after the draw. -/
theorem slot_ownership_alternates_witness :
    (∃ r' tr,
      (Renderer.sampleAt 2 0).run
        [FrameEnv.sample (some 1), FrameEnv.sample (some 2), FrameEnv.sample (some 3),
         FrameEnv.sample (some 4)] = .ok (r', tr) ∧
      List.Chain' (fun a b => a.dstQueueFamilyIndex ≠ b.dstQueueFamilyIndex)
        (transitions (barriersOn (.renderTarget 1 .eColor 0) tr))) ∧
    ∃ r1 tr cbG cbT P R A R2,
      (Renderer.sampleAt 2 0).nextFrame (FrameEnv.sample (some 1)) = .ok (r1, tr) ∧
      barriersOn (.renderTarget 1 .eColor 0) tr = [(cbG, P), (cbG, R), (cbT, A), (cbT, R2)] ∧
      A.srcQueueFamilyIndex = R.srcQueueFamilyIndex ∧ R.srcQueueFamilyIndex = 0 := by
  obtain ⟨⟨r', tr, h1, -, h2⟩, hframe⟩ :=
    slot_ownership_alternates
      [FrameEnv.sample (some 1), FrameEnv.sample (some 2), FrameEnv.sample (some 3),
       FrameEnv.sample (some 4)] (Renderer.sampleAt 2 0) (by decide)
      (by
        intro env henv
        simp only [List.mem_cons, List.mem_singleton, List.not_mem_nil, or_false] at henv
        rcases henv with rfl | rfl | rfl | rfl <;> exact ⟨by decide, rfl⟩)
      (by decide) 1 .eColor 0
  obtain ⟨r1, tr1, cbG, cbT, P, R, A, R2, g1, g2, -, -, -, -, g3, -, g4, -⟩ :=
    hframe (FrameEnv.sample (some 1)) 1 (by decide) rfl (fun _ => rfl) (by decide)
  exact ⟨⟨r', tr, h1, h2⟩, r1, tr1, cbG, cbT, P, R, A, R2, g1, g2, g4, g3⟩

/-! ## The frame counter -/

theorem renderedCalls_cons_none (env : FrameEnv) (envs : List FrameEnv)
    (h : env.beginFrame.predictedDisplayTimeNanos = none) :
    renderedCalls (env :: envs) = renderedCalls envs := by
  simp [renderedCalls, h]

theorem renderedCalls_cons_some (env : FrameEnv) (envs : List FrameEnv) (p : Nat)
    (h : env.beginFrame.predictedDisplayTimeNanos = some p) :
    renderedCalls (env :: envs) = renderedCalls envs + 1 := by
  simp [renderedCalls, h]

theorem Renderer.run_frameIndex (envs : List FrameEnv) (r : Renderer) (hr : r.WF)
    (hwait : ∀ env ∈ envs, env.waitResult = .eSuccess)
    (hf : r.m_frameIndex + renderedCalls envs < 2 ^ 64) :
    ∃ r' tr, r.run envs = .ok (r', tr) ∧ r'.WF ∧
      r'.m_frameIndex = r.m_frameIndex + renderedCalls envs := by
  induction envs generalizing r with
  | nil => exact ⟨r, [], rfl, hr, rfl⟩
  | cons env envs ih =>
    have he := hwait env (List.mem_cons_self _ _)
    have hrest : ∀ e ∈ envs, e.waitResult = .eSuccess :=
      fun e h => hwait e (List.mem_cons_of_mem _ h)
    cases hp : env.beginFrame.predictedDisplayTimeNanos with
    | none =>
      rw [renderedCalls_cons_none env envs hp] at hf ⊢
      obtain ⟨r', tr, h1, h2, h3⟩ := ih r hr hrest hf
      exact ⟨r', [Event.beginFrame, Event.endFrame .m_presentQueue] ++ tr,
        by simp [Renderer.run, Renderer.nextFrame, hp, h1], h2, h3⟩
    | some p =>
      rw [renderedCalls_cons_some env envs p hp] at hf ⊢
      have hidx : (r.afterFrame p).m_frameIndex = r.m_frameIndex + 1 :=
        add64_one r.m_frameIndex (by omega)
      obtain ⟨r', tr, h1, h2, h3⟩ := ih (r.afterFrame p) (Renderer.afterFrame_WF r hr p) hrest
        (by rw [hidx]; omega)
      refine ⟨r', r.nextFrameEvents env p ++ tr, ?_, h2, ?_⟩
      · simp [Renderer.run, Renderer.nextFrame_closed env r hr p hp (fun _ => he), h1]
      · rw [h3, hidx]; omega

theorem Renderer.nextFrameEvents_tail (env : FrameEnv) (r : Renderer) (p : Nat) :
    ∃ pre, r.nextFrameEvents env p =
      pre ++ [Event.releaseSwapchainImage, Event.endFrame .m_presentQueue] ∧
      signalValues .frameIndexSem pre = signalValues .frameIndexSem (r.nextFrameEvents env p) := by
  refine ⟨_, rfl, ?_⟩
  show _ = signalValues .frameIndexSem
    (_ ++ [Event.releaseSwapchainImage, Event.endFrame .m_presentQueue])
  rw [signalValues_append]
  simp [signalValues, Event.signalValues]

/-- C11: the frame index is 0 in the state the constructor leaves.  From a well-formed
renderer at frame index 0, any sequence of calls of `nextFrame` (every host wait reporting
success, fewer than `2 ^ 64` of the calls rendered) returns, and afterwards the frame index
equals the number of calls in which the collaborator supplied a predicted display time.  A
further call (the collaborator answering with handles of its own, the wait reporting success)
returns as well: without a predicted display time it leaves the frame index unchanged; with
one it increases it by exactly one, the trace of the call ends with `releaseSwapchainImage`
and `endFrame`, and the finalize submission made before them still signals the old index plus
one, so the increment comes after everything else.  The index never decreases. -/
theorem frameIndex_counts_rendered_calls (envs : List FrameEnv) (r : Renderer) (hr : r.WF)
    (h0 : r.m_frameIndex = 0)
    (hwait : ∀ env ∈ envs, env.waitResult = .eSuccess)
    (hf : renderedCalls envs + 1 < 2 ^ 64) :
    (∀ options devices graphicsIndex transferIndex resolution semaphore,
      (Renderer.create options devices graphicsIndex transferIndex resolution
        semaphore).m_frameIndex = 0) ∧
    ∃ r' tr, r.run envs = .ok (r', tr) ∧
      r'.m_frameIndex = renderedCalls envs ∧
      ∀ env : FrameEnv, env.WF → env.waitResult = .eSuccess →
        ∃ r'' tr', r'.nextFrame env = .ok (r'', tr') ∧
          r'.m_frameIndex ≤ r''.m_frameIndex ∧
          (env.beginFrame.predictedDisplayTimeNanos = none →
            r''.m_frameIndex = r'.m_frameIndex) ∧
          (env.beginFrame.predictedDisplayTimeNanos ≠ none →
            r''.m_frameIndex = r'.m_frameIndex + 1 ∧
            ∃ pre, tr' = pre ++ [Event.releaseSwapchainImage, Event.endFrame .m_presentQueue] ∧
              signalValues .frameIndexSem pre = [r'.m_frameIndex + 1]) := by
  refine ⟨fun _ _ _ _ _ _ => rfl, ?_⟩
  obtain ⟨r', tr, h1, h2, h3⟩ := Renderer.run_frameIndex envs r hr hwait (by omega)
  rw [h0, Nat.zero_add] at h3
  refine ⟨r', tr, h1, h3, ?_⟩
  intro env henv hw
  cases hp : env.beginFrame.predictedDisplayTimeNanos with
  | none =>
    refine ⟨r', [Event.beginFrame, Event.endFrame .m_presentQueue], ?_, le_refl _,
      fun _ => rfl, fun h => absurd rfl h⟩
    simp [Renderer.nextFrame, hp]
  | some p =>
    have hidx : (r'.afterFrame p).m_frameIndex = r'.m_frameIndex + 1 :=
      add64_one r'.m_frameIndex (by omega)
    obtain ⟨pre, hpre, hsig⟩ := Renderer.nextFrameEvents_tail env r' p
    refine ⟨r'.afterFrame p, r'.nextFrameEvents env p,
      Renderer.nextFrame_closed env r' h2 p hp (fun _ => hw), by omega,
      fun h => by simp at h, fun _ => ⟨hidx, pre, hpre, ?_⟩⟩
    rw [hsig, Renderer.signalValues_pacer_nextFrameEvents env r' h2 henv]
    simp [add64_one r'.m_frameIndex (by omega)]

/-- C11, for the 2-device renderer and three calls of which the second is skipped: the frame
index is 2 afterwards. -/
theorem frameIndex_counts_rendered_calls_witness :
    ∃ r' tr, (Renderer.sampleAt 2 0).run
        [FrameEnv.sample (some 5), FrameEnv.sample none, FrameEnv.sample (some 9)] = .ok (r', tr) ∧
      r'.m_frameIndex = 2 := by
  obtain ⟨-, r', tr, h1, h2, -⟩ := frameIndex_counts_rendered_calls
    [FrameEnv.sample (some 5), FrameEnv.sample none, FrameEnv.sample (some 9)]
    (Renderer.sampleAt 2 0) (by decide) rfl (by simp [FrameEnv.sample]) (by decide)
  exact ⟨r', tr, h1, h2⟩

/-! ## The command-pool ring of a queue family -/

theorem VulkanQueueFamily.reset_of_pools (q : VulkanQueueFamily) (P : Nat) (hP32 : P < 2 ^ 32)
    (hlen : q.m_poolsAndBuffers.length = P) (hcur : q.m_currentCommandPoolIndex < P) :
    q.reset =
      .ok ({ q with m_currentCommandPoolIndex := (q.m_currentCommandPoolIndex + 1) % P,
                    m_nextCommandBufferIndex := 0 },
        [Event.resetCommandPool q.m_queueFamilyIndex ((q.m_currentCommandPoolIndex + 1) % P)]) := by
  have hpos : 0 < P := by omega
  have hne : ¬ q.m_poolsAndBuffers.length = 0 := by omega
  have h1 : wrap32 (q.m_currentCommandPoolIndex + 1) = q.m_currentCommandPoolIndex + 1 := by
    unfold wrap32
    exact Nat.mod_eq_of_lt (by omega)
  have h2 : wrap32 ((q.m_currentCommandPoolIndex + 1) % P) =
      (q.m_currentCommandPoolIndex + 1) % P := by
    unfold wrap32
    exact Nat.mod_eq_of_lt (lt_trans (Nat.mod_lt _ hpos) hP32)
  simp only [VulkanQueueFamily.reset, hlen, h1, h2, if_neg (show ¬ P = 0 by omega)]

theorem VulkanQueueFamily.nextCommandBuffer_frame (q q' : VulkanQueueFamily) (b : CommandBuffer)
    (h : q.nextCommandBuffer = .ok (q', b)) :
    q'.m_currentCommandPoolIndex = q.m_currentCommandPoolIndex ∧
    q'.m_poolsAndBuffers = q.m_poolsAndBuffers ∧
    q'.m_queueFamilyIndex = q.m_queueFamilyIndex := by
  unfold VulkanQueueFamily.nextCommandBuffer at h
  split at h
  · exact absurd h (by simp)
  · split at h
    · exact absurd h (by simp)
    · simp only [Except.ok.injEq, Prod.mk.injEq] at h
      rw [← h.1]
      exact ⟨rfl, rfl, rfl⟩

theorem VulkanQueueFamily.calls_inv (P : Nat) (hP32 : P < 2 ^ 32)
    (X : List CommandPoolAndBuffers) (hX : X.length = P) (cs : List QueueCall)
    (q q' : VulkanQueueFamily) (hq : q.m_poolsAndBuffers = X)
    (hcur : q.m_currentCommandPoolIndex < P) (h : q.calls cs = .ok q') :
    q'.m_poolsAndBuffers = X ∧ q'.m_queueFamilyIndex = q.m_queueFamilyIndex ∧
    q'.m_currentCommandPoolIndex = (q.m_currentCommandPoolIndex + cs.count .reset) % P := by
  induction cs generalizing q with
  | nil =>
    simp only [VulkanQueueFamily.calls, Except.ok.injEq] at h
    subst h
    exact ⟨hq, rfl, by simp [Nat.mod_eq_of_lt hcur]⟩
  | cons c cs ih =>
    cases c with
    | reset =>
      have hr := VulkanQueueFamily.reset_of_pools q P hP32 (by rw [hq, hX]) hcur
      simp only [VulkanQueueFamily.calls, VulkanQueueFamily.call, hr] at h
      obtain ⟨h1, h2, h3⟩ := ih _ (by exact hq) (by exact Nat.mod_lt _ (by omega)) h
      refine ⟨h1, h2, ?_⟩
      rw [h3]
      simp only [List.count_cons_self, Nat.mod_add_mod]
      congr 1
      omega
    | nextCommandBuffer =>
      simp only [VulkanQueueFamily.calls, VulkanQueueFamily.call] at h
      cases hn : q.nextCommandBuffer with
      | error e => simp [hn] at h
      | ok x =>
        obtain ⟨q1, b⟩ := x
        simp only [hn] at h
        obtain ⟨f1, f2, f3⟩ := VulkanQueueFamily.nextCommandBuffer_frame q q1 b hn
        obtain ⟨h1, h2, h3⟩ := ih q1 (by rw [f2, hq]) (by rw [f1]; exact hcur) h
        refine ⟨h1, by rw [h2, f3], ?_⟩
        rw [h3, f1]
        simp

theorem VulkanQueueFamily.allocate_length (q0 : VulkanQueueFamily) (P U : Nat) :
    (q0.allocateCommandBuffers P U).m_poolsAndBuffers.length = P := by
  simp [VulkanQueueFamily.allocateCommandBuffers]

theorem VulkanQueueFamily.allocate_current (q0 : VulkanQueueFamily) (P U : Nat) (hP : 1 ≤ P)
    (hP32 : P < 2 ^ 32) :
    (q0.allocateCommandBuffers P U).m_currentCommandPoolIndex = P - 1 := by
  simp only [VulkanQueueFamily.allocateCommandBuffers, wrap32]
  omega

/-- C12: for every pool count `P >= 1` (a `uint32_t`) and every number `U` of units per
pool, `allocateCommandBuffers(P, U)` leaves `P` pools of `U` units each and the unit cursor
at 0.  Whatever calls of `reset` and `nextCommandBuffer` have returned since, the next
`reset`, the `k`-th since the allocation, returns, resets pool `(k - 1) mod P` and makes it
current, so the first reset selects pool 0; it leaves the pools as allocated and the unit
cursor at 0, whatever the cursor was, so a cursor that was 0 is unchanged.  A reset of any
queue family with at least one pool returns with the cursor at 0. -/
theorem allocate_then_resets (q0 : VulkanQueueFamily) (P U : Nat) (hP : 1 ≤ P)
    (hP32 : P < 2 ^ 32) :
    (q0.allocateCommandBuffers P U).m_poolsAndBuffers.length = P ∧
    (∀ pool ∈ (q0.allocateCommandBuffers P U).m_poolsAndBuffers, pool.buffers.length = U) ∧
    (q0.allocateCommandBuffers P U).m_nextCommandBufferIndex = 0 ∧
    (∀ (cs : List QueueCall) (q : VulkanQueueFamily) (k : Nat),
      (q0.allocateCommandBuffers P U).calls cs = .ok q → k = cs.count .reset + 1 →
      ∃ q', q.reset = .ok (q', [Event.resetCommandPool q0.m_queueFamilyIndex ((k - 1) % P)]) ∧
        q'.m_currentCommandPoolIndex = (k - 1) % P ∧
        (k = 1 → q'.m_currentCommandPoolIndex = 0) ∧
        q'.m_nextCommandBufferIndex = 0 ∧
        (q.m_nextCommandBufferIndex = 0 →
          q'.m_nextCommandBufferIndex = q.m_nextCommandBufferIndex) ∧
        q'.m_poolsAndBuffers = (q0.allocateCommandBuffers P U).m_poolsAndBuffers) ∧
    (∀ q : VulkanQueueFamily, q.m_poolsAndBuffers ≠ [] →
      ∃ q' ev, q.reset = .ok (q', ev) ∧ q'.m_nextCommandBufferIndex = 0) := by
  have hlen := VulkanQueueFamily.allocate_length q0 P U
  have hcur := VulkanQueueFamily.allocate_current q0 P U hP hP32
  refine ⟨hlen, ?_, rfl, ?_, ?_⟩
  · intro pool hpool
    simp only [VulkanQueueFamily.allocateCommandBuffers, List.mem_map, List.mem_range] at hpool
    obtain ⟨i, -, rfl⟩ := hpool
    simp
  · intro cs q k hq hk
    obtain ⟨h1, h2, h3⟩ := VulkanQueueFamily.calls_inv P hP32 _ hlen cs _ q rfl
      (by rw [hcur]; omega) hq
    rw [hcur] at h3
    have hc : q.m_currentCommandPoolIndex < P := by rw [h3]; exact Nat.mod_lt _ (by omega)
    have hr := VulkanQueueFamily.reset_of_pools q P hP32 (by rw [h1, hlen]) hc
    have hidx : (q.m_currentCommandPoolIndex + 1) % P = (k - 1) % P := by
      rw [h3, Nat.mod_add_mod, hk]
      have : P - 1 + List.count QueueCall.reset cs + 1 = List.count QueueCall.reset cs + P := by
        omega
      rw [this, Nat.add_mod_right, Nat.add_sub_cancel]
    have hfam : q.m_queueFamilyIndex = q0.m_queueFamilyIndex := by rw [h2]; rfl
    rw [hidx, hfam] at hr
    refine ⟨_, hr, rfl, ?_, rfl, fun h => h.symm, h1⟩
    intro hk1
    show (k - 1) % P = 0
    rw [hk1]
    simp
  · intro q hq
    have hne : ¬ q.m_poolsAndBuffers.length = 0 := by
      intro h
      exact hq (List.length_eq_zero.1 h)
    unfold VulkanQueueFamily.reset
    rw [if_neg hne]
    exact ⟨_, _, rfl, rfl⟩

/-- C12, for three pools of ten units: after the calls reset, nextCommandBuffer, reset, reset,
the fourth reset selects pool 0 again. -/
theorem allocate_then_resets_witness :
    ∃ q q', ((VulkanQueueFamily.new 7).allocateCommandBuffers 3 10).calls
        [.reset, .nextCommandBuffer, .reset, .reset] = .ok q ∧
      q.reset = .ok (q', [Event.resetCommandPool 7 0]) ∧ q'.m_currentCommandPoolIndex = 0 := by
  have h := (allocate_then_resets (VulkanQueueFamily.new 7) 3 10 (by decide) (by decide)).2.2.2.1
  obtain ⟨q', h1, h2, -⟩ := h [.reset, .nextCommandBuffer, .reset, .reset] _ 4 rfl rfl
  exact ⟨_, q', rfl, h1, h2⟩
theorem VulkanQueueFamily.allocate_pool (q0 : VulkanQueueFamily) (P U c : Nat) (hc : c < P) :
    (q0.allocateCommandBuffers P U).m_poolsAndBuffers.get? c =
      some { buffers := (List.range U).map fun b =>
        { queueFamilyIndex := q0.m_queueFamilyIndex, poolIndex := c, bufferIndex := b } } := by
  simp [VulkanQueueFamily.allocateCommandBuffers, List.getElem?_map, List.getElem?_range hc]

theorem VulkanQueueFamily.nextCommandBuffers_take (pool : CommandPoolAndBuffers)
    (hU32 : pool.buffers.length < 2 ^ 32) (j : Nat) (q : VulkanQueueFamily)
    (hpool : q.m_poolsAndBuffers.get? q.m_currentCommandPoolIndex = some pool)
    (hj : q.m_nextCommandBufferIndex + j ≤ pool.buffers.length) :
    q.nextCommandBuffers j =
      .ok ({ q with m_nextCommandBufferIndex := q.m_nextCommandBufferIndex + j },
        (pool.buffers.drop q.m_nextCommandBufferIndex).take j) := by
  induction j generalizing q with
  | zero => simp [VulkanQueueFamily.nextCommandBuffers]
  | succ j ih =>
    have hlt : q.m_nextCommandBufferIndex < pool.buffers.length := by omega
    have hw : wrap32 (q.m_nextCommandBufferIndex + 1) = q.m_nextCommandBufferIndex + 1 := by
      unfold wrap32
      exact Nat.mod_eq_of_lt (by omega)
    have hget : pool.buffers.get? q.m_nextCommandBufferIndex =
        some (pool.buffers.get ⟨q.m_nextCommandBufferIndex, hlt⟩) := List.get?_eq_get hlt
    have hnext : q.nextCommandBuffer =
        .ok ({ q with m_nextCommandBufferIndex := q.m_nextCommandBufferIndex + 1 },
          pool.buffers.get ⟨q.m_nextCommandBufferIndex, hlt⟩) := by
      simp only [VulkanQueueFamily.nextCommandBuffer, hpool, hget, hw]
    have hrest := ih ⟨q.m_queueFamilyIndex, q.m_poolsAndBuffers, q.m_currentCommandPoolIndex,
      q.m_nextCommandBufferIndex + 1⟩ hpool (by show q.m_nextCommandBufferIndex + 1 + j ≤ _; omega)
    simp only [VulkanQueueFamily.nextCommandBuffers, hnext, hrest]
    have hdrop : pool.buffers.drop q.m_nextCommandBufferIndex =
        pool.buffers.get ⟨q.m_nextCommandBufferIndex, hlt⟩ ::
          pool.buffers.drop (q.m_nextCommandBufferIndex + 1) :=
      List.drop_eq_getElem_cons hlt
    rw [hdrop, List.take_succ_cons]
    simp [Nat.add_assoc, Nat.add_comm 1 j]

theorem VulkanQueueFamily.nextCommandBuffer_exhausted (pool : CommandPoolAndBuffers)
    (q : VulkanQueueFamily)
    (hpool : q.m_poolsAndBuffers.get? q.m_currentCommandPoolIndex = some pool)
    (hn : pool.buffers.length ≤ q.m_nextCommandBufferIndex) :
    q.nextCommandBuffer = .error .noMoreCommandBuffers := by
  have hget : pool.buffers.get? q.m_nextCommandBufferIndex = none := List.get?_eq_none.2 hn
  simp only [VulkanQueueFamily.nextCommandBuffer, hpool, hget]

/-- C13: let a queue family be allocated with `P >= 1` pools of `U` units (both `uint32_t`),
and let a `reset` return after any calls that returned.  Then, for every `j <= U`, the first
`j` calls of `nextCommandBuffer` after the reset all succeed and return the units at the
positions `0, ..., j - 1` of the current pool, in this order; the `U` units of the pool are
pairwise distinct; none of the calls changes the current pool or the pools.  After `j` such
calls the next call succeeds and returns the unit at position `j` when `j < U`, and it fails
exactly when `j = U`, with the fatal error of the exhausted pool.  A call of
`nextCommandBuffer` that returns, in any state, leaves the current pool index unchanged. -/
theorem nextCommandBuffer_hands_out_units (q0 : VulkanQueueFamily) (P U : Nat) (hP : 1 ≤ P)
    (hP32 : P < 2 ^ 32) (hU32 : U < 2 ^ 32) (cs : List QueueCall) (q q1 : VulkanQueueFamily)
    (ev : List Event) (hq : (q0.allocateCommandBuffers P U).calls cs = .ok q)
    (hreset : q.reset = .ok (q1, ev)) :
    (∃ pool, q1.m_poolsAndBuffers.get? q1.m_currentCommandPoolIndex = some pool ∧
      pool.buffers.length = U ∧ pool.buffers.Nodup ∧
      ∀ j, j ≤ U →
        ∃ qj, q1.nextCommandBuffers j = .ok (qj, pool.buffers.take j) ∧
          qj.m_currentCommandPoolIndex = q1.m_currentCommandPoolIndex ∧
          qj.m_poolsAndBuffers = q1.m_poolsAndBuffers ∧
          (j < U → ∃ q' b, qj.nextCommandBuffer = .ok (q', b) ∧ pool.buffers.get? j = some b) ∧
          (∀ e, qj.nextCommandBuffer = .error e ↔ (j = U ∧ e = .noMoreCommandBuffers))) ∧
    (∀ (s s' : VulkanQueueFamily) (b : CommandBuffer), s.nextCommandBuffer = .ok (s', b) →
      s'.m_currentCommandPoolIndex = s.m_currentCommandPoolIndex) := by
  refine ⟨?_, fun s s' b h => (VulkanQueueFamily.nextCommandBuffer_frame s s' b h).1⟩
  have hlen := VulkanQueueFamily.allocate_length q0 P U
  have hcur := VulkanQueueFamily.allocate_current q0 P U hP hP32
  obtain ⟨h1, h2, h3⟩ := VulkanQueueFamily.calls_inv P hP32 _ hlen cs _ q rfl
    (by rw [hcur]; omega) hq
  have hc : q.m_currentCommandPoolIndex < P := by rw [h3]; exact Nat.mod_lt _ (by omega)
  have hr := VulkanQueueFamily.reset_of_pools q P hP32 (by rw [h1, hlen]) hc
  rw [hr] at hreset
  simp only [Except.ok.injEq, Prod.mk.injEq] at hreset
  obtain ⟨hq1, -⟩ := hreset
  subst hq1
  have hc1 : (q.m_currentCommandPoolIndex + 1) % P < P := Nat.mod_lt _ (by omega)
  have hpool := VulkanQueueFamily.allocate_pool q0 P U _ hc1
  rw [← h1] at hpool
  have hpool1 : (VulkanQueueFamily.mk q.m_queueFamilyIndex q.m_poolsAndBuffers
      ((q.m_currentCommandPoolIndex + 1) % P) 0).m_poolsAndBuffers.get?
      (VulkanQueueFamily.mk q.m_queueFamilyIndex q.m_poolsAndBuffers
        ((q.m_currentCommandPoolIndex + 1) % P) 0).m_currentCommandPoolIndex = _ := hpool
  have hn1 : (VulkanQueueFamily.mk q.m_queueFamilyIndex q.m_poolsAndBuffers
      ((q.m_currentCommandPoolIndex + 1) % P) 0).m_nextCommandBufferIndex = 0 := rfl
  generalize VulkanQueueFamily.mk q.m_queueFamilyIndex q.m_poolsAndBuffers
      ((q.m_currentCommandPoolIndex + 1) % P) 0 = q1 at hpool1 hn1 ⊢
  refine ⟨_, hpool1, by simp, ?_, ?_⟩
  · apply List.Nodup.map _ (List.nodup_range U)
    intro a b hab
    simpa using hab
  · intro j hj
    have htake := VulkanQueueFamily.nextCommandBuffers_take _ (by simpa using hU32) j q1 hpool1
      (by rw [hn1]; simpa using hj)
    rw [hn1] at htake
    simp only [List.drop_zero, Nat.zero_add] at htake
    refine ⟨_, htake, rfl, rfl, ?_, ?_⟩
    · intro hlt
      have hnext := VulkanQueueFamily.nextCommandBuffers_take _ (by simpa using hU32) 1
        ⟨q1.m_queueFamilyIndex, q1.m_poolsAndBuffers, q1.m_currentCommandPoolIndex, j⟩ hpool1
        (by simpa using hlt)
      simp only [VulkanQueueFamily.nextCommandBuffers] at hnext
      cases hcall : VulkanQueueFamily.nextCommandBuffer
          ⟨q1.m_queueFamilyIndex, q1.m_poolsAndBuffers, q1.m_currentCommandPoolIndex, j⟩ with
      | error e => simp [hcall] at hnext
      | ok x =>
        obtain ⟨q', b⟩ := x
        simp only [hcall, Except.ok.injEq, Prod.mk.injEq] at hnext
        refine ⟨q', b, rfl, ?_⟩
        have hb := hnext.2
        simp only [List.getElem?_map, List.getElem?_range hlt, List.get?_eq_getElem?,
          Option.map_some']
        rw [List.take_one_drop_eq_of_lt_length (by simpa using hlt)] at hb
        simp at hb
        rw [← hb]
    · intro e
      constructor
      · intro he
        by_cases hlt : j < U
        · have hnext := VulkanQueueFamily.nextCommandBuffers_take _ (by simpa using hU32) 1
            ⟨q1.m_queueFamilyIndex, q1.m_poolsAndBuffers, q1.m_currentCommandPoolIndex, j⟩ hpool1
            (by simpa using hlt)
          simp only [VulkanQueueFamily.nextCommandBuffers] at hnext
          rw [he] at hnext
          simp at hnext
        · have hex := VulkanQueueFamily.nextCommandBuffer_exhausted _
            ⟨q1.m_queueFamilyIndex, q1.m_poolsAndBuffers, q1.m_currentCommandPoolIndex, j⟩ hpool1
            (by simp; omega)
          rw [hex] at he
          simp only [Except.error.injEq] at he
          exact ⟨by omega, he.symm⟩
      · rintro ⟨hjU, rfl⟩
        exact VulkanQueueFamily.nextCommandBuffer_exhausted _
          ⟨q1.m_queueFamilyIndex, q1.m_poolsAndBuffers, q1.m_currentCommandPoolIndex, j⟩ hpool1
          (by simp; omega)

/-- C13, for three pools of two units after the first reset: two calls return the units 0
and 1 of pool 0, and the third call fails. -/
theorem nextCommandBuffer_hands_out_units_witness :
    ∃ q1 ev q2, ((VulkanQueueFamily.new 7).allocateCommandBuffers 3 2).reset = .ok (q1, ev) ∧
      q1.nextCommandBuffers 2 = .ok (q2, [⟨7, 0, 0⟩, ⟨7, 0, 1⟩]) ∧
      q2.nextCommandBuffer = .error .noMoreCommandBuffers := by
  obtain ⟨⟨pool, h1, -, -, h2⟩, -⟩ := nextCommandBuffer_hands_out_units (VulkanQueueFamily.new 7) 3 2
    (by decide) (by decide) (by decide) [] _ _ _ rfl rfl
  obtain ⟨q2, h3, -, -, -, h4⟩ := h2 2 (le_refl 2)
  have hpool : pool = ⟨[⟨7, 0, 0⟩, ⟨7, 0, 1⟩]⟩ := by
    have : some pool = some ⟨[⟨7, 0, 0⟩, ⟨7, 0, 1⟩]⟩ := by rw [← h1]; rfl
    exact Option.some.inj this
  rw [hpool] at h3
  exact ⟨_, _, q2, rfl, h3, (h4 _).2 ⟨rfl, rfl⟩⟩

/-! ## The rotation of the command pools with the frames -/

theorem filter_isReset_copyEvents (cb : CommandBuffer) (f c : Nat) (l : List CopyImageInfo2) :
    (copyEvents cb f c l).filter Event.isReset = [] := by
  induction l generalizing c with
  | nil => rfl
  | cons x xs ih => simp [copyEvents, Event.isReset, ih]

theorem Renderer.filter_isReset_deviceEvents (env : FrameEnv) (r : Renderer) (j : Nat) :
    (r.deviceEvents env j).filter Event.isReset = [] := by
  by_cases h0 : j = 0 ∧ r.m_frameIndex = 0
  · simp only [Renderer.deviceEvents, if_pos h0]
    simp [Event.isReset]
  · simp only [Renderer.deviceEvents, if_neg h0]
    simp [Event.isReset]

theorem Renderer.filter_isReset_nextFrameEvents (env : FrameEnv) (r : Renderer) (p : Nat) :
    (r.nextFrameEvents env p).filter Event.isReset =
      [Event.resetCommandPool r.m_graphicsQueueFamily.m_queueFamilyIndex
         ((r.m_graphicsQueueFamily.m_currentCommandPoolIndex + 1) % MAX_QUEUED_FRAMES),
       Event.resetCommandPool r.m_transferQueueFamily.m_queueFamilyIndex
         ((r.m_transferQueueFamily.m_currentCommandPoolIndex + 1) % MAX_QUEUED_FRAMES)] := by
  have hdev : (eventsFrom ((r.frameStart p).deviceEvents env)
      (r.frameStart p).getPhysicalDeviceCount 0).filter Event.isReset = [] := by
    rw [filter_eventsFrom]
    exact eventsFrom_eq_nil _ _ _ (fun j _ _ => Renderer.filter_isReset_deviceEvents env _ j)
  have hw : r.waitEvents.filter Event.isReset = [] := by
    by_cases hN : MAX_QUEUED_FRAMES ≤ r.m_frameIndex <;> simp [Renderer.waitEvents, hN, Event.isReset]
  simp only [Renderer.nextFrameEvents, Renderer.renderFrameEvents, Renderer.buildFinalFrameEvents,
    List.filter_append, hdev, hw, filter_isReset_copyEvents]
  by_cases hs : env.getSwapchainImageReadySemaphore = .null <;>
  by_cases hs3 : ((r.frameStart p).afterDevices r.getPhysicalDeviceCount).m_swapchainImageReadySemaphore
      = .null <;>
    simp [Event.isReset, Renderer.acquireEvents, hs, hs3]

theorem mem_copyEvents_record (cb0 cb : CommandBuffer) (cmd : Cmd) (f c : Nat)
    (l : List CopyImageInfo2) (h : Event.record cb cmd ∈ copyEvents cb0 f c l) : cb = cb0 := by
  induction l generalizing c with
  | nil => simp [copyEvents] at h
  | cons x xs ih =>
    simp only [copyEvents, List.mem_append, List.mem_cons, Event.record.injEq,
      List.mem_singleton, List.not_mem_nil, or_false] at h
    rcases h with (h | h | h) | h
    · exact h.1
    · exact h.1
    · exact h.1
    · exact ih _ h

theorem Renderer.mem_deviceEvents_record (env : FrameEnv) (r : Renderer) (j : Nat)
    (cb : CommandBuffer) (cmd : Cmd) (h : Event.record cb cmd ∈ r.deviceEvents env j) :
    cb = r.graphicsCmdBuffer j := by
  by_cases h0 : j = 0 ∧ r.m_frameIndex = 0
  · simp only [Renderer.deviceEvents, if_pos h0] at h
    simp at h
    tauto
  · simp only [Renderer.deviceEvents, if_neg h0] at h
    simp at h
    tauto

theorem Renderer.mem_buildFinalFrameEvents_record (env : FrameEnv) (frt : FrameRenderTargets)
    (r : Renderer) (cb : CommandBuffer) (cmd : Cmd)
    (h : Event.record cb cmd ∈ r.buildFinalFrameEvents env frt) :
    cb = r.transferCmdBuffer ∨ cb = r.graphicsCmdBuffer 0 := by
  simp only [Renderer.buildFinalFrameEvents, List.mem_append] at h
  rcases h with ((((((h | h) | h) | h) | h) | h) | h)
  · by_cases hs : r.m_swapchainImageReadySemaphore = .null <;> simp [hs] at h
  · simp at h
    tauto
  · exact Or.inl (mem_copyEvents_record _ _ _ _ _ _ h)
  · simp at h
    tauto
  · simp at h
  · simp at h
    tauto
  · simp at h

theorem Renderer.mem_nextFrameEvents_record (env : FrameEnv) (r : Renderer) (p : Nat)
    (cb : CommandBuffer) (cmd : Cmd) (h : Event.record cb cmd ∈ r.nextFrameEvents env p) :
    (cb.queueFamilyIndex = r.m_graphicsQueueFamily.m_queueFamilyIndex ∧
      cb.poolIndex = (r.m_graphicsQueueFamily.m_currentCommandPoolIndex + 1) % MAX_QUEUED_FRAMES) ∨
    (cb.queueFamilyIndex = r.m_transferQueueFamily.m_queueFamilyIndex ∧
      cb.poolIndex = (r.m_transferQueueFamily.m_currentCommandPoolIndex + 1) % MAX_QUEUED_FRAMES) := by
  have hcount : (r.frameStart p).getPhysicalDeviceCount = r.getPhysicalDeviceCount := rfl
  simp only [Renderer.nextFrameEvents, Renderer.renderFrameEvents, List.mem_append, hcount] at h
  rcases h with (((((h | h) | h) | (h | h)) | h) | h) | h
  · simp at h
  · by_cases hN : MAX_QUEUED_FRAMES ≤ r.m_frameIndex <;> simp [Renderer.waitEvents, hN] at h
  · simp at h
  · obtain ⟨j, -, hj, hmem⟩ := mem_eventsFrom _ _ _ _ h
    rw [Renderer.mem_deviceEvents_record env _ j cb cmd hmem]
    exact Or.inl ⟨rfl, rfl⟩
  · simp at h
  · by_cases hs : env.getSwapchainImageReadySemaphore = .null <;>
      simp [Renderer.acquireEvents, hs] at h
  · rcases Renderer.mem_buildFinalFrameEvents_record _ _ _ _ _ h with h | h
    · rw [h]
      exact Or.inr ⟨rfl, rfl⟩
    · rw [h]
      exact Or.inl ⟨rfl, rfl⟩
  · simp at h
theorem Renderer.create_poolsInStep (options : Options) (devices : List PhysicalDevice)
    (graphicsIndex transferIndex : Nat) (resolutionPerEye : Extent2D) (semaphore : Semaphore) :
    (Renderer.create options devices graphicsIndex transferIndex resolutionPerEye
      semaphore).PoolsInStep := by
  constructor <;>
    simp [Renderer.create, VulkanQueueFamily.allocateCommandBuffers, VulkanQueueFamily.new,
      wrap32, MAX_QUEUED_FRAMES]

theorem Renderer.afterFrame_poolsInStep (r : Renderer) (p : Nat) (hstep : r.PoolsInStep)
    (hf : r.m_frameIndex + 1 < 2 ^ 64) : (r.afterFrame p).PoolsInStep := by
  obtain ⟨h1, h2⟩ := hstep
  have hidx : (r.afterFrame p).m_frameIndex = r.m_frameIndex + 1 := add64_one _ hf
  constructor
  · show ((r.m_graphicsQueueFamily.m_currentCommandPoolIndex + 1) % MAX_QUEUED_FRAMES + 1) %
      MAX_QUEUED_FRAMES = (r.afterFrame p).m_frameIndex % MAX_QUEUED_FRAMES
    rw [hidx, h1]
    simp only [MAX_QUEUED_FRAMES]
    omega
  · show ((r.m_transferQueueFamily.m_currentCommandPoolIndex + 1) % MAX_QUEUED_FRAMES + 1) %
      MAX_QUEUED_FRAMES = (r.afterFrame p).m_frameIndex % MAX_QUEUED_FRAMES
    rw [hidx, h2]
    simp only [MAX_QUEUED_FRAMES]
    omega

theorem Renderer.run_poolsInStep (envs : List FrameEnv) (r : Renderer) (hr : r.WF)
    (hstep : r.PoolsInStep) (hwait : ∀ env ∈ envs, env.waitResult = .eSuccess)
    (hf : r.m_frameIndex + renderedCalls envs < 2 ^ 64) :
    ∃ r' tr, r.run envs = .ok (r', tr) ∧ r'.WF ∧ r'.PoolsInStep ∧
      r'.m_frameIndex = r.m_frameIndex + renderedCalls envs := by
  induction envs generalizing r with
  | nil => exact ⟨r, [], rfl, hr, hstep, rfl⟩
  | cons env envs ih =>
    have he := hwait env (List.mem_cons_self _ _)
    have hrest : ∀ e ∈ envs, e.waitResult = .eSuccess :=
      fun e h => hwait e (List.mem_cons_of_mem _ h)
    cases hp : env.beginFrame.predictedDisplayTimeNanos with
    | none =>
      rw [renderedCalls_cons_none env envs hp] at hf ⊢
      obtain ⟨r', tr, h1, h2, h3, h4⟩ := ih r hr hstep hrest hf
      exact ⟨r', [Event.beginFrame, Event.endFrame .m_presentQueue] ++ tr,
        by simp [Renderer.run, Renderer.nextFrame, hp, h1], h2, h3, h4⟩
    | some p =>
      rw [renderedCalls_cons_some env envs p hp] at hf ⊢
      have hidx : (r.afterFrame p).m_frameIndex = r.m_frameIndex + 1 :=
        add64_one r.m_frameIndex (by omega)
      obtain ⟨r', tr, h1, h2, h3, h4⟩ := ih (r.afterFrame p) (Renderer.afterFrame_WF r hr p)
        (Renderer.afterFrame_poolsInStep r p hstep (by omega)) hrest (by rw [hidx]; omega)
      refine ⟨r', r.nextFrameEvents env p ++ tr, ?_, h2, h3, ?_⟩
      · simp [Renderer.run, Renderer.nextFrame_closed env r hr p hp (fun _ => he), h1]
      · rw [h4, hidx]; omega

/-- The facts about one rendered call at frame index `f` in a state whose pools are in step. -/
theorem Renderer.nextFrame_pools (env : FrameEnv) (r : Renderer) (hr : r.WF)
    (hstep : r.PoolsInStep) (p : Nat) (hp : env.beginFrame.predictedDisplayTimeNanos = some p)
    (hw : env.waitResult = .eSuccess) :
    ∃ r' tr, r.nextFrame env = .ok (r', tr) ∧ r' = r.afterFrame p ∧
      tr.filter Event.isReset =
        [Event.resetCommandPool r.m_graphicsQueueFamily.getIndex
           (r.m_frameIndex % MAX_QUEUED_FRAMES),
         Event.resetCommandPool r.m_transferQueueFamily.getIndex
           (r.m_frameIndex % MAX_QUEUED_FRAMES)] ∧
      r'.m_graphicsQueueFamily.m_currentCommandPoolIndex = r.m_frameIndex % MAX_QUEUED_FRAMES ∧
      r'.m_transferQueueFamily.m_currentCommandPoolIndex = r.m_frameIndex % MAX_QUEUED_FRAMES ∧
      (∀ cb cmd, Event.record cb cmd ∈ tr →
        cb.poolIndex = r.m_frameIndex % MAX_QUEUED_FRAMES ∧
        (cb.queueFamilyIndex = r.m_graphicsQueueFamily.getIndex ∨
          cb.queueFamilyIndex = r.m_transferQueueFamily.getIndex)) ∧
      (MAX_QUEUED_FRAMES ≤ r.m_frameIndex →
        ∃ pre post, tr = pre ++
            [Event.waitSemaphores .frameIndexSem (r.m_frameIndex - MAX_QUEUED_FRAMES + 1)
              UINT64_MAX] ++ post ∧
          pre.filter Event.isReset = [] ∧ (post.filter Event.isReset).length = 2) := by
  obtain ⟨h1, h2⟩ := hstep
  have hfilter := Renderer.filter_isReset_nextFrameEvents env r p
  rw [h1, h2] at hfilter
  refine ⟨_, _, Renderer.nextFrame_closed env r hr p hp (fun _ => hw), rfl, hfilter, h1, h2, ?_, ?_⟩
  · intro cb cmd hmem
    rcases Renderer.mem_nextFrameEvents_record env r p cb cmd hmem with ⟨ha, hb⟩ | ⟨ha, hb⟩
    · exact ⟨by rw [hb, h1], Or.inl ha⟩
    · exact ⟨by rw [hb, h2], Or.inr ha⟩
  · intro hN
    obtain ⟨rest, hrest⟩ := Renderer.nextFrameEvents_head env r p hN
    have hv := Renderer.waitValue_eq r hr.2.1 hN
    refine ⟨[Event.beginFrame, Event.sceneUpdate (r.deltaMillis p),
      Event.userInterfaceUpdate (r.deltaMillis p)], rest, ?_, by simp [Event.isReset], ?_⟩
    · rw [hrest, hv]
      simp
    · rw [hrest] at hfilter
      simp only [List.filter_append] at hfilter
      have : List.filter Event.isReset [Event.beginFrame, Event.sceneUpdate (r.deltaMillis p),
          Event.userInterfaceUpdate (r.deltaMillis p),
          Event.waitSemaphores .frameIndexSem r.waitValue UINT64_MAX] = [] := by
        simp [Event.isReset]
      rw [this, List.nil_append] at hfilter
      rw [hfilter]
      rfl
/-- C14: the state the constructor leaves has the command pools of both queue families in
step with the frame counter.  From a well-formed renderer in step, let any calls of
`nextFrame` return, then a rendered call (frame `g`), then any further calls, then a rendered
call (frame `f`); every host wait reports success and the frame counter does not wrap.  Both
queue families own `MAX_QUEUED_FRAMES` pools.  The call of frame `f` resets exactly two
command pools, the pool `f mod MAX_QUEUED_FRAMES` of the graphics family and then the pool
`f mod MAX_QUEUED_FRAMES` of the transfer family, and leaves them current; every command
buffer it records into belongs to that pool, and those of frame `g` to the pool
`g mod MAX_QUEUED_FRAMES`, however many skipped calls lie in between.  Hence frame `g`
recorded into the pools reset at frame `f` when `f = g + MAX_QUEUED_FRAMES` and into other
pools when `g < f < g + MAX_QUEUED_FRAMES`.  When `MAX_QUEUED_FRAMES <= f`, the host wait for
the pacer value `f - MAX_QUEUED_FRAMES + 1` precedes both resets in the trace of the call;
the finalize submission of frame `g` signals the pacer value `g + 1`, which is the awaited
value when `f = g + MAX_QUEUED_FRAMES`.  A skipped call resets no pool and leaves the state
unchanged. -/
theorem pool_generation_follows_frame_index (envs1 envs2 : List FrameEnv)
    (env1 env2 : FrameEnv) (r0 : Renderer) (p1 p2 : Nat) (hr : r0.WF) (hstep : r0.PoolsInStep)
    (hw1 : ∀ env ∈ envs1, env.waitResult = .eSuccess)
    (hw2 : ∀ env ∈ envs2, env.waitResult = .eSuccess)
    (he1 : env1.waitResult = .eSuccess) (he2 : env2.waitResult = .eSuccess)
    (henv1 : env1.WF)
    (hp1 : env1.beginFrame.predictedDisplayTimeNanos = some p1)
    (hp2 : env2.beginFrame.predictedDisplayTimeNanos = some p2)
    (hf : r0.m_frameIndex + renderedCalls envs1 + renderedCalls envs2 + 2 < 2 ^ 64) :
    (∀ options devices graphicsIndex transferIndex resolution semaphore,
      (Renderer.create options devices graphicsIndex transferIndex resolution
        semaphore).PoolsInStep) ∧
    ∃ r1 tr1 r1' trG r2 tr2 r2' trF,
      r0.run envs1 = .ok (r1, tr1) ∧ r1.nextFrame env1 = .ok (r1', trG) ∧
      r1'.run envs2 = .ok (r2, tr2) ∧ r2.nextFrame env2 = .ok (r2', trF) ∧
      r1.m_frameIndex = r0.m_frameIndex + renderedCalls envs1 ∧
      r2.m_frameIndex = r1.m_frameIndex + 1 + renderedCalls envs2 ∧
      r2.m_graphicsQueueFamily.m_poolsAndBuffers.length = MAX_QUEUED_FRAMES ∧
      r2.m_transferQueueFamily.m_poolsAndBuffers.length = MAX_QUEUED_FRAMES ∧
      trF.filter Event.isReset =
        [Event.resetCommandPool r2.m_graphicsQueueFamily.getIndex
           (r2.m_frameIndex % MAX_QUEUED_FRAMES),
         Event.resetCommandPool r2.m_transferQueueFamily.getIndex
           (r2.m_frameIndex % MAX_QUEUED_FRAMES)] ∧
      r2'.m_graphicsQueueFamily.m_currentCommandPoolIndex = r2.m_frameIndex % MAX_QUEUED_FRAMES ∧
      r2'.m_transferQueueFamily.m_currentCommandPoolIndex = r2.m_frameIndex % MAX_QUEUED_FRAMES ∧
      (∀ cb cmd, Event.record cb cmd ∈ trF →
        cb.poolIndex = r2.m_frameIndex % MAX_QUEUED_FRAMES ∧
        (cb.queueFamilyIndex = r2.m_graphicsQueueFamily.getIndex ∨
          cb.queueFamilyIndex = r2.m_transferQueueFamily.getIndex)) ∧
      (∀ cb cmd, Event.record cb cmd ∈ trG →
        cb.poolIndex = r1.m_frameIndex % MAX_QUEUED_FRAMES) ∧
      (r2.m_frameIndex = r1.m_frameIndex + MAX_QUEUED_FRAMES →
        ∀ cb cmd, Event.record cb cmd ∈ trG →
          cb.poolIndex = r2.m_frameIndex % MAX_QUEUED_FRAMES) ∧
      (r2.m_frameIndex < r1.m_frameIndex + MAX_QUEUED_FRAMES →
        ∀ cb cmd, Event.record cb cmd ∈ trG →
          cb.poolIndex ≠ r2.m_frameIndex % MAX_QUEUED_FRAMES) ∧
      (MAX_QUEUED_FRAMES ≤ r2.m_frameIndex →
        ∃ pre post, trF = pre ++
            [Event.waitSemaphores .frameIndexSem (r2.m_frameIndex - MAX_QUEUED_FRAMES + 1)
              UINT64_MAX] ++ post ∧
          pre.filter Event.isReset = [] ∧ (post.filter Event.isReset).length = 2) ∧
      signalValues .frameIndexSem trG = [r1.m_frameIndex + 1] ∧
      (∀ env : FrameEnv, env.beginFrame.predictedDisplayTimeNanos = none →
        ∃ tr, r2.nextFrame env = .ok (r2, tr) ∧ tr.filter Event.isReset = []) := by
  refine ⟨Renderer.create_poolsInStep, ?_⟩
  obtain ⟨r1, tr1, a1, a2, a3, a4⟩ := Renderer.run_poolsInStep envs1 r0 hr hstep hw1 (by omega)
  obtain ⟨r1', trG, b1, b2, -, -, -, b3, -⟩ := Renderer.nextFrame_pools env1 r1 a2 a3 p1 hp1 he1
  have hidx : r1'.m_frameIndex = r1.m_frameIndex + 1 := by
    rw [b2]
    exact add64_one r1.m_frameIndex (by omega)
  have hwf1 : r1'.WF := by rw [b2]; exact Renderer.afterFrame_WF r1 a2 p1
  have hstep1 : r1'.PoolsInStep := by
    rw [b2]
    exact Renderer.afterFrame_poolsInStep r1 p1 a3 (by omega)
  obtain ⟨r2, tr2, c1, c2, c3, c4⟩ := Renderer.run_poolsInStep envs2 r1' hwf1 hstep1 hw2
    (by omega)
  obtain ⟨r2', trF, d1, -, d2, d3, d4, d5, d6⟩ := Renderer.nextFrame_pools env2 r2 c2 c3 p2 hp2 he2
  have hf2 : r2.m_frameIndex = r1.m_frameIndex + 1 + renderedCalls envs2 := by rw [c4, hidx]
  have hlenG : r2.m_graphicsQueueFamily.m_poolsAndBuffers.length = MAX_QUEUED_FRAMES := by
    rw [c2.2.2.2.2.1.1]
    exact VulkanQueueFamily.allocate_length _ _ _
  have hlenT : r2.m_transferQueueFamily.m_poolsAndBuffers.length = MAX_QUEUED_FRAMES := by
    rw [c2.2.2.2.2.2.1.1]
    exact VulkanQueueFamily.allocate_length _ _ _
  refine ⟨r1, tr1, r1', trG, r2, tr2, r2', trF, a1, b1, c1, d1, a4, hf2, hlenG, hlenT, d2, d3, d4,
    d5, fun cb cmd h => (b3 cb cmd h).1, ?_, ?_, d6, ?_, ?_⟩
  · intro heq cb cmd h
    rw [(b3 cb cmd h).1, heq]
    simp
  · intro hlt cb cmd h
    rw [(b3 cb cmd h).1]
    simp only [MAX_QUEUED_FRAMES] at hlt ⊢
    omega
  · have hclosed := Renderer.nextFrame_closed env1 r1 a2 p1 hp1 (fun _ => he1)
    rw [b1] at hclosed
    simp only [Except.ok.injEq, Prod.mk.injEq] at hclosed
    rw [hclosed.2, Renderer.signalValues_pacer_nextFrameEvents env1 r1 a2 henv1,
      add64_one r1.m_frameIndex (by omega)]
  · intro env hnone
    exact ⟨[Event.beginFrame, Event.endFrame .m_presentQueue],
      by simp [Renderer.nextFrame, hnone], by simp [Event.isReset]⟩

/-- C14, for the 2-device renderer: frame 0, then two rendered calls with a skipped call
between them, then frame 3, which resets pool 0 of both families, the pool frame 0 recorded
into, after its wait for the pacer value 1. -/
theorem pool_generation_follows_frame_index_witness :
    ∃ r1' trG r2 tr2 r2' trF,
      (Renderer.sampleAt 2 0).nextFrame (FrameEnv.sample (some 5)) = .ok (r1', trG) ∧
      r1'.run [FrameEnv.sample (some 6), FrameEnv.sample none, FrameEnv.sample (some 7)] =
        .ok (r2, tr2) ∧
      r2.nextFrame (FrameEnv.sample (some 9)) = .ok (r2', trF) ∧
      r2.m_frameIndex = 3 ∧
      (trF.filter Event.isReset).length = 2 ∧
      (∀ cb cmd, Event.record cb cmd ∈ trG → cb.poolIndex = r2.m_frameIndex % MAX_QUEUED_FRAMES) := by
  obtain ⟨-, r1, tr1, r1', trG, r2, tr2, r2', trF, a, b, c, d, -, f, -, -, g, -, -, -, -, h, -⟩ :=
    pool_generation_follows_frame_index []
      [FrameEnv.sample (some 6), FrameEnv.sample none, FrameEnv.sample (some 7)]
      (FrameEnv.sample (some 5)) (FrameEnv.sample (some 9)) (Renderer.sampleAt 2 0) 5 9
      (by decide) (by decide) (by simp) (by simp [FrameEnv.sample]) rfl rfl (by decide) rfl rfl
      (by decide)
  simp only [Renderer.run, Except.ok.injEq, Prod.mk.injEq] at a
  obtain ⟨rfl, -⟩ := a
  have hr1 : (Renderer.sampleAt 2 0).m_frameIndex = 0 := rfl
  have hcount : renderedCalls
      [FrameEnv.sample (some 6), FrameEnv.sample none, FrameEnv.sample (some 7)] = 2 := by decide
  rw [hr1, hcount] at f
  exact ⟨r1', trG, r2, tr2, r2', trF, b, c, d, f, by rw [g]; rfl,
    h (by rw [f, hr1]; rfl)⟩

/-! ## Simulated mode -/

/-- C15: when a simulated device count `c` is configured and the renderer holds the real
devices `first :: others`, `getPhysicalDeviceCount()` returns `c` whatever the number of real
devices, `deviceIndexToDeviceMask(i)` returns 1 (bit 0) for every index `i`,
`getPhysicalDevice(i)` returns the first real device for every `i`, and
`queryCompatibleMemoryTypeIndex(i, ...)` scans the memory properties of the device in slot 0
for every `i`, so that it returns what it returns for `i = 0`. -/
theorem simulated_mode_collapses_device_index (r : Renderer) (c : Nat) (first : PhysicalDevice)
    (others : List PhysicalDevice) (hsim : r.options.simulatedPhysicalDeviceCount = some c)
    (hdev : r.m_vkPhysicalDevices = first :: others) :
    r.getPhysicalDeviceCount = c ∧
    (∀ i, r.deviceIndexToDeviceMask i = 1) ∧
    (∀ i, r.getPhysicalDevice i = .ok first) ∧
    (∀ (getMemoryProperties : PhysicalDevice → PhysicalDeviceMemoryProperties)
        (i flags : Nat) (filter : Option Nat),
      r.queryCompatibleMemoryTypeIndex getMemoryProperties i flags filter =
        memoryTypeScan (getMemoryProperties first) flags filter
          (getMemoryProperties first).memoryTypeCount 0 none ∧
      r.queryCompatibleMemoryTypeIndex getMemoryProperties i flags filter =
        r.queryCompatibleMemoryTypeIndex getMemoryProperties 0 flags filter) := by
  refine ⟨?_, ?_, ?_, ?_⟩
  · simp [Renderer.getPhysicalDeviceCount, hsim]
  · intro i
    simp [Renderer.deviceIndexToDeviceMask, hsim]
  · intro i
    simp [Renderer.getPhysicalDevice, hsim, hdev, vectorGet]
  · intro getMemoryProperties i flags filter
    simp [Renderer.queryCompatibleMemoryTypeIndex, hsim, hdev, vectorGet]

/-- C15, for a simulated count of 4 on three real devices: the count is 4, the mask of
device 3 is 1 and device 3 is the first real device. -/
theorem simulated_mode_collapses_device_index_witness :
    (Renderer.sample (some 4) false 3).getPhysicalDeviceCount = 4 ∧
    (Renderer.sample (some 4) false 3).deviceIndexToDeviceMask 3 = 1 ∧
    (Renderer.sample (some 4) false 3).getPhysicalDevice 3 = .ok { handle := 0 } := by
  obtain ⟨h1, h2, h3, -⟩ := simulated_mode_collapses_device_index
    (Renderer.sample (some 4) false 3) 4 { handle := 0 } [{ handle := 1 }, { handle := 2 }] rfl rfl
  exact ⟨h1, h2 3, h3 3⟩

/-! ## Device masks -/

theorem Renderer.deviceMaskUnion_succ (r : Renderer) (n : Nat) :
    r.deviceMaskUnion (n + 1) = r.deviceMaskUnion n ||| r.deviceIndexToDeviceMask n := by
  simp [Renderer.deviceMaskUnion, List.range_succ, List.foldl_append]

theorem two_pow_sub_one_or_two_pow (n : Nat) : (2 ^ n - 1) ||| 2 ^ n = 2 ^ (n + 1) - 1 := by
  apply Nat.eq_of_testBit_eq
  intro i
  rw [Nat.testBit_or, Nat.testBit_two_pow_sub_one, Nat.testBit_two_pow_sub_one,
    Nat.testBit_two_pow]
  by_cases h1 : i < n
  · have h2 : ¬ n = i := by omega
    have h3 : i < n + 1 := by omega
    simp [h1, h2, h3]
  · by_cases h2 : n = i
    · have h3 : i < n + 1 := by omega
      simp [h1, h2, h3]
    · have h3 : ¬ i < n + 1 := by omega
      simp [h1, h2, h3]

theorem Renderer.deviceIndexToDeviceMask_real (r : Renderer)
    (hsim : r.options.simulatedPhysicalDeviceCount = none) (i : Nat) (hi : i < 32) :
    r.deviceIndexToDeviceMask i = 2 ^ i := by
  have hlt : 2 ^ i < 2 ^ 32 := Nat.pow_lt_pow_right (by norm_num) hi
  simp only [Renderer.deviceIndexToDeviceMask, hsim, Option.isSome_none, Bool.false_eq_true,
    if_false, wrap32, Nat.one_shiftLeft]
  exact Nat.mod_eq_of_lt hlt

theorem Renderer.deviceMaskUnion_real (r : Renderer)
    (hsim : r.options.simulatedPhysicalDeviceCount = none) (n : Nat) (hn : n ≤ 32) :
    r.deviceMaskUnion n = 2 ^ n - 1 := by
  induction n with
  | zero => rfl
  | succ n ih =>
    rw [Renderer.deviceMaskUnion_succ, ih (by omega),
      Renderer.deviceIndexToDeviceMask_real r hsim n (by omega), two_pow_sub_one_or_two_pow]

theorem Renderer.deviceMaskUnion_simulated (r : Renderer)
    (hsim : r.options.simulatedPhysicalDeviceCount.isSome = true) (n : Nat) (hn : 0 < n) :
    r.deviceMaskUnion n = 1 := by
  induction n with
  | zero => omega
  | succ n ih =>
    rw [Renderer.deviceMaskUnion_succ]
    have hm : r.deviceIndexToDeviceMask n = 1 := by simp [Renderer.deviceIndexToDeviceMask, hsim]
    rw [hm]
    by_cases h0 : n = 0
    · subst h0
      simp [Renderer.deviceMaskUnion]
    · rw [ih (by omega)]
      rfl

/-- C16: in the state the constructor leaves, `deviceMaskAll` is the bitwise OR of
`deviceIndexToDeviceMask(i)` over all `i < getPhysicalDeviceCount()` in both modes.  Without
simulation (a group of fewer than 32 devices) `deviceIndexToDeviceMask(i) = 2 ^ i` for
`i < 32`, these masks are distinct for distinct `i < 32`, and `deviceMaskAll` is
`2 ^ count - 1`; with a simulated count of at least 1 every mask and `deviceMaskAll` are 1.
`deviceMaskFirst` is 1 in both modes and equals `deviceIndexToDeviceMask(0)`. -/
theorem deviceMaskAll_is_union_of_device_masks (r : Renderer) (options : Options)
    (devices : List PhysicalDevice) (graphicsIndex transferIndex : Nat) (resolution : Extent2D)
    (semaphore : Semaphore)
    (hr : r = Renderer.create options devices graphicsIndex transferIndex resolution semaphore) :
    (options.simulatedPhysicalDeviceCount = none → devices.length < 32 →
      (∀ i, i < 32 → r.deviceIndexToDeviceMask i = 2 ^ i) ∧
      (∀ i j, i < 32 → j < 32 → r.deviceIndexToDeviceMask i = r.deviceIndexToDeviceMask j →
        i = j) ∧
      r.getPhysicalDeviceCount = devices.length ∧
      r.m_deviceMaskAll = 2 ^ r.getPhysicalDeviceCount - 1 ∧
      r.m_deviceMaskAll = r.deviceMaskUnion r.getPhysicalDeviceCount) ∧
    (∀ c, options.simulatedPhysicalDeviceCount = some c → 0 < c →
      (∀ i, r.deviceIndexToDeviceMask i = 1) ∧
      r.getPhysicalDeviceCount = c ∧
      r.m_deviceMaskAll = 1 ∧
      r.m_deviceMaskAll = r.deviceMaskUnion r.getPhysicalDeviceCount) ∧
    r.m_deviceMaskFirst = 1 ∧ r.getDeviceMaskFirst = 1 ∧
    r.getDeviceMaskFirst = r.deviceIndexToDeviceMask 0 := by
  subst hr
  refine ⟨?_, ?_, rfl, rfl, ?_⟩
  · intro hsim hlen
    have hopt : (Renderer.create options devices graphicsIndex transferIndex resolution
        semaphore).options.simulatedPhysicalDeviceCount = none := hsim
    have hw : wrap32 devices.length = devices.length := by
      unfold wrap32
      exact Nat.mod_eq_of_lt (by omega)
    have hcount : (Renderer.create options devices graphicsIndex transferIndex resolution
        semaphore).getPhysicalDeviceCount = devices.length := by
      simp [Renderer.getPhysicalDeviceCount, Renderer.create, hsim, hw]
    have hall : (Renderer.create options devices graphicsIndex transferIndex resolution
        semaphore).m_deviceMaskAll = 2 ^ devices.length - 1 := by
      have hlt : 2 ^ devices.length < 2 ^ 32 := Nat.pow_lt_pow_right (by norm_num) hlen
      have hpos : 0 < 2 ^ devices.length := Nat.two_pow_pos _
      have hval : (Renderer.create options devices graphicsIndex transferIndex resolution
          semaphore).m_deviceMaskAll =
          wrap32 (wrap32 (1 <<< wrap32 devices.length) + (2 ^ 32 - 1)) := by
        simp [Renderer.create, hsim]
      rw [hval, hw, Nat.one_shiftLeft]
      unfold wrap32
      omega
    refine ⟨fun i hi => Renderer.deviceIndexToDeviceMask_real _ hopt i hi, ?_, hcount, ?_, ?_⟩
    · intro i j hi hj hij
      rw [Renderer.deviceIndexToDeviceMask_real _ hopt i hi,
        Renderer.deviceIndexToDeviceMask_real _ hopt j hj] at hij
      exact Nat.pow_right_injective (le_refl 2) hij
    · rw [hcount, hall]
    · rw [hcount, hall, Renderer.deviceMaskUnion_real _ hopt _ (by omega)]
  · intro c hsim hc
    have hopt : (Renderer.create options devices graphicsIndex transferIndex resolution
        semaphore).options.simulatedPhysicalDeviceCount.isSome = true := by
      show options.simulatedPhysicalDeviceCount.isSome = true
      rw [hsim]
      rfl
    have hcount : (Renderer.create options devices graphicsIndex transferIndex resolution
        semaphore).getPhysicalDeviceCount = c := by
      simp [Renderer.getPhysicalDeviceCount, Renderer.create, hsim]
    have hall : (Renderer.create options devices graphicsIndex transferIndex resolution
        semaphore).m_deviceMaskAll = 1 := by
      simp [Renderer.create, hsim]
    refine ⟨fun i => by simp [Renderer.deviceIndexToDeviceMask, hopt], hcount, hall, ?_⟩
    rw [hcount, hall, Renderer.deviceMaskUnion_simulated _ hopt c hc]
  · show 1 = (Renderer.create options devices graphicsIndex transferIndex resolution
        semaphore).deviceIndexToDeviceMask 0
    by_cases hsim : options.simulatedPhysicalDeviceCount.isSome = true
    · simp [Renderer.deviceIndexToDeviceMask, Renderer.create, hsim]
    · simp [Renderer.deviceIndexToDeviceMask, Renderer.create, hsim, wrap32]

/-- C16, for the renderer constructed on 4 real devices: `deviceMaskAll` is 15, the OR of the
masks 1, 2, 4 and 8. -/
theorem deviceMaskAll_is_union_of_device_masks_witness :
    (Renderer.sampleAt 4 0).m_deviceMaskAll = 15 ∧
    (Renderer.sampleAt 4 0).deviceMaskUnion 4 = 15 ∧
    (Renderer.sampleAt 4 0).deviceIndexToDeviceMask 3 = 8 := by
  obtain ⟨h, -, -⟩ := deviceMaskAll_is_union_of_device_masks (Renderer.sampleAt 4 0)
    { simulatedPhysicalDeviceCount := none, swapEyes := false }
    ((List.range 4).map fun i => { handle := i }) 0 1 { width := 100, height := 80 } .null rfl
  obtain ⟨h1, -, h2, h3, h4⟩ := h rfl (by decide)
  rw [h2] at h3 h4
  exact ⟨h3, h4.symm.trans h3, h1 3 (by decide)⟩

/-! ## Selection of the device group -/

theorem Renderer.selectDeviceGroup_requested (options : Options)
    (groups : List PhysicalDeviceGroupProperties) (r n i : Nat) (h : i + n ≤ groups.length) :
    Renderer.selectDeviceGroup options groups n i (some r) = .ok (some r) := by
  induction n generalizing i with
  | zero => rfl
  | succ n ih =>
    have hi : i < groups.length := by omega
    simp only [Renderer.selectDeviceGroup, List.get?_eq_get hi, Option.isNone_some,
      Bool.false_eq_true, false_and, if_false]
    exact ih (i + 1) (by omega)

theorem Renderer.selectDeviceGroup_none (options : Options)
    (groups : List PhysicalDeviceGroupProperties) (n i : Nat) (h : i + n ≤ groups.length)
    (hnone : ∀ j g, i ≤ j → j < i + n → groups.get? j = some g →
      ¬ (g.physicalDeviceCount = 2 ∨ g.physicalDeviceCount = 4 ∨
        options.simulatedPhysicalDeviceCount.isSome)) :
    Renderer.selectDeviceGroup options groups n i none = .ok none := by
  induction n generalizing i with
  | zero => rfl
  | succ n ih =>
    have hi : i < groups.length := by omega
    have hg := hnone i _ (le_refl i) (by omega) (List.get?_eq_get hi)
    simp only [Renderer.selectDeviceGroup, List.get?_eq_get hi, hg, and_false, if_false]
    exact ih (i + 1) (by omega) (fun j g h1 h2 h3 => hnone j g (by omega) (by omega) h3)

theorem Renderer.selectDeviceGroup_first (options : Options)
    (groups : List PhysicalDeviceGroupProperties) (n i k : Nat) (g : PhysicalDeviceGroupProperties)
    (h : i + n ≤ groups.length) (hik : i ≤ k) (hk : k < i + n) (hg : groups.get? k = some g)
    (hok : g.physicalDeviceCount = 2 ∨ g.physicalDeviceCount = 4 ∨
      options.simulatedPhysicalDeviceCount.isSome)
    (hbefore : ∀ j g', i ≤ j → j < k → groups.get? j = some g' →
      ¬ (g'.physicalDeviceCount = 2 ∨ g'.physicalDeviceCount = 4 ∨
        options.simulatedPhysicalDeviceCount.isSome)) :
    Renderer.selectDeviceGroup options groups n i none = .ok (some k) := by
  induction n generalizing i with
  | zero => omega
  | succ n ih =>
    have hi : i < groups.length := by omega
    by_cases hik' : i = k
    · subst hik'
      rw [List.get?_eq_get hi] at hg
      simp only [Renderer.selectDeviceGroup, List.get?_eq_get hi]
      rw [Option.some.inj hg]
      simp only [Option.isNone_none, true_and, hok, if_true]
      exact Renderer.selectDeviceGroup_requested options groups i n (i + 1) (by omega)
    · have hgi := hbefore i _ (le_refl i) (by omega) (List.get?_eq_get hi)
      simp only [Renderer.selectDeviceGroup, List.get?_eq_get hi, hgi, and_false, if_false]
      exact ih (i + 1) (by omega) (by omega) (by omega)
        (fun j g' h1 h2 h3 => hbefore j g' (by omega) h2 h3)

/-- C17: the selection of `fillPhysicalDevices` for the groups the instance enumerates (their
number a `uint32_t`), the requested index and the simulation option.  It fails with the fatal
error of the missing groups if the list is empty.  Otherwise: a requested index `r` below the
number of groups selects group `r`, whatever the device counts, and a requested index at or
above it is the fatal error of the invalid index; without a requested index and with a
simulated count, group 0 is selected; without both, the group at the smallest index whose
device count is 2 or 4 is selected, and it is the fatal error of the missing compatible group
if there is none.  On success the device list is the first `physicalDeviceCount` handles of
the selected group, in order. -/
theorem fillPhysicalDevices_selection (options : Options)
    (groups : List PhysicalDeviceGroupProperties) (hlen : groups.length < 2 ^ 32) :
    (groups = [] → Renderer.fillPhysicalDevices options groups = .error .noDeviceGroups) ∧
    (∀ r, groups ≠ [] → options.devGroupIndex = some r →
      (∀ g, groups.get? r = some g →
        Renderer.fillPhysicalDevices options groups =
          .ok (g.physicalDevices.take g.physicalDeviceCount)) ∧
      (groups.length ≤ r →
        Renderer.fillPhysicalDevices options groups = .error (.invalidDeviceGroupIndex r))) ∧
    (∀ g, groups.get? 0 = some g → options.devGroupIndex = none →
      options.simulatedPhysicalDeviceCount.isSome →
      Renderer.fillPhysicalDevices options groups =
        .ok (g.physicalDevices.take g.physicalDeviceCount)) ∧
    (groups ≠ [] → options.devGroupIndex = none → options.simulatedPhysicalDeviceCount = none →
      (∀ k g, groups.get? k = some g →
        (g.physicalDeviceCount = 2 ∨ g.physicalDeviceCount = 4) →
        (∀ j g', j < k → groups.get? j = some g' →
          ¬ (g'.physicalDeviceCount = 2 ∨ g'.physicalDeviceCount = 4)) →
        Renderer.fillPhysicalDevices options groups =
          .ok (g.physicalDevices.take g.physicalDeviceCount)) ∧
      ((∀ g ∈ groups, ¬ (g.physicalDeviceCount = 2 ∨ g.physicalDeviceCount = 4)) →
        Renderer.fillPhysicalDevices options groups = .error .noCompatibleDeviceGroup)) := by
  have hsel : ∀ k g, groups.get? k = some g →
      Renderer.selectDeviceGroup options groups groups.length 0 options.devGroupIndex =
        .ok (some k) →
      Renderer.fillPhysicalDevices options groups =
        .ok (g.physicalDevices.take g.physicalDeviceCount) := by
    intro k g hg hs
    have hk : k < groups.length := by
      by_contra hk
      rw [List.get?_eq_none.2 (by omega)] at hg
      exact absurd hg (by simp)
    have hne : groups.isEmpty = false := by
      cases groups with
      | nil => simp at hk
      | cons a b => rfl
    simp only [Renderer.fillPhysicalDevices, hne, Bool.false_eq_true, if_false, hs, hk,
      not_true_eq_false, hg]
  refine ⟨?_, ?_, ?_, ?_⟩
  · intro h
    subst h
    rfl
  · intro r hne hr
    have hs := Renderer.selectDeviceGroup_requested options groups r groups.length 0 (by omega)
    refine ⟨fun g hg => hsel r g hg (by rw [hr]; exact hs), ?_⟩
    intro hle
    have hne' : groups.isEmpty = false := by
      cases groups with
      | nil => exact absurd rfl hne
      | cons a b => rfl
    simp only [Renderer.fillPhysicalDevices, hne', Bool.false_eq_true, if_false, hr, hs,
      Nat.not_lt.2 hle, not_false_eq_true, if_true]
  · intro g hg hnone hsim
    have hpos : 0 < groups.length := by
      by_contra h0
      rw [List.get?_eq_none.2 (by omega)] at hg
      exact absurd hg (by simp)
    have hs := Renderer.selectDeviceGroup_first options groups groups.length 0 0 g (by omega)
      (le_refl 0) (by omega) hg (Or.inr (Or.inr hsim)) (fun j g' _ h2 => by omega)
    rw [← hnone] at hs
    exact hsel 0 g hg hs
  · intro hne hnone hsim
    constructor
    · intro k g hg hok hbefore
      have hk : k < groups.length := by
        by_contra hk
        rw [List.get?_eq_none.2 (by omega)] at hg
        exact absurd hg (by simp)
      have hs := Renderer.selectDeviceGroup_first options groups groups.length 0 k g (by omega)
        (Nat.zero_le k) (by omega) hg (by tauto)
        (fun j g' _ h2 h3 => by
          have := hbefore j g' h2 h3
          simp [hsim]
          tauto)
      rw [← hnone] at hs
      exact hsel k g hg hs
    · intro hall
      have hs := Renderer.selectDeviceGroup_none options groups groups.length 0 (by omega)
        (fun j g _ _ h3 => by
          have := hall g (List.get?_mem h3)
          simp [hsim]
          tauto)
      have hne' : groups.isEmpty = false := by
        cases groups with
        | nil => exact absurd rfl hne
        | cons a b => rfl
      simp only [Renderer.fillPhysicalDevices, hne', Bool.false_eq_true, if_false, hnone, hs]

/-- C17, for groups of 1, 4 and 2 devices without a requested index and without simulation:
the group at index 1 is selected and its four devices are the device list. -/
theorem fillPhysicalDevices_selection_witness :
    Renderer.fillPhysicalDevices { simulatedPhysicalDeviceCount := none, swapEyes := false }
      [⟨1, [⟨10⟩]⟩, ⟨4, [⟨20⟩, ⟨21⟩, ⟨22⟩, ⟨23⟩]⟩, ⟨2, [⟨30⟩, ⟨31⟩]⟩] =
      .ok [⟨20⟩, ⟨21⟩, ⟨22⟩, ⟨23⟩] := by
  have h := (fillPhysicalDevices_selection
    { simulatedPhysicalDeviceCount := none, swapEyes := false }
    [⟨1, [⟨10⟩]⟩, ⟨4, [⟨20⟩, ⟨21⟩, ⟨22⟩, ⟨23⟩]⟩, ⟨2, [⟨30⟩, ⟨31⟩]⟩] (by decide)).2.2.2
    (by simp) rfl rfl
  exact h.1 1 ⟨4, [⟨20⟩, ⟨21⟩, ⟨22⟩, ⟨23⟩]⟩ rfl (Or.inr rfl) (fun j g' hj hg => by
    have hj0 : j = 0 := by omega
    subst hj0
    simp at hg
    subst hg
    decide)

/-- C18, evaluated where the code departs from it: without simulation, a single group of one
device requested by its index (a machine with one device, started with `--device-group 0`) is
selected by `fillPhysicalDevices`, and the device list has one element, not 2 or 4.  The
same group is rejected with the fatal error of the missing compatible group when no index is
requested, and a renderer on one device fails in `getDeviceViewport` with the fatal error of
the unsupported device count. -/
theorem requested_group_of_one_is_selected :
    Renderer.fillPhysicalDevices
        { simulatedPhysicalDeviceCount := none, swapEyes := false, devGroupIndex := some 0 }
        [⟨1, [⟨0⟩]⟩] = .ok [⟨0⟩] ∧
    Renderer.fillPhysicalDevices
        { simulatedPhysicalDeviceCount := none, swapEyes := false, devGroupIndex := none }
        [⟨1, [⟨0⟩]⟩] = .error .noCompatibleDeviceGroup ∧
    (Renderer.sampleAt 1 0).getPhysicalDeviceCount = 1 ∧
    (Renderer.sampleAt 1 0).getDeviceViewport 0 = .error (.devicesNotSupported 1) := by
  exact ⟨rfl, rfl, rfl, rfl⟩

/-! ## The main physical device -/

theorem vectorSwapFront_cons {α : Type} (a b : α) (rest : List α) (j : Nat)
    (h : rest.get? j = some b) :
    vectorSwapFront (a :: rest) (j + 1) = .ok (b :: rest.set j a) := by
  simp only [List.get?_eq_getElem?] at h
  simp [vectorSwapFront, h]

theorem swap_front_perm {α : Type} (a b : α) (rest : List α) (j : Nat)
    (h : rest.get? j = some b) : (b :: rest.set j a).Perm (a :: rest) := by
  induction rest generalizing j with
  | nil => simp at h
  | cons x xs ih =>
    cases j with
    | zero =>
      simp only [List.get?_cons_zero, Option.some.injEq] at h
      subst h
      exact List.Perm.swap _ _ _
    | succ j =>
      simp only [List.get?_cons_succ] at h
      have h1 : (x :: a :: xs).Perm (a :: x :: xs) := List.Perm.swap _ _ _
      have h2 : (b :: x :: xs.set j a).Perm (x :: b :: xs.set j a) := List.Perm.swap _ _ _
      exact (h2.trans (List.Perm.cons x (ih j h))).trans h1

/-- C19, where the code departs from it: in simulated mode (count 4) on a group of two
devices, when the collaborator reports no main device, the device list after
`updateMainPhysicalDevice` still holds both devices, not one. -/
theorem simulated_none_answer_keeps_all_devices :
    ∃ devices, Renderer.updateMainPhysicalDevice
        { simulatedPhysicalDeviceCount := some 4, swapEyes := false } none [⟨0⟩, ⟨1⟩] =
        .ok devices ∧ devices.length ≠ 1 :=
  ⟨[⟨0⟩, ⟨1⟩], rfl, by decide⟩

/-- C19, amended: for a non-empty device list of the selected group.  In simulated mode, when
the collaborator reports the index `m` of a device of the group, the list held after
`updateMainPhysicalDevice` has exactly one element, the group's device `m`.  When the
collaborator reports no index, the function returns at once and the list is unchanged, in
simulated mode too.  Without simulation and with a reported index `m`, the resulting list is
a permutation of the group's devices with device `m` at position 0. -/
theorem updateMainPhysicalDevice_result (options : Options) (devices : List PhysicalDevice)
    (hne : devices ≠ []) :
    (∀ m d, options.simulatedPhysicalDeviceCount.isSome → devices.get? m = some d →
      Renderer.updateMainPhysicalDevice options (some m) devices = .ok [d]) ∧
    Renderer.updateMainPhysicalDevice options none devices = .ok devices ∧
    (∀ m d, options.simulatedPhysicalDeviceCount = none → devices.get? m = some d →
      ∃ l, Renderer.updateMainPhysicalDevice options (some m) devices = .ok l ∧
        l.Perm devices ∧ l.get? 0 = some d) := by
  cases devices with
  | nil => exact absurd rfl hne
  | cons a rest =>
    refine ⟨?_, ?_, ?_⟩
    · intro m d hsim hd
      cases m with
      | zero =>
        simp only [List.get?_cons_zero, Option.some.injEq] at hd
        subst hd
        simp [Renderer.updateMainPhysicalDevice, hsim]
      | succ j =>
        simp only [List.get?_cons_succ] at hd
        simp [Renderer.updateMainPhysicalDevice, hsim, vectorSwapFront_cons a d rest j hd]
    · simp [Renderer.updateMainPhysicalDevice]
    · intro m d hsim hd
      cases m with
      | zero =>
        simp only [List.get?_cons_zero, Option.some.injEq] at hd
        subst hd
        exact ⟨a :: rest, by simp [Renderer.updateMainPhysicalDevice, hsim], List.Perm.refl _,
          rfl⟩
      | succ j =>
        simp only [List.get?_cons_succ] at hd
        exact ⟨d :: rest.set j a,
          by simp [Renderer.updateMainPhysicalDevice, hsim, vectorSwapFront_cons a d rest j hd],
          swap_front_perm a d rest j hd, rfl⟩

/-- C19 as amended, for a simulated count of 4 on the devices 0, 1, 2 with the reported main
device 2: the list becomes the single device 2. -/
theorem updateMainPhysicalDevice_result_witness :
    Renderer.updateMainPhysicalDevice { simulatedPhysicalDeviceCount := some 4, swapEyes := false }
      (some 2) [⟨0⟩, ⟨1⟩, ⟨2⟩] = .ok [⟨2⟩] :=
  (updateMainPhysicalDevice_result { simulatedPhysicalDeviceCount := some 4, swapEyes := false }
    [⟨0⟩, ⟨1⟩, ⟨2⟩] (by simp)).1 2 ⟨2⟩ rfl rfl

/-! ## Device designations in simulated mode -/

theorem Renderer.renderSubmit_mem (env : FrameEnv) (r : Renderer) (p : Nat) :
    Event.submit2 .m_renderQueue
        ((List.range r.getPhysicalDeviceCount).map (r.frameStart p).deviceSubmit) ∈
      r.nextFrameEvents env p := by
  have hcount : (r.frameStart p).getPhysicalDeviceCount = r.getPhysicalDeviceCount := rfl
  simp [Renderer.nextFrameEvents, Renderer.renderFrameEvents, hcount]

/-- C20, evaluated where the code departs from it: in simulated mode with a simulated count
of 4 on one real device, the rendered frames 0 and 3 return, and the four submissions to the
render queue carry the device mask 1 on every command buffer, but the device indices 0, 1, 2
and 3 on their signal semaphore entries and, at frame 3, on their wait semaphore entries:
the entries of the devices 1, 2 and 3 do not designate device 0. -/
theorem simulated_render_submissions_keep_device_index :
    (∃ r' tr submits,
      (Renderer.simulatedAt 4 0).nextFrame (FrameEnv.sample (some 5)) = .ok (r', tr) ∧
      Event.submit2 .m_renderQueue submits ∈ tr ∧
      submits.map (fun s => s.commandBufferInfos.map fun c => c.deviceMask) =
        [[1], [1], [1], [1]] ∧
      submits.map (fun s => s.signalSemaphoreInfos.map fun i => i.deviceIndex) =
        [[0], [1], [2], [3]]) ∧
    (∃ r' tr submits,
      (Renderer.simulatedAt 4 3).nextFrame (FrameEnv.sample (some 5)) = .ok (r', tr) ∧
      Event.submit2 .m_renderQueue submits ∈ tr ∧
      submits.map (fun s => s.waitSemaphoreInfos.map fun i => i.deviceIndex) =
        [[0], [1], [2], [3]]) := by
  constructor
  · exact ⟨_, _, _, Renderer.nextFrame_closed (FrameEnv.sample (some 5))
      (Renderer.simulatedAt 4 0) (by decide) 5 rfl (fun _ => rfl),
      Renderer.renderSubmit_mem _ _ _, rfl, rfl⟩
  · exact ⟨_, _, _, Renderer.nextFrame_closed (FrameEnv.sample (some 5))
      (Renderer.simulatedAt 4 3) (by decide) 5 rfl (fun _ => rfl),
      Renderer.renderSubmit_mem _ _ _, rfl⟩

/-! ## Creation of the queue families -/

theorem findIfFrom_spec {α : Type} (p : Nat → α → Bool) (l : List α) (i : Nat) :
    i ≤ findIfFrom p l i ∧ findIfFrom p l i ≤ i + l.length ∧
    (∀ j x, j < findIfFrom p l i - i → l.get? j = some x → p (i + j) x = false) ∧
    (findIfFrom p l i < i + l.length →
      ∃ x, l.get? (findIfFrom p l i - i) = some x ∧ p (findIfFrom p l i) x = true) := by
  induction l generalizing i with
  | nil => simp [findIfFrom]
  | cons a l ih =>
    by_cases ha : p i a = true
    · simp [findIfFrom, ha]
    · obtain ⟨h1, h2, h3, h4⟩ := ih (i + 1)
      simp only [findIfFrom, ha, Bool.false_eq_true, if_false, List.length_cons]
      refine ⟨by omega, by omega, ?_, ?_⟩
      · intro j x hj hx
        cases j with
        | zero =>
          simp only [List.get?_cons_zero, Option.some.injEq] at hx
          subst hx
          simpa using ha
        | succ j =>
          simp only [List.get?_cons_succ] at hx
          have := h3 j x (by omega) hx
          rw [← this]
          congr 1
          omega
      · intro hlt
        obtain ⟨x, hx, hp⟩ := h4 (by omega)
        refine ⟨x, ?_, hp⟩
        have : findIfFrom p l (i + 1) - i = (findIfFrom p l (i + 1) - (i + 1)) + 1 := by omega
        rw [this, List.get?_cons_succ]
        exact hx

theorem findIfFrom_eq {α : Type} (p : Nat → α → Bool) (l : List α) (k : Nat) (x : α)
    (hx : l.get? k = some x) (hp : p k x = true)
    (hbefore : ∀ j y, j < k → l.get? j = some y → p j y = false) :
    findIfFrom p l 0 = k := by
  obtain ⟨-, h2, h3, h4⟩ := findIfFrom_spec p l 0
  simp only [Nat.zero_add, Nat.sub_zero] at h2 h3 h4
  have hk : k < l.length := by
    by_contra hk
    rw [List.get?_eq_none.2 (by omega)] at hx
    exact absurd hx (by simp)
  rcases Nat.lt_trichotomy (findIfFrom p l 0) k with hlt | heq | hgt
  · obtain ⟨y, hy, hpy⟩ := h4 (by omega)
    rw [hbefore _ y hlt hy] at hpy
    exact absurd hpy (by simp)
  · exact heq
  · rw [h3 k x hgt hx] at hp
    exact absurd hp (by simp)

theorem Renderer.checkQueueFamilies_ok_iff
    (getQ : PhysicalDevice → List QueueFamilyProperties) (g t : Nat)
    (others : List PhysicalDevice) (k : Nat) :
    Renderer.checkQueueFamilies getQ g t others k = .ok () ↔
      ∀ device ∈ others,
        (∃ p, (getQ device).get? g = some p ∧ p.hasGraphics = true) ∧
        (∃ p, (getQ device).get? t = some p ∧ p.hasTransfer = true) := by
  induction others generalizing k with
  | nil => simp [Renderer.checkQueueFamilies]
  | cons device rest ih =>
    simp only [List.mem_cons, forall_eq_or_imp, ← ih (k + 1)]
    by_cases hg : g < (getQ device).length
    · by_cases hgb : (getQ device)[g].hasGraphics = true
      · by_cases ht : t < (getQ device).length
        · by_cases htb : (getQ device)[t].hasTransfer = true
          · simp [Renderer.checkQueueFamilies, hg, ht, List.get?_eq_get, hgb, htb]
          · simp [Renderer.checkQueueFamilies, hg, ht, List.get?_eq_get, hgb, htb]
        · simp [Renderer.checkQueueFamilies, hg, ht, List.get?_eq_get, hgb,
            List.getElem?_eq_none (Nat.not_lt.1 ht)]
      · simp [Renderer.checkQueueFamilies, hg, List.get?_eq_get, hgb]
    · simp [Renderer.checkQueueFamilies, hg, List.getElem?_eq_none (Nat.not_lt.1 hg)]

theorem VulkanQueueFamily.new_injective (a b : Nat)
    (h : VulkanQueueFamily.new a = VulkanQueueFamily.new b) : a = b := by
  have := congrArg VulkanQueueFamily.m_queueFamilyIndex h
  exact this

theorem Renderer.createQueueFamilies_ok_form
    (getQ : PhysicalDevice → List QueueFamilyProperties) (devices : List PhysicalDevice)
    (qg qt : VulkanQueueFamily) (h : Renderer.createQueueFamilies getQ devices = .ok (qg, qt)) :
    qg = VulkanQueueFamily.new qg.getIndex ∧ qt = VulkanQueueFamily.new qt.getIndex := by
  cases devices with
  | nil => simp [Renderer.createQueueFamilies] at h
  | cons first others =>
    simp only [Renderer.createQueueFamilies] at h
    split at h
    · exact absurd h (by simp)
    · split at h
      · exact absurd h (by simp)
      · split at h
        · exact absurd h (by simp)
        · simp only [Except.ok.injEq, Prod.mk.injEq] at h
          rw [← h.1, ← h.2]
          exact ⟨rfl, rfl⟩

theorem Renderer.createQueueFamilies_ok_iff
    (getQ : PhysicalDevice → List QueueFamilyProperties) (first : PhysicalDevice)
    (others : List PhysicalDevice) (h32 : (getQ first).length < 2 ^ 32) (g t : Nat) :
    Renderer.createQueueFamilies getQ (first :: others) =
        .ok (VulkanQueueFamily.new g, VulkanQueueFamily.new t) ↔
      QueueFamiliesAccepted getQ first others g t := by
  obtain ⟨-, g2, g3, g4⟩ := findIfFrom_spec
    (fun _ (p_props : QueueFamilyProperties) =>
      p_props.hasGraphics && decide (2 ≤ p_props.queueCount)) (getQ first) 0
  simp only [Nat.zero_add, Nat.sub_zero] at g2 g3 g4
  generalize hG : findIfFrom
    (fun _ (p_props : QueueFamilyProperties) =>
      p_props.hasGraphics && decide (2 ≤ p_props.queueCount)) (getQ first) 0 = G
    at g2 g3 g4
  obtain ⟨-, t2, t3, t4⟩ := findIfFrom_spec
    (fun i (p_props : QueueFamilyProperties) => decide (G ≠ i) && p_props.hasTransfer) (getQ first) 0
  simp only [Nat.zero_add, Nat.sub_zero] at t2 t3 t4
  generalize hT : findIfFrom
    (fun i (p_props : QueueFamilyProperties) => decide (G ≠ i) && p_props.hasTransfer) (getQ first) 0 = T at t2 t3 t4
  have hwrap : ∀ n, n ≤ (getQ first).length → wrap32 n = n := by
    intro n hn
    unfold wrap32
    exact Nat.mod_eq_of_lt (by omega)
  constructor
  · intro h
    simp only [Renderer.createQueueFamilies, hG, hT] at h
    by_cases hGe : G = (getQ first).length
    · simp [hGe] at h
    · by_cases hTe : T = (getQ first).length
      · simp [hGe, hTe] at h
      · simp only [hGe, hTe, if_false, hwrap G g2, hwrap T t2] at h
        cases hc : Renderer.checkQueueFamilies getQ (VulkanQueueFamily.new G).getIndex
            (VulkanQueueFamily.new T).getIndex others 1 with
        | error e => simp [hc] at h
        | ok u =>
          simp only [hc, Except.ok.injEq, Prod.mk.injEq] at h
          have hg : G = g := VulkanQueueFamily.new_injective _ _ h.1
          have ht : T = t := VulkanQueueFamily.new_injective _ _ h.2
          subst hg
          subst ht
          obtain ⟨pg, hpg, hpgb⟩ := g4 (by omega)
          obtain ⟨pt, hpt, hptb⟩ := t4 (by omega)
          simp only [Bool.and_eq_true, decide_eq_true_eq] at hpgb hptb
          refine ⟨⟨pg, hpg, hpgb.1, hpgb.2⟩, ?_, fun h => hptb.1 h.symm, ⟨pt, hpt, hptb.2⟩, ?_, ?_⟩
          · intro j p hj hp hcon
            have := g3 j p hj hp
            simp [hcon.1, hcon.2] at this
          · intro j p hj hne hp hcon
            have := t3 j p hj hp
            simp [hcon, Ne.symm hne] at this
          · exact (Renderer.checkQueueFamilies_ok_iff getQ _ _ others 1).1 hc
  · rintro ⟨⟨pg, hpg, hpg1, hpg2⟩, hgb, htg, ⟨pt, hpt, hpt1⟩, htb, hothers⟩
    have hGg : G = g := by
      rw [← hG]
      apply findIfFrom_eq _ _ g pg hpg (by simp [hpg1, hpg2])
      intro j y hj hy
      have := hgb j y hj hy
      by_contra hcon
      simp only [Bool.not_eq_false, Bool.and_eq_true, decide_eq_true_eq] at hcon
      exact this hcon
    subst hGg
    have hTt : T = t := by
      rw [← hT]
      apply findIfFrom_eq _ _ t pt hpt (by simp [hpt1, Ne.symm htg])
      intro j y hj hy
      by_contra hcon
      simp only [Bool.not_eq_false, Bool.and_eq_true, decide_eq_true_eq] at hcon
      exact htb j y hj (Ne.symm hcon.1) hy hcon.2
    subst hTt
    have hglt : G < (getQ first).length := by
      by_contra hk
      rw [List.get?_eq_none.2 (by omega)] at hpg
      exact absurd hpg (by simp)
    have htlt : T < (getQ first).length := by
      by_contra hk
      rw [List.get?_eq_none.2 (by omega)] at hpt
      exact absurd hpt (by simp)
    have hc := (Renderer.checkQueueFamilies_ok_iff getQ G T others 1).2 hothers
    simp only [Renderer.createQueueFamilies, hG, hT, Nat.ne_of_lt hglt, Nat.ne_of_lt htlt,
      if_false, hwrap G g2, hwrap T t2]
    have hc' : Renderer.checkQueueFamilies getQ (VulkanQueueFamily.new G).getIndex
        (VulkanQueueFamily.new T).getIndex others 1 = .ok () := hc
    rw [hc']
/-- C21: for a non-empty device list (the first device reporting fewer than `2 ^ 32` queue
families), `createQueueFamilies` succeeds if and only if there are `g` and `t` such that, on
the first device, `g` is the lowest index of a family with the graphics bit and at least 2
queues and `t` is the lowest index other than `g` of a family with the transfer bit, and
every other device has families at the indices `g` and `t` with the graphics bit and the
transfer bit.  In that case it creates the graphics family with index `g` and the transfer
family with index `t`; on success the two indices differ and every device of the list has
the graphics bit at the one and the transfer bit at the other.  Otherwise the outcome is
fatal. -/
theorem createQueueFamilies_accepts_iff
    (getQ : PhysicalDevice → List QueueFamilyProperties) (first : PhysicalDevice)
    (others : List PhysicalDevice) (h32 : (getQ first).length < 2 ^ 32) :
    ((∃ qs, Renderer.createQueueFamilies getQ (first :: others) = .ok qs) ↔
      ∃ g t, QueueFamiliesAccepted getQ first others g t) ∧
    (∀ g t, QueueFamiliesAccepted getQ first others g t →
      Renderer.createQueueFamilies getQ (first :: others) =
        .ok (VulkanQueueFamily.new g, VulkanQueueFamily.new t)) ∧
    (∀ qg qt, Renderer.createQueueFamilies getQ (first :: others) = .ok (qg, qt) →
      QueueFamiliesAccepted getQ first others qg.getIndex qt.getIndex ∧
      qg.getIndex ≠ qt.getIndex ∧
      ∀ device ∈ first :: others,
        (∃ p, (getQ device).get? qg.getIndex = some p ∧ p.hasGraphics = true) ∧
        (∃ p, (getQ device).get? qt.getIndex = some p ∧ p.hasTransfer = true)) ∧
    ((¬ ∃ g t, QueueFamiliesAccepted getQ first others g t) →
      ∃ e, Renderer.createQueueFamilies getQ (first :: others) = .error e) := by
  have hok : ∀ qg qt, Renderer.createQueueFamilies getQ (first :: others) = .ok (qg, qt) →
      QueueFamiliesAccepted getQ first others qg.getIndex qt.getIndex := by
    intro qg qt h
    obtain ⟨h1, h2⟩ := Renderer.createQueueFamilies_ok_form getQ _ qg qt h
    rw [h1, h2] at h
    exact (Renderer.createQueueFamilies_ok_iff getQ first others h32 _ _).1 h
  refine ⟨⟨?_, ?_⟩, ?_, ?_, ?_⟩
  · rintro ⟨⟨qg, qt⟩, h⟩
    exact ⟨_, _, hok qg qt h⟩
  · rintro ⟨g, t, h⟩
    exact ⟨_, (Renderer.createQueueFamilies_ok_iff getQ first others h32 g t).2 h⟩
  · intro g t h
    exact (Renderer.createQueueFamilies_ok_iff getQ first others h32 g t).2 h
  · intro qg qt h
    have hacc := hok qg qt h
    obtain ⟨⟨pg, hpg, hpg1, -⟩, -, htg, ⟨pt, hpt, hpt1⟩, -, hothers⟩ := hacc
    refine ⟨hok qg qt h, Ne.symm htg, ?_⟩
    intro device hdev
    rcases List.mem_cons.1 hdev with rfl | hmem
    · exact ⟨⟨pg, hpg, hpg1⟩, ⟨pt, hpt, hpt1⟩⟩
    · exact hothers device hmem
  · intro hnone
    cases hc : Renderer.createQueueFamilies getQ (first :: others) with
    | error e => exact ⟨e, rfl⟩
    | ok qs =>
      obtain ⟨qg, qt⟩ := qs
      exact absurd ⟨_, _, hok qg qt hc⟩ hnone

/-- C21, for two devices: the first reports a graphics family with one queue, a family with
all bits and 16 queues and a transfer family; the second a family without bits, a graphics
family and a transfer family.  The families 1 and 2 are selected. -/
theorem createQueueFamilies_accepts_iff_witness :
    Renderer.createQueueFamilies
        (fun device => if device.handle = 0 then [⟨1, 1⟩, ⟨7, 16⟩, ⟨4, 2⟩]
          else [⟨0, 1⟩, ⟨1, 1⟩, ⟨4, 1⟩]) [⟨0⟩, ⟨1⟩] =
      .ok (VulkanQueueFamily.new 1, VulkanQueueFamily.new 2) ∧
    QueueFamiliesAccepted
        (fun device => if device.handle = 0 then [⟨1, 1⟩, ⟨7, 16⟩, ⟨4, 2⟩]
          else [⟨0, 1⟩, ⟨1, 1⟩, ⟨4, 1⟩]) ⟨0⟩ [⟨1⟩] 1 2 :=
  ⟨rfl, ((createQueueFamilies_accepts_iff
    (fun device => if device.handle = 0 then [⟨1, 1⟩, ⟨7, 16⟩, ⟨4, 2⟩]
      else [⟨0, 1⟩, ⟨1, 1⟩, ⟨4, 1⟩]) ⟨0⟩ [⟨1⟩] (by decide)).2.2.1 _ _ rfl).1⟩

/-! ## The copy regions of the composite step -/

theorem eventsFrom_singleton {α : Type} (F : Nat → α) (n i : Nat) :
    eventsFrom (fun k => [F k]) n i = (List.range' i n).map F := by
  induction n generalizing i with
  | zero => rfl
  | succ n ih => simp [eventsFrom, ih, List.range'_succ]

theorem colorCopies_append (a b : List Event) :
    colorCopies (a ++ b) = colorCopies a ++ colorCopies b := by
  simp [colorCopies, List.filterMap_append]

theorem colorCopies_copyEvents (cb : CommandBuffer) (f c : Nat) (l : List CopyImageInfo2) :
    colorCopies (copyEvents cb f c l) =
      l.filter fun info => decide (info.region.dstAspect = .eColor) := by
  induction l generalizing c with
  | nil => rfl
  | cons x xs ih =>
    have ih' := ih (wrap32 (c + 1))
    simp only [colorCopies] at ih'
    by_cases hx : x.region.dstAspect = .eColor
    · simp [copyEvents, colorCopies, Event.colorCopy, hx, ih', List.filterMap_append]
    · simp [copyEvents, colorCopies, Event.colorCopy, hx, ih', List.filterMap_append]

theorem Renderer.colorCopies_deviceEvents (env : FrameEnv) (r : Renderer) (j : Nat) :
    (r.deviceEvents env j).filterMap Event.colorCopy = [] := by
  by_cases h0 : j = 0 ∧ r.m_frameIndex = 0
  · simp only [Renderer.deviceEvents, if_pos h0]
    simp [Event.colorCopy]
  · simp only [Renderer.deviceEvents, if_neg h0]
    simp [Event.colorCopy]

theorem Renderer.filter_color_deviceCopies (r : Renderer) (frt : FrameRenderTargets) (i : Nat) :
    (r.deviceCopies frt i).filter (fun info => decide (info.region.dstAspect = .eColor)) =
      [r.colorCopyOf frt i] := by
  by_cases hd : frt.depthImage = .null <;>
    simp [Renderer.deviceCopies, Renderer.colorCopyOf, Renderer.copyRegion, hd]

theorem Renderer.colorCopies_buildFinalFrameEvents (env : FrameEnv) (frt : FrameRenderTargets)
    (r : Renderer) :
    colorCopies (r.buildFinalFrameEvents env frt) =
      (List.range r.getPhysicalDeviceCount).map (r.colorCopyOf frt) := by
  have hcopies : colorCopies (copyEvents r.transferCmdBuffer r.m_frameIndex 0
      (r.buildLocals env frt r.getPhysicalDeviceCount).copyImageInfos) =
      (List.range r.getPhysicalDeviceCount).map (r.colorCopyOf frt) := by
    rw [colorCopies_copyEvents]
    simp only [Renderer.buildLocals]
    rw [filter_eventsFrom]
    simp only [Renderer.filter_color_deviceCopies]
    rw [eventsFrom_singleton, List.range_eq_range']
  simp only [Renderer.buildFinalFrameEvents, colorCopies_append, hcopies]
  by_cases hs : r.m_swapchainImageReadySemaphore = .null <;>
    simp [colorCopies, Event.colorCopy, hs]

theorem Renderer.colorCopies_nextFrameEvents (env : FrameEnv) (r : Renderer) (p : Nat) :
    colorCopies (r.nextFrameEvents env p) =
      (List.range r.getPhysicalDeviceCount).map
        (((r.frameStart p).afterDevices r.getPhysicalDeviceCount).colorCopyOf
          env.acquireSwapchainImages) := by
  have hdev : colorCopies (eventsFrom ((r.frameStart p).deviceEvents env)
      (r.frameStart p).getPhysicalDeviceCount 0) = [] := by
    simp only [colorCopies]
    rw [filterMap_eventsFrom]
    exact eventsFrom_eq_nil _ _ _ (fun j _ _ => Renderer.colorCopies_deviceEvents env _ j)
  have hw : colorCopies r.waitEvents = [] := by
    by_cases hN : MAX_QUEUED_FRAMES ≤ r.m_frameIndex <;>
      simp [Renderer.waitEvents, hN, colorCopies, Event.colorCopy]
  have hacq : colorCopies (r.acquireEvents env) = [] := by
    by_cases hs : env.getSwapchainImageReadySemaphore = .null <;>
      simp [Renderer.acquireEvents, hs, colorCopies, Event.colorCopy]
  have hcount : ((r.frameStart p).afterDevices r.getPhysicalDeviceCount).getPhysicalDeviceCount =
      r.getPhysicalDeviceCount := rfl
  simp only [Renderer.nextFrameEvents, Renderer.renderFrameEvents, colorCopies_append, hdev, hw,
    hacq, Renderer.colorCopies_buildFinalFrameEvents, hcount]
  simp [colorCopies, Event.colorCopy]
theorem Renderer.copyRegion_covers (r : Renderer) (aspect : ImageAspect) (i px py : Nat)
    (hw : r.m_resolutionPerPhysicalDevice.width < 2 ^ 32)
    (hh : r.m_resolutionPerPhysicalDevice.height < 2 ^ 32) (hi : i < 4) :
    (r.copyRegion aspect i).coversDst px py ↔
      (i % 2) * r.m_resolutionPerPhysicalDevice.width ≤ px ∧
      px < (i % 2) * r.m_resolutionPerPhysicalDevice.width +
        r.m_resolutionPerPhysicalDevice.width ∧
      (i / 2) * r.m_resolutionPerPhysicalDevice.height ≤ py ∧
      py < (i / 2) * r.m_resolutionPerPhysicalDevice.height +
        r.m_resolutionPerPhysicalDevice.height := by
  have e1 : (Renderer.copyRegion r aspect i).dstOffset.x =
      wrap32 ((i % 2) * r.m_resolutionPerPhysicalDevice.width) := rfl
  have e2 : (Renderer.copyRegion r aspect i).dstOffset.y =
      wrap32 ((i / 2) * r.m_resolutionPerPhysicalDevice.height) := rfl
  have e3 : (Renderer.copyRegion r aspect i).extentWidth =
      r.m_resolutionPerPhysicalDevice.width := rfl
  have e4 : (Renderer.copyRegion r aspect i).extentHeight =
      r.m_resolutionPerPhysicalDevice.height := rfl
  have hx : wrap32 ((i % 2) * r.m_resolutionPerPhysicalDevice.width) =
      (i % 2) * r.m_resolutionPerPhysicalDevice.width := by
    unfold wrap32
    apply Nat.mod_eq_of_lt
    have : i % 2 ≤ 1 := by omega
    calc (i % 2) * r.m_resolutionPerPhysicalDevice.width
        ≤ 1 * r.m_resolutionPerPhysicalDevice.width := Nat.mul_le_mul_right _ this
      _ < 2 ^ 32 := by omega
  have hy : wrap32 ((i / 2) * r.m_resolutionPerPhysicalDevice.height) =
      (i / 2) * r.m_resolutionPerPhysicalDevice.height := by
    unfold wrap32
    apply Nat.mod_eq_of_lt
    have : i / 2 ≤ 1 := by omega
    calc (i / 2) * r.m_resolutionPerPhysicalDevice.height
        ≤ 1 * r.m_resolutionPerPhysicalDevice.height := Nat.mul_le_mul_right _ this
      _ < 2 ^ 32 := by omega
  simp only [ImageCopy2.coversDst, e1, e2, e3, e4, hx, hy]

/-- The copy regions of the devices tile the rectangle of twice the device width and, for 4
devices, twice the device height. -/
theorem Renderer.copyRegions_tile (r : Renderer) (aspect : ImageAspect)
    (hd : r.getPhysicalDeviceCount = 2 ∨ r.getPhysicalDeviceCount = 4)
    (hw : r.m_resolutionPerPhysicalDevice.width < 2 ^ 32)
    (hh : r.m_resolutionPerPhysicalDevice.height < 2 ^ 32) (px py : Nat) :
    (px < 2 * r.m_resolutionPerPhysicalDevice.width ∧
      py < (r.getPhysicalDeviceCount / 2) * r.m_resolutionPerPhysicalDevice.height) ↔
    ∃ i, i < r.getPhysicalDeviceCount ∧ (r.copyRegion aspect i).coversDst px py := by
  generalize hwe : r.m_resolutionPerPhysicalDevice.width = w at hw
  generalize hhe : r.m_resolutionPerPhysicalDevice.height = h at hh
  have hcov : ∀ i, i < 4 → ((r.copyRegion aspect i).coversDst px py ↔
      (i % 2) * w ≤ px ∧ px < (i % 2) * w + w ∧ (i / 2) * h ≤ py ∧ py < (i / 2) * h + h) := by
    intro i hi
    have := Renderer.copyRegion_covers r aspect i px py (by rw [hwe]; exact hw)
      (by rw [hhe]; exact hh) hi
    rw [hwe, hhe] at this
    exact this
  have c0 := hcov 0 (by omega)
  have c1 := hcov 1 (by omega)
  have c2 := hcov 2 (by omega)
  have c3 := hcov 3 (by omega)
  norm_num at c0 c1 c2 c3
  rcases hd with hd | hd
  · rw [hd]
    constructor
    · rintro ⟨h1, h2⟩
      by_cases hx : px < w
      · exact ⟨0, by omega, c0.2 ⟨by omega, by omega⟩⟩
      · exact ⟨1, by omega, c1.2 ⟨by omega, by omega, by omega⟩⟩
    · rintro ⟨i, hi, hc⟩
      interval_cases i
      · have := c0.1 hc
        omega
      · have := c1.1 hc
        omega
  · rw [hd]
    constructor
    · rintro ⟨h1, h2⟩
      by_cases hx : px < w <;> by_cases hy : py < h
      · exact ⟨0, by omega, c0.2 ⟨by omega, by omega⟩⟩
      · exact ⟨2, by omega, c2.2 ⟨by omega, by omega, by omega⟩⟩
      · exact ⟨1, by omega, c1.2 ⟨by omega, by omega, by omega⟩⟩
      · exact ⟨3, by omega, c3.2 ⟨by omega, by omega, by omega, by omega⟩⟩
    · rintro ⟨i, hi, hc⟩
      interval_cases i
      · have := c0.1 hc
        omega
      · have := c1.1 hc
        omega
      · have := c2.1 hc
        omega
      · have := c3.1 hc
        omega

theorem Renderer.copyRegions_disjoint (r : Renderer) (aspect : ImageAspect)
    (hw : r.m_resolutionPerPhysicalDevice.width < 2 ^ 32)
    (hh : r.m_resolutionPerPhysicalDevice.height < 2 ^ 32) (i j px py : Nat) (hi : i < 4)
    (hj : j < 4) (hci : (r.copyRegion aspect i).coversDst px py)
    (hcj : (r.copyRegion aspect j).coversDst px py) : i = j := by
  have hi' := (Renderer.copyRegion_covers r aspect i px py hw hh hi).1 hci
  have hj' := (Renderer.copyRegion_covers r aspect j px py hw hh hj).1 hcj
  generalize r.m_resolutionPerPhysicalDevice.width = w at hi' hj'
  generalize r.m_resolutionPerPhysicalDevice.height = h at hi' hj'
  interval_cases i <;> interval_cases j <;> first | rfl | (norm_num at hi' hj'; omega)

theorem Renderer.copyRegion_dstOffset_x (r : Renderer) (aspect : ImageAspect) (i : Nat)
    (hw : r.m_resolutionPerPhysicalDevice.width < 2 ^ 32) :
    (r.copyRegion aspect i).dstOffset.x = (i % 2) * r.m_resolutionPerPhysicalDevice.width := by
  show wrap32 ((i % 2) * r.m_resolutionPerPhysicalDevice.width) = _
  unfold wrap32
  apply Nat.mod_eq_of_lt
  have : i % 2 ≤ 1 := by omega
  calc (i % 2) * r.m_resolutionPerPhysicalDevice.width
      ≤ 1 * r.m_resolutionPerPhysicalDevice.width := Nat.mul_le_mul_right _ this
    _ < 2 ^ 32 := by omega

theorem Renderer.copyRegion_dstOffset_y (r : Renderer) (aspect : ImageAspect) (i : Nat)
    (hh : r.m_resolutionPerPhysicalDevice.height < 2 ^ 32) (hi : i < 4) :
    (r.copyRegion aspect i).dstOffset.y = (i / 2) * r.m_resolutionPerPhysicalDevice.height := by
  show wrap32 ((i / 2) * r.m_resolutionPerPhysicalDevice.height) = _
  unfold wrap32
  apply Nat.mod_eq_of_lt
  have : i / 2 ≤ 1 := by omega
  calc (i / 2) * r.m_resolutionPerPhysicalDevice.height
      ≤ 1 * r.m_resolutionPerPhysicalDevice.height := Nat.mul_le_mul_right _ this
    _ < 2 ^ 32 := by omega
theorem Renderer.create_resolution (options : Options) (devices : List PhysicalDevice)
    (g t : Nat) (res : Extent2D) (sem : Semaphore) :
    (Renderer.create options devices g t res sem).m_resolutionPerPhysicalDevice =
      Renderer.resolutionPerPhysicalDevice
        (Renderer.create options devices g t res sem).getPhysicalDeviceCount res := rfl

theorem Renderer.colorRegions_nextFrameEvents (env : FrameEnv) (r : Renderer) (p : Nat) :
    colorRegions (r.nextFrameEvents env p) =
      (List.range r.getPhysicalDeviceCount).map (r.copyRegion .eColor) := by
  simp only [colorRegions, Renderer.colorCopies_nextFrameEvents, List.map_map]
  rfl

theorem Renderer.colorRegions_getElem? (env : FrameEnv) (r : Renderer) (p i : Nat)
    (c : ImageCopy2) (h : (colorRegions (r.nextFrameEvents env p))[i]? = some c) :
    i < r.getPhysicalDeviceCount ∧ c = r.copyRegion .eColor i := by
  rw [Renderer.colorRegions_nextFrameEvents] at h
  simp only [List.getElem?_map, Option.map_eq_some'] at h
  obtain ⟨a, ha, hc⟩ := h
  obtain ⟨hi, hv⟩ := List.getElem?_eq_some.1 ha
  rw [List.getElem_range] at hv
  rw [List.length_range] at hi
  subst hv
  exact ⟨hi, hc.symm⟩

theorem Renderer.colorRegions_getElem?_lt (env : FrameEnv) (r : Renderer) (p i : Nat)
    (hi : i < r.getPhysicalDeviceCount) :
    (colorRegions (r.nextFrameEvents env p))[i]? = some (r.copyRegion .eColor i) := by
  rw [Renderer.colorRegions_nextFrameEvents]
  simp [List.getElem?_map, List.getElem?_range hi]
/-- C22, counterexample: with 4 devices and the resolution 1 x 3 per eye the rendered frame
records four colour copies of 1 x 1 pixels, and the pixel (0, 2) of the 2 x 3 destination
image lies in none of their regions. -/
theorem odd_height_leaves_destination_row_uncopied :
    ∃ r' tr, (Renderer.sampleWith 4 1 3).nextFrame (FrameEnv.sample (some 0)) = .ok (r', tr) ∧
      (Renderer.sampleWith 4 1 3).getPhysicalDeviceCount = 4 ∧
      (Renderer.sampleWith 4 1 3).m_resolutionPerPhysicalDevice =
        Renderer.resolutionPerPhysicalDevice 4 { width := 1, height := 3 } ∧
      (colorRegions tr).length = 4 ∧ 0 < 2 * 1 ∧ 2 < 3 ∧
      ∀ c ∈ colorRegions tr, ¬ c.coversDst 0 2 := by
  refine ⟨_, _, Renderer.nextFrame_closed (FrameEnv.sample (some 0)) (Renderer.sampleWith 4 1 3)
    (by decide) 0 rfl (fun _ => rfl), by decide, rfl, ?_, by decide, by decide, ?_⟩
  · rw [Renderer.colorRegions_nextFrameEvents]
    simp
    decide
  · rw [Renderer.colorRegions_nextFrameEvents]
    decide

/-- C22 (amended: the height per eye is even when there are 4 devices).  For 2 or 4 devices
and a resolution `W` x `H` per eye whose offsets fit `int32_t` (`W`, `H` below `2 ^ 31`), the
rendered frame records one colour copy per device; the region of device `i` has the
destination offset `((i mod 2) * w, (i div 2) * h)` and the extent `w` x `h` of the resolution
per device, lies in the column of eye `i mod 2` and in the band `getDeviceViewport i` gives;
regions of different devices share no pixel, and every pixel of the `2W` x `H` destination
image lies in the region of exactly one device. -/
theorem colour_copy_regions_partition_destination (env : FrameEnv) (r : Renderer) (p W H : Nat)
    (hr : r.WF) (hp : env.beginFrame.predictedDisplayTimeNanos = some p)
    (hwait : MAX_QUEUED_FRAMES ≤ r.m_frameIndex → env.waitResult = .eSuccess)
    (hW : W < 2 ^ 31) (hH : H < 2 ^ 31)
    (hres : r.m_resolutionPerPhysicalDevice =
      Renderer.resolutionPerPhysicalDevice r.getPhysicalDeviceCount { width := W, height := H })
    (heven : r.getPhysicalDeviceCount = 4 → H % 2 = 0) :
    ∃ r' tr, r.nextFrame env = .ok (r', tr) ∧
      (colorRegions tr).length = r.getPhysicalDeviceCount ∧
      (∀ i : Nat, i < r.getPhysicalDeviceCount → ∃ (c : ImageCopy2) (v : Rect2Df),
        (colorRegions tr)[i]? = some c ∧
        c.dstOffset.x = (i % 2) * r.m_resolutionPerPhysicalDevice.width ∧
        c.dstOffset.y = (i / 2) * r.m_resolutionPerPhysicalDevice.height ∧
        c.extentWidth = r.m_resolutionPerPhysicalDevice.width ∧
        c.extentHeight = r.m_resolutionPerPhysicalDevice.height ∧
        r.getDeviceViewport i = .ok v ∧
        ∀ px py : Nat, c.coversDst px py →
          (i % 2) * W ≤ px ∧ px < (i % 2 + 1) * W ∧
          v.y * (H : ℚ) ≤ (py : ℚ) ∧ (py : ℚ) < (v.y + v.height) * (H : ℚ)) ∧
      (∀ (i j : Nat) (ci cj : ImageCopy2) (px py : Nat),
        (colorRegions tr)[i]? = some ci → (colorRegions tr)[j]? = some cj →
        ci.coversDst px py → cj.coversDst px py → i = j) ∧
      (∀ px py : Nat, px < 2 * W → py < H →
        ∃! i : Nat, ∃ c : ImageCopy2, (colorRegions tr)[i]? = some c ∧ c.coversDst px py) := by
  have hd := hr.1
  have hw : r.m_resolutionPerPhysicalDevice.width = W := by
    rw [hres]; unfold Renderer.resolutionPerPhysicalDevice; split <;> rfl
  have hh : r.m_resolutionPerPhysicalDevice.height * (r.getPhysicalDeviceCount / 2) = H := by
    rw [hres]; unfold Renderer.resolutionPerPhysicalDevice
    rcases hd with hd | hd
    · rw [hd]; simp
    · have := heven hd
      rw [hd]; simp only [if_true]
      show H / 2 * (4 / 2) = H
      omega
  have hwlt : r.m_resolutionPerPhysicalDevice.width < 2 ^ 32 := by omega
  have hhlt : r.m_resolutionPerPhysicalDevice.height < 2 ^ 32 := by
    rcases hd with hd | hd <;> rw [hd] at hh <;> norm_num at hh <;> omega
  have hdlt : ∀ i, i < r.getPhysicalDeviceCount → i < 4 := fun i hi => by omega
  refine ⟨_, _, Renderer.nextFrame_closed env r hr p hp hwait, ?_, ?_, ?_, ?_⟩
  · rw [Renderer.colorRegions_nextFrameEvents]; simp
  · intro i hi
    have hcov := fun px py => Renderer.copyRegion_covers r .eColor i px py hwlt hhlt (hdlt i hi)
    have hx := Renderer.copyRegion_dstOffset_x r .eColor i hwlt
    have hy := Renderer.copyRegion_dstOffset_y r .eColor i hhlt (hdlt i hi)
    rcases hd with hd | hd
    · rw [hd] at hi hh
      refine ⟨_, _, Renderer.colorRegions_getElem?_lt env r p i (by omega), hx, hy, rfl, rfl,
        getDeviceViewport_two r hd i hi, ?_⟩
      intro px py hc
      have hc' := (hcov px py).1 hc
      rw [hw] at hc'
      have hi2 : i / 2 = 0 := by omega
      rw [hi2] at hc'
      have hpy : py < H := by omega
      refine ⟨hc'.1, by rw [Nat.add_mul]; omega, ?_, ?_⟩
      · simp
      · simpa using hpy
    · rw [hd] at hi hh
      by_cases hi2 : i < 2
      · refine ⟨_, _, Renderer.colorRegions_getElem?_lt env r p i (by omega), hx, hy, rfl, rfl,
          (getDeviceViewport_four r hd i hi).trans (by rw [if_pos hi2]), ?_⟩
        intro px py hc
        have hc' := (hcov px py).1 hc
        rw [hw] at hc'
        have hi0 : i / 2 = 0 := by omega
        rw [hi0] at hc'
        have hpy : 2 * py < H := by omega
        refine ⟨hc'.1, by rw [Nat.add_mul]; omega, ?_, ?_⟩
        · simp
        · have : (2 * py : ℚ) < (H : ℚ) := by exact_mod_cast hpy
          norm_num
          linarith
      · refine ⟨_, _, Renderer.colorRegions_getElem?_lt env r p i (by omega), hx, hy, rfl, rfl,
          (getDeviceViewport_four r hd i hi).trans (by rw [if_neg hi2]), ?_⟩
        intro px py hc
        have hc' := (hcov px py).1 hc
        rw [hw] at hc'
        have hi0 : i / 2 = 1 := by omega
        rw [hi0] at hc'
        have hpy1 : H ≤ 2 * py := by omega
        have hpy2 : py < H := by omega
        refine ⟨hc'.1, by rw [Nat.add_mul]; omega, ?_, ?_⟩
        · have : (H : ℚ) ≤ (2 * py : ℚ) := by exact_mod_cast hpy1
          norm_num
          linarith
        · have : (py : ℚ) < (H : ℚ) := by exact_mod_cast hpy2
          norm_num
          linarith
  · intro i j ci cj px py hi hj hci hcj
    obtain ⟨hi1, rfl⟩ := Renderer.colorRegions_getElem? env r p i ci hi
    obtain ⟨hj1, rfl⟩ := Renderer.colorRegions_getElem? env r p j cj hj
    exact Renderer.copyRegions_disjoint r .eColor hwlt hhlt i j px py (hdlt i hi1) (hdlt j hj1)
      hci hcj
  · intro px py hpx hpy
    obtain ⟨i, hi, hc⟩ := (Renderer.copyRegions_tile r .eColor hd hwlt hhlt px py).1
      ⟨by omega, by rw [Nat.mul_comm, hh]; exact hpy⟩
    refine ⟨i, ⟨_, Renderer.colorRegions_getElem?_lt env r p i hi, hc⟩, ?_⟩
    rintro j ⟨c, hj, hcj⟩
    obtain ⟨hj1, rfl⟩ := Renderer.colorRegions_getElem? env r p j c hj
    exact Renderer.copyRegions_disjoint r .eColor hwlt hhlt j i px py (hdlt j hj1) (hdlt i hi)
      hcj hc

/-- C22, for 4 devices and the resolution 2 x 4 per eye. -/
theorem colour_copy_regions_partition_destination_witness :
    ∃ r' tr, (Renderer.sampleWith 4 2 4).nextFrame (FrameEnv.sample (some 0)) = .ok (r', tr) ∧
      (colorRegions tr).length = 4 ∧
      ∀ px py, px < 2 * 2 → py < 4 →
        ∃! i : Nat, ∃ c : ImageCopy2, (colorRegions tr)[i]? = some c ∧ c.coversDst px py := by
  obtain ⟨r', tr, h, hlen, _, _, hcover⟩ :=
    colour_copy_regions_partition_destination (FrameEnv.sample (some 0))
      (Renderer.sampleWith 4 2 4) 0 2 4 (by decide) rfl (fun _ => rfl) (by norm_num)
      (by norm_num) rfl (fun _ => rfl)
  exact ⟨r', tr, h, hlen, hcover⟩

/-! ## Options: the arguments of `--windowed` -/

/-- With `--windowed` as the last argument the branch reads `p_args[index + 1]` outside the
vector. -/
theorem Options.windowed_last (stoi : String → StoiResult) (p_args : List String) (index : Nat)
    (h32 : index + 1 < 2 ^ 32) (hlast : p_args.length ≤ index + 1) :
    Options.windowed stoi p_args index = .error .outOfBounds := by
  have hw : wrap32 (index + 1) = index + 1 := Nat.mod_eq_of_lt h32
  have hnone : p_args[index + 1]? = none := List.getElem?_eq_none hlast
  simp [Options.windowed, parseUint2Option, hw, hnone]

/-- With `--windowed` followed by one last argument that `std::stoi` converts, the branch
reads `p_args[index + 2]` outside the vector. -/
theorem Options.windowed_one_value (stoi : String → StoiResult) (p_args : List String)
    (index : Nat) (first : String) (x : Int) (h32 : index + 2 < 2 ^ 32)
    (hfirst : p_args[index + 1]? = some first) (hx : stoi first = .value x)
    (hlast : p_args.length ≤ index + 2) :
    Options.windowed stoi p_args index = .error .outOfBounds := by
  have hw1 : wrap32 (index + 1) = index + 1 := Nat.mod_eq_of_lt (by omega)
  have hw2 : wrap32 (index + 2) = index + 2 := Nat.mod_eq_of_lt h32
  have hnone : p_args[index + 2]? = none := List.getElem?_eq_none hlast
  simp [Options.windowed, parseUint2Option, hw1, hw2, hnone, hfirst, hx]

/-- With `--windowed` followed by an argument that is no integer, the size is the default
and the loop continues with the argument after `--windowed`. -/
theorem Options.windowed_no_integer (stoi : String → StoiResult) (p_args : List String)
    (index : Nat) (first : String) (h32 : index + 1 < 2 ^ 32)
    (hfirst : p_args[index + 1]? = some first) (hx : stoi first = .invalid_argument) :
    Options.windowed stoi p_args index = .ok ({ width := 1280, height := 720 }, index + 1) := by
  have hw1 : wrap32 (index + 1) = index + 1 := Nat.mod_eq_of_lt (by omega)
  simp [Options.windowed, parseUint2Option, hw1, hfirst, hx]

/-- With `--windowed` followed by an integer and an argument that is no integer, the size is
the default and the loop continues with the argument after `--windowed`. -/
theorem Options.windowed_one_integer (stoi : String → StoiResult) (p_args : List String)
    (index : Nat) (first second : String) (x : Int) (h32 : index + 2 < 2 ^ 32)
    (hfirst : p_args[index + 1]? = some first) (hx : stoi first = .value x)
    (hsecond : p_args[index + 2]? = some second) (hy : stoi second = .invalid_argument) :
    Options.windowed stoi p_args index = .ok ({ width := 1280, height := 720 }, index + 1) := by
  have hw1 : wrap32 (index + 1) = index + 1 := Nat.mod_eq_of_lt (by omega)
  have hw2 : wrap32 (index + 2) = index + 2 := Nat.mod_eq_of_lt h32
  simp [Options.windowed, parseUint2Option, hw1, hw2, hfirst, hx, hsecond, hy]

/-- With `--windowed` followed by two non-negative integers `a` and `b` the size is `a` x `b`
and the loop continues after the two values. -/
theorem Options.windowed_two_values (stoi : String → StoiResult) (p_args : List String)
    (index : Nat) (first second : String) (a b : Nat) (h32 : index + 3 < 2 ^ 32)
    (ha : a < 2 ^ 31) (hb : b < 2 ^ 31)
    (hfirst : p_args[index + 1]? = some first) (hx : stoi first = .value a)
    (hsecond : p_args[index + 2]? = some second) (hy : stoi second = .value b) :
    Options.windowed stoi p_args index = .ok ({ width := a, height := b }, index + 3) := by
  have hw1 : wrap32 (index + 1) = index + 1 := Nat.mod_eq_of_lt (by omega)
  have hw2 : wrap32 (index + 2) = index + 2 := Nat.mod_eq_of_lt (by omega)
  have hw3 : wrap32 (index + 2 + 1) = index + 3 := Nat.mod_eq_of_lt (by omega)
  have hca : castUint32 (a : Int) = a := by
    unfold castUint32
    have : ((a : Int) % 2 ^ 32) = (a : Int) := Int.emod_eq_of_lt (by omega) (by omega)
    rw [this]; simp
  have hcb : castUint32 (b : Int) = b := by
    unfold castUint32
    have : ((b : Int) % 2 ^ 32) = (b : Int) := Int.emod_eq_of_lt (by omega) (by omega)
    rw [this]; simp
  simp [Options.windowed, parseUint2Option, hw1, hw2, hw3, hfirst, hx, hsecond, hy, hca, hcb]

/-- C23, evaluated where the code departs from it.  With `--windowed` as the last argument
the branch of `Options::Options` reads `p_args[index + 1]` outside the argument vector, and
with `--windowed 800` as the last two arguments it reads `p_args[index + 2]` outside it: the
run does not end normally with the size 1280 x 720.  The call with `p_required` set, as for
`--trace-range`, tests the number of arguments first.  The rest of the claim holds: followed
by an argument that is no integer, the size is 1280 x 720 and parsing continues with that
argument; followed by the integers 800 and 600, the size is 800 x 600 and parsing continues
after them. -/
theorem windowed_without_values_reads_outside_arguments (stoi : String → StoiResult) :
    Options.windowed stoi ["xr_multi_gpu", "--windowed"] 1 = .error .outOfBounds ∧
    Options.windowed (fun s => if s = "800" then .value 800 else .invalid_argument)
      ["xr_multi_gpu", "--windowed", "800"] 1 = .error .outOfBounds ∧
    parseUint2Option stoi ["xr_multi_gpu", "--trace-range"] 1 true = .error .missingArguments ∧
    Options.windowed (fun s => if s = "800" then .value 800 else .invalid_argument)
      ["xr_multi_gpu", "--windowed", "--swap-eyes"] 1 =
        .ok ({ width := 1280, height := 720 }, 2) ∧
    Options.windowed (fun s => if s = "800" then .value 800 else .invalid_argument)
      ["xr_multi_gpu", "--windowed", "800", "--swap-eyes"] 1 =
        .ok ({ width := 1280, height := 720 }, 2) ∧
    Options.windowed
      (fun s => if s = "800" then .value 800 else if s = "600" then .value 600
        else .invalid_argument)
      ["xr_multi_gpu", "--windowed", "800", "600", "--swap-eyes"] 1 =
        .ok ({ width := 800, height := 600 }, 4) := by
  refine ⟨Options.windowed_last stoi _ 1 (by norm_num) (by simp), ?_, ?_, ?_, ?_, ?_⟩
  · exact Options.windowed_one_value _ _ 1 "800" 800 (by norm_num) rfl (by simp) (by simp)
  · simp [parseUint2Option, wrap32]
  · exact Options.windowed_no_integer _ _ 1 "--swap-eyes" (by norm_num) rfl (by simp)
  · exact Options.windowed_one_integer _ _ 1 "800" "--swap-eyes" 800 (by norm_num) rfl
      (by simp) rfl (by simp)
  · exact Options.windowed_two_values _ _ 1 "800" "600" 800 600 (by norm_num) (by norm_num)
      (by norm_num) rfl (by simp) rfl (by simp)

/-! ## The viewports of the draw calls -/

theorem drawCalls_append (a b : List Event) :
    drawCalls (a ++ b) = drawCalls a ++ drawCalls b := by
  simp [drawCalls, List.filterMap_append]

theorem drawCalls_copyEvents (cb : CommandBuffer) (f c : Nat) (l : List CopyImageInfo2) :
    drawCalls (copyEvents cb f c l) = [] := by
  induction l generalizing c with
  | nil => rfl
  | cons x xs ih =>
    have ih' := ih (wrap32 (c + 1))
    simp only [drawCalls] at ih'
    simp [copyEvents, drawCalls, Event.drawCall, ih', List.filterMap_append]

theorem Renderer.drawCalls_deviceEvents (env : FrameEnv) (r : Renderer) (j : Nat) :
    (r.deviceEvents env j).filterMap Event.drawCall = [r.deviceDraw env j] := by
  by_cases h0 : j = 0 ∧ r.m_frameIndex = 0
  · simp only [Renderer.deviceEvents, if_pos h0]
    simp [Event.drawCall]
  · simp only [Renderer.deviceEvents, if_neg h0]
    simp [Event.drawCall]

theorem Renderer.drawCalls_buildFinalFrameEvents (env : FrameEnv) (frt : FrameRenderTargets)
    (r : Renderer) : drawCalls (r.buildFinalFrameEvents env frt) = [] := by
  simp only [Renderer.buildFinalFrameEvents, drawCalls_append, drawCalls_copyEvents]
  by_cases hs : r.m_swapchainImageReadySemaphore = .null <;>
    simp [drawCalls, Event.drawCall, hs]

theorem Renderer.drawCalls_nextFrameEvents (env : FrameEnv) (r : Renderer) (p : Nat) :
    drawCalls (r.nextFrameEvents env p) =
      (List.range r.getPhysicalDeviceCount).map ((r.frameStart p).deviceDraw env) := by
  have hdev : drawCalls (eventsFrom ((r.frameStart p).deviceEvents env)
      (r.frameStart p).getPhysicalDeviceCount 0) =
      (List.range r.getPhysicalDeviceCount).map ((r.frameStart p).deviceDraw env) := by
    simp only [drawCalls]
    rw [filterMap_eventsFrom]
    simp only [Renderer.drawCalls_deviceEvents]
    rw [eventsFrom_singleton, List.range_eq_range']
    rfl
  have hw : drawCalls r.waitEvents = [] := by
    by_cases hN : MAX_QUEUED_FRAMES ≤ r.m_frameIndex <;>
      simp [Renderer.waitEvents, hN, drawCalls, Event.drawCall]
  have hacq : drawCalls (r.acquireEvents env) = [] := by
    by_cases hs : env.getSwapchainImageReadySemaphore = .null <;>
      simp [Renderer.acquireEvents, hs, drawCalls, Event.drawCall]
  simp only [Renderer.nextFrameEvents, Renderer.renderFrameEvents, drawCalls_append, hdev, hw,
    hacq, Renderer.drawCalls_buildFinalFrameEvents]
  simp [drawCalls, Event.drawCall]

/-- The viewport of the draw call of device `i`, for 2 devices: the eye viewport scaled to
the resolution. -/
theorem Renderer.deviceDraw_viewport_two (env : FrameEnv) (r : Renderer)
    (hd : r.getPhysicalDeviceCount = 2) (i : Nat) :
    (r.deviceDraw env i).viewport =
      { x := (env.getCurrentFrameProjection (r.deviceEye i)).relativeViewport.x *
          (r.m_resolutionPerPhysicalDevice.width : ℚ),
        y := (env.getCurrentFrameProjection (r.deviceEye i)).relativeViewport.y *
          (r.m_resolutionPerPhysicalDevice.height : ℚ),
        width := (env.getCurrentFrameProjection (r.deviceEye i)).relativeViewport.width *
          (r.m_resolutionPerPhysicalDevice.width : ℚ),
        height := (env.getCurrentFrameProjection (r.deviceEye i)).relativeViewport.height *
          (r.m_resolutionPerPhysicalDevice.height : ℚ),
        minDepth := 0, maxDepth := 1 } := by
  simp [Renderer.deviceDraw, Renderer.drawViewport, Renderer.deviceViewportOf, hd]

/-- The viewport of the draw call of device `i`, for 4 devices: the row offset `i div 2` is
subtracted from the relative `y` of the eye viewport, which is not scaled to the band, and
the height is doubled. -/
theorem Renderer.deviceDraw_viewport_four (env : FrameEnv) (r : Renderer)
    (hd : r.getPhysicalDeviceCount = 4) (i : Nat) (hi : i < 4) :
    (r.deviceDraw env i).viewport =
      { x := (env.getCurrentFrameProjection (r.deviceEye i)).relativeViewport.x *
          (r.m_resolutionPerPhysicalDevice.width : ℚ),
        y := ((env.getCurrentFrameProjection (r.deviceEye i)).relativeViewport.y -
          ((i / 2 : Nat) : ℚ)) * (r.m_resolutionPerPhysicalDevice.height : ℚ),
        width := (env.getCurrentFrameProjection (r.deviceEye i)).relativeViewport.width *
          (r.m_resolutionPerPhysicalDevice.width : ℚ),
        height := 2 * (env.getCurrentFrameProjection (r.deviceEye i)).relativeViewport.height *
          (r.m_resolutionPerPhysicalDevice.height : ℚ),
        minDepth := 0, maxDepth := 1 } := by
  have hv : r.deviceViewportOf i =
      if i < 2 then { x := 0, y := 0, width := 1, height := 1 / 2 }
      else { x := 0, y := 1 / 2, width := 1, height := 1 / 2 } := by
    simp [Renderer.deviceViewportOf, hd]
  show r.drawViewport _ (r.deviceViewportOf i) = _
  rw [hv]
  by_cases h2 : i < 2
  · have hi0 : i / 2 = 0 := by omega
    rw [if_pos h2, hi0]
    simp only [Renderer.drawViewport, Viewport.mk.injEq]
    refine ⟨by norm_num, by norm_num, by norm_num, ?_, trivial, trivial⟩
    ring
  · have hi1 : i / 2 = 1 := by omega
    rw [if_neg h2, hi1]
    simp only [Renderer.drawViewport, Viewport.mk.injEq]
    refine ⟨by norm_num, by norm_num, by norm_num, ?_, trivial, trivial⟩
    ring

/-- The viewport of device `i` of 4, moved by the row offset of the device: its `y` is the
relative `y` of the eye viewport times the height per device, half of the height per eye. -/
theorem Renderer.deviceDraw_translated_y_four (env : FrameEnv) (r : Renderer)
    (hd : r.getPhysicalDeviceCount = 4) (i : Nat) (hi : i < 4) :
    (r.deviceDraw env i).viewport.y +
        (((i / 2) * r.m_resolutionPerPhysicalDevice.height : Nat) : ℚ) =
      (env.getCurrentFrameProjection (r.deviceEye i)).relativeViewport.y *
        (r.m_resolutionPerPhysicalDevice.height : ℚ) := by
  rw [Renderer.deviceDraw_viewport_four env r hd i hi]
  push_cast
  ring
/-- C24, evaluated where the code departs from it.  The collaborator reports the relative eye
viewport `(0, -1/10, 1, 6/5)` and the resolution 100 x 100 per eye, so the eye viewport
scaled to the eye resolution is `(0, -10, 100, 120)`.  With 2 devices both draw calls get
that viewport.  With 4 devices the height per device is 50 and the viewports of the draw
calls, moved by the row offset `(i div 2) * 50` of their device, are `(0, -5, 100, 120)`:
the `y` is `-1/10 * 50`, not `-1/10 * 100`. -/
theorem four_device_viewport_offset_not_scaled :
    ∃ r2 tr2 r4 tr4,
      (Renderer.sampleWith 2 100 100).nextFrame
        (FrameEnv.sampleViewport { x := 0, y := -1 / 10, width := 1, height := 6 / 5 }) =
          .ok (r2, tr2) ∧
      (Renderer.sampleWith 4 100 100).nextFrame
        (FrameEnv.sampleViewport { x := 0, y := -1 / 10, width := 1, height := 6 / 5 }) =
          .ok (r4, tr4) ∧
      (Renderer.sampleWith 4 100 100).m_resolutionPerPhysicalDevice.height = 50 ∧
      (drawCalls tr2).map (fun c =>
          (c.physicalDeviceIndex, c.viewport.x, c.viewport.y, c.viewport.width,
            c.viewport.height)) =
        [(0, 0, -10, 100, 120), (1, 0, -10, 100, 120)] ∧
      (drawCalls tr4).map (fun c =>
          (c.physicalDeviceIndex, c.viewport.x,
            c.viewport.y + (((c.physicalDeviceIndex / 2) * 50 : Nat) : ℚ), c.viewport.width,
            c.viewport.height)) =
        [(0, 0, -5, 100, 120), (1, 0, -5, 100, 120), (2, 0, -5, 100, 120),
          (3, 0, -5, 100, 120)] := by
  refine ⟨_, _, _, _,
    Renderer.nextFrame_closed _ (Renderer.sampleWith 2 100 100) (by decide) 0 rfl (fun _ => rfl),
    Renderer.nextFrame_closed _ (Renderer.sampleWith 4 100 100) (by decide) 0 rfl (fun _ => rfl),
    rfl, ?_, ?_⟩
  · rw [Renderer.drawCalls_nextFrameEvents]
    have h2 : (Renderer.sampleWith 2 100 100).getPhysicalDeviceCount = 2 := rfl
    have hf : ((Renderer.sampleWith 2 100 100).frameStart 0).getPhysicalDeviceCount = 2 := rfl
    have hres : ((Renderer.sampleWith 2 100 100).frameStart 0).m_resolutionPerPhysicalDevice =
        { width := 100, height := 100 } := rfl
    rw [h2]
    simp only [List.map_map, List.range_succ, List.range_zero, List.nil_append, List.map_cons,
      List.map_nil, List.cons_append, Function.comp,
      Renderer.deviceDraw_viewport_two _ _ hf, hres]
    norm_num [Renderer.deviceDraw, FrameEnv.sampleViewport]
  · rw [Renderer.drawCalls_nextFrameEvents]
    have h4 : (Renderer.sampleWith 4 100 100).getPhysicalDeviceCount = 4 := rfl
    have hf : ((Renderer.sampleWith 4 100 100).frameStart 0).getPhysicalDeviceCount = 4 := rfl
    have hres : ((Renderer.sampleWith 4 100 100).frameStart 0).m_resolutionPerPhysicalDevice =
        { width := 100, height := 50 } := rfl
    rw [h4]
    simp only [List.map_map, List.range_succ, List.range_zero, List.nil_append, List.map_cons,
      List.map_nil, List.cons_append, Function.comp,
      Renderer.deviceDraw_viewport_four _ _ hf _ (show 0 < 4 by norm_num),
      Renderer.deviceDraw_viewport_four _ _ hf _ (show 1 < 4 by norm_num),
      Renderer.deviceDraw_viewport_four _ _ hf _ (show 2 < 4 by norm_num),
      Renderer.deviceDraw_viewport_four _ _ hf _ (show 3 < 4 by norm_num), hres]
    norm_num [Renderer.deviceDraw, FrameEnv.sampleViewport]

/-! ## The submit calls of a frame -/

theorem submitsOn_append (q : Queue) (a b : List Event) :
    submitsOn q (a ++ b) = submitsOn q a ++ submitsOn q b := by
  simp [submitsOn, List.filterMap_append]

theorem submitsOn_copyEvents (q : Queue) (cb : CommandBuffer) (f c : Nat)
    (l : List CopyImageInfo2) : submitsOn q (copyEvents cb f c l) = [] := by
  induction l generalizing c with
  | nil => rfl
  | cons x xs ih =>
    have ih' := ih (wrap32 (c + 1))
    simp only [submitsOn] at ih'
    simp [copyEvents, submitsOn, Event.submitsOn, ih', List.filterMap_append]

theorem Renderer.submitsOn_deviceEvents (q : Queue) (env : FrameEnv) (r : Renderer) (j : Nat) :
    (r.deviceEvents env j).filterMap (Event.submitsOn q) = [] := by
  by_cases h0 : j = 0 ∧ r.m_frameIndex = 0
  · simp only [Renderer.deviceEvents, if_pos h0]
    simp [Event.submitsOn]
  · simp only [Renderer.deviceEvents, if_neg h0]
    simp [Event.submitsOn]

theorem Renderer.submitsOn_renderFrameEvents (q : Queue) (env : FrameEnv) (r : Renderer) :
    submitsOn q (r.renderFrameEvents env) =
      if q = .m_renderQueue then [(List.range r.getPhysicalDeviceCount).map r.deviceSubmit]
      else [] := by
  have hdev : submitsOn q (eventsFrom (r.deviceEvents env) r.getPhysicalDeviceCount 0) = [] := by
    simp only [submitsOn]
    rw [filterMap_eventsFrom]
    exact eventsFrom_eq_nil _ _ _ (fun j _ _ => Renderer.submitsOn_deviceEvents q env _ j)
  simp only [Renderer.renderFrameEvents, submitsOn_append, hdev, List.nil_append]
  cases q <;> simp [submitsOn, Event.submitsOn]

theorem Renderer.submitsOn_buildFinalFrameEvents (q : Queue) (env : FrameEnv)
    (frt : FrameRenderTargets) (r : Renderer) :
    submitsOn q (r.buildFinalFrameEvents env frt) =
      (if q = .m_transferQueue then [[r.transferSubmit env frt]] else []) ++
      (if q = .m_presentQueue then [[r.finalSubmit env]] else []) := by
  simp only [Renderer.buildFinalFrameEvents, submitsOn_append, submitsOn_copyEvents]
  cases q <;> simp [submitsOn, Event.submitsOn]

theorem Renderer.submitsOn_waitEvents (q : Queue) (r : Renderer) :
    submitsOn q r.waitEvents = [] := by
  by_cases hN : MAX_QUEUED_FRAMES ≤ r.m_frameIndex <;>
    simp [Renderer.waitEvents, hN, submitsOn, Event.submitsOn]

theorem Renderer.submitsOn_render_nextFrameEvents (env : FrameEnv) (r : Renderer) (p : Nat) :
    submitsOn .m_renderQueue (r.nextFrameEvents env p) =
      [(List.range r.getPhysicalDeviceCount).map (r.frameStart p).deviceSubmit] := by
  have hacq : submitsOn .m_renderQueue (r.acquireEvents env) = [] := by
    by_cases hs : env.getSwapchainImageReadySemaphore = .null <;>
      simp [Renderer.acquireEvents, hs, submitsOn, Event.submitsOn]
  have hcount : (r.frameStart p).getPhysicalDeviceCount = r.getPhysicalDeviceCount := rfl
  simp only [Renderer.nextFrameEvents, submitsOn_append, Renderer.submitsOn_waitEvents, hacq,
    Renderer.submitsOn_renderFrameEvents, Renderer.submitsOn_buildFinalFrameEvents, hcount]
  simp [submitsOn, Event.submitsOn]
theorem Renderer.renderLoop_closed (env : FrameEnv) (r : Renderer) (hr : r.WF)
    (hc : r.m_graphicsQueueFamily.m_nextCommandBufferIndex + r.getPhysicalDeviceCount ≤ 10) :
    forLoop (Renderer.renderDevice env) r.getPhysicalDeviceCount 0
        (r, { graphicsSubmits := [],
              semaphoreWaits := List.replicate (wrap32 (2 * r.getPhysicalDeviceCount))
                SemaphoreSubmitInfo.default,
              nextSemWaitIdx := 0,
              graphicsCmdBufferSubmits :=
                List.replicate r.getPhysicalDeviceCount CommandBufferSubmitInfo.default,
              semaphoreSignals :=
                List.replicate r.getPhysicalDeviceCount SemaphoreSubmitInfo.default }) =
      .ok ((r.afterDevices r.getPhysicalDeviceCount, r.renderLocals r.getPhysicalDeviceCount),
        eventsFrom (r.deviceEvents env) r.getPhysicalDeviceCount 0) := by
  have hd := hr.1
  have hw : wrap32 (2 * r.getPhysicalDeviceCount) = 2 * r.getPhysicalDeviceCount := by
    unfold wrap32
    exact Nat.mod_eq_of_lt (by omega)
  have hl0 : (⟨[],
      List.replicate (wrap32 (2 * r.getPhysicalDeviceCount)) SemaphoreSubmitInfo.default, 0,
      List.replicate r.getPhysicalDeviceCount CommandBufferSubmitInfo.default,
      List.replicate r.getPhysicalDeviceCount SemaphoreSubmitInfo.default⟩ :
      RenderFrameLocals) = r.renderLocals 0 := by
    simp [Renderer.renderLocals, hw]
  have hloop := forLoop_closed (Renderer.renderDevice env)
    (fun i => (r.afterDevices i, r.renderLocals i)) (r.deviceEvents env) r.getPhysicalDeviceCount
    (fun i hi => Renderer.renderDevice_closed env r hr i hi (by omega))
    r.getPhysicalDeviceCount 0 (by omega)
  simp only [Renderer.afterDevices_zero] at hloop
  rw [hl0]
  exact hloop

theorem Renderer.resolveAll_renderLocals (r : Renderer) :
    resolveAll (r.renderLocals r.getPhysicalDeviceCount)
        (r.renderLocals r.getPhysicalDeviceCount).graphicsSubmits =
      .ok ((List.range r.getPhysicalDeviceCount).map r.deviceSubmit) := by
  have hres := resolveAll_map (r.renderLocals r.getPhysicalDeviceCount)
    (fun x => r.deviceSubmit x.pCommandBufferInfos)
    ((List.range r.getPhysicalDeviceCount).map r.deviceSubmitRef) (by
      intro x hx
      obtain ⟨k, hk, rfl⟩ := List.mem_map.1 hx
      exact Renderer.resolve_closed r k (List.mem_range.1 hk))
  have hg : (r.renderLocals r.getPhysicalDeviceCount).graphicsSubmits =
      (List.range r.getPhysicalDeviceCount).map r.deviceSubmitRef := rfl
  rw [hg, hres, List.map_map]
  rfl

theorem Renderer.renderLocals_lengths (r : Renderer) :
    (r.renderLocals r.getPhysicalDeviceCount).graphicsSubmits.length = r.getPhysicalDeviceCount ∧
    (r.renderLocals r.getPhysicalDeviceCount).semaphoreWaits.length =
      2 * r.getPhysicalDeviceCount ∧
    (r.renderLocals r.getPhysicalDeviceCount).graphicsCmdBufferSubmits.length =
      r.getPhysicalDeviceCount ∧
    (r.renderLocals r.getPhysicalDeviceCount).semaphoreSignals.length =
      r.getPhysicalDeviceCount := by
  refine ⟨by simp [Renderer.renderLocals], ?_, by simp [Renderer.renderLocals],
    by simp [Renderer.renderLocals]⟩
  by_cases hN : MAX_QUEUED_FRAMES ≤ r.m_frameIndex
  · simp only [Renderer.renderLocals, if_pos hN, List.length_append, List.length_map,
      List.length_range, List.length_replicate]
    omega
  · simp [Renderer.renderLocals, hN]

/-- C25.  In every rendered frame `f` with `d` devices, the trace of `nextFrame` has exactly
one submit call on the render queue, with `d` submissions; submission `i` holds one command
buffer with the device mask `deviceIndexToDeviceMask i`, one signal, on the render-done
semaphore `i`, and no wait when `f < N`, else the one wait on the pacer semaphore at
`f - N + 1`.  The loop of `renderFrame`, run in the state in which `nextFrame` calls it, ends
without an access outside `semaphoreWaits` (length `2 d`), `graphicsCmdBufferSubmits` and
`semaphoreSignals` (length `d`); submission `i` points to the entries `i` of the last two,
and when `N ≤ f` to the slot `i` of `semaphoreWaits`, so different devices use different
slots. -/
theorem renderFrame_submits_devices_in_order (env : FrameEnv) (r : Renderer) (p : Nat)
    (hr : r.WF) (hp : env.beginFrame.predictedDisplayTimeNanos = some p)
    (hwait : MAX_QUEUED_FRAMES ≤ r.m_frameIndex → env.waitResult = .eSuccess) :
    ∃ r' tr submits, r.nextFrame env = .ok (r', tr) ∧
      submitsOn .m_renderQueue tr = [submits] ∧
      submits.length = r.getPhysicalDeviceCount ∧
      (∀ i : Nat, i < r.getPhysicalDeviceCount →
        ∃ (s : SubmitInfo2) (cb : CommandBuffer) (sg : SemaphoreSubmitInfo),
          submits[i]? = some s ∧
          s.commandBufferInfos =
            [{ commandBuffer := some cb, deviceMask := r.deviceIndexToDeviceMask i }] ∧
          s.signalSemaphoreInfos = [sg] ∧ sg.semaphore = .renderDone i ∧
          (r.m_frameIndex < MAX_QUEUED_FRAMES → s.waitSemaphoreInfos = []) ∧
          (MAX_QUEUED_FRAMES ≤ r.m_frameIndex →
            ∃ w : SemaphoreSubmitInfo, s.waitSemaphoreInfos = [w] ∧
              w.semaphore = .frameIndexSem ∧
              w.value = r.m_frameIndex - MAX_QUEUED_FRAMES + 1)) ∧
      ∃ (r1 : Renderer) (l : RenderFrameLocals) (ev : List Event),
        forLoop (Renderer.renderDevice env) r.getPhysicalDeviceCount 0
          (r.frameStart p,
            { graphicsSubmits := [],
              semaphoreWaits := List.replicate (wrap32 (2 * r.getPhysicalDeviceCount))
                SemaphoreSubmitInfo.default,
              nextSemWaitIdx := 0,
              graphicsCmdBufferSubmits :=
                List.replicate r.getPhysicalDeviceCount CommandBufferSubmitInfo.default,
              semaphoreSignals :=
                List.replicate r.getPhysicalDeviceCount SemaphoreSubmitInfo.default }) =
          .ok ((r1, l), ev) ∧
        resolveAll l l.graphicsSubmits = .ok submits ∧
        l.semaphoreWaits.length = 2 * r.getPhysicalDeviceCount ∧
        l.graphicsCmdBufferSubmits.length = r.getPhysicalDeviceCount ∧
        l.semaphoreSignals.length = r.getPhysicalDeviceCount ∧
        ∀ i : Nat, i < r.getPhysicalDeviceCount → ∃ ref : SubmitInfo2Ref,
          l.graphicsSubmits[i]? = some ref ∧
          ref.pCommandBufferInfos = i ∧ ref.pSignalSemaphoreInfos = i ∧
          ref.pWaitSemaphoreInfos + ref.waitSemaphoreInfoCount ≤ l.semaphoreWaits.length ∧
          (r.m_frameIndex < MAX_QUEUED_FRAMES → ref.waitSemaphoreInfoCount = 0) ∧
          (MAX_QUEUED_FRAMES ≤ r.m_frameIndex →
            ref.waitSemaphoreInfoCount = 1 ∧ ref.pWaitSemaphoreInfos = i) := by
  have hs := Renderer.frameStart_WF r hr p
  have hd := hr.1
  have hcount : (r.frameStart p).getPhysicalDeviceCount = r.getPhysicalDeviceCount := rfl
  have hfi : (r.frameStart p).m_frameIndex = r.m_frameIndex := rfl
  have hloop := Renderer.renderLoop_closed env (r.frameStart p) hs (by
    show 0 + r.getPhysicalDeviceCount ≤ 10
    omega)
  have hres := Renderer.resolveAll_renderLocals (r.frameStart p)
  obtain ⟨-, hl2, hl3, hl4⟩ := Renderer.renderLocals_lengths (r.frameStart p)
  rw [hcount] at hloop hres hl2 hl3 hl4
  refine ⟨_, _, _, Renderer.nextFrame_closed env r hr p hp hwait,
    Renderer.submitsOn_render_nextFrameEvents env r p, by simp, ?_, _, _, _, hloop, hres, hl2,
    hl3, hl4, ?_⟩
  · intro i hi
    refine ⟨(r.frameStart p).deviceSubmit i, (r.frameStart p).graphicsCmdBuffer i,
      Renderer.deviceSignal i, by simp [List.getElem?_map, List.getElem?_range hi], rfl, rfl,
      rfl, ?_, ?_⟩
    · intro hlt
      have : ¬ MAX_QUEUED_FRAMES ≤ (r.frameStart p).m_frameIndex := by rw [hfi]; omega
      simp only [Renderer.deviceSubmit, if_neg this]
    · intro hN
      have hN' : MAX_QUEUED_FRAMES ≤ (r.frameStart p).m_frameIndex := by rw [hfi]; exact hN
      refine ⟨(r.frameStart p).deviceWait i, by simp only [Renderer.deviceSubmit, if_pos hN'],
        rfl, ?_⟩
      show (r.frameStart p).waitValue = _
      rw [Renderer.waitValue_eq _ hs.2.1 hN', hfi]
  · intro i hi
    refine ⟨(r.frameStart p).deviceSubmitRef i, ?_, rfl, rfl, ?_, ?_, ?_⟩
    · show ((List.range r.getPhysicalDeviceCount).map (r.frameStart p).deviceSubmitRef)[i]? = _
      simp [List.getElem?_map, List.getElem?_range hi]
    · rw [hl2]
      by_cases hN : MAX_QUEUED_FRAMES ≤ (r.frameStart p).m_frameIndex
      · simp only [Renderer.deviceSubmitRef, if_pos hN]; omega
      · simp only [Renderer.deviceSubmitRef, if_neg hN]; omega
    · intro hlt
      have : ¬ MAX_QUEUED_FRAMES ≤ (r.frameStart p).m_frameIndex := by rw [hfi]; omega
      simp only [Renderer.deviceSubmitRef, if_neg this]
    · intro hN
      have hN' : MAX_QUEUED_FRAMES ≤ (r.frameStart p).m_frameIndex := by rw [hfi]; exact hN
      simp only [Renderer.deviceSubmitRef, if_pos hN', and_self]

/-- C25, at frame 3 with 4 devices. -/
theorem renderFrame_submits_devices_in_order_witness :
    ∃ r' tr submits,
      (Renderer.sampleAt 4 3).nextFrame (FrameEnv.sample (some 0)) = .ok (r', tr) ∧
      submitsOn .m_renderQueue tr = [submits] ∧ submits.length = 4 := by
  obtain ⟨r', tr, submits, h, hs, hl, -⟩ :=
    renderFrame_submits_devices_in_order (FrameEnv.sample (some 0)) (Renderer.sampleAt 4 3) 0
      (by decide) rfl (fun _ => rfl)
  exact ⟨r', tr, submits, h, hs, hl⟩

/-! ## The composite and the finalize submission -/

theorem submissions_append (a b : List Event) :
    submissions (a ++ b) = submissions a ++ submissions b := by
  simp [submissions]

theorem submissions_copyEvents (cb : CommandBuffer) (f c : Nat) (l : List CopyImageInfo2) :
    submissions (copyEvents cb f c l) = [] := by
  induction l generalizing c with
  | nil => rfl
  | cons x xs ih =>
    have := ih (wrap32 (c + 1))
    simp only [submissions] at this ⊢
    simp [copyEvents, Event.submissions, this]

theorem Renderer.submissions_deviceEvents (env : FrameEnv) (r : Renderer) (j : Nat) :
    (r.deviceEvents env j).flatMap Event.submissions = [] := by
  by_cases h0 : j = 0 ∧ r.m_frameIndex = 0
  · simp only [Renderer.deviceEvents, if_pos h0]
    simp [Event.submissions]
  · simp only [Renderer.deviceEvents, if_neg h0]
    simp [Event.submissions]

/-- The signal-only submission of `nextFrame`. -/
theorem Renderer.submissions_nextFrameEvents (env : FrameEnv) (r : Renderer) (p : Nat) :
    submissions (r.nextFrameEvents env p) =
      (List.range r.getPhysicalDeviceCount).map (r.frameStart p).deviceSubmit ++
      (if env.getSwapchainImageReadySemaphore = .null then
        [{ waitSemaphoreInfos := [], commandBufferInfos := [],
           signalSemaphoreInfos :=
             [{ semaphore := r.m_swapchainImageReadySemaphore, value := 0,
                stageMask := .eAllCommands, deviceIndex := 0 }] }]
       else []) ++
      [((r.frameStart p).afterDevices r.getPhysicalDeviceCount).transferSubmit env
          env.acquireSwapchainImages,
        ((r.frameStart p).afterDevices r.getPhysicalDeviceCount).finalSubmit env] := by
  have hdev : submissions (eventsFrom ((r.frameStart p).deviceEvents env)
      r.getPhysicalDeviceCount 0) = [] := by
    simp only [submissions]
    rw [flatMap_eventsFrom]
    exact eventsFrom_eq_nil _ _ _ (fun j _ _ => Renderer.submissions_deviceEvents env _ j)
  have hw : submissions r.waitEvents = [] := by
    by_cases hN : MAX_QUEUED_FRAMES ≤ r.m_frameIndex <;>
      simp [Renderer.waitEvents, hN, submissions, Event.submissions]
  have hcount : (r.frameStart p).getPhysicalDeviceCount = r.getPhysicalDeviceCount := rfl
  have hbuild : ∀ (frt : FrameRenderTargets) (q : Renderer),
      submissions (q.buildFinalFrameEvents env frt) =
        [q.transferSubmit env frt, q.finalSubmit env] := by
    intro frt q
    simp only [Renderer.buildFinalFrameEvents, submissions_append, submissions_copyEvents]
    by_cases hs : q.m_swapchainImageReadySemaphore = .null <;>
      simp [submissions, Event.submissions, hs]
  have hacq : submissions (r.acquireEvents env) =
      (if env.getSwapchainImageReadySemaphore = .null then
        [{ waitSemaphoreInfos := [], commandBufferInfos := [],
           signalSemaphoreInfos :=
             [{ semaphore := r.m_swapchainImageReadySemaphore, value := 0,
                stageMask := .eAllCommands, deviceIndex := 0 }] }]
       else []) := by
    by_cases hs : env.getSwapchainImageReadySemaphore = .null <;>
      simp [Renderer.acquireEvents, hs, submissions, Event.submissions]
  simp only [Renderer.nextFrameEvents, Renderer.renderFrameEvents, submissions_append, hdev, hw,
    hacq, hbuild, hcount]
  simp [submissions, Event.submissions]

theorem count_renderDone_range (d i : Nat) (hi : i < d) :
    ((List.range d).map Semaphore.renderDone).count (.renderDone i) = 1 := by
  apply List.count_eq_one_of_mem
  · exact (List.nodup_range d).map (fun a b h => by injection h)
  · exact List.mem_map.2 ⟨i, List.mem_range.2 hi, rfl⟩

theorem Renderer.transferSubmit_waits (env : FrameEnv) (frt : FrameRenderTargets)
    (r : Renderer) :
    (r.transferSubmit env frt).waitSemaphoreInfos.map (fun i => i.semaphore) =
      (List.range r.getPhysicalDeviceCount).map Semaphore.renderDone ++
        [r.readySemaphore env] := by
  simp [Renderer.transferSubmit, Renderer.buildLocals, Renderer.renderDoneWait]
theorem Renderer.submitsOn_transfer_nextFrameEvents (env : FrameEnv) (r : Renderer) (p : Nat) :
    submitsOn .m_transferQueue (r.nextFrameEvents env p) =
      [[((r.frameStart p).afterDevices r.getPhysicalDeviceCount).transferSubmit env
        env.acquireSwapchainImages]] := by
  have hacq : submitsOn .m_transferQueue (r.acquireEvents env) = [] := by
    by_cases hs : env.getSwapchainImageReadySemaphore = .null <;>
      simp [Renderer.acquireEvents, hs, submitsOn, Event.submitsOn]
  simp only [Renderer.nextFrameEvents, submitsOn_append, Renderer.submitsOn_waitEvents, hacq,
    Renderer.submitsOn_renderFrameEvents, Renderer.submitsOn_buildFinalFrameEvents]
  simp [submitsOn, Event.submitsOn]

theorem Renderer.submitsOn_present_nextFrameEvents (env : FrameEnv) (r : Renderer) (p : Nat) :
    submitsOn .m_presentQueue (r.nextFrameEvents env p) =
      (if env.getSwapchainImageReadySemaphore = .null then
        [[{ waitSemaphoreInfos := [], commandBufferInfos := [],
            signalSemaphoreInfos :=
              [{ semaphore := r.m_swapchainImageReadySemaphore, value := 0,
                 stageMask := .eAllCommands, deviceIndex := 0 }] }]]
       else []) ++
      [[((r.frameStart p).afterDevices r.getPhysicalDeviceCount).finalSubmit env]] := by
  have hacq : submitsOn .m_presentQueue (r.acquireEvents env) =
      (if env.getSwapchainImageReadySemaphore = .null then
        [[{ waitSemaphoreInfos := [], commandBufferInfos := [],
            signalSemaphoreInfos :=
              [{ semaphore := r.m_swapchainImageReadySemaphore, value := 0,
                 stageMask := .eAllCommands, deviceIndex := 0 }] }]]
       else []) := by
    by_cases hs : env.getSwapchainImageReadySemaphore = .null <;>
      simp [Renderer.acquireEvents, hs, submitsOn, Event.submitsOn]
  simp only [Renderer.nextFrameEvents, submitsOn_append, Renderer.submitsOn_waitEvents, hacq,
    Renderer.submitsOn_renderFrameEvents, Renderer.submitsOn_buildFinalFrameEvents]
  simp [submitsOn, Event.submitsOn]

theorem Renderer.signalled_renderDone_nextFrameEvents (env : FrameEnv) (r : Renderer)
    (hr : r.WF) (henv : env.WF) (p i : Nat) (hi : i < r.getPhysicalDeviceCount) :
    (signalledSemaphores (r.nextFrameEvents env p)).count (.renderDone i) = 1 := by
  have hown : r.m_swapchainImageReadySemaphore ≠ .renderDone i := by
    rcases hr.2.2.2.2.2.2.2 with h | h <;> simp [h]
  have hready : env.getFrameReadySemaphore ≠ .renderDone i := by
    have := henv.2.1
    intro h
    simp [h, Semaphore.isCollaborator] at this
  have hdev : ((List.range r.getPhysicalDeviceCount).map (r.frameStart p).deviceSubmit).flatMap
      (fun s => s.signalSemaphoreInfos.map fun i => i.semaphore) =
      (List.range r.getPhysicalDeviceCount).map Semaphore.renderDone := by
    generalize r.getPhysicalDeviceCount = n
    induction n with
    | zero => rfl
    | succ n ih =>
      simp only [List.range_succ, List.map_append, List.flatMap_append, ih]
      simp [Renderer.deviceSubmit, Renderer.deviceSignal]
  simp only [signalledSemaphores, Renderer.submissions_nextFrameEvents, List.flatMap_append, hdev,
    List.count_append, count_renderDone_range _ _ hi]
  by_cases hs : env.getSwapchainImageReadySemaphore = .null <;> by_cases hfr :
    env.getFrameReadySemaphore = .null <;>
    simp [hs, hfr, Renderer.transferSubmit, Renderer.finalSubmit, Renderer.finalSignals,
      Renderer.transferDoneSignalAndWait, hown, hready, List.count_cons]

theorem Renderer.waited_renderDone_nextFrameEvents (env : FrameEnv) (r : Renderer)
    (hr : r.WF) (henv : env.WF) (p i : Nat) (hi : i < r.getPhysicalDeviceCount) :
    (waitedSemaphores (r.nextFrameEvents env p)).count (.renderDone i) = 1 := by
  have hown : r.m_swapchainImageReadySemaphore ≠ .renderDone i := by
    rcases hr.2.2.2.2.2.2.2 with h | h <;> simp [h]
  have hready : env.getSwapchainImageReadySemaphore ≠ .renderDone i := by
    have := henv.1
    intro h
    simp [h, Semaphore.isCollaborator] at this
  have hrs : ((r.frameStart p).afterDevices r.getPhysicalDeviceCount).readySemaphore env ≠
      .renderDone i := by
    show (if r.m_swapchainImageReadySemaphore ≠ .null then r.m_swapchainImageReadySemaphore
      else env.getSwapchainImageReadySemaphore) ≠ _
    split
    · exact hown
    · exact hready
  have hdev : ((List.range r.getPhysicalDeviceCount).map (r.frameStart p).deviceSubmit).flatMap
      (fun s => s.waitSemaphoreInfos.map fun i => i.semaphore) =
      if MAX_QUEUED_FRAMES ≤ r.m_frameIndex then
        List.replicate r.getPhysicalDeviceCount Semaphore.frameIndexSem else [] := by
    have hfi : (r.frameStart p).m_frameIndex = r.m_frameIndex := rfl
    generalize r.getPhysicalDeviceCount = n
    by_cases hN : MAX_QUEUED_FRAMES ≤ r.m_frameIndex
    · rw [if_pos hN]
      induction n with
      | zero => rfl
      | succ n ih =>
        simp only [List.range_succ, List.map_append, List.flatMap_append, ih]
        simp [Renderer.deviceSubmit, Renderer.deviceWait, hfi, hN, List.replicate_succ']
    · rw [if_neg hN]
      rw [List.flatMap_eq_nil_iff]
      intro x hx
      obtain ⟨j, -, rfl⟩ := List.mem_map.1 hx
      simp [Renderer.deviceSubmit, hfi, hN]
  have hcount : ((r.frameStart p).afterDevices r.getPhysicalDeviceCount).getPhysicalDeviceCount =
      r.getPhysicalDeviceCount := rfl
  have hts := Renderer.transferSubmit_waits env env.acquireSwapchainImages
    ((r.frameStart p).afterDevices r.getPhysicalDeviceCount)
  rw [hcount] at hts
  have hpacer : (if MAX_QUEUED_FRAMES ≤ r.m_frameIndex then
      List.replicate r.getPhysicalDeviceCount Semaphore.frameIndexSem else []).count
        (.renderDone i) = 0 := by
    split
    · exact List.count_eq_zero_of_not_mem (fun h => by
        have := List.eq_of_mem_replicate h
        simp at this)
    · rfl
  simp only [waitedSemaphores, Renderer.submissions_nextFrameEvents, List.flatMap_append, hdev,
    List.count_append, hpacer]
  by_cases hs : env.getSwapchainImageReadySemaphore = .null
  · simp only [hs, if_true, List.flatMap_cons, List.flatMap_nil, List.map_nil, List.append_nil,
      hts, List.count_append, count_renderDone_range _ _ hi, List.count_nil]
    simp [Renderer.finalSubmit, Renderer.transferDoneSignalAndWait, List.count_cons, hrs]
  · simp only [hs, if_false, List.flatMap_cons, List.flatMap_nil, List.map_nil, List.append_nil,
      hts, List.count_append, count_renderDone_range _ _ hi, List.count_nil]
    simp [Renderer.finalSubmit, Renderer.transferDoneSignalAndWait, List.count_cons, hrs]
/-- C26.  In every rendered frame `f` with `d` devices, the trace of `nextFrame` has one
submit call on the transfer queue with one submission, the composite submission: it waits on
the `d` render-done semaphores in device order and then on the presentation-target-ready
semaphore (the renderer's own, or else the collaborator's), `d + 1` waits, and signals the
transfer-done semaphore at `f + 1`.  Each render-done semaphore is signalled once and waited
on once by the submissions of the frame.  The last submit call on the present queue is the
finalize submission: it waits on the transfer-done semaphore at `f + 1` and signals the
pacer semaphore at `f + 1` and, exactly when the collaborator's frame-ready semaphore is not
null, that semaphore too. -/
theorem composite_and_finalize_submissions (env : FrameEnv) (r : Renderer) (p : Nat)
    (hr : r.WF) (henv : env.WF) (hp : env.beginFrame.predictedDisplayTimeNanos = some p)
    (hwait : MAX_QUEUED_FRAMES ≤ r.m_frameIndex → env.waitResult = .eSuccess)
    (hf : r.m_frameIndex + 1 < 2 ^ 64) :
    ∃ (r' : Renderer) (tr : List Event) (ts fs : SubmitInfo2),
      r.nextFrame env = .ok (r', tr) ∧
      submitsOn .m_transferQueue tr = [[ts]] ∧
      ts.waitSemaphoreInfos.length = r.getPhysicalDeviceCount + 1 ∧
      ts.waitSemaphoreInfos.map (fun i => i.semaphore) =
        (List.range r.getPhysicalDeviceCount).map Semaphore.renderDone ++
          [if r.m_swapchainImageReadySemaphore ≠ .null then r.m_swapchainImageReadySemaphore
           else env.getSwapchainImageReadySemaphore] ∧
      ts.signalSemaphoreInfos.map (fun i => (i.semaphore, i.value)) =
        [(Semaphore.transferDone, r.m_frameIndex + 1)] ∧
      (∀ i : Nat, i < r.getPhysicalDeviceCount →
        (signalledSemaphores tr).count (.renderDone i) = 1 ∧
        (waitedSemaphores tr).count (.renderDone i) = 1) ∧
      (submitsOn .m_presentQueue tr).getLast? = some [fs] ∧
      fs.waitSemaphoreInfos.map (fun i => (i.semaphore, i.value)) =
        [(Semaphore.transferDone, r.m_frameIndex + 1)] ∧
      fs.signalSemaphoreInfos.map (fun i => (i.semaphore, i.value)) =
        [(Semaphore.frameIndexSem, r.m_frameIndex + 1)] ++
          (if env.getFrameReadySemaphore ≠ .null then [(env.getFrameReadySemaphore, 0)]
           else []) := by
  have hcount : ((r.frameStart p).afterDevices r.getPhysicalDeviceCount).getPhysicalDeviceCount =
      r.getPhysicalDeviceCount := rfl
  have hfi : ((r.frameStart p).afterDevices r.getPhysicalDeviceCount).m_frameIndex =
      r.m_frameIndex := rfl
  have hts := Renderer.transferSubmit_waits env env.acquireSwapchainImages
    ((r.frameStart p).afterDevices r.getPhysicalDeviceCount)
  rw [hcount] at hts
  have hadd : add64 r.m_frameIndex 1 = r.m_frameIndex + 1 := add64_one _ hf
  refine ⟨_, _, _, ((r.frameStart p).afterDevices r.getPhysicalDeviceCount).finalSubmit env,
    Renderer.nextFrame_closed env r hr p hp hwait,
    Renderer.submitsOn_transfer_nextFrameEvents env r p, ?_, hts, ?_, ?_, ?_, ?_, ?_⟩
  · have := congrArg List.length hts
    simpa using this
  · simp [Renderer.transferSubmit, Renderer.transferDoneSignalAndWait, hfi, hadd]
  · exact fun i hi => ⟨Renderer.signalled_renderDone_nextFrameEvents env r hr henv p i hi,
      Renderer.waited_renderDone_nextFrameEvents env r hr henv p i hi⟩
  · rw [Renderer.submitsOn_present_nextFrameEvents]
    simp
  · simp [Renderer.finalSubmit, Renderer.transferDoneSignalAndWait, hfi, hadd]
  · by_cases hfr : env.getFrameReadySemaphore = .null <;>
      simp [Renderer.finalSubmit, Renderer.finalSignals, hfi, hadd, hfr]

/-- C26, at frame 3 with 4 devices. -/
theorem composite_and_finalize_submissions_witness :
    ∃ (r' : Renderer) (tr : List Event) (ts : SubmitInfo2),
      (Renderer.sampleAt 4 3).nextFrame (FrameEnv.sample (some 0)) = .ok (r', tr) ∧
      submitsOn .m_transferQueue tr = [[ts]] ∧
      ts.waitSemaphoreInfos.length = 5 ∧
      ts.signalSemaphoreInfos.map (fun i => (i.semaphore, i.value)) =
        [(Semaphore.transferDone, 4)] := by
  obtain ⟨r', tr, ts, fs, h, hs, hl, -, hsig, -⟩ :=
    composite_and_finalize_submissions (FrameEnv.sample (some 0)) (Renderer.sampleAt 4 3) 0
      (by decide) (by decide) rfl (fun _ => rfl) (by decide)
  exact ⟨r', tr, ts, h, hs, hl, hsig⟩

/-! ## The order of the actions of a frame -/

theorem filter_isAction_copyEvents (cb : CommandBuffer) (f c : Nat) (l : List CopyImageInfo2) :
    (copyEvents cb f c l).filter Event.isAction = [] := by
  induction l generalizing c with
  | nil => rfl
  | cons x xs ih =>
    have := ih (wrap32 (c + 1))
    simp [copyEvents, Event.isAction, this]

theorem Renderer.filter_isAction_deviceEvents (env : FrameEnv) (r : Renderer) (j : Nat) :
    (r.deviceEvents env j).filter Event.isAction = [] := by
  by_cases h0 : j = 0 ∧ r.m_frameIndex = 0
  · simp only [Renderer.deviceEvents, if_pos h0]
    simp [Event.isAction]
  · simp only [Renderer.deviceEvents, if_neg h0]
    simp [Event.isAction]

theorem Renderer.filter_isAction_nextFrameEvents (env : FrameEnv) (r : Renderer) (p : Nat) :
    (r.nextFrameEvents env p).filter Event.isAction =
      [Event.beginFrame, Event.sceneUpdate (r.deltaMillis p),
        Event.userInterfaceUpdate (r.deltaMillis p)] ++
      (if MAX_QUEUED_FRAMES ≤ r.m_frameIndex then
        [Event.waitSemaphores .frameIndexSem r.waitValue UINT64_MAX] else []) ++
      [Event.resetCommandPool r.m_graphicsQueueFamily.m_queueFamilyIndex
          ((r.m_graphicsQueueFamily.m_currentCommandPoolIndex + 1) % MAX_QUEUED_FRAMES),
        Event.resetCommandPool r.m_transferQueueFamily.m_queueFamilyIndex
          ((r.m_transferQueueFamily.m_currentCommandPoolIndex + 1) % MAX_QUEUED_FRAMES),
        Event.submit2 .m_renderQueue
          ((List.range r.getPhysicalDeviceCount).map (r.frameStart p).deviceSubmit),
        Event.acquireSwapchainImages] ++
      (if env.getSwapchainImageReadySemaphore = .null then
        [Event.submit2 .m_presentQueue
          [{ waitSemaphoreInfos := [], commandBufferInfos := [],
             signalSemaphoreInfos :=
               [{ semaphore := r.m_swapchainImageReadySemaphore, value := 0,
                  stageMask := .eAllCommands, deviceIndex := 0 }] }]]
       else []) ++
      [Event.submit2 .m_transferQueue
          [((r.frameStart p).afterDevices r.getPhysicalDeviceCount).transferSubmit env
            env.acquireSwapchainImages],
        Event.submit2 .m_presentQueue
          [((r.frameStart p).afterDevices r.getPhysicalDeviceCount).finalSubmit env],
        Event.releaseSwapchainImage, Event.endFrame .m_presentQueue] := by
  have hdev : (eventsFrom ((r.frameStart p).deviceEvents env)
      r.getPhysicalDeviceCount 0).filter Event.isAction = [] := by
    rw [filter_eventsFrom]
    exact eventsFrom_eq_nil _ _ _ (fun j _ _ => Renderer.filter_isAction_deviceEvents env _ j)
  have hw : r.waitEvents.filter Event.isAction =
      (if MAX_QUEUED_FRAMES ≤ r.m_frameIndex then
        [Event.waitSemaphores .frameIndexSem r.waitValue UINT64_MAX] else []) := by
    by_cases hN : MAX_QUEUED_FRAMES ≤ r.m_frameIndex <;>
      simp [Renderer.waitEvents, hN, Event.isAction]
  have hcount : (r.frameStart p).getPhysicalDeviceCount = r.getPhysicalDeviceCount := rfl
  have hbuild : ∀ (frt : FrameRenderTargets) (q : Renderer),
      (q.buildFinalFrameEvents env frt).filter Event.isAction =
        [Event.submit2 .m_transferQueue [q.transferSubmit env frt],
          Event.submit2 .m_presentQueue [q.finalSubmit env]] := by
    intro frt q
    simp only [Renderer.buildFinalFrameEvents, List.filter_append, filter_isAction_copyEvents]
    by_cases hs : q.m_swapchainImageReadySemaphore = .null <;>
      simp [Event.isAction, hs]
  have hacq : (r.acquireEvents env).filter Event.isAction =
      [Event.acquireSwapchainImages] ++
      (if env.getSwapchainImageReadySemaphore = .null then
        [Event.submit2 .m_presentQueue
          [{ waitSemaphoreInfos := [], commandBufferInfos := [],
             signalSemaphoreInfos :=
               [{ semaphore := r.m_swapchainImageReadySemaphore, value := 0,
                  stageMask := .eAllCommands, deviceIndex := 0 }] }]]
       else []) := by
    by_cases hs : env.getSwapchainImageReadySemaphore = .null <;>
      simp [Renderer.acquireEvents, hs, Event.isAction]
  simp only [Renderer.nextFrameEvents, Renderer.renderFrameEvents, List.filter_append, hdev, hw,
    hacq, hbuild, hcount]
  simp [Event.isAction]
theorem append_cons_unique {α : Type} (x : α) (A B C D : List α) (hA : x ∉ A) (hB : x ∉ B)
    (h : A ++ x :: B = C ++ x :: D) : A = C := by
  rcases List.append_eq_append_iff.1 h with ⟨a', hC, ha'⟩ | ⟨c', hA', hc'⟩
  · cases a' with
    | nil => simpa using hC.symm
    | cons y ys =>
      simp only [List.cons_append, List.cons.injEq] at ha'
      exact absurd (ha'.2 ▸ List.mem_append_right ys (List.mem_cons_self x D)) hB
  · cases c' with
    | nil => simpa using hA'
    | cons y ys =>
      simp only [List.cons_append, List.cons.injEq] at hc'
      rw [hA', ← hc'.1] at hA
      exact absurd (List.mem_append_right C (List.mem_cons_self x ys)) hA

/-- C27.  In every rendered frame `f`, the actions in the trace of `nextFrame` are, in this
order: `beginFrame`, the scene update, the collaborator update, the host wait on the pacer
semaphore for `f - N + 1` when `N ≤ f`, the reset of the graphics pool, the reset of the
transfer pool, the submit call on the render queue with one submission per device, the
acquisition of the presentation target, the signal-only submission of the renderer's own
ready semaphore on the present queue exactly when the collaborator's target-ready semaphore
is null, the composite submission on the transfer queue, the finalize submission on the
present queue, the release of the presentation target and `endFrame`; afterwards the frame
index is `f + 1`.  Whatever precedes the acquisition in the trace contains the submit call on
the render queue. -/
theorem nextFrame_actions_in_order (env : FrameEnv) (r : Renderer) (p : Nat)
    (hr : r.WF) (hp : env.beginFrame.predictedDisplayTimeNanos = some p)
    (hwait : MAX_QUEUED_FRAMES ≤ r.m_frameIndex → env.waitResult = .eSuccess)
    (hf : r.m_frameIndex + 1 < 2 ^ 64) :
    ∃ (r' : Renderer) (tr : List Event) (deltaMillis : ℚ) (poolG poolT : Nat)
      (render : List SubmitInfo2) (composite finalize : SubmitInfo2),
      r.nextFrame env = .ok (r', tr) ∧
      tr.filter Event.isAction =
        [Event.beginFrame, Event.sceneUpdate deltaMillis,
          Event.userInterfaceUpdate deltaMillis] ++
        (if MAX_QUEUED_FRAMES ≤ r.m_frameIndex then
          [Event.waitSemaphores .frameIndexSem (r.m_frameIndex - MAX_QUEUED_FRAMES + 1)
            UINT64_MAX]
         else []) ++
        [Event.resetCommandPool r.m_graphicsQueueFamily.getIndex poolG,
          Event.resetCommandPool r.m_transferQueueFamily.getIndex poolT,
          Event.submit2 .m_renderQueue render, Event.acquireSwapchainImages] ++
        (if env.getSwapchainImageReadySemaphore = .null then
          [Event.submit2 .m_presentQueue
            [{ waitSemaphoreInfos := [], commandBufferInfos := [],
               signalSemaphoreInfos :=
                 [{ semaphore := r.m_swapchainImageReadySemaphore, value := 0,
                    stageMask := .eAllCommands, deviceIndex := 0 }] }]]
         else []) ++
        [Event.submit2 .m_transferQueue [composite],
          Event.submit2 .m_presentQueue [finalize],
          Event.releaseSwapchainImage, Event.endFrame .m_presentQueue] ∧
      render.length = r.getPhysicalDeviceCount ∧
      composite.signalSemaphoreInfos.map (fun i => i.semaphore) = [.transferDone] ∧
      finalize.waitSemaphoreInfos.map (fun i => i.semaphore) = [.transferDone] ∧
      r'.m_frameIndex = r.m_frameIndex + 1 ∧
      ∀ pre post : List Event, tr = pre ++ Event.acquireSwapchainImages :: post →
        Event.submit2 .m_renderQueue render ∈ pre := by
  have hfilter := Renderer.filter_isAction_nextFrameEvents env r p
  have hwv : (if MAX_QUEUED_FRAMES ≤ r.m_frameIndex then
      [Event.waitSemaphores .frameIndexSem r.waitValue UINT64_MAX] else []) =
      (if MAX_QUEUED_FRAMES ≤ r.m_frameIndex then
        [Event.waitSemaphores .frameIndexSem (r.m_frameIndex - MAX_QUEUED_FRAMES + 1)
          UINT64_MAX]
       else []) := by
    by_cases hN : MAX_QUEUED_FRAMES ≤ r.m_frameIndex
    · rw [if_pos hN, if_pos hN, Renderer.waitValue_eq r hr.2.1 hN]
    · rw [if_neg hN, if_neg hN]
  rw [hwv] at hfilter
  refine ⟨_, _, r.deltaMillis p,
    (r.m_graphicsQueueFamily.m_currentCommandPoolIndex + 1) % MAX_QUEUED_FRAMES,
    (r.m_transferQueueFamily.m_currentCommandPoolIndex + 1) % MAX_QUEUED_FRAMES,
    (List.range r.getPhysicalDeviceCount).map (r.frameStart p).deviceSubmit,
    ((r.frameStart p).afterDevices r.getPhysicalDeviceCount).transferSubmit env
      env.acquireSwapchainImages,
    ((r.frameStart p).afterDevices r.getPhysicalDeviceCount).finalSubmit env,
    Renderer.nextFrame_closed env r hr p hp hwait, hfilter, by simp, rfl, rfl,
    add64_one _ hf, ?_⟩
  intro pre post htr
  have hsplit : (r.nextFrameEvents env p).filter Event.isAction =
      pre.filter Event.isAction ++
        Event.acquireSwapchainImages :: post.filter Event.isAction := by
    rw [htr, List.filter_append, List.filter_cons_of_pos (by rfl)]
  rw [hfilter] at hsplit
  have hA := append_cons_unique Event.acquireSwapchainImages
    ([Event.beginFrame, Event.sceneUpdate (r.deltaMillis p),
        Event.userInterfaceUpdate (r.deltaMillis p)] ++
      (if MAX_QUEUED_FRAMES ≤ r.m_frameIndex then
        [Event.waitSemaphores .frameIndexSem (r.m_frameIndex - MAX_QUEUED_FRAMES + 1)
          UINT64_MAX]
       else []) ++
      [Event.resetCommandPool r.m_graphicsQueueFamily.m_queueFamilyIndex
          ((r.m_graphicsQueueFamily.m_currentCommandPoolIndex + 1) % MAX_QUEUED_FRAMES),
        Event.resetCommandPool r.m_transferQueueFamily.m_queueFamilyIndex
          ((r.m_transferQueueFamily.m_currentCommandPoolIndex + 1) % MAX_QUEUED_FRAMES),
        Event.submit2 .m_renderQueue
          ((List.range r.getPhysicalDeviceCount).map (r.frameStart p).deviceSubmit)])
    ((if env.getSwapchainImageReadySemaphore = .null then
        [Event.submit2 .m_presentQueue
          [{ waitSemaphoreInfos := [], commandBufferInfos := [],
             signalSemaphoreInfos :=
               [{ semaphore := r.m_swapchainImageReadySemaphore, value := 0,
                  stageMask := .eAllCommands, deviceIndex := 0 }] }]]
       else []) ++
      [Event.submit2 .m_transferQueue
          [((r.frameStart p).afterDevices r.getPhysicalDeviceCount).transferSubmit env
            env.acquireSwapchainImages],
        Event.submit2 .m_presentQueue
          [((r.frameStart p).afterDevices r.getPhysicalDeviceCount).finalSubmit env],
        Event.releaseSwapchainImage, Event.endFrame .m_presentQueue])
    (pre.filter Event.isAction) (post.filter Event.isAction)
    (by by_cases hN : MAX_QUEUED_FRAMES ≤ r.m_frameIndex <;> simp [hN])
    (by by_cases hs : env.getSwapchainImageReadySemaphore = .null <;> simp [hs])
    (by simpa using hsplit)
  have hmem : Event.submit2 .m_renderQueue
      ((List.range r.getPhysicalDeviceCount).map (r.frameStart p).deviceSubmit) ∈
      pre.filter Event.isAction := by
    rw [← hA]
    simp
  exact (List.mem_filter.1 hmem).1

/-- C27, at frame 3 with 4 devices and no target-ready semaphore of the collaborator. -/
theorem nextFrame_actions_in_order_witness :
    ∃ (r' : Renderer) (tr : List Event),
      (Renderer.sampleAt 4 3).nextFrame (FrameEnv.sample (some 0)) = .ok (r', tr) ∧
      (tr.filter Event.isAction).length = 13 ∧ r'.m_frameIndex = 4 := by
  obtain ⟨r', tr, δ, g, t, render, composite, finalize, h, hfilter, -, -, -, hfi, -⟩ :=
    nextFrame_actions_in_order (FrameEnv.sample (some 0)) (Renderer.sampleAt 4 3) 0
      (by decide) rfl (fun _ => rfl) (by decide)
  refine ⟨r', tr, h, ?_, hfi⟩
  rw [hfilter]
  rfl

/-! ## The choice of the memory type -/

theorem memoryType_filter_test (filter : Option Nat) (i : Nat) (hi : i < 32) :
    (filter.isNone ∨ wrap32 (1 <<< i) &&& filter.getD 0 ≠ 0) ↔
      MemoryTypeAdmissible filter i := by
  cases filter with
  | none => simp [MemoryTypeAdmissible]
  | some bits =>
    have hpow : wrap32 (1 <<< i) = 2 ^ i := by
      rw [Nat.one_shiftLeft]
      unfold wrap32
      exact Nat.mod_eq_of_lt (Nat.pow_lt_pow_right (by norm_num) hi)
    simp only [Option.isNone_some, Option.getD_some, MemoryTypeAdmissible, hpow,
      Nat.and_comm (2 ^ i) bits, Nat.and_two_pow]
    cases bits.testBit i <;> simp

theorem MemoryTypeExact.superset {memProps : PhysicalDeviceMemoryProperties} {flags : Nat}
    {filter : Option Nat} {i : Nat} (h : MemoryTypeExact memProps flags filter i) :
    MemoryTypeSuperset memProps flags filter i := by
  obtain ⟨h1, h2, m, hm, hf⟩ := h
  exact ⟨h1, h2, m, hm, by rw [hf, Nat.and_self]⟩

/-- The loop of `queryCompatibleMemoryTypeIndex` from `i` on: it ends, with the lowest exact
match from `i` on if there is one, else with the highest admissible superset from `i` on if
there is one, else with the candidate it started with. -/
theorem memoryTypeScan_spec (memProps : PhysicalDeviceMemoryProperties) (flags : Nat)
    (filter : Option Nat) (hlen : memProps.memoryTypeCount ≤ memProps.memoryTypes.length)
    (h32 : memProps.memoryTypeCount ≤ 32) :
    ∀ (n i : Nat) (candidate : Option Nat), i + n = memProps.memoryTypeCount →
      ∃ res, memoryTypeScan memProps flags filter n i candidate = .ok res ∧
        (∀ j, i ≤ j → MemoryTypeExact memProps flags filter j →
          (∀ k, i ≤ k → k < j → ¬ MemoryTypeExact memProps flags filter k) → res = some j) ∧
        ((∀ k, i ≤ k → ¬ MemoryTypeExact memProps flags filter k) →
          ∀ j, i ≤ j → MemoryTypeSuperset memProps flags filter j →
            (∀ k, j < k → ¬ MemoryTypeSuperset memProps flags filter k) → res = some j) ∧
        ((∀ k, i ≤ k → ¬ MemoryTypeSuperset memProps flags filter k) → res = candidate) := by
  intro n
  induction n with
  | zero =>
    intro i candidate hi
    refine ⟨candidate, rfl, ?_, ?_, fun _ => rfl⟩
    · intro j hj hE _
      exact absurd hE.1 (by omega)
    · intro _ j hj hS _
      exact absurd hS.1 (by omega)
  | succ n ih =>
    intro i candidate hi
    have hlt : i < memProps.memoryTypeCount := by omega
    have hget : memProps.memoryTypes.get? i = some (memProps.memoryTypes.get ⟨i, by omega⟩) :=
      List.get?_eq_get (by omega)
    have hget' : memProps.memoryTypes[i]? = some (memProps.memoryTypes.get ⟨i, by omega⟩) := by
      rw [← List.get?_eq_getElem?]; exact hget
    have hadm := memoryType_filter_test filter i (by omega)
    -- the three ways the iteration continues
    have hskip : (¬ MemoryTypeSuperset memProps flags filter i) →
        ∀ res, memoryTypeScan memProps flags filter n (i + 1) candidate = .ok res →
        ((∀ j, i + 1 ≤ j → MemoryTypeExact memProps flags filter j →
          (∀ k, i + 1 ≤ k → k < j → ¬ MemoryTypeExact memProps flags filter k) → res = some j) ∧
        ((∀ k, i + 1 ≤ k → ¬ MemoryTypeExact memProps flags filter k) →
          ∀ j, i + 1 ≤ j → MemoryTypeSuperset memProps flags filter j →
            (∀ k, j < k → ¬ MemoryTypeSuperset memProps flags filter k) → res = some j) ∧
        ((∀ k, i + 1 ≤ k → ¬ MemoryTypeSuperset memProps flags filter k) → res = candidate)) →
        ((∀ j, i ≤ j → MemoryTypeExact memProps flags filter j →
          (∀ k, i ≤ k → k < j → ¬ MemoryTypeExact memProps flags filter k) → res = some j) ∧
        ((∀ k, i ≤ k → ¬ MemoryTypeExact memProps flags filter k) →
          ∀ j, i ≤ j → MemoryTypeSuperset memProps flags filter j →
            (∀ k, j < k → ¬ MemoryTypeSuperset memProps flags filter k) → res = some j) ∧
        ((∀ k, i ≤ k → ¬ MemoryTypeSuperset memProps flags filter k) → res = candidate)) := by
      intro hnS res _ ⟨h1, h2, h3⟩
      refine ⟨?_, ?_, ?_⟩
      · intro j hj hE hmin
        have hne : j ≠ i := fun h => hnS (h ▸ hE.superset)
        exact h1 j (by omega) hE (fun k hk hkj => hmin k (by omega) hkj)
      · intro hnE j hj hS hmax
        have hne : j ≠ i := fun h => hnS (h ▸ hS)
        exact h2 (fun k hk => hnE k (by omega)) j (by omega) hS hmax
      · intro hnone
        exact h3 (fun k hk => hnone k (by omega))
    by_cases ha : MemoryTypeAdmissible filter i
    · have ha' := hadm.2 ha
      by_cases he : (memProps.memoryTypes.get ⟨i, by omega⟩).propertyFlags = flags
      · have hE : MemoryTypeExact memProps flags filter i := ⟨hlt, ha, _, hget', he⟩
        refine ⟨some i, by simp only [memoryTypeScan, if_pos ha', hget, if_pos he], ?_, ?_, ?_⟩
        · intro j hj hEj hmin
          by_cases hji : j = i
          · rw [hji]
          · exact absurd hE (hmin i (Nat.le_refl _) (by omega))
        · intro hnE
          exact absurd hE (hnE i (Nat.le_refl _))
        · intro hnS
          exact absurd hE.superset (hnS i (Nat.le_refl _))
      · have hnE : ¬ MemoryTypeExact memProps flags filter i := by
          rintro ⟨-, -, m, hm, hf⟩
          rw [hget'] at hm
          injection hm with hm
          exact he (hm ▸ hf)
        by_cases hs : (memProps.memoryTypes.get ⟨i, by omega⟩).propertyFlags &&& flags = flags
        · have hS : MemoryTypeSuperset memProps flags filter i := ⟨hlt, ha, _, hget', hs⟩
          obtain ⟨res, hres, h1, h2, h3⟩ := ih (i + 1) (some i) (by omega)
          refine ⟨res, by simp only [memoryTypeScan, if_pos ha', hget, if_neg he, if_pos hs,
            hres], ?_, ?_, ?_⟩
          · intro j hj hEj hmin
            have hne : j ≠ i := fun h => hnE (h ▸ hEj)
            exact h1 j (by omega) hEj (fun k hk hkj => hmin k (by omega) hkj)
          · intro hnoE j hj hSj hmax
            by_cases hji : j = i
            · rw [hji]
              exact h3 (fun k hk => hmax k (by omega))
            · exact h2 (fun k hk => hnoE k (by omega)) j (by omega) hSj hmax
          · intro hnS
            exact absurd hS (hnS i (Nat.le_refl _))
        · have hnS : ¬ MemoryTypeSuperset memProps flags filter i := by
            rintro ⟨-, -, m, hm, hf⟩
            rw [hget'] at hm
            injection hm with hm
            exact hs (hm ▸ hf)
          obtain ⟨res, hres, hrest⟩ := ih (i + 1) candidate (by omega)
          exact ⟨res, by simp only [memoryTypeScan, if_pos ha', hget, if_neg he, if_neg hs,
            hres], hskip hnS res hres hrest⟩
    · have ha' := fun h => ha (hadm.1 h)
      have hnS : ¬ MemoryTypeSuperset memProps flags filter i := fun h => ha h.2.1
      obtain ⟨res, hres, hrest⟩ := ih (i + 1) candidate (by omega)
      exact ⟨res, by simp only [memoryTypeScan, if_neg ha', hres], hskip hnS res hres hrest⟩
/-- C28.  For a device of the renderer whose memory properties hold `memoryTypeCount` types
in the array (`memoryTypeCount` at most the length of the array and at most 32, the size
Vulkan gives it), `queryCompatibleMemoryTypeIndex` returns: the lowest admissible index whose
flags equal the requested ones, if there is one; otherwise the highest admissible index whose
flags include the requested ones, if there is one; otherwise none.  A returned index is
below the count, admissible and has all requested flags, and none is returned exactly when
no admissible type has all requested flags. -/
theorem queryCompatibleMemoryTypeIndex_choice (r : Renderer)
    (getMemoryProperties : PhysicalDevice → PhysicalDeviceMemoryProperties)
    (p_physicalDeviceIndex p_propertyFlags : Nat) (p_filterMemTypeBits : Option Nat)
    (device : PhysicalDevice)
    (hdev : vectorGet r.m_vkPhysicalDevices
      (if r.options.simulatedPhysicalDeviceCount.isSome then 0 else p_physicalDeviceIndex) =
        .ok device)
    (hlen : (getMemoryProperties device).memoryTypeCount ≤
      (getMemoryProperties device).memoryTypes.length)
    (h32 : (getMemoryProperties device).memoryTypeCount ≤ 32) :
    ∃ res : Option Nat,
      r.queryCompatibleMemoryTypeIndex getMemoryProperties p_physicalDeviceIndex
        p_propertyFlags p_filterMemTypeBits = .ok res ∧
      (∀ j, MemoryTypeExact (getMemoryProperties device) p_propertyFlags p_filterMemTypeBits j →
        (∀ k, k < j →
          ¬ MemoryTypeExact (getMemoryProperties device) p_propertyFlags p_filterMemTypeBits k) →
        res = some j) ∧
      ((∀ k, ¬ MemoryTypeExact (getMemoryProperties device) p_propertyFlags
          p_filterMemTypeBits k) →
        ∀ j, MemoryTypeSuperset (getMemoryProperties device) p_propertyFlags
            p_filterMemTypeBits j →
          (∀ k, j < k → ¬ MemoryTypeSuperset (getMemoryProperties device) p_propertyFlags
            p_filterMemTypeBits k) →
          res = some j) ∧
      ((∀ k, ¬ MemoryTypeSuperset (getMemoryProperties device) p_propertyFlags
          p_filterMemTypeBits k) → res = none) ∧
      (∀ j, res = some j →
        j < (getMemoryProperties device).memoryTypeCount ∧
        MemoryTypeAdmissible p_filterMemTypeBits j ∧
        ∃ memoryType, (getMemoryProperties device).memoryTypes[j]? = some memoryType ∧
          memoryType.propertyFlags &&& p_propertyFlags = p_propertyFlags) ∧
      (res = none ↔ ∀ k, ¬ MemoryTypeSuperset (getMemoryProperties device) p_propertyFlags
        p_filterMemTypeBits k) := by
  obtain ⟨res, hres, h1, h2, h3⟩ := memoryTypeScan_spec (getMemoryProperties device)
    p_propertyFlags p_filterMemTypeBits hlen h32 (getMemoryProperties device).memoryTypeCount 0
    none (by omega)
  have hq : r.queryCompatibleMemoryTypeIndex getMemoryProperties p_physicalDeviceIndex
      p_propertyFlags p_filterMemTypeBits = .ok res := by
    simp only [Renderer.queryCompatibleMemoryTypeIndex, hdev, hres]
  have h1' : ∀ j, MemoryTypeExact (getMemoryProperties device) p_propertyFlags
      p_filterMemTypeBits j →
      (∀ k, k < j →
        ¬ MemoryTypeExact (getMemoryProperties device) p_propertyFlags p_filterMemTypeBits k) →
      res = some j :=
    fun j hE hmin => h1 j (Nat.zero_le _) hE (fun k _ hk => hmin k hk)
  have h2' : (∀ k, ¬ MemoryTypeExact (getMemoryProperties device) p_propertyFlags
        p_filterMemTypeBits k) →
      ∀ j, MemoryTypeSuperset (getMemoryProperties device) p_propertyFlags
          p_filterMemTypeBits j →
        (∀ k, j < k → ¬ MemoryTypeSuperset (getMemoryProperties device) p_propertyFlags
          p_filterMemTypeBits k) →
        res = some j :=
    fun hnE j hS hmax => h2 (fun k _ => hnE k) j (Nat.zero_le _) hS hmax
  have h3' : (∀ k, ¬ MemoryTypeSuperset (getMemoryProperties device) p_propertyFlags
      p_filterMemTypeBits k) → res = none := fun hn => h3 (fun k _ => hn k)
  -- the three cases, with the least exact match and the greatest superset
  have hcases : (∃ j, res = some j ∧ MemoryTypeSuperset (getMemoryProperties device)
      p_propertyFlags p_filterMemTypeBits j) ∨
      (res = none ∧ ∀ k, ¬ MemoryTypeSuperset (getMemoryProperties device) p_propertyFlags
        p_filterMemTypeBits k) := by
    classical
    by_cases hE : ∃ j, MemoryTypeExact (getMemoryProperties device) p_propertyFlags
        p_filterMemTypeBits j
    · exact Or.inl ⟨Nat.find hE, h1' _ (Nat.find_spec hE) (fun k hk => Nat.find_min hE hk),
        (Nat.find_spec hE).superset⟩
    · have hnE : ∀ k, ¬ MemoryTypeExact (getMemoryProperties device) p_propertyFlags
          p_filterMemTypeBits k := fun k hk => hE ⟨k, hk⟩
      by_cases hS : ∃ j, MemoryTypeSuperset (getMemoryProperties device) p_propertyFlags
          p_filterMemTypeBits j
      · obtain ⟨j, hj⟩ := hS
        have hspec := Nat.findGreatest_spec
          (P := MemoryTypeSuperset (getMemoryProperties device) p_propertyFlags
            p_filterMemTypeBits) (Nat.le_of_lt hj.1) hj
        refine Or.inl ⟨_, h2' hnE _ hspec ?_, hspec⟩
        intro k hk hSk
        exact Nat.findGreatest_is_greatest hk (Nat.le_of_lt hSk.1) hSk
      · have hnS : ∀ k, ¬ MemoryTypeSuperset (getMemoryProperties device) p_propertyFlags
            p_filterMemTypeBits k := fun k hk => hS ⟨k, hk⟩
        exact Or.inr ⟨h3' hnS, hnS⟩
  refine ⟨res, hq, h1', h2', h3', ?_, ?_⟩
  · intro j hj
    rcases hcases with ⟨j', hj', hS⟩ | ⟨hn, -⟩
    · rw [hj] at hj'
      injection hj' with hj'
      rw [hj']
      exact hS
    · rw [hj] at hn
      exact absurd hn (by simp)
  · constructor
    · intro hn
      rcases hcases with ⟨j', hj', -⟩ | ⟨-, hnS⟩
      · rw [hn] at hj'
        exact absurd hj' (by simp)
      · exact hnS
    · exact h3'

/-- C28, for two devices and the memory types with the flags 3, 1, 7, 1 and 5: with the
requested flags 1 and the filter bits 0, 2, 3 and 4 the index 3 is returned, the lowest
admissible exact match (type 1 is filtered out). -/
theorem queryCompatibleMemoryTypeIndex_choice_witness :
    (Renderer.sampleAt 2 0).queryCompatibleMemoryTypeIndex
        (fun _ => PhysicalDeviceMemoryProperties.sample) 1 1 (some 29) = .ok (some 3) ∧
    MemoryTypeExact PhysicalDeviceMemoryProperties.sample 1 (some 29) 3 := by
  have hE : MemoryTypeExact PhysicalDeviceMemoryProperties.sample 1 (some 29) 3 :=
    ⟨by decide, by decide, ⟨1, 1⟩, rfl, rfl⟩
  obtain ⟨res, hres, h1, -⟩ := queryCompatibleMemoryTypeIndex_choice (Renderer.sampleAt 2 0)
    (fun _ => PhysicalDeviceMemoryProperties.sample) 1 1 (some 29) ⟨1⟩ rfl (by decide)
    (by decide)
  have := h1 3 hE (by
    intro k hk hEk
    obtain ⟨-, hadm, m, hm, hf⟩ := hEk
    interval_cases k
    · simp [PhysicalDeviceMemoryProperties.sample] at hm
      rw [← hm] at hf
      exact absurd hf (by decide)
    · exact absurd hadm (by decide)
    · simp [PhysicalDeviceMemoryProperties.sample] at hm
      rw [← hm] at hf
      exact absurd hf (by decide))
  rw [this] at hres
  exact ⟨hres, hE⟩

/-! ## The units taken from the command pools -/

theorem begunOn_append (fam : Nat) (a b : List Event) :
    begunOn fam (a ++ b) = begunOn fam a ++ begunOn fam b := by
  simp [begunOn, List.filterMap_append]

theorem begunOn_copyEvents (fam : Nat) (cb : CommandBuffer) (f c : Nat)
    (l : List CopyImageInfo2) : begunOn fam (copyEvents cb f c l) = [] := by
  induction l generalizing c with
  | nil => rfl
  | cons x xs ih =>
    have ih' := ih (wrap32 (c + 1))
    simp only [begunOn] at ih'
    simp [copyEvents, begunOn, Event.begunOn, ih', List.filterMap_append]

theorem Renderer.begunOn_deviceEvents (fam : Nat) (env : FrameEnv) (r : Renderer) (j : Nat) :
    (r.deviceEvents env j).filterMap (Event.begunOn fam) =
      if r.m_graphicsQueueFamily.m_queueFamilyIndex = fam then [r.graphicsCmdBuffer j]
      else [] := by
  by_cases hfam : r.m_graphicsQueueFamily.m_queueFamilyIndex = fam <;>
  by_cases h0 : j = 0 ∧ r.m_frameIndex = 0
  · simp only [Renderer.deviceEvents, if_pos h0]
    simp [Event.begunOn, Renderer.graphicsCmdBuffer, hfam]
  · simp only [Renderer.deviceEvents, if_neg h0]
    simp [Event.begunOn, Renderer.graphicsCmdBuffer, hfam]
  · simp only [Renderer.deviceEvents, if_pos h0]
    simp [Event.begunOn, Renderer.graphicsCmdBuffer, hfam]
  · simp only [Renderer.deviceEvents, if_neg h0]
    simp [Event.begunOn, Renderer.graphicsCmdBuffer, hfam]

theorem Renderer.begunOn_buildFinalFrameEvents (fam : Nat) (env : FrameEnv)
    (frt : FrameRenderTargets) (r : Renderer) :
    begunOn fam (r.buildFinalFrameEvents env frt) =
      (if r.m_transferQueueFamily.m_queueFamilyIndex = fam then [r.transferCmdBuffer]
       else []) ++
      (if r.m_graphicsQueueFamily.m_queueFamilyIndex = fam then [r.graphicsCmdBuffer 0]
       else []) := by
  simp only [Renderer.buildFinalFrameEvents, begunOn_append, begunOn_copyEvents]
  by_cases hs : r.m_swapchainImageReadySemaphore = .null <;>
  by_cases hg : r.m_graphicsQueueFamily.m_queueFamilyIndex = fam <;>
  by_cases ht : r.m_transferQueueFamily.m_queueFamilyIndex = fam <;>
    simp [begunOn, Event.begunOn, hs, hg, ht, Renderer.graphicsCmdBuffer,
      Renderer.transferCmdBuffer]

theorem Renderer.begunOn_nextFrameEvents (fam : Nat) (env : FrameEnv) (r : Renderer)
    (p : Nat) :
    begunOn fam (r.nextFrameEvents env p) =
      (if r.m_graphicsQueueFamily.m_queueFamilyIndex = fam then
        (List.range r.getPhysicalDeviceCount).map (r.frameStart p).graphicsCmdBuffer
       else []) ++
      (if r.m_transferQueueFamily.m_queueFamilyIndex = fam then
        [((r.frameStart p).afterDevices r.getPhysicalDeviceCount).transferCmdBuffer]
       else []) ++
      (if r.m_graphicsQueueFamily.m_queueFamilyIndex = fam then
        [((r.frameStart p).afterDevices r.getPhysicalDeviceCount).graphicsCmdBuffer 0]
       else []) := by
  have hdev : begunOn fam (eventsFrom ((r.frameStart p).deviceEvents env)
      r.getPhysicalDeviceCount 0) =
      (if r.m_graphicsQueueFamily.m_queueFamilyIndex = fam then
        (List.range r.getPhysicalDeviceCount).map (r.frameStart p).graphicsCmdBuffer
       else []) := by
    simp only [begunOn]
    rw [filterMap_eventsFrom]
    simp only [Renderer.begunOn_deviceEvents]
    have hg : (r.frameStart p).m_graphicsQueueFamily.m_queueFamilyIndex =
        r.m_graphicsQueueFamily.m_queueFamilyIndex := rfl
    rw [hg]
    by_cases hfam : r.m_graphicsQueueFamily.m_queueFamilyIndex = fam
    · simp only [if_pos hfam]
      rw [eventsFrom_singleton, List.range_eq_range']
    · simp only [if_neg hfam]
      exact eventsFrom_eq_nil _ _ _ (fun _ _ _ => rfl)
  have hw : begunOn fam r.waitEvents = [] := by
    by_cases hN : MAX_QUEUED_FRAMES ≤ r.m_frameIndex <;>
      simp [Renderer.waitEvents, hN, begunOn, Event.begunOn]
  have hacq : begunOn fam (r.acquireEvents env) = [] := by
    by_cases hs : env.getSwapchainImageReadySemaphore = .null <;>
      simp [Renderer.acquireEvents, hs, begunOn, Event.begunOn]
  have hcount : (r.frameStart p).getPhysicalDeviceCount = r.getPhysicalDeviceCount := rfl
  have hg2 : ((r.frameStart p).afterDevices
      r.getPhysicalDeviceCount).m_graphicsQueueFamily.m_queueFamilyIndex =
      r.m_graphicsQueueFamily.m_queueFamilyIndex := rfl
  have ht2 : ((r.frameStart p).afterDevices
      r.getPhysicalDeviceCount).m_transferQueueFamily.m_queueFamilyIndex =
      r.m_transferQueueFamily.m_queueFamilyIndex := rfl
  simp only [Renderer.nextFrameEvents, Renderer.renderFrameEvents, begunOn_append, hdev, hw,
    hacq, Renderer.begunOn_buildFinalFrameEvents, hcount, hg2, ht2]
  simp [begunOn, Event.begunOn]

/-- A call of `nextFrame` in a well-formed state returns, in a well-formed state, or ends in
the assertion on the result of the host wait. -/
theorem Renderer.nextFrame_ok_or_waitFailed (env : FrameEnv) (r : Renderer) (hr : r.WF) :
    (∃ r' tr, r.nextFrame env = .ok (r', tr) ∧ r'.WF) ∨ r.nextFrame env = .error .waitFailed := by
  cases hp : env.beginFrame.predictedDisplayTimeNanos with
  | none =>
    exact Or.inl ⟨r, [Event.beginFrame, Event.endFrame .m_presentQueue],
      by simp only [Renderer.nextFrame, hp], hr⟩
  | some p =>
    by_cases hw : MAX_QUEUED_FRAMES ≤ r.m_frameIndex → env.waitResult = .eSuccess
    · exact Or.inl ⟨_, _, Renderer.nextFrame_closed env r hr p hp hw,
        Renderer.afterFrame_WF r hr p⟩
    · right
      have hN : MAX_QUEUED_FRAMES ≤ r.m_frameIndex := by
        by_contra h
        exact hw (fun h' => absurd h' h)
      have hres : env.waitResult ≠ .eSuccess := fun h => hw (fun _ => h)
      simp [Renderer.nextFrame, hp, Renderer.waitForFrameIndexValue, hN, hres, bind,
        Except.bind]

theorem Renderer.run_ok_or_waitFailed (envs : List FrameEnv) (r : Renderer) (hr : r.WF) :
    (∃ r' tr, r.run envs = .ok (r', tr) ∧ r'.WF) ∨ r.run envs = .error .waitFailed := by
  induction envs generalizing r with
  | nil => exact Or.inl ⟨r, [], rfl, hr⟩
  | cons env envs ih =>
    rcases Renderer.nextFrame_ok_or_waitFailed env r hr with ⟨r1, tr1, h1, hr1⟩ | h1
    · rcases ih r1 hr1 with ⟨r2, tr2, h2, hr2⟩ | h2
      · exact Or.inl ⟨r2, tr1 ++ tr2, by simp only [Renderer.run, h1, h2], hr2⟩
      · exact Or.inr (by simp only [Renderer.run, h1, h2])
    · exact Or.inr (by simp only [Renderer.run, h1])

theorem Renderer.run_WF (envs : List FrameEnv) (r r' : Renderer) (tr : List Event)
    (hr : r.WF) (h : r.run envs = .ok (r', tr)) : r'.WF := by
  rcases Renderer.run_ok_or_waitFailed envs r hr with ⟨r2, tr2, h2, hr2⟩ | h2
  · rw [h2] at h
    injection h with h
    injection h with h1 _
    exact h1 ▸ hr2
  · rw [h2] at h
    exact absurd h (by simp)
theorem Renderer.nextFrame_rendered_eq (env : FrameEnv) (r r' : Renderer) (tr : List Event)
    (hr : r.WF) (p : Nat) (hp : env.beginFrame.predictedDisplayTimeNanos = some p)
    (h : r.nextFrame env = .ok (r', tr)) :
    r' = r.afterFrame p ∧ tr = r.nextFrameEvents env p := by
  by_cases hw : MAX_QUEUED_FRAMES ≤ r.m_frameIndex → env.waitResult = .eSuccess
  · rw [Renderer.nextFrame_closed env r hr p hp hw] at h
    injection h with h
    injection h with h1 h2
    exact ⟨h1.symm, h2.symm⟩
  · have hN : MAX_QUEUED_FRAMES ≤ r.m_frameIndex := by
      by_contra h'
      exact hw (fun h'' => absurd h'' h')
    have hres : env.waitResult ≠ .eSuccess := fun h' => hw (fun _ => h')
    simp [Renderer.nextFrame, hp, Renderer.waitForFrameIndexValue, hN, hres, bind,
      Except.bind] at h

theorem Renderer.WF_pool_sizes (r : Renderer) (hr : r.WF) :
    (∀ pool ∈ r.m_graphicsQueueFamily.m_poolsAndBuffers, pool.buffers.length = 10) ∧
    (∀ pool ∈ r.m_transferQueueFamily.m_poolsAndBuffers, pool.buffers.length = 10) := by
  obtain ⟨-, -, -, -, hg, ht, -⟩ := hr
  constructor
  · intro pool hpool
    rw [hg.1] at hpool
    simp only [VulkanQueueFamily.allocateCommandBuffers, VulkanQueueFamily.new,
      List.mem_map] at hpool
    obtain ⟨k, -, rfl⟩ := hpool
    simp
  · intro pool hpool
    rw [ht.1] at hpool
    simp only [VulkanQueueFamily.allocateCommandBuffers, VulkanQueueFamily.new,
      List.mem_map] at hpool
    obtain ⟨k, -, rfl⟩ := hpool
    simp

/-- C29.  For a renderer in a state the constructor produces or `nextFrame` maintains (2 or
4 devices, 10 command buffers in each pool) and any sequence of calls of `nextFrame`, with
any answers of the collaborator and any results of the host wait, the run never ends in the
fatal error of `nextCommandBuffer`.  In every call of the sequence: the pools hold 10 units
each; a skipped frame returns the state unchanged and records nothing; a rendered frame that
returns resets each pool once and then begins `d + 1` command buffers of the graphics
family, the units 0 to `d` of the pool, and one of the transfer family, the unit 0, leaving
the cursors at `d + 1` and 1, with `d + 1` at most 10. -/
theorem command_buffers_never_run_out (envs : List FrameEnv) (r : Renderer) (hr : r.WF) :
    r.run envs ≠ .error .noMoreCommandBuffers ∧
    ∀ (pre post : List FrameEnv) (env : FrameEnv) (r1 : Renderer) (tr1 : List Event),
      envs = pre ++ env :: post → r.run pre = .ok (r1, tr1) →
      r1.nextFrame env ≠ .error .noMoreCommandBuffers ∧
      (∀ pool ∈ r1.m_graphicsQueueFamily.m_poolsAndBuffers, pool.buffers.length = 10) ∧
      (∀ pool ∈ r1.m_transferQueueFamily.m_poolsAndBuffers, pool.buffers.length = 10) ∧
      (env.beginFrame.predictedDisplayTimeNanos = none →
        r1.nextFrame env = .ok (r1, [Event.beginFrame, Event.endFrame .m_presentQueue])) ∧
      (∀ (p : Nat) (r2 : Renderer) (tr : List Event),
        env.beginFrame.predictedDisplayTimeNanos = some p →
        r1.nextFrame env = .ok (r2, tr) →
        (tr.filter Event.isReset).length = 2 ∧
        (begunOn r1.m_graphicsQueueFamily.getIndex tr).map (fun cb => cb.bufferIndex) =
          List.range (r1.getPhysicalDeviceCount + 1) ∧
        (begunOn r1.m_transferQueueFamily.getIndex tr).map (fun cb => cb.bufferIndex) = [0] ∧
        r2.m_graphicsQueueFamily.m_nextCommandBufferIndex = r1.getPhysicalDeviceCount + 1 ∧
        r2.m_transferQueueFamily.m_nextCommandBufferIndex = 1 ∧
        r1.getPhysicalDeviceCount + 1 ≤ 10) := by
  constructor
  · rcases Renderer.run_ok_or_waitFailed envs r hr with ⟨r', tr, h, -⟩ | h <;> rw [h] <;> simp
  · intro pre post env r1 tr1 _ hpre
    have hr1 := Renderer.run_WF pre r r1 tr1 hr hpre
    have hd := hr1.1
    have hgt := hr1.2.2.2.2.2.2.1
    refine ⟨?_, (Renderer.WF_pool_sizes r1 hr1).1, (Renderer.WF_pool_sizes r1 hr1).2, ?_, ?_⟩
    · rcases Renderer.nextFrame_ok_or_waitFailed env r1 hr1 with ⟨r', tr, h, -⟩ | h <;>
        rw [h] <;> simp
    · intro hp
      simp only [Renderer.nextFrame, hp]
    · intro p r2 tr hp h
      obtain ⟨h2, htr⟩ := Renderer.nextFrame_rendered_eq env r1 r2 tr hr1 p hp h
      subst h2
      subst htr
      refine ⟨?_, ?_, ?_, ?_, ?_, by omega⟩
      · rw [Renderer.filter_isReset_nextFrameEvents]
        rfl
      · rw [Renderer.begunOn_nextFrameEvents]
        have hne : ¬ r1.m_transferQueueFamily.m_queueFamilyIndex =
            r1.m_graphicsQueueFamily.getIndex := fun h' => hgt h'.symm
        have hg : r1.m_graphicsQueueFamily.m_queueFamilyIndex =
            r1.m_graphicsQueueFamily.getIndex := rfl
        simp only [if_pos hg, if_neg hne, List.append_nil, List.map_append, List.map_map,
          List.map_cons, List.map_nil, List.range_succ]
        congr 1
        · have hid : (fun cb : CommandBuffer => cb.bufferIndex) ∘
              (r1.frameStart p).graphicsCmdBuffer = id :=
            funext (fun k => by simp [Renderer.graphicsCmdBuffer, Renderer.frameStart])
          rw [hid, List.map_id]
        · simp [Renderer.graphicsCmdBuffer, Renderer.frameStart, Renderer.afterDevices]
      · rw [Renderer.begunOn_nextFrameEvents]
        have hne : ¬ r1.m_graphicsQueueFamily.m_queueFamilyIndex =
            r1.m_transferQueueFamily.getIndex := fun h' => hgt h'
        have ht : r1.m_transferQueueFamily.m_queueFamilyIndex =
            r1.m_transferQueueFamily.getIndex := rfl
        simp only [if_pos ht, if_neg hne, List.append_nil, List.nil_append, List.map_cons,
          List.map_nil]
        simp [Renderer.transferCmdBuffer, Renderer.frameStart, Renderer.afterDevices]
      · simp [Renderer.afterFrame, Renderer.afterBuildFinalFrame, Renderer.afterDevices,
          Renderer.frameStart]
      · simp [Renderer.afterFrame, Renderer.afterBuildFinalFrame, Renderer.afterDevices,
          Renderer.frameStart]

/-- C29, for 4 devices: a rendered call, a skipped call and two more rendered calls return;
the third call, made in the state the first two leave, begins the units 0 to 4 of the
graphics pool. -/
theorem command_buffers_never_run_out_witness :
    (Renderer.sampleAt 4 0).run [FrameEnv.sample (some 0), FrameEnv.sample none,
      FrameEnv.sample (some 1), FrameEnv.sample (some 2)] ≠ .error .noMoreCommandBuffers ∧
    ∃ r1 tr1 r2 tr,
      (Renderer.sampleAt 4 0).run [FrameEnv.sample (some 0), FrameEnv.sample none] =
        .ok (r1, tr1) ∧
      r1.nextFrame (FrameEnv.sample (some 1)) = .ok (r2, tr) ∧
      (begunOn r1.m_graphicsQueueFamily.getIndex tr).map (fun cb => cb.bufferIndex) =
        List.range (r1.getPhysicalDeviceCount + 1) := by
  have hmain := command_buffers_never_run_out [FrameEnv.sample (some 0), FrameEnv.sample none,
    FrameEnv.sample (some 1), FrameEnv.sample (some 2)] (Renderer.sampleAt 4 0) (by decide)
  refine ⟨hmain.1, ?_⟩
  rcases Renderer.run_ok_or_waitFailed [FrameEnv.sample (some 0), FrameEnv.sample none]
    (Renderer.sampleAt 4 0) (by decide) with ⟨r1, tr1, h1, hr1⟩ | h1
  · have hwait : MAX_QUEUED_FRAMES ≤ r1.m_frameIndex →
        (FrameEnv.sample (some 1)).waitResult = .eSuccess := fun _ => rfl
    have h2 := Renderer.nextFrame_closed (FrameEnv.sample (some 1)) r1 hr1 1 rfl hwait
    exact ⟨r1, tr1, _, _, h1, h2,
      (((hmain.2 [FrameEnv.sample (some 0), FrameEnv.sample none] [FrameEnv.sample (some 2)]
        (FrameEnv.sample (some 1)) r1 tr1 rfl h1).2.2.2.2) 1 _ _ rfl h2).2.1⟩
  · exfalso
    have hr0 : (Renderer.sampleAt 4 0).WF := by decide
    have e1 := Renderer.nextFrame_closed (FrameEnv.sample (some 0)) (Renderer.sampleAt 4 0) hr0
      0 rfl (fun _ => rfl)
    simp only [Renderer.run, e1] at h1
    simp [Renderer.nextFrame, FrameEnv.sample] at h1

/-! ## The values signalled and waited for over a run -/

theorem signalValues_eq_submissions (sem : Semaphore) (tr : List Event) :
    signalValues sem tr = (submissions tr).flatMap (SubmitInfo2.signalValues sem) := by
  induction tr with
  | nil => rfl
  | cons e tr ih =>
    have hcons : signalValues sem (e :: tr) = Event.signalValues sem e ++ signalValues sem tr := by
      simp [signalValues]
    have hsub : submissions (e :: tr) = Event.submissions e ++ submissions tr := by
      simp [submissions]
    rw [hcons, hsub, List.flatMap_append, ih]
    cases e <;> simp [Event.signalValues, Event.submissions]

theorem Renderer.signalValues_transferDone_nextFrameEvents (env : FrameEnv) (r : Renderer)
    (hr : r.WF) (henv : env.WF) (p : Nat) :
    signalValues .transferDone (r.nextFrameEvents env p) = [add64 r.m_frameIndex 1] := by
  have hown : r.m_swapchainImageReadySemaphore ≠ .transferDone := by
    rcases hr.2.2.2.2.2.2.2 with h | h <;> simp [h]
  have hready : env.getFrameReadySemaphore ≠ .transferDone := by
    have := henv.2.1
    intro h
    simp [h, Semaphore.isCollaborator] at this
  have hsub := Renderer.signalValues_deviceSubmits (r.frameStart p) .transferDone
    (fun j => by simp) r.getPhysicalDeviceCount
  have hfi : ((r.frameStart p).afterDevices r.getPhysicalDeviceCount).m_frameIndex =
      r.m_frameIndex := rfl
  rw [signalValues_eq_submissions, Renderer.submissions_nextFrameEvents]
  simp only [List.flatMap_append, hsub, List.nil_append]
  by_cases hs : env.getSwapchainImageReadySemaphore = .null <;>
  by_cases hfr : env.getFrameReadySemaphore = .null <;>
    simp [hs, hfr, SubmitInfo2.signalValues, Renderer.transferSubmit, Renderer.finalSubmit,
      Renderer.finalSignals, Renderer.transferDoneSignalAndWait, hown, hready, hfi]

theorem Renderer.waitValues_pacer_nextFrameEvents (env : FrameEnv) (r : Renderer)
    (hr : r.WF) (henv : env.WF) (p : Nat) :
    waitValues .frameIndexSem (r.nextFrameEvents env p) =
      if MAX_QUEUED_FRAMES ≤ r.m_frameIndex then
        List.replicate r.getPhysicalDeviceCount r.waitValue
      else [] := by
  have hown : r.m_swapchainImageReadySemaphore ≠ .frameIndexSem := by
    rcases hr.2.2.2.2.2.2.2 with h | h <;> simp [h]
  have hready : env.getSwapchainImageReadySemaphore ≠ .frameIndexSem := by
    have := henv.1
    intro h
    simp [h, Semaphore.isCollaborator] at this
  have hrs : ((r.frameStart p).afterDevices r.getPhysicalDeviceCount).readySemaphore env ≠
      .frameIndexSem := by
    show (if r.m_swapchainImageReadySemaphore ≠ .null then r.m_swapchainImageReadySemaphore
      else env.getSwapchainImageReadySemaphore) ≠ _
    split
    · exact hown
    · exact hready
  have hfi : (r.frameStart p).m_frameIndex = r.m_frameIndex := rfl
  have hwv : (r.frameStart p).waitValue = r.waitValue := rfl
  have hdev : ((List.range r.getPhysicalDeviceCount).map (r.frameStart p).deviceSubmit).flatMap
      (SubmitInfo2.waitValues .frameIndexSem) =
      if MAX_QUEUED_FRAMES ≤ r.m_frameIndex then
        List.replicate r.getPhysicalDeviceCount r.waitValue else [] := by
    generalize r.getPhysicalDeviceCount = n
    by_cases hN : MAX_QUEUED_FRAMES ≤ r.m_frameIndex
    · rw [if_pos hN]
      induction n with
      | zero => rfl
      | succ n ih =>
        simp only [List.range_succ, List.map_append, List.flatMap_append, ih]
        simp [Renderer.deviceSubmit, Renderer.deviceWait, SubmitInfo2.waitValues, hfi, hN, hwv,
          List.replicate_succ']
    · rw [if_neg hN]
      rw [List.flatMap_eq_nil_iff]
      intro x hx
      obtain ⟨j, -, rfl⟩ := List.mem_map.1 hx
      simp [Renderer.deviceSubmit, SubmitInfo2.waitValues, hfi, hN]
  have htransfer : SubmitInfo2.waitValues .frameIndexSem
      (((r.frameStart p).afterDevices r.getPhysicalDeviceCount).transferSubmit env
        env.acquireSwapchainImages) = [] := by
    have hsem := Renderer.transferSubmit_waits env env.acquireSwapchainImages
      ((r.frameStart p).afterDevices r.getPhysicalDeviceCount)
    simp only [SubmitInfo2.waitValues, List.map_eq_nil_iff, List.filter_eq_nil_iff]
    intro i hi
    have hmem : i.semaphore ∈ (((r.frameStart p).afterDevices
        r.getPhysicalDeviceCount).transferSubmit env
        env.acquireSwapchainImages).waitSemaphoreInfos.map (fun i => i.semaphore) :=
      List.mem_map.2 ⟨i, hi, rfl⟩
    rw [hsem] at hmem
    simp only [List.mem_append, List.mem_map, List.mem_singleton] at hmem
    rcases hmem with ⟨k, -, hk⟩ | hk
    · simp [← hk]
    · simp only [decide_eq_true_eq]
      rw [hk]
      exact hrs
  simp only [waitValues, Renderer.submissions_nextFrameEvents, List.flatMap_append, hdev,
    List.flatMap_cons, List.flatMap_nil, htransfer]
  by_cases hs : env.getSwapchainImageReadySemaphore = .null <;>
    simp [hs, SubmitInfo2.waitValues, Renderer.finalSubmit, Renderer.transferDoneSignalAndWait]

theorem hostWaitValues_filter (sem : Semaphore) (tr : List Event) :
    hostWaitValues sem (tr.filter Event.isWait) = hostWaitValues sem tr := by
  induction tr with
  | nil => rfl
  | cons e tr ih =>
    have hcons : hostWaitValues sem (e :: tr) =
        Event.hostWaitValues sem e ++ hostWaitValues sem tr := by
      simp [hostWaitValues]
    rw [hcons, ← ih]
    cases e <;> simp [Event.isWait, Event.hostWaitValues, hostWaitValues]

theorem Renderer.hostWaitValues_pacer_nextFrameEvents (env : FrameEnv) (r : Renderer)
    (p : Nat) :
    hostWaitValues .frameIndexSem (r.nextFrameEvents env p) =
      if MAX_QUEUED_FRAMES ≤ r.m_frameIndex then [r.waitValue] else [] := by
  rw [← hostWaitValues_filter, Renderer.filter_isWait_nextFrameEvents]
  by_cases hN : MAX_QUEUED_FRAMES ≤ r.m_frameIndex <;>
    simp [Renderer.waitEvents, hN, hostWaitValues, Event.hostWaitValues]
theorem renderedCalls_append (a b : List FrameEnv) :
    renderedCalls (a ++ b) = renderedCalls a + renderedCalls b := by
  simp [renderedCalls]

theorem range_shift (f n : Nat) :
    (f + 1) :: (List.range n).map (fun k => f + 1 + k + 1) =
      (List.range (n + 1)).map (fun k => f + k + 1) := by
  rw [List.range_succ_eq_map]
  simp only [List.map_cons, List.map_map, Nat.add_zero, List.cons.injEq, true_and]
  apply List.map_congr_left
  intro k _
  simp only [Function.comp, Nat.succ_eq_add_one]
  omega

/-- Over a run of calls from frame `f`, with successful waits and without wrap-around, the
pacer semaphore and the transfer-done semaphore are signalled at `f + 1`, `f + 2`, ...,
once per rendered call. -/
theorem Renderer.run_signalled (envs : List FrameEnv) (r : Renderer) (hr : r.WF)
    (henv : ∀ env ∈ envs, env.WF ∧ env.waitResult = .eSuccess)
    (hf : r.m_frameIndex + renderedCalls envs < 2 ^ 64) :
    ∃ r' tr, r.run envs = .ok (r', tr) ∧ r'.WF ∧
      r'.m_frameIndex = r.m_frameIndex + renderedCalls envs ∧
      signalValues .frameIndexSem tr =
        (List.range (renderedCalls envs)).map (fun k => r.m_frameIndex + k + 1) ∧
      signalValues .transferDone tr =
        (List.range (renderedCalls envs)).map (fun k => r.m_frameIndex + k + 1) := by
  induction envs generalizing r with
  | nil => exact ⟨r, [], rfl, hr, rfl, rfl, rfl⟩
  | cons env envs ih =>
    have he := henv env (List.mem_cons_self _ _)
    have hrest : ∀ e ∈ envs, e.WF ∧ e.waitResult = .eSuccess :=
      fun e h => henv e (List.mem_cons_of_mem _ h)
    cases hp : env.beginFrame.predictedDisplayTimeNanos with
    | none =>
      rw [renderedCalls_cons_none env envs hp] at hf ⊢
      obtain ⟨r', tr, h1, h2, h3, h4, h5⟩ := ih r hr hrest hf
      have hn : r.nextFrame env = .ok (r, [Event.beginFrame, Event.endFrame .m_presentQueue]) := by
        simp only [Renderer.nextFrame, hp]
      refine ⟨r', [Event.beginFrame, Event.endFrame .m_presentQueue] ++ tr,
        by simp only [Renderer.run, hn, h1], h2, h3, ?_, ?_⟩
      · rw [signalValues_append, h4]
        simp [signalValues, Event.signalValues]
      · rw [signalValues_append, h5]
        simp [signalValues, Event.signalValues]
    | some p =>
      rw [renderedCalls_cons_some env envs p hp] at hf ⊢
      have hn := Renderer.nextFrame_closed env r hr p hp (fun _ => he.2)
      have hadd : add64 r.m_frameIndex 1 = r.m_frameIndex + 1 := add64_one _ (by omega)
      have hfi : (r.afterFrame p).m_frameIndex = r.m_frameIndex + 1 := hadd
      obtain ⟨r', tr, h1, h2, h3, h4, h5⟩ := ih (r.afterFrame p)
        (Renderer.afterFrame_WF r hr p) hrest (by rw [hfi]; omega)
      refine ⟨r', r.nextFrameEvents env p ++ tr, by simp only [Renderer.run, hn, h1], h2,
        by rw [h3, hfi]; omega, ?_, ?_⟩
      · rw [signalValues_append, h4, Renderer.signalValues_pacer_nextFrameEvents env r hr he.1,
          hadd, hfi]
        exact range_shift _ _
      · rw [signalValues_append, h5,
          Renderer.signalValues_transferDone_nextFrameEvents env r hr he.1, hadd, hfi]
        exact range_shift _ _

/-- C30.  From a state with frame index 0, over any sequence of calls of `nextFrame` with
successful waits (collaborator answers naming the collaborator's own objects, fewer than
`2 ^ 64` rendered calls), the run returns and the values signalled on the pacer semaphore
and on the transfer-done semaphore are 1, 2, ..., one per rendered call, in this order.  In
every call of the sequence, made at frame `f`, every value waited for on the pacer semaphore,
by the host wait or by a submission, is at least 1 and at most `f` and is among the values
the earlier calls have signalled on the pacer semaphore. -/
theorem pacer_values_signalled_before_waited (envs : List FrameEnv) (r : Renderer)
    (hr : r.WF) (h0 : r.m_frameIndex = 0)
    (henv : ∀ env ∈ envs, env.WF ∧ env.waitResult = .eSuccess)
    (hf : renderedCalls envs < 2 ^ 64) :
    ∃ r' tr, r.run envs = .ok (r', tr) ∧
      signalValues .frameIndexSem tr =
        (List.range (renderedCalls envs)).map (fun k => k + 1) ∧
      signalValues .transferDone tr =
        (List.range (renderedCalls envs)).map (fun k => k + 1) ∧
      ∀ (pre post : List FrameEnv) (env : FrameEnv) (r1 r2 : Renderer) (tr1 tr2 : List Event),
        envs = pre ++ env :: post → r.run pre = .ok (r1, tr1) →
        r1.nextFrame env = .ok (r2, tr2) →
        r1.m_frameIndex = renderedCalls pre ∧
        ∀ v, v ∈ hostWaitValues .frameIndexSem tr2 ∨ v ∈ waitValues .frameIndexSem tr2 →
          1 ≤ v ∧ v ≤ r1.m_frameIndex ∧ v ∈ signalValues .frameIndexSem tr1 := by
  obtain ⟨r', tr, h1, -, -, h4, h5⟩ := Renderer.run_signalled envs r hr henv (by omega)
  simp only [h0, Nat.zero_add] at h4 h5
  refine ⟨r', tr, h1, h4, h5, ?_⟩
  intro pre post env r1 r2 tr1 tr2 hsplit hpre hnext
  have hpre_env : ∀ e ∈ pre, e.WF ∧ e.waitResult = .eSuccess := fun e he =>
    henv e (by rw [hsplit]; exact List.mem_append_left _ he)
  have hle : renderedCalls pre ≤ renderedCalls envs := by
    rw [hsplit, renderedCalls_append]; omega
  obtain ⟨ra, tra, g1, g2, g3, g4, -⟩ := Renderer.run_signalled pre r hr hpre_env (by omega)
  rw [g1] at hpre
  injection hpre with hpre
  injection hpre with e1 e2
  subst e1
  subst e2
  simp only [h0, Nat.zero_add] at g3 g4
  refine ⟨g3, ?_⟩
  have he : env.WF ∧ env.waitResult = .eSuccess :=
    henv env (by rw [hsplit]; exact List.mem_append_right _ (List.mem_cons_self _ _))
  cases hp : env.beginFrame.predictedDisplayTimeNanos with
  | none =>
    simp only [Renderer.nextFrame, hp] at hnext
    injection hnext with hnext
    injection hnext with _ e2
    subst e2
    intro v hv
    simp [hostWaitValues, Event.hostWaitValues, waitValues, submissions,
      Event.submissions] at hv
  | some p =>
    obtain ⟨-, e2⟩ := Renderer.nextFrame_rendered_eq env ra r2 tr2 g2 p hp hnext
    subst e2
    intro v hv
    rw [Renderer.hostWaitValues_pacer_nextFrameEvents,
      Renderer.waitValues_pacer_nextFrameEvents env ra g2 he.1 p] at hv
    by_cases hN : MAX_QUEUED_FRAMES ≤ ra.m_frameIndex
    · have hv' : v = ra.waitValue := by
        rcases hv with hv | hv
        · simpa [hN] using hv
        · rw [if_pos hN] at hv
          exact List.eq_of_mem_replicate hv
      rw [Renderer.waitValue_eq ra g2.2.1 hN] at hv'
      simp only [MAX_QUEUED_FRAMES] at hN hv'
      refine ⟨by omega, by omega, ?_⟩
      rw [g4]
      exact List.mem_map.2 ⟨v - 1, List.mem_range.2 (by omega), by omega⟩
    · simp [hN] at hv

/-- C30, for 2 devices and five calls, the second of them skipped: the pacer semaphore is
signalled at 1, 2, 3 and 4. -/
theorem pacer_values_signalled_before_waited_witness :
    ∃ r' tr,
      (Renderer.sampleAt 2 0).run [FrameEnv.sample (some 0), FrameEnv.sample none,
        FrameEnv.sample (some 1), FrameEnv.sample (some 2), FrameEnv.sample (some 3)] =
          .ok (r', tr) ∧
      signalValues .frameIndexSem tr = [1, 2, 3, 4] ∧
      signalValues .transferDone tr = [1, 2, 3, 4] := by
  obtain ⟨r', tr, h, hs, ht, -⟩ := pacer_values_signalled_before_waited
    [FrameEnv.sample (some 0), FrameEnv.sample none, FrameEnv.sample (some 1),
      FrameEnv.sample (some 2), FrameEnv.sample (some 3)] (Renderer.sampleAt 2 0) (by decide)
    rfl (by decide) (by decide)
  exact ⟨r', tr, h, hs, ht⟩

end xrmg
